import Mathlib

/-!
# Zone lifecycle and update core of knot-dns (src/knot/server/zones.c)

A shallow embedding of the functions of `zones.c` that the zone update
pipeline, the journal key packing, the changeset (de)serialization, the
REFRESH event and the TSIG / ACL gate consist of, followed by theorems about
them.

Conventions of the embedding:

* C integers are `Nat`; where the width matters the reduction modulo `2^w`
  is written out.
* A pointer that may be `NULL` is an `Option`.
* A function of the repository that is called by `zones.c` but defined in
  another file (journal, scheduler, transfer executor, RRset codec, TSIG
  library, ACL) is *external*.  An external function that only computes a
  value is a parameter.  An external function with an effect is recorded as a
  `Call` in a trace, together with the code it returned; the returned code is
  given by an `Oracle`, which may depend on the whole history of calls.
* `assert(e)` with `e` false aborts the program: functions containing such an
  assertion return `Option`, and `none` is the abort.
-/

namespace Knot

/-! ## Result codes -/

/-- Result codes of the `knot_error` family used by `zones.c`. -/
inductive knot_error where
  | KNOT_EOK
  | KNOT_ENOMEM
  | KNOT_EINVAL
  | KNOT_EBUSY
  | KNOT_EACCES
  | KNOT_ERANGE
  | KNOT_ERROR
  | KNOT_EMALF
  | KNOT_ECONN
  | KNOT_ENOZONE
  | KNOT_ENODIFF
  | KNOT_EUPTODATE
  | KNOT_TSIG_EBADKEY
  | KNOT_TSIG_EBADSIG
  | KNOT_TSIG_EBADTIME
  | KNOT_ENOENT
  | KNOT_EWRITABLE
  | KNOT_EZONEINVAL
  deriving DecidableEq, Repr

open knot_error

/-- DNS response code NOERROR (RFC 1035). -/
def KNOT_RCODE_NOERROR : Nat := 0
/-- DNS response code FORMERR (RFC 1035). -/
def KNOT_RCODE_FORMERR : Nat := 1
/-- DNS response code SERVFAIL (RFC 1035). -/
def KNOT_RCODE_SERVFAIL : Nat := 2
/-- DNS response code REFUSED (RFC 1035). -/
def KNOT_RCODE_REFUSED : Nat := 5
/-- DNS response code NOTAUTH (RFC 2136). -/
def KNOT_RCODE_NOTAUTH : Nat := 9
/-- TSIG error BADSIG (RFC 2845). -/
def KNOT_RCODE_BADSIG : Nat := 16
/-- TSIG error BADKEY (RFC 2845). -/
def KNOT_RCODE_BADKEY : Nat := 17
/-- TSIG error BADTIME (RFC 2845). -/
def KNOT_RCODE_BADTIME : Nat := 18

/-- RR type SOA (RFC 1035). -/
def KNOT_RRTYPE_SOA : Nat := 6
/-- DNS opcode UPDATE (RFC 2136). -/
def KNOT_OPCODE_UPDATE : Nat := 5
/-- DNS opcode QUERY (RFC 1035). -/
def KNOT_OPCODE_QUERY : Nat := 0

/-! ## Journal keys (zones.c 658-713) -/

/-- The serial_from part of a journal key: the least significant 32 bits. -/
def ixfrdb_key_from (k : Nat) : Nat :=
  (k &&& 0x00000000ffffffff) % 2 ^ 32

/-- The serial_to part of a journal key: the most significant 32 bits of the
64-bit key. -/
def ixfrdb_key_to (k : Nat) : Nat :=
  (k >>> 32) % 2 ^ 32

/-- Journal key of a pair of serials, `[TO | FROM]`, computed in `uint64_t`. -/
def ixfrdb_key_make (sfrom sto : Nat) : Nat :=
  ((sto <<< 32) % 2 ^ 64) ||| sfrom

/-! ## RRsets and changesets -/

/-- An RRset; of its fields this file inspects the type only. -/
structure knot_rrset_t where
  owner : List Nat
  type : Nat
  rclass : Nat
  ttl : Nat
  rdata : List (List Nat)
  deriving DecidableEq, Repr

/-- Type of an RRset. -/
def knot_rrset_type (rrset : knot_rrset_t) : Nat := rrset.type

/-- The RRset library functions used by `zones.c` (external: libknot).
`rrset_serialize` and `rrset_deserialize` return `none` for any result other
than `KNOT_EOK`; `rrset_serialize` yields the bytes it wrote,
`rrset_deserialize stream remaining` the parsed RRset and the new value of
`remaining`. -/
structure rrset_codec where
  rrset_binary_size : Option knot_rrset_t → Nat
  rrset_serialize : Option knot_rrset_t → Option (List Nat)
  rrset_deserialize : List Nat → Nat → Option (knot_rrset_t × Nat)
  knot_rdata_soa_serial : knot_rrset_t → Nat

/-- A changeset (libknot/updates/changesets.h): the fields used by `zones.c`. -/
structure knot_changeset_t where
  soa_from : Option knot_rrset_t
  remove : List knot_rrset_t
  soa_to : Option knot_rrset_t
  add : List knot_rrset_t
  data : List Nat
  size : Nat
  serial_from : Nat
  serial_to : Nat
  flags : Nat
  deriving DecidableEq, Repr

/-- A set of changesets; `sets` is the list walked by `WALK_LIST`. -/
structure knot_changesets_t where
  sets : List knot_changeset_t
  flags : Nat
  deriving DecidableEq, Repr

/-- The two parts of a changeset. -/
inductive knot_changeset_part_t where
  | KNOT_CHANGESET_ADD
  | KNOT_CHANGESET_REMOVE
  deriving DecidableEq, Repr

open knot_changeset_part_t

/-- Modelled from the spec: `knot_changeset_add_soa` (libknot, not in src/)
stores the SOA as the opening (REMOVE) or closing (ADD) SOA of the changeset
and sets the matching serial to the serial of that SOA, which keeps the
invariant `soa_from.serial == serial_from`, `soa_to.serial == serial_to`. -/
def knot_changeset_add_soa (C : rrset_codec) (chs : knot_changeset_t)
    (soa : knot_rrset_t) (part : knot_changeset_part_t) : knot_changeset_t :=
  match part with
  | KNOT_CHANGESET_ADD =>
    { chs with soa_to := some soa, serial_to := C.knot_rdata_soa_serial soa }
  | KNOT_CHANGESET_REMOVE =>
    { chs with soa_from := some soa, serial_from := C.knot_rdata_soa_serial soa }

/-- Modelled from the spec: `knot_changeset_add_rrset` (libknot, not in src/)
appends the RRset at the tail of the removed or of the added list.  Its only
failure is an allocation failure, which is not modelled. -/
def knot_changeset_add_rrset (chs : knot_changeset_t) (rrset : knot_rrset_t)
    (part : knot_changeset_part_t) : knot_error × knot_changeset_t :=
  match part with
  | KNOT_CHANGESET_ADD => (KNOT_EOK, { chs with add := chs.add ++ [rrset] })
  | KNOT_CHANGESET_REMOVE => (KNOT_EOK, { chs with remove := chs.remove ++ [rrset] })

/-- The four bytes that `memcpy` copies out of a `uint32_t` (host order,
little-endian). -/
def u32_to_bytes (x : Nat) : List Nat :=
  [x % 256, x / 256 % 256, x / 65536 % 256, x / 16777216 % 256]

/-- The `uint32_t` that `memcpy` assembles from the first four bytes of a
buffer. -/
def u32_of_bytes (bs : List Nat) : Nat :=
  bs.getD 0 0 % 256 + 256 * (bs.getD 1 0 % 256) + 65536 * (bs.getD 2 0 % 256)
    + 16777216 * (bs.getD 3 0 % 256)

/-- Subtraction of `size_t` values (wraps modulo `2^64`). -/
def size_sub (a b : Nat) : Nat := (a + 2 ^ 64 - b % 2 ^ 64) % 2 ^ 64

/-! ## Changeset parsing (zones.c 717-813) -/

/-- The `while (remaining > 0)` loop of `zones_changesets_from_binary` for one
changeset.  `fuel` bounds the number of iterations; `none` is "no result":
the fuel is exhausted, or `remaining` exceeds `size`, so that the stream
pointer `data + (size - remaining)` is outside the buffer. -/
def zones_changesets_from_binary_loop (C : rrset_codec) :
    Nat → Nat → Bool → knot_changeset_t → Option (knot_error × knot_changeset_t)
  | 0, remaining, _, chs =>
    if remaining > 0 then none else some (KNOT_EOK, chs)
  | fuel + 1, remaining, in_remove_section, chs =>
    if remaining > 0 then
      if chs.size < remaining then none else
      match C.rrset_deserialize (chs.data.drop (chs.size - remaining)) remaining with
      | none => some (KNOT_EMALF, chs)
      | some (rrset, remaining) =>
        if knot_rrset_type rrset = KNOT_RRTYPE_SOA then
          if in_remove_section then
            zones_changesets_from_binary_loop C fuel remaining false
              (knot_changeset_add_soa C chs rrset KNOT_CHANGESET_ADD)
          else
            some (KNOT_EOK, chs)
        else
          let r := if in_remove_section then
              knot_changeset_add_rrset chs rrset KNOT_CHANGESET_REMOVE
            else
              knot_changeset_add_rrset chs rrset KNOT_CHANGESET_ADD
          if r.1 ≠ KNOT_EOK then some (KNOT_ERROR, r.2)
          else zones_changesets_from_binary_loop C fuel remaining in_remove_section r.2
    else some (KNOT_EOK, chs)

/-- Body of the `WALK_LIST` of `zones_changesets_from_binary` for one
changeset.  `none`: an assertion fails, the buffer is shorter than the read
(`size < 4` or fewer than `size` bytes of data), or the fuel runs out. -/
def zones_changesets_from_binary_one (C : rrset_codec) (fuel : Nat)
    (chs : knot_changeset_t) : Option (knot_error × knot_changeset_t) :=
  if chs.size < 4 ∨ chs.data.length < chs.size then none
  else
    let chs := { chs with flags := u32_of_bytes chs.data }
    let remaining := size_sub chs.size 4
    match C.rrset_deserialize (chs.data.drop (chs.size - remaining)) remaining with
    | none => some (KNOT_EMALF, chs)
    | some (rrset, remaining) =>
      if knot_rrset_type rrset ≠ KNOT_RRTYPE_SOA then none
      else if chs.serial_from ≠ C.knot_rdata_soa_serial rrset then none
      else
        zones_changesets_from_binary_loop C fuel remaining true
          (knot_changeset_add_soa C chs rrset KNOT_CHANGESET_REMOVE)

/-- The walk of `zones_changesets_from_binary` over `chgsets->sets`: it stops
at the first changeset that does not parse. -/
def zones_changesets_from_binary_walk (C : rrset_codec) (fuel : Nat) :
    List knot_changeset_t → Option (knot_error × List knot_changeset_t)
  | [] => some (KNOT_EOK, [])
  | chs :: rest =>
    match zones_changesets_from_binary_one C fuel chs with
    | none => none
    | some (ret, chs1) =>
      if ret ≠ KNOT_EOK then some (ret, chs1 :: rest)
      else
        match zones_changesets_from_binary_walk C fuel rest with
        | none => none
        | some (ret, rest1) => some (ret, chs1 :: rest1)

/-- Parse the binary form stored in each changeset of the set. -/
def zones_changesets_from_binary (C : rrset_codec) (fuel : Nat)
    (chgsets : knot_changesets_t) : Option (knot_error × knot_changesets_t) :=
  match zones_changesets_from_binary_walk C fuel chgsets.sets with
  | none => none
  | some (ret, sets) => some (ret, { chgsets with sets := sets })

/-! ## Changeset size and serialization (zones.c 3061-3155) -/

/-- The value that `zones_changeset_binary_size` stores in `*size`: the sizes
of the two SOAs and of the RRsets of both lists, plus the four bytes of the
flags.  These are sizes of objects held in memory; their `size_t` sum is taken
not to wrap. -/
def changeset_binary_size_sum (C : rrset_codec) (chgset : knot_changeset_t) : Nat :=
  let soa_from_size := C.rrset_binary_size chgset.soa_from
  let soa_to_size := C.rrset_binary_size chgset.soa_to
  let remove_size := (chgset.remove.map (fun rrset => C.rrset_binary_size (some rrset))).sum
  let add_size := (chgset.add.map (fun rrset => C.rrset_binary_size (some rrset))).sum
  soa_from_size + soa_to_size + remove_size + add_size + 4

/-- Size of the changeset in serialized form.  `chgset` and `size` are
pointers; the result carries the value behind `size` as the call leaves it. -/
def zones_changeset_binary_size (C : rrset_codec) (chgset : Option knot_changeset_t)
    (size : Option Nat) : knot_error × Option Nat :=
  match chgset, size with
  | some chgset, some _ => (KNOT_EOK, some (changeset_binary_size_sum C chgset))
  | _, _ => (KNOT_EINVAL, size)

/-- Serialize one RRset at `*entry`.  The model keeps the bytes written to the
entry so far in `entry`.  `none`: `assert(written <= *remaining)` fails. -/
def zones_rrset_write_to_mem (C : rrset_codec) (rr : Option knot_rrset_t)
    (entry : List Nat) (remaining : Nat) : Option (knot_error × List Nat × Nat) :=
  match C.rrset_serialize rr with
  | none => some (KNOT_ERROR, entry, remaining)
  | some written =>
    if written.length ≤ remaining then
      some (KNOT_EOK, entry ++ written, remaining - written.length)
    else none

/-- The `WALK_LIST` loops of `zones_serialize_and_store_chgset`. -/
def zones_serialize_rr_list (C : rrset_codec) :
    List knot_rrset_t → List Nat → Nat → Option (knot_error × List Nat × Nat)
  | [], entry, max_size => some (KNOT_EOK, entry, max_size)
  | rrset :: rest, entry, max_size =>
    match zones_rrset_write_to_mem C (some rrset) entry max_size with
    | none => none
    | some (ret, entry, max_size) =>
      if ret ≠ KNOT_EOK then some (KNOT_ERROR, entry, max_size)
      else zones_serialize_rr_list C rest entry max_size

/-- Serialize a changeset into a journal entry of `max_size` bytes; the result
carries the bytes written into the entry. -/
def zones_serialize_and_store_chgset (C : rrset_codec) (chs : knot_changeset_t)
    (max_size : Nat) : Option (knot_error × List Nat) :=
  let entry := u32_to_bytes chs.flags
  let max_size := size_sub max_size 4
  match zones_rrset_write_to_mem C chs.soa_from entry max_size with
  | none => none
  | some (ret, entry, max_size) =>
    if ret ≠ KNOT_EOK then some (KNOT_ERROR, entry)
    else
      match zones_serialize_rr_list C chs.remove entry max_size with
      | none => none
      | some (ret, entry, max_size) =>
        if ret ≠ KNOT_EOK then some (KNOT_ERROR, entry)
        else
          match zones_rrset_write_to_mem C chs.soa_to entry max_size with
          | none => none
          | some (ret, entry, max_size) =>
            if ret ≠ KNOT_EOK then some (KNOT_ERROR, entry)
            else
              match zones_serialize_rr_list C chs.add entry max_size with
              | none => none
              | some (ret, entry, _) =>
                if ret ≠ KNOT_EOK then some (KNOT_ERROR, entry)
                else some (KNOT_EOK, entry)

/-! ## Zones, zone data and transfer tasks -/

/-- A socket address. -/
structure sockaddr_t where
  family : Nat
  addr : List Nat
  port : Nat
  deriving DecidableEq, Repr

/-- A TSIG key; `name` is a pointer. -/
structure knot_tsig_key_t where
  name : Option (List Nat)
  algorithm : Nat
  secret : List Nat
  deriving DecidableEq, Repr

/-- A configured remote; `key` is its TSIG key, if any, and `via` the source
address to use (`none`: not a valid address). -/
structure conf_iface_t where
  address : sockaddr_t
  masklen : Nat
  key : Option knot_tsig_key_t
  via : Option sockaddr_t := none
  deriving DecidableEq, Repr

/-- An ACL entry; `val` points to the configured remote. -/
structure acl_match_t where
  addr : sockaddr_t
  val : Option conf_iface_t
  deriving DecidableEq, Repr

/-- An ACL: the list of its entries. -/
structure acl_t where
  rules : List acl_match_t
  deriving DecidableEq, Repr

/-- The callbacks that `zones.c` registers with the event scheduler. -/
inductive event_cb_t where
  | zones_expire_ev
  | zones_refresh_ev
  | zones_zonefile_sync_ev
  | zones_dnssec_regular_ev
  | zones_dnssec_forced_ev
  deriving DecidableEq, Repr

/-- A scheduler event (timer handle). -/
structure event_t where
  cb : event_cb_t
  deriving DecidableEq, Repr

/-- State of the inbound transfer of a zone. -/
inductive xfr_state_t where
  | XFR_IDLE
  | XFR_SCHED
  | XFR_PENDING
  deriving DecidableEq, Repr

open xfr_state_t

/-- Type of a transfer task. -/
inductive knot_ns_xfr_type_t where
  | XFR_TYPE_AIN
  | XFR_TYPE_IIN
  | XFR_TYPE_AOUT
  | XFR_TYPE_IOUT
  | XFR_TYPE_SOA
  | XFR_TYPE_NOTIFY
  | XFR_TYPE_UPDATE
  | XFR_TYPE_FORWARD
  | XFR_TYPE_DNSSEC
  deriving DecidableEq, Repr

open knot_ns_xfr_type_t

/-- Transport flag of a transfer task. -/
inductive xfr_flag_t where
  | XFR_FLAG_TCP
  | XFR_FLAG_UDP
  deriving DecidableEq, Repr

open xfr_flag_t

/-- A parsed packet: opcode, message id, TSIG record (if any) and wire form,
and the RCODE and the name and type of the question. -/
structure knot_packet_t where
  opcode : Nat
  id : Nat
  tsig_rr : Option knot_rrset_t
  wireformat : List Nat
  size : Nat
  rcode : Nat := 0
  qname : List Nat := []
  qtype : Nat := 0
  deriving DecidableEq, Repr

/-- A transfer task: the fields set by `zones.c`.  The last four are those of
a forwarded UPDATE: the socket and address of the client, the message id of
its query and the copy of the query. -/
structure knot_ns_xfr_t where
  type : knot_ns_xfr_type_t
  flags : xfr_flag_t
  addr : Option sockaddr_t
  saddr : Option sockaddr_t
  tsig_key : Option knot_tsig_key_t
  fwd_src_fd : Int := 0
  fwd_addr : Option sockaddr_t := none
  packet_nr : Int := 0
  query : Option knot_packet_t := none
  deriving DecidableEq, Repr

/-- A node of the journal: the key (`id`), the flags and the payload that
`journal_read_node` copies out (`len` is the length of the payload). -/
structure journal_node_t where
  id : Nat
  flags : Nat
  payload : List Nat
  deriving DecidableEq, Repr

/-- Handle of an open journal, with its node table. -/
structure journal_t where
  path : List Nat
  nodes : List journal_node_t := []
  deriving DecidableEq, Repr

/-- Contents of a zone (a snapshot): the apex SOA and the other RRsets. -/
structure knot_zone_contents_t where
  apex_soa : knot_rrset_t
  rrsets : List knot_rrset_t
  deriving DecidableEq, Repr

/-- The lists of remotes configured for a zone (`conf_zone_t.acl`). -/
structure conf_acl_t where
  xfr_in : List conf_iface_t := []
  xfr_out : List conf_iface_t := []
  notify_in : List conf_iface_t := []
  notify_out : List conf_iface_t := []
  update_in : List conf_iface_t := []
  deriving DecidableEq, Repr

/-- Zone configuration: the fields read by the functions embedded here;
`file` and `ixfr_db` are the paths of the zone file and of the journal. -/
structure conf_zone_t where
  name : List Nat
  dbsync_timeout : Nat
  dnssec_enable : Bool
  file : List Nat := []
  enable_checks : Bool := false
  build_diffs : Bool := false
  disable_any : Bool := false
  acl : conf_acl_t := {}
  ixfr_db : List Nat := []
  ixfr_fslimit : Nat := 0
  deriving DecidableEq, Repr

/-- The `xfr_in` member of the zone data. -/
structure xfr_in_t where
  acl : Option acl_t
  master : sockaddr_t
  via : sockaddr_t
  tsig_key : knot_tsig_key_t
  timer : Option event_t
  expire : Option event_t
  state : xfr_state_t
  has_master : Bool
  bootstrap_retry : Nat := 0
  deriving DecidableEq, Repr

/-- Zone-related data (`zonedata_t`). -/
structure zonedata_t where
  conf : conf_zone_t
  xfr_in : xfr_in_t
  xfr_out : Option acl_t
  notify_in : Option acl_t
  notify_out : Option acl_t
  update_in : Option acl_t
  ixfr_db : Option journal_t
  ixfr_dbsync : Option event_t
  zonefile_serial : Nat
  dnssec_timer : Option event_t := none
  deriving DecidableEq, Repr

/-- A zone: name, current contents (published snapshot), flags and data;
`version` is the modification time of the zone file it was loaded from, and
`addr` stands for the address of the structure, which is what a comparison
of zone pointers compares. -/
structure knot_zone_t where
  name : List Nat
  contents : Option knot_zone_contents_t
  flags : Nat
  data : Option zonedata_t
  version : Int := 0
  addr : Nat := 0
  deriving DecidableEq, Repr

/-- Flag bit of a discarded zone (libknot/zone/zone.h, not in src/); only its
being one fixed bit is used. -/
def KNOT_ZONE_DISCARDED : Nat := 2

/-- Current contents of a zone (`NULL` for no zone). -/
def knot_zone_contents (zone : Option knot_zone_t) : Option knot_zone_contents_t :=
  match zone with
  | none => none
  | some z => z.contents

/-- Flags of a zone. -/
def knot_zone_flags (zone : knot_zone_t) : Nat := zone.flags

/-- Zone data of a zone (`NULL` for no zone). -/
def knot_zone_data (zone : Option knot_zone_t) : Option zonedata_t :=
  match zone with
  | none => none
  | some z => z.data

/-! ## External calls with effects -/

/-- A call of an external function with an effect.  Reference counting
(`journal_retain`, `journal_release`, `knot_zone_retain`), locking, RCU
sections, logging and the freeing of changesets are not recorded. -/
inductive Call where
  | journal_trans_begin
  | journal_trans_commit
  | journal_trans_rollback
  | journal_map (key : Nat) (size : Nat)
  | journal_unmap (key : Nat) (entry : List Nat) (validate : Bool)
  | xfrin_apply_changesets (chs : knot_changesets_t)
  | xfrin_switch_zone (new_contents : Option knot_zone_contents_t)
      (type : knot_ns_xfr_type_t)
  | xfrin_rollback_update
  | xfrin_cleanup_successful_update
  | xfr_task_create (type : knot_ns_xfr_type_t) (flags : xfr_flag_t)
  | xfr_task_free (rq : knot_ns_xfr_t)
  | xfr_enqueue (rq : knot_ns_xfr_t)
  | evsched_event_finished
  | evsched_schedule_cb (cb : event_cb_t) (dt : Nat)
  | evsched_schedule (ev : event_t) (dt : Nat)
  | evsched_cancel (ev : event_t)
  | evsched_event_free (ev : event_t)
  | knot_zonedb_expire_zone (name : List Nat)
  | journal_update (id : Nat) (flags : Nat)
  | journal_read_node (id : Nat)
  | stat
  | mkstemp
  | fdopen
  | zone_dump_text (zone : knot_zone_contents_t)
  | fchmod
  | fclose
  | rename
  | unlink
  | knot_ddns_check_zone
  | knot_ddns_process_prereqs
  | knot_ddns_check_prereqs
  | zones_process_update_auth
  | knot_ns_error_response_from_query (rcode : Nat)
  | knot_tsig_add (tsig_rcode : Nat)
  | knot_tsig_sign (tsig_rcode : Nat) (tsig_prev_time_signed : Nat)
  | send (fd : Int) (addr : Option sockaddr_t) (msg : List Nat) (msglen : Nat)
  | dt_signalize (thread : Nat) (signum : Nat)
  | pthread_cond_broadcast
  | pthread_join (thread : Nat)
  | dt_delete_thread (thread : Nat)
  | knot_zone_contents_disable_any (contents : knot_zone_contents_t)
  | knot_zonedb_add_zone (name : List Nat)
  deriving DecidableEq, Repr

/-- History of the external calls made so far, oldest first, each with the
result code it returned (`KNOT_EOK` for a `void` function). -/
abbrev Trace := List (Call × knot_error)

/-- Behaviour of the external functions: the result code of a call, and the
zone contents that `xfrin_apply_changesets` builds, given the history.
`rcode` and `rsize` give the values that a call leaves behind its `rcode` and
`rsize` output pointers, from the values it finds there; `count` is the `int`
that a call such as `send` returns. -/
structure Oracle where
  ret : Trace → Call → knot_error
  contents : Trace → Call → Option knot_zone_contents_t
  rcode : Trace → Call → Nat → Nat := fun _ _ r => r
  rsize : Trace → Call → Nat → Nat := fun _ _ s => s
  count : Trace → Call → Int := fun _ _ => 0

/-- Make an external call that returns a result code. -/
def call (O : Oracle) (tr : Trace) (c : Call) : knot_error × Trace :=
  (O.ret tr c, tr ++ [(c, O.ret tr c)])

/-- Make an external call that returns nothing. -/
def call_void (tr : Trace) (c : Call) : Trace :=
  tr ++ [(c, KNOT_EOK)]

/-! ## Storing changesets in the journal (zones.c 444-484, 3159-3287) -/

/-- The changeset library functions used by `zones.c` (external: libknot).
`knot_changeset_merge ch1 ch2` returns its result code and the two changesets
as it leaves them. -/
structure changesets_api where
  knot_changeset_is_empty : knot_changeset_t → Bool
  knot_changeset_merge : knot_changeset_t → knot_changeset_t →
    knot_error × knot_changeset_t × knot_changeset_t

/-- Is the changeset set empty: `NULL`, an empty list, or an empty first
changeset. -/
def zones_changesets_empty (A : changesets_api) (chs : Option knot_changesets_t) : Bool :=
  match chs with
  | none => true
  | some chs =>
    match chs.sets with
    | [] => true
    | head :: _ => A.knot_changeset_is_empty head

/-- Store one changeset in the journal under the key made of its serials.
`none`: an assertion (of this function or of the serializer) fails. -/
def zones_store_changeset (C : rrset_codec) (O : Oracle) (chs : knot_changeset_t)
    (tr : Trace) : Option (knot_error × Trace) :=
  let k := ixfrdb_key_make chs.serial_from chs.serial_to
  let entry_size : Nat := 0
  let (ret, size_out) := zones_changeset_binary_size C (some chs) (some entry_size)
  if ret ≠ KNOT_EOK then none
  else
    let entry_size := size_out.getD entry_size
    let (ret, tr) := call O tr (Call.journal_map k entry_size)
    if ret ≠ KNOT_EOK then some (ret, tr)
    else
      match zones_serialize_and_store_chgset C chs entry_size with
      | none => none
      | some (ret, journal_entry) =>
        let (unmap_ret, tr) :=
          call O tr (Call.journal_unmap k journal_entry (decide (ret = KNOT_EOK)))
        let ret := if ret = KNOT_EOK ∧ unmap_ret ≠ KNOT_EOK then unmap_ret else ret
        some (ret, tr)

/-- Begin a journal transaction; returns the journal handle, `NULL` on
failure.  `none`: the zone has no zone data (`NULL` dereference). -/
def zones_store_changesets_begin (O : Oracle) (zone : Option knot_zone_t) (tr : Trace) :
    Option (Option journal_t × Trace) :=
  match zone with
  | none => some (none, tr)
  | some zone =>
    match zone.data with
    | none => none
    | some zd =>
      match zd.ixfr_db with
      | none => some (none, tr)
      | some j =>
        let (ret, tr) := call O tr Call.journal_trans_begin
        if ret ≠ KNOT_EOK then some (none, tr) else some (some j, tr)

/-- Commit the journal transaction. -/
def zones_store_changesets_commit (O : Oracle) (j : Option journal_t) (tr : Trace) :
    knot_error × Trace :=
  match j with
  | none => (KNOT_EINVAL, tr)
  | some _ => call O tr Call.journal_trans_commit

/-- Roll the journal transaction back. -/
def zones_store_changesets_rollback (O : Oracle) (j : Option journal_t) (tr : Trace) :
    knot_error × Trace :=
  match j with
  | none => (KNOT_EINVAL, tr)
  | some _ => call O tr Call.journal_trans_rollback

/-- The `WALK_LIST` of `zones_store_changesets`: store each changeset, stop at
the first failure. -/
def zones_store_changesets_walk (C : rrset_codec) (O : Oracle) :
    List knot_changeset_t → Trace → Option (knot_error × Trace)
  | [], tr => some (KNOT_EOK, tr)
  | chs :: rest, tr =>
    match zones_store_changeset C O chs tr with
    | none => none
    | some (ret, tr) =>
      if ret ≠ KNOT_EOK then some (ret, tr)
      else zones_store_changesets_walk C O rest tr

/-- Store all changesets of the set in the journal `j`, and trigger a flush
of the journal when it is full. -/
def zones_store_changesets (C : rrset_codec) (O : Oracle) (zone : Option knot_zone_t)
    (src : Option knot_changesets_t) (tr : Trace) : Option (knot_error × Trace) :=
  match zone, src with
  | none, _ => some (KNOT_EINVAL, tr)
  | _, none => some (KNOT_EINVAL, tr)
  | some zone, some src =>
    match zone.data with
    | none => none
    | some zd =>
      match zd.ixfr_db with
      | none => some (KNOT_EINVAL, tr)
      | some _ =>
        match zones_store_changesets_walk C O src.sets tr with
        | none => none
        | some (ret, tr) =>
          match zd.ixfr_dbsync with
          | some tmr =>
            if ret = KNOT_EBUSY then
              let tr := call_void tr (Call.evsched_cancel tmr)
              let tr := call_void tr (Call.evsched_schedule tmr 0)
              some (ret, tr)
            else some (ret, tr)
          | none => some (ret, tr)

/-- Begin a transaction and store the changesets; roll back when storing
fails.  The result carries the new value of `*transaction`. -/
def zones_store_changesets_begin_and_store (A : changesets_api) (C : rrset_codec)
    (O : Oracle) (zone : knot_zone_t) (chgsets : knot_changesets_t)
    (transaction : Option journal_t) (tr : Trace) :
    Option (knot_error × Option journal_t × Trace) :=
  if zones_changesets_empty A (some chgsets) then some (KNOT_EINVAL, transaction, tr)
  else
    match zones_store_changesets_begin O (some zone) tr with
    | none => none
    | some (none, tr) => some (KNOT_ERROR, none, tr)
    | some (some j, tr) =>
      match zones_store_changesets C O (some zone) (some chgsets) tr with
      | none => none
      | some (ret, tr) =>
        if ret ≠ KNOT_EOK then
          let (_, tr) := zones_store_changesets_rollback O (some j) tr
          some (ret, none, tr)
        else some (KNOT_EOK, some j, tr)

/-! ## Merging and the update pipeline (zones.c 1095-1147, 3365-3432) -/

/-- Last changeset of a set. -/
def knot_changesets_get_last (chs : knot_changesets_t) : Option knot_changeset_t :=
  chs.sets.getLast?

/-- Merge the last changeset of the secondary set into the last changeset of
the primary set and store the effective set in the journal.  The result
carries the new value of `*transaction`.  `none`: an assertion fails.  The
assertion `diff_ch->soa_to == sec_ch->soa_to` compares pointers; it is taken
to hold when the RRsets are equal. -/
def zones_merge_and_store_changesets (A : changesets_api) (C : rrset_codec) (O : Oracle)
    (zone : knot_zone_t) (diff_chs sec_chs : Option knot_changesets_t)
    (transaction : Option journal_t) (tr : Trace) :
    Option (knot_error × Option journal_t × Trace) :=
  if zones_changesets_empty A diff_chs ∧ zones_changesets_empty A sec_chs then
    some (KNOT_EOK, transaction, tr)
  else if ¬ zones_changesets_empty A diff_chs ∧ zones_changesets_empty A sec_chs then
    match diff_chs with
    | none => none
    | some d => zones_store_changesets_begin_and_store A C O zone d transaction tr
  else if zones_changesets_empty A diff_chs ∧ ¬ zones_changesets_empty A sec_chs then
    match sec_chs with
    | none => none
    | some s => zones_store_changesets_begin_and_store A C O zone s transaction tr
  else
    match diff_chs, sec_chs with
    | some d, some s =>
      match knot_changesets_get_last d, knot_changesets_get_last s with
      | some diff_ch, some sec_ch =>
        if diff_ch.serial_to ≠ sec_ch.serial_from then none
        else
          let (ret, diff_ch, sec_ch) := A.knot_changeset_merge diff_ch sec_ch
          if ret ≠ KNOT_EOK then some (ret, transaction, tr)
          else if diff_ch.serial_to ≠ sec_ch.serial_to then none
          else if diff_ch.soa_to ≠ sec_ch.soa_to then none
          else
            zones_store_changesets_begin_and_store A C O zone
              { d with sets := d.sets.dropLast ++ [diff_ch] } transaction tr
      | _, _ => none
    | _, _ => none

/-- Modelled from the spec: `xfrin_apply_changesets` (libknot, not in src/)
applies the changesets to a clone of the current contents; on success the
clone is stored in `*new_contents`, the zone itself is not changed. -/
def xfrin_apply_changesets (O : Oracle) (chs : knot_changesets_t)
    (new_contents : Option knot_zone_contents_t) (tr : Trace) :
    knot_error × Option knot_zone_contents_t × Trace :=
  let c := Call.xfrin_apply_changesets chs
  let (ret, tr1) := call O tr c
  (ret, if ret = KNOT_EOK then O.contents tr c else new_contents, tr1)

/-- Modelled from the spec: `xfrin_switch_zone` (libknot, not in src/)
publishes the new contents by an atomic exchange of the zone's contents
pointer; when it fails the zone keeps its contents. -/
def xfrin_switch_zone (O : Oracle) (zone : knot_zone_t)
    (new_contents : Option knot_zone_contents_t) (type : knot_ns_xfr_type_t) (tr : Trace) :
    knot_error × knot_zone_t × Trace :=
  let (ret, tr) := call O tr (Call.xfrin_switch_zone new_contents type)
  (ret, if ret = KNOT_EOK then { zone with contents := new_contents } else zone, tr)

/-- Store the changesets in the journal, apply them, commit the journal
transaction and switch the zone contents.  The result carries the zone and
`*new_contents` as the call leaves them. -/
def zones_store_and_apply_chgsets (A : changesets_api) (C : rrset_codec) (O : Oracle)
    (chs : knot_changesets_t) (zone : knot_zone_t)
    (new_contents : Option knot_zone_contents_t) (type : knot_ns_xfr_type_t) (tr : Trace) :
    Option (knot_error × knot_zone_t × Option knot_zone_contents_t × Trace) :=
  match zones_store_changesets_begin_and_store A C O zone chs none tr with
  | none => none
  | some (ret, transaction, tr) =>
    if ret ≠ KNOT_EOK then some (ret, zone, new_contents, tr)
    else
      let (apply_ret, new_contents, tr) := xfrin_apply_changesets O chs new_contents tr
      if apply_ret ≠ KNOT_EOK then
        let (_, tr) := zones_store_changesets_rollback O transaction tr
        some (apply_ret, zone, new_contents, tr)
      else
        let (ret, tr) := zones_store_changesets_commit O transaction tr
        if ret ≠ KNOT_EOK then
          let tr := call_void tr Call.xfrin_rollback_update
          some (ret, zone, new_contents, tr)
        else
          let (switch_ret, zone, tr) := xfrin_switch_zone O zone new_contents type tr
          if switch_ret ≠ KNOT_EOK then
            let tr := call_void tr Call.xfrin_rollback_update
            some (KNOT_ERROR, zone, new_contents, tr)
          else
            let tr := call_void tr Call.xfrin_cleanup_successful_update
            some (KNOT_EOK, zone, new_contents, tr)

/-! ## SOA timers and the REFRESH event (zones.c 200-426) -/

/-- SOA field accessors (external: libknot) and the jitter.  `zones_jitter`
multiplies the interval by a random floating-point factor; it is taken as a
parameter. -/
structure timers_api where
  knot_rdata_soa_refresh : knot_rrset_t → Nat
  knot_rdata_soa_retry : knot_rrset_t → Nat
  knot_rdata_soa_expire : knot_rrset_t → Nat
  zones_jitter : Nat → Nat

/-- SOA timer value in milliseconds, computed in `uint32_t`; 0 for a zone
without contents. -/
def zones_soa_timer (zone : Option knot_zone_t) (rr_func : knot_rrset_t → Nat) : Nat :=
  match knot_zone_contents zone with
  | none => 0
  | some zc =>
    let ret := rr_func zc.apex_soa % 2 ^ 32
    (ret * 1000) % 2 ^ 32

/-- SOA REFRESH timer value in milliseconds. -/
def zones_soa_refresh (T : timers_api) (zone : Option knot_zone_t) : Nat :=
  zones_soa_timer zone T.knot_rdata_soa_refresh

/-- SOA RETRY timer value in milliseconds. -/
def zones_soa_retry (T : timers_api) (zone : Option knot_zone_t) : Nat :=
  zones_soa_timer zone T.knot_rdata_soa_retry

/-- SOA EXPIRE timer value in milliseconds. -/
def zones_soa_expire (T : timers_api) (zone : Option knot_zone_t) : Nat :=
  zones_soa_timer zone T.knot_rdata_soa_expire

/-- Modelled from the spec: `xfr_task_setaddr` (xfr-handler, not in src/)
stores the master address and the outgoing (via) address in the task. -/
def xfr_task_setaddr (rq : knot_ns_xfr_t) (dst via : sockaddr_t) : knot_ns_xfr_t :=
  { rq with addr := some dst, saddr := some via }

/-- Set `zd->xfr_in.state`. -/
def zonedata_set_state (zd : zonedata_t) (st : xfr_state_t) : zonedata_t :=
  { zd with xfr_in := { zd.xfr_in with state := st } }

/-- The request that `zones_refresh_ev` creates (zones.c 357-365): a SOA
query over UDP to the master, with the TSIG key of the zone if it has one. -/
def zones_refresh_ev_request (zd : zonedata_t) : knot_ns_xfr_t :=
  let rq : knot_ns_xfr_t :=
    { type := XFR_TYPE_SOA, flags := XFR_FLAG_UDP, addr := none, saddr := none,
      tsig_key := none }
  let rq := xfr_task_setaddr rq zd.xfr_in.master zd.xfr_in.via
  if zd.xfr_in.tsig_key.name.isSome then { rq with tsig_key := some zd.xfr_in.tsig_key }
  else rq

/-- The step "schedule EXPIRE timer on first attempt" of `zones_refresh_ev`
(zones.c 397-406). -/
def zones_refresh_ev_expire (T : timers_api) (zone : knot_zone_t) (zd : zonedata_t)
    (tr : Trace) : zonedata_t × Trace :=
  if zd.xfr_in.expire.isNone then
    let expire_tmr := T.zones_jitter (zones_soa_expire T (some zone))
    let tr := call_void tr (Call.evsched_schedule_cb event_cb_t.zones_expire_ev expire_tmr)
    ({ zd with xfr_in :=
        { zd.xfr_in with expire := some { cb := event_cb_t.zones_expire_ev } } }, tr)
  else (zd, tr)

/-- Zone REFRESH or RETRY event.  `e` is the event, `e_data` the zone it
carries (`e->data`).  `xfr_task_create` returning `NULL` is a result other
than `KNOT_EOK` of the recorded call.  The result carries the zone as the
event leaves it. -/
def zones_refresh_ev (T : timers_api) (O : Oracle) (e : event_t)
    (e_data : Option knot_zone_t) (tr : Trace) : knot_error × Option knot_zone_t × Trace :=
  match e_data with
  | none => (KNOT_EINVAL, none, tr)
  | some zone =>
    match zone.data with
    | none => (KNOT_EINVAL, some zone, tr)
    | some zd =>
      if knot_zone_flags zone &&& KNOT_ZONE_DISCARDED ≠ 0 then (KNOT_EOK, some zone, tr)
      else
        let (created, tr) := call O tr (Call.xfr_task_create XFR_TYPE_SOA XFR_FLAG_UDP)
        if created ≠ KNOT_EOK then (KNOT_EINVAL, some zone, tr)
        else
          let rq := zones_refresh_ev_request zd
          match knot_zone_contents (some zone) with
          | none =>
            let rq := { rq with type := XFR_TYPE_AIN, flags := XFR_FLAG_TCP }
            let tr := call_void tr Call.evsched_event_finished
            if zd.xfr_in.state = XFR_PENDING then
              let tr := call_void tr (Call.xfr_task_free rq)
              (KNOT_EOK, some zone, tr)
            else
              let zd := zonedata_set_state zd XFR_PENDING
              let (ret, tr) := call O tr (Call.xfr_enqueue rq)
              if ret ≠ KNOT_EOK then
                let tr := call_void tr (Call.xfr_task_free rq)
                let zd := zonedata_set_state zd XFR_SCHED
                (ret, some { zone with data := some zd }, tr)
              else (ret, some { zone with data := some zd }, tr)
          | some _ =>
            let (zd, tr) := zones_refresh_ev_expire T zone zd tr
            let retry_tmr := T.zones_jitter (zones_soa_retry T (some zone))
            let tr := call_void tr (Call.evsched_schedule e retry_tmr)
            let tr := call_void tr Call.evsched_event_finished
            let (ret, tr) := call O tr (Call.xfr_enqueue rq)
            if ret ≠ KNOT_EOK then
              (ret, some { zone with data := some zd }, call_void tr (Call.xfr_task_free rq))
            else (ret, some { zone with data := some zd }, tr)

/-- The transfer state of a zone, if it has zone data. -/
def zone_xfr_state (zone : Option knot_zone_t) : Option xfr_state_t :=
  (knot_zone_data zone).map (fun zd => zd.xfr_in.state)

/-- The call enqueues a task on the transfer executor. -/
def is_xfr_enqueue (c : Call) : Prop :=
  match c with
  | Call.xfr_enqueue _ => True
  | _ => False

/-! ## The TSIG and ACL gate (zones.c 1765-1810, 2285-2326, 3690-3802) -/

/-- TSIG record of a packet. -/
def knot_packet_tsig (query : knot_packet_t) : Option knot_rrset_t := query.tsig_rr

/-- Opcode of a packet. -/
def knot_packet_opcode (query : knot_packet_t) : Nat := query.opcode

/-- Owner of an RRset. -/
def knot_rrset_owner (rrset : knot_rrset_t) : Option (List Nat) := some rrset.owner

/-- The TSIG library and the ACL lookup used by the gate (external: libknot,
common/acl).  `knot_dname_cmp` returns 0 for equal names; `acl_find` returns
the matching entry or `NULL`. -/
structure tsig_api where
  tsig_rdata_alg : knot_rrset_t → Nat
  knot_tsig_digest_length : Nat → Nat
  knot_dname_cmp : Option (List Nat) → Option (List Nat) → Int
  tsig_rdata_mac_length : knot_rrset_t → Nat
  tsig_rdata_time_signed : knot_rrset_t → Nat
  knot_tsig_server_check : knot_rrset_t → List Nat → Nat → knot_tsig_key_t → knot_error
  acl_find : Option acl_t → sockaddr_t → Option acl_match_t

/-- Verify the TSIG of a query against the expected key.  `_rcode`,
`tsig_rcode` and `tsig_prev_time_signed` are the values behind the three
output pointers at entry; the result carries them as the call leaves them
(every path writes `*rcode`). -/
def zones_verify_tsig_query (T : tsig_api) (query : knot_packet_t) (key : knot_tsig_key_t)
    (_rcode tsig_rcode tsig_prev_time_signed : Nat) : knot_error × Nat × Nat × Nat :=
  match knot_packet_tsig query with
  | none => (KNOT_TSIG_EBADKEY, KNOT_RCODE_REFUSED, tsig_rcode, tsig_prev_time_signed)
  | some tsig_rr =>
    let alg := T.tsig_rdata_alg tsig_rr
    if T.knot_tsig_digest_length alg = 0 then
      (KNOT_TSIG_EBADKEY, KNOT_RCODE_NOTAUTH, KNOT_RCODE_BADKEY, tsig_prev_time_signed)
    else
      let kname := knot_rrset_owner tsig_rr
      if ¬ (kname.isSome ∧ T.knot_dname_cmp key.name kname = 0 ∧ key.algorithm = alg) then
        (KNOT_TSIG_EBADKEY, KNOT_RCODE_NOTAUTH, KNOT_RCODE_BADKEY, tsig_prev_time_signed)
      else
        let digest_max_size := T.knot_tsig_digest_length key.algorithm
        let mac_len := T.tsig_rdata_mac_length tsig_rr
        if mac_len > digest_max_size then
          (KNOT_EMALF, KNOT_RCODE_FORMERR, tsig_rcode, tsig_prev_time_signed)
        else
          let ret := T.knot_tsig_server_check tsig_rr query.wireformat query.size key
          match ret with
          | KNOT_EOK => (ret, KNOT_RCODE_NOERROR, tsig_rcode, tsig_prev_time_signed)
          | KNOT_TSIG_EBADKEY =>
            (ret, KNOT_RCODE_NOTAUTH, KNOT_RCODE_BADKEY, tsig_prev_time_signed)
          | KNOT_TSIG_EBADSIG =>
            (ret, KNOT_RCODE_NOTAUTH, KNOT_RCODE_BADSIG, tsig_prev_time_signed)
          | KNOT_TSIG_EBADTIME =>
            (ret, KNOT_RCODE_NOTAUTH, KNOT_RCODE_BADTIME, T.tsig_rdata_time_signed tsig_rr)
          | KNOT_EMALF => (ret, KNOT_RCODE_FORMERR, tsig_rcode, tsig_prev_time_signed)
          | _ => (ret, KNOT_RCODE_SERVFAIL, tsig_rcode, tsig_prev_time_signed)

/-- Check the zone data and the ACL of the operation (`update_in` for UPDATE,
`xfr_out` otherwise).  `addr` is a pointer; `tsig_key` and `rcode` are the
output pointers (`none`: `NULL`) with the values behind them; the result
carries those values as the call leaves them. -/
def zones_query_check_zone (T : tsig_api) (zone : Option knot_zone_t) (q_opcode : Nat)
    (addr : Option sockaddr_t) (tsig_key : Option (Option knot_tsig_key_t))
    (rcode : Option Nat) : knot_error × Option (Option knot_tsig_key_t) × Option Nat :=
  match addr, tsig_key, rcode with
  | some addr, some key, some _ =>
    match knot_zone_data zone with
    | none => (KNOT_ERROR, some key, some KNOT_RCODE_SERVFAIL)
    | some zd =>
      let acl_used := if q_opcode = KNOT_OPCODE_UPDATE then zd.update_in else zd.xfr_out
      match T.acl_find acl_used addr with
      | none => (KNOT_EACCES, some key, some KNOT_RCODE_REFUSED)
      | some m =>
        match m.val with
        | some iface => (KNOT_EOK, some iface.key, rcode)
        | none => (KNOT_EOK, some key, rcode)
  | _, _, _ => (KNOT_EINVAL, tsig_key, rcode.map (fun _ => KNOT_RCODE_SERVFAIL))

/-- Check zone, ACL and TSIG of a query.  `rcode`, `tsig_rcode`,
`tsig_key_zone` and `tsig_prev_time_signed` are the values behind the output
pointers at entry; the result carries them as the call leaves them, in the
order `rcode`, `tsig_rcode`, `tsig_key_zone`, `tsig_prev_time_signed`. -/
def zones_check_tsig_query (T : tsig_api) (zone : knot_zone_t) (query : knot_packet_t)
    (addr : Option sockaddr_t) (rcode tsig_rcode : Nat)
    (tsig_key_zone : Option knot_tsig_key_t) (tsig_prev_time_signed : Nat) :
    knot_error × Nat × Nat × Option knot_tsig_key_t × Nat :=
  match zones_query_check_zone T (some zone) (knot_packet_opcode query) addr
      (some tsig_key_zone) (some rcode) with
  | (ret, tsig_key_out, rcode_out) =>
    let tsig_key_zone := tsig_key_out.getD tsig_key_zone
    let rcode := rcode_out.getD rcode
    if ret = KNOT_EOK ∨ ret = KNOT_EACCES then
      match tsig_key_zone with
      | some key =>
        match zones_verify_tsig_query T query key rcode tsig_rcode tsig_prev_time_signed with
        | (ret, rcode, tsig_rcode, tsig_prev_time_signed) =>
          (ret, rcode, tsig_rcode, tsig_key_zone, tsig_prev_time_signed)
      | none =>
        if (knot_packet_tsig query).isSome then
          (KNOT_TSIG_EBADKEY, KNOT_RCODE_NOTAUTH, KNOT_RCODE_BADKEY, tsig_key_zone,
            tsig_prev_time_signed)
        else (ret, rcode, tsig_rcode, tsig_key_zone, tsig_prev_time_signed)
    else (ret, rcode, tsig_rcode, tsig_key_zone, tsig_prev_time_signed)

/-! ## Scheduling REFRESH and the EXPIRE event (zones.c 280-334, 3475-3521) -/

/-- The step "Cancel REFRESH timer" (zones.c 3484-3488, 317-321): cancel and
free the timer, clear the field. -/
def zones_cancel_refresh_timer (zd : zonedata_t) (tr : Trace) : zonedata_t × Trace :=
  match zd.xfr_in.timer with
  | some tmr =>
    let tr := call_void tr (Call.evsched_cancel tmr)
    let tr := call_void tr (Call.evsched_event_free tmr)
    ({ zd with xfr_in := { zd.xfr_in with timer := none } }, tr)
  | none => (zd, tr)

/-- The step "Cancel EXPIRE timer" of `zones_schedule_refresh` (zones.c
3491-3495). -/
def zones_cancel_expire_timer (zd : zonedata_t) (tr : Trace) : zonedata_t × Trace :=
  match zd.xfr_in.expire with
  | some tmr =>
    let tr := call_void tr (Call.evsched_cancel tmr)
    let tr := call_void tr (Call.evsched_event_free tmr)
    ({ zd with xfr_in := { zd.xfr_in with expire := none } }, tr)
  | none => (zd, tr)

/-- Schedule the REFRESH timer of a zone after `time` milliseconds (`time <
0`: after the jittered SOA refresh interval, or the bootstrap delay when the
zone has no contents).  The delay is handed to the scheduler as a 32-bit
unsigned value.  `evsched_schedule_cb` returns the new event (a failed
allocation is not modelled).  The result carries the zone as the call leaves
it. -/
def zones_schedule_refresh (T : timers_api) (zone : Option knot_zone_t) (time : Int)
    (tr : Trace) : knot_error × Option knot_zone_t × Trace :=
  match zone with
  | none => (KNOT_EINVAL, none, tr)
  | some zone =>
    match zone.data with
    | none => (KNOT_EINVAL, some zone, tr)
    | some zd =>
      let (zd, tr) := zones_cancel_refresh_timer zd tr
      let (zd, tr) := zones_cancel_expire_timer zd tr
      let zd := zonedata_set_state zd XFR_IDLE
      if zd.xfr_in.has_master then
        let time : Int :=
          if time < 0 then
            if (knot_zone_contents (some zone)).isSome then
              (T.zones_jitter (zones_soa_refresh T (some zone)) : Int)
            else (zd.xfr_in.bootstrap_retry : Int)
          else time
        let tr := call_void tr
          (Call.evsched_schedule_cb event_cb_t.zones_refresh_ev (time.toNat % 2 ^ 32))
        let zd := { zd with xfr_in :=
          { zd.xfr_in with timer := some { cb := event_cb_t.zones_refresh_ev } } }
        let zd := zonedata_set_state zd XFR_SCHED
        (KNOT_EOK, some { zone with data := some zd }, tr)
      else (KNOT_EOK, some { zone with data := some zd }, tr)

/-- Modelled from the spec: `knot_zonedb_expire_zone` (zone database, not in
src/) detaches the contents from the entry with the given name and returns
them; the entry remains, now a stub.  The entry with the name of the zone is
taken to be the zone itself. -/
def knot_zonedb_expire_zone (zone : knot_zone_t) (tr : Trace) :
    Option knot_zone_contents_t × knot_zone_t × Trace :=
  (zone.contents, { zone with contents := none },
    call_void tr (Call.knot_zonedb_expire_zone zone.name))

/-- The step "Free EXPIRE timer" of `zones_expire_ev` (zones.c 324-327). -/
def zones_free_expire_timer (zd : zonedata_t) (tr : Trace) : zonedata_t × Trace :=
  match zd.xfr_in.expire with
  | some tmr =>
    let tr := call_void tr (Call.evsched_event_free tmr)
    ({ zd with xfr_in := { zd.xfr_in with expire := none } }, tr)
  | none => (zd, tr)

/-- Zone EXPIRE event.  `e_data` is the zone the event carries (`e->data`).
`none`: the zone has no zone data (`zd->server` dereferences `NULL`).  The
result carries the zone as the event leaves it. -/
def zones_expire_ev (_e : event_t) (e_data : Option knot_zone_t) (tr : Trace) :
    Option (knot_error × Option knot_zone_t × Trace) :=
  match e_data with
  | none => some (KNOT_EINVAL, none, tr)
  | some zone =>
    if knot_zone_flags zone &&& KNOT_ZONE_DISCARDED ≠ 0 then some (KNOT_EOK, some zone, tr)
    else
      match zone.data with
      | none => none
      | some zd =>
        let (_contents, zone, tr) := knot_zonedb_expire_zone zone tr
        let tr := call_void tr Call.evsched_event_finished
        let (zd, tr) := zones_cancel_refresh_timer zd tr
        let (zd, tr) := zones_free_expire_timer zd tr
        some (KNOT_EOK, some { zone with data := some zd }, tr)

/-! ## Synchronizing the zone file (zones.c 429-442, 489-533, 2198-2281, 2879-2948) -/

/-- Modelled from the spec: the flags of a journal node are the bit field
`{VALID=0x1, DIRTY=0x2, TRANS=0x4}` (journal.h is not in src/). -/
def JOURNAL_VALID : Nat := 1
/-- Modelled from the spec: see `JOURNAL_VALID`. -/
def JOURNAL_DIRTY : Nat := 2
/-- Modelled from the spec: see `JOURNAL_VALID`. -/
def JOURNAL_TRANS : Nat := 4

/-- Compare function to match entries with starting serial: the 64-bit
difference, returned as `int`. -/
def ixfrdb_key_from_cmp (k sfrom : Nat) : Int :=
  let d : Nat := size_sub (ixfrdb_key_from k) sfrom % 2 ^ 32
  if d < 2 ^ 31 then (d : Int) else (d : Int) - 2 ^ 32

/-- Compare function to match entries with target serial. -/
def ixfrdb_key_to_cmp (k sto : Nat) : Int :=
  let d : Nat := size_sub (ixfrdb_key_to k) sto % 2 ^ 32
  if d < 2 ^ 31 then (d : Int) else (d : Int) - 2 ^ 32

/-- External functions that read the journal or the SOA (journal.c and
libknot, not in src/), as parameters: `journal_fetch` answers a result code
and the index of the node found in the node table; `journal_walk_visits`
tells which entries of the node table `journal_walk` visits;
`knot_rdata_soa_serial` is the SOA serial accessor, an `int64_t`. -/
structure journal_api where
  journal_fetch : journal_t → Nat → (Nat → Nat → Int) → knot_error × Option Nat
  journal_walk_visits : journal_t → Nat → Bool
  knot_rdata_soa_serial : knot_rrset_t → Int

/-- Function for marking nodes as synced and updated.  The flags of a node
are 16 bits wide. -/
def zones_ixfrdb_sync_apply (_j : journal_t) (n : journal_node_t) (tr : Trace) :
    knot_error × journal_node_t × Trace :=
  if n.flags &&& JOURNAL_DIRTY ≠ 0 then
    let n := { n with flags := n.flags &&& (0xffff ^^^ JOURNAL_DIRTY) }
    let tr := call_void tr (Call.journal_update n.id n.flags)
    (KNOT_EOK, n, tr)
  else (KNOT_EOK, n, tr)

/-- The loop of `journal_walk` over the node table, from index `i`. -/
def journal_walk_nodes (J : journal_api) (j : journal_t)
    (apply : journal_t → journal_node_t → Trace → knot_error × journal_node_t × Trace) :
    Nat → List journal_node_t → Trace → List journal_node_t × Trace
  | _, [], tr => ([], tr)
  | i, n :: rest, tr =>
    if J.journal_walk_visits j i then
      let (_, n1, tr) := apply j n tr
      let (rest1, tr) := journal_walk_nodes J j apply (i + 1) rest tr
      (n1 :: rest1, tr)
    else
      let (rest1, tr) := journal_walk_nodes J j apply (i + 1) rest tr
      (n :: rest1, tr)

/-- Modelled from the spec: `journal_walk(j, fn)` iterates the nodes of the
journal, applying `fn` to each node it visits, in the order of the node
table.  Its result code is not used by zones.c. -/
def journal_walk (J : journal_api) (j : journal_t)
    (apply : journal_t → journal_node_t → Trace → knot_error × journal_node_t × Trace)
    (tr : Trace) : journal_t × Trace :=
  let (nodes, tr) := journal_walk_nodes J j apply 0 j.nodes tr
  ({ j with nodes := nodes }, tr)

/-- Create the temporary file next to the zone file; the result is
`KNOT_EOK` for a file descriptor and anything else for `fd < 0`.  File names
are not recorded. -/
def zones_open_free_filename (O : Oracle) (tr : Trace) : knot_error × Trace :=
  call O tr Call.mkstemp

/-- Dump the zone as text to a temporary file and rename it over the zone
file.  `fdopen` returning `NULL` and `rename` returning `-1` are results of
the recorded calls other than `KNOT_EOK`. -/
def zones_dump_zone_text (O : Oracle) (zone : knot_zone_contents_t) (tr : Trace) :
    knot_error × Trace :=
  let (fd, tr) := zones_open_free_filename O tr
  if fd ≠ KNOT_EOK then (KNOT_EWRITABLE, tr)
  else
    let (f, tr) := call O tr Call.fdopen
    if f ≠ KNOT_EOK then
      let tr := call_void tr Call.unlink
      (KNOT_ERROR, tr)
    else
      let (ret, tr) := call O tr (Call.zone_dump_text zone)
      if ret ≠ KNOT_EOK then
        let tr := call_void tr Call.fclose
        let tr := call_void tr Call.unlink
        (KNOT_ERROR, tr)
      else
        let tr := call_void tr Call.fchmod
        let tr := call_void tr Call.fclose
        let (ret, tr) := call O tr Call.rename
        if ret ≠ KNOT_EOK then
          let tr := call_void tr Call.unlink
          (KNOT_ERROR, tr)
        else (KNOT_EOK, tr)

/-- Sync the zone to its zone file if the serial of the zone differs from
the serial of the file, and mark the journal as synced.  The result carries
the zone and the journal as the call leaves them. -/
def zones_zonefile_sync (J : journal_api) (O : Oracle) (zone : Option knot_zone_t)
    (journal : Option journal_t) (tr : Trace) :
    knot_error × Option knot_zone_t × Option journal_t × Trace :=
  match zone with
  | none => (KNOT_EINVAL, zone, journal, tr)
  | some z =>
    match z.data with
    | none => (KNOT_EINVAL, zone, journal, tr)
    | some zd =>
      match journal with
      | none => (KNOT_EINVAL, zone, journal, tr)
      | some j =>
        match z.contents with
        | none => (KNOT_EINVAL, zone, journal, tr)
        | some contents =>
          let serial_ret : Int := J.knot_rdata_soa_serial contents.apex_soa
          if serial_ret < 0 then (KNOT_EINVAL, zone, journal, tr)
          else
            let serial_to : Nat := (serial_ret % 2 ^ 32).toNat
            if zd.zonefile_serial ≠ serial_to then
              let (ret, tr) := zones_dump_zone_text O contents tr
              if ret ≠ KNOT_EOK then (ret, zone, journal, tr)
              else
                let (j, tr) := journal_walk J j zones_ixfrdb_sync_apply tr
                let zd := { zd with zonefile_serial := serial_to }
                (ret, some { z with data := some zd }, some j, tr)
            else (KNOT_ERANGE, zone, journal, tr)

/-- Modelled from the spec: `journal_retain` (journal.c, not in src/) takes
a reference on the journal and returns it. -/
def journal_retain (j : Option journal_t) : Option journal_t := j

/-- The journal written back to the zone data it belongs to: the journal
handed to `zones_zonefile_sync` is `zd->ixfr_db` itself. -/
def zone_set_journal (zone : Option knot_zone_t) (j : Option journal_t) :
    Option knot_zone_t :=
  match zone with
  | none => none
  | some z =>
    match z.data with
    | none => some z
    | some zd => some { z with data := some { zd with ixfr_db := j } }

/-- Sync changes in zone to zonefile: the journal-sync timer event.  `e` is
the event, `e_data` the zone it carries (`e->data`).  The delay is computed
in `int` and handed to the scheduler as a 32-bit unsigned value. -/
def zones_zonefile_sync_ev (J : journal_api) (O : Oracle) (e : event_t)
    (e_data : Option knot_zone_t) (tr : Trace) : knot_error × Option knot_zone_t × Trace :=
  match e_data with
  | none => (KNOT_EINVAL, none, tr)
  | some zone =>
    match zone.data with
    | none => (KNOT_EINVAL, some zone, tr)
    | some zd =>
      let (ret, zone1, tr) :=
        if (knot_zone_contents (some zone)).isSome then
          let j := journal_retain zd.ixfr_db
          let (ret, zone1, j, tr) := zones_zonefile_sync J O (some zone) j tr
          (ret, zone_set_journal zone1 j, tr)
        else (KNOT_EOK, some zone, tr)
      let next_timeout := (zd.conf.dbsync_timeout * 1000) % 2 ^ 32
      let tr := call_void tr (Call.evsched_schedule e next_timeout)
      (ret, zone1, tr)

/-! ## Loading changesets from the journal (zones.c 817-936) -/

/-- Modelled from the spec: `knot_changesets_create_changeset` (libknot
changesets, not in src/) appends a new changeset, zeroed but for the flags
of the set, at the tail of the set and returns it; zones.c reads the new
changeset back with `knot_changesets_get_last` (zones.c 1923, 1971). -/
def knot_changesets_create_changeset (ch : knot_changesets_t) :
    knot_changeset_t × knot_changesets_t :=
  let set : knot_changeset_t :=
    { soa_from := none, remove := [], soa_to := none, add := [], data := [], size := 0,
      serial_from := 0, serial_to := 0, flags := ch.flags }
  (set, { ch with sets := ch.sets ++ [set] })

/-- The `while` loop of `zones_load_changesets` over the nodes from `n` to
`journal_end(j)`.  The first component is the result with which the function
returns from inside the loop, if it does; then come the set, `found_to` and
the history.  The changeset created for a node is the last of the set: what
is assigned to it is assigned there. -/
def zones_load_changesets_loop (O : Oracle) (sto : Nat) :
    List journal_node_t → knot_changesets_t → Nat → Trace →
      Option knot_error × knot_changesets_t × Nat × Trace
  | [], dst, found_to, tr => (none, dst, found_to, tr)
  | n :: rest, dst, found_to, tr =>
    if sto = found_to then (none, dst, found_to, tr)
    else
      let (chs, dst1) := knot_changesets_create_changeset dst
      if ¬ (n.flags &&& JOURNAL_VALID ≠ 0) ∨ n.flags &&& JOURNAL_TRANS ≠ 0 then
        zones_load_changesets_loop O sto rest dst1 found_to tr
      else
        let chs := { chs with serial_from := ixfrdb_key_from n.id,
                              serial_to := ixfrdb_key_to n.id }
        let (ret, tr) := call O tr (Call.journal_read_node n.id)
        if ret ≠ KNOT_EOK then
          (some KNOT_ERROR, { dst with sets := dst.sets ++ [chs] }, found_to, tr)
        else
          let chs := { chs with data := n.payload, size := n.payload.length }
          zones_load_changesets_loop O sto rest { dst with sets := dst.sets ++ [chs] }
            chs.serial_to tr

/-- The nodes from the node that `journal_fetch` answered to the end of the
node table.  `none`: the node lies beyond `journal_end(j)`. -/
def journal_nodes_from (j : journal_t) (n : Option Nat) : Option (List journal_node_t) :=
  match n with
  | none => some []
  | some i => if i ≤ j.nodes.length then some (j.nodes.drop i) else none

/-- Load the changesets `sfrom` .. `sto` of the zone from its journal into
`dst`.  `stat` returning `-1` is a result of the recorded call other than
`KNOT_EOK`.  `none`: parsing the loaded changesets fails an assertion or
reads outside a buffer.  The result carries `dst` as the call leaves it. -/
def zones_load_changesets (C : rrset_codec) (J : journal_api) (O : Oracle) (fuel : Nat)
    (zone : Option knot_zone_t) (dst : Option knot_changesets_t) (sfrom sto : Nat)
    (tr : Trace) : Option (knot_error × Option knot_changesets_t × Trace) :=
  match zone, dst with
  | none, _ => some (KNOT_EINVAL, dst, tr)
  | _, none => some (KNOT_EINVAL, dst, tr)
  | some zone, some dst =>
    match zone.data with
    | none => some (KNOT_EINVAL, some dst, tr)
    | some zd =>
      match zd.ixfr_db with
      | none => some (KNOT_EINVAL, some dst, tr)
      | some _ =>
        let (st, tr) := call O tr Call.stat
        if st ≠ KNOT_EOK then some (KNOT_ERANGE, some dst, tr)
        else
          match journal_retain zd.ixfr_db with
          | none => some (KNOT_EBUSY, some dst, tr)
          | some j =>
            let found_to := sfrom
            let (ret, n) := J.journal_fetch j sfrom ixfrdb_key_from_cmp
            if ret ≠ KNOT_EOK then some (ret, some dst, tr)
            else
              match journal_nodes_from j n with
              | none => none
              | some nodes =>
                let (early, dst, found_to, tr) :=
                  zones_load_changesets_loop O sto nodes dst found_to tr
                match early with
                | some err => some (err, some dst, tr)
                | none =>
                  match zones_changesets_from_binary C fuel dst with
                  | none => none
                  | some (unpack_ret, dst) =>
                    if unpack_ret ≠ KNOT_EOK then some (unpack_ret, some dst, tr)
                    else if sto ≠ found_to then some (KNOT_ERANGE, some dst, tr)
                    else some (KNOT_EOK, some dst, tr)

/-! ## Processing and forwarding an UPDATE (zones.c 1812-1864, 2609-2757) -/

/-- Transport of a query. -/
inductive knot_ns_transport_t where
  | NS_TRANSPORT_UDP
  | NS_TRANSPORT_TCP
  deriving DecidableEq, Repr

open knot_ns_transport_t

/-- External function of the name server (not in src/), as a parameter:
`knot_ns_prep_update_response` parses the rest of the query, prepares the
response and finds the zone of the query, from the query and the maximum
response size.  The response packet it prepares is only handed on to
functions that are recorded calls, and is not modelled. -/
structure update_api where
  knot_ns_prep_update_response : knot_packet_t → Nat → knot_error × Option knot_zone_t

/-- Make an external call that returns a result code and writes behind the
`rcode` and `rsize` pointers: result, new `rcode`, new `rsize`, history. -/
def call_out (O : Oracle) (tr : Trace) (c : Call) (rcode rsize : Nat) :
    knot_error × Nat × Nat × Trace :=
  (O.ret tr c, O.rcode tr c rcode, O.rsize tr c rsize, tr ++ [(c, O.ret tr c)])

/-- The task that `zones_update_forward` prepares (zones.c 1831-1853): a
task of type `XFR_TYPE_FORWARD` to the master of the zone that carries the
socket and the address of the client, the message id of the query and a copy
of the query in a new packet. -/
def zones_update_forward_request (fd : Int) (flags : xfr_flag_t) (zd : zonedata_t)
    (sfrom : sockaddr_t) (query : knot_packet_t) : knot_ns_xfr_t :=
  let rq : knot_ns_xfr_t :=
    { type := XFR_TYPE_FORWARD, flags := flags, addr := none, saddr := none,
      tsig_key := none }
  let rq := xfr_task_setaddr rq zd.xfr_in.master zd.xfr_in.via
  let rq := { rq with fwd_src_fd := fd, fwd_addr := some sfrom,
                      packet_nr := (query.id : Int) }
  let copy : knot_packet_t :=
    { opcode := 0, id := 0, tsig_rr := none,
      wireformat := query.wireformat.take query.size, size := query.size }
  { rq with query := some copy }

/-- Forward an UPDATE to the master of the zone: create the task and enqueue
it.  `xfr_task_create` returning `NULL` is a result other than `KNOT_EOK` of
the recorded call; the other allocations are taken to succeed.  `none`: the
zone has no zone data. -/
def zones_update_forward (O : Oracle) (fd : Int) (ttype : knot_ns_transport_t)
    (zone : knot_zone_t) (sfrom : sockaddr_t) (query : knot_packet_t) (_qsize : Nat)
    (tr : Trace) : Option (knot_error × Trace) :=
  match knot_zone_data (some zone) with
  | none => none
  | some zd =>
    let flags := if ttype = NS_TRANSPORT_TCP then XFR_FLAG_TCP else XFR_FLAG_UDP
    let (created, tr) := call O tr (Call.xfr_task_create XFR_TYPE_FORWARD flags)
    if created ≠ KNOT_EOK then some (KNOT_ENOMEM, tr)
    else
      let rq := zones_update_forward_request fd flags zd sfrom query
      let (ret, tr) := call O tr (Call.xfr_enqueue rq)
      if ret ≠ KNOT_EOK then
        let tr := call_void tr (Call.xfr_task_free rq)
        some (KNOT_EOK, tr)
      else some (KNOT_EOK, tr)

/-- The checks of `zones_process_update` before the forwarding decision
(zones.c 2624-2660): prepare the response and find the zone, check that the
zone is valid, check ACL and TSIG.  The result is `ret`, `rcode`,
`tsig_rcode`, `tsig_key_zone`, `tsig_prev_time_signed`, and the zone. -/
def zones_process_update_checks (U : update_api) (T : tsig_api) (query : knot_packet_t)
    (addr : sockaddr_t) (rsize : Nat) (transport : knot_ns_transport_t) :
    (knot_error × Nat × Nat × Option knot_tsig_key_t × Nat) × Option knot_zone_t :=
  let (ret, zone) := U.knot_ns_prep_update_response query
    (if transport = NS_TRANSPORT_TCP then rsize else 0)
  let rcode := match ret with
    | KNOT_EOK => KNOT_RCODE_NOERROR
    | KNOT_EMALF => KNOT_RCODE_FORMERR
    | _ => KNOT_RCODE_SERVFAIL
  let tsig_rcode := 0
  let contents := knot_zone_contents zone
  let discarded := match zone with
    | some z => decide (knot_zone_flags z &&& KNOT_ZONE_DISCARDED ≠ 0)
    | none => false
  let (rcode, tsig_rcode, ret) :=
    if discarded then (KNOT_RCODE_SERVFAIL, KNOT_RCODE_BADKEY, KNOT_ENOZONE)
    else if zone.isNone ∨ contents.isNone then
      (KNOT_RCODE_NOTAUTH, KNOT_RCODE_BADKEY, KNOT_TSIG_EBADKEY)
    else (rcode, tsig_rcode, ret)
  if ret = KNOT_EOK then
    match zone with
    | some z => (zones_check_tsig_query T z query (some addr) rcode tsig_rcode none 0, zone)
    | none => ((ret, rcode, tsig_rcode, none, 0), zone)
  else ((ret, rcode, tsig_rcode, none, 0), zone)

/-- The condition of the forwarding branch (zones.c 2664): the zone, when
there is one and the result so far is `KNOT_EOK`, or `KNOT_TSIG_EBADKEY` with
no zone key selected. -/
def zones_process_update_pass (zone : Option knot_zone_t) (ret : knot_error)
    (tsig_key_zone : Option knot_tsig_key_t) : Option knot_zone_t :=
  match zone with
  | some z =>
    if ret = KNOT_EOK ∨ (ret = KNOT_TSIG_EBADKEY ∧ tsig_key_zone.isNone) then some z else none
  | none => none

/-- The pattern `if (ret == KNOT_EOK) ret = f(.., &rcode, .., rsize)`: the
call is made only when the result so far is `KNOT_EOK`. -/
def call_if_ok (O : Oracle) (ret : knot_error) (c : Call) (rcode rsize : Nat) (tr : Trace) :
    knot_error × Nat × Nat × Trace :=
  if ret = KNOT_EOK then call_out O tr c rcode rsize else (ret, rcode, rsize, tr)

/-- The step "Create error query if processing failed" of
`zones_process_update` (zones.c 2714-2718): result, `*rsize`, history. -/
def zones_process_update_error (O : Oracle) (ret : knot_error) (rcode rsize : Nat)
    (tr : Trace) : knot_error × Nat × Trace :=
  if ret ≠ KNOT_EOK then
    let (ret, _, rsize, tr) :=
      call_out O tr (Call.knot_ns_error_response_from_query rcode) rcode rsize
    (ret, rsize, tr)
  else (ret, rsize, tr)

/-- The end of `zones_process_update` (zones.c 2721-2756): add the TSIG
record to the response, or sign it, when there is a response to a query with
a TSIG record and no FORMERR.  The allocation of the digest is taken to
succeed. -/
def zones_process_update_tsig (O : Oracle) (query : knot_packet_t) (ret : knot_error)
    (rcode tsig_rcode : Nat) (tsig_key_zone : Option knot_tsig_key_t)
    (tsig_prev_time_signed rsize : Nat) (tr : Trace) : knot_error × Nat × Trace :=
  let tsig_rr := knot_packet_tsig query
  if rsize = 0 ∨ tsig_rr.isNone ∨ rcode = KNOT_RCODE_FORMERR then (ret, rsize, tr)
  else if tsig_rcode ≠ 0 ∧ tsig_rcode ≠ KNOT_RCODE_BADTIME then
    let (_, _, rsize, tr) := call_out O tr (Call.knot_tsig_add tsig_rcode) rcode rsize
    (KNOT_EOK, rsize, tr)
  else
    match tsig_key_zone with
    | some _ =>
      let (_, _, rsize, tr) :=
        call_out O tr (Call.knot_tsig_sign tsig_rcode tsig_prev_time_signed) rcode rsize
      (KNOT_EOK, rsize, tr)
    | none => (KNOT_EOK, rsize, tr)

/-- The rest of `zones_process_update` for an UPDATE that is not forwarded
(zones.c 2679-2756): the DDNS checks, the processing of the update, the error
response and the TSIG of the response.  The external functions are recorded
calls (`zones_process_update_auth` too), with what they write to `rcode` and
`rsize` given by the oracle.  The result is the result code and `*rsize`. -/
def zones_process_update_answer (O : Oracle) (query : knot_packet_t) (ret : knot_error)
    (rcode tsig_rcode : Nat) (tsig_key_zone : Option knot_tsig_key_t)
    (tsig_prev_time_signed rsize : Nat) (tr : Trace) : knot_error × Nat × Trace :=
  let (ret, rcode, _, tr) := call_if_ok O ret Call.knot_ddns_check_zone rcode rsize tr
  let (ret, rcode, _, tr) := call_if_ok O ret Call.knot_ddns_process_prereqs rcode rsize tr
  let (ret, rcode, _, tr) := call_if_ok O ret Call.knot_ddns_check_prereqs rcode rsize tr
  let (ret, rcode, rsize, tr) :=
    call_if_ok O ret Call.zones_process_update_auth rcode rsize tr
  let (ret, rsize, tr) := zones_process_update_error O ret rcode rsize tr
  zones_process_update_tsig O query ret rcode tsig_rcode tsig_key_zone
    tsig_prev_time_signed rsize tr

/-- Process an UPDATE query: forward it to the master, or answer it.  `rsize`
is the value behind the pointer at entry; the result carries the result code
and `*rsize` as the call leaves it.  `none`: the zone that passes the checks
has no zone data (`zd->xfr_in` dereferences `NULL`). -/
def zones_process_update (U : update_api) (T : tsig_api) (O : Oracle)
    (query : knot_packet_t) (addr : sockaddr_t) (rsize : Nat) (fd : Int)
    (transport : knot_ns_transport_t) (tr : Trace) : Option (knot_error × Nat × Trace) :=
  match zones_process_update_checks U T query addr rsize transport with
  | ((ret, rcode, tsig_rcode, tsig_key_zone, tsig_prev_time_signed), zone) =>
    match zones_process_update_pass zone ret tsig_key_zone with
    | some z =>
      match knot_zone_data (some z) with
      | none => none
      | some zd =>
        if zd.xfr_in.has_master then
          match zones_update_forward O fd transport z addr query rsize tr with
          | none => none
          | some (ret, tr) => some (ret, 0, tr)
        else
          some (zones_process_update_answer O query ret rcode tsig_rcode tsig_key_zone
            tsig_prev_time_signed rsize tr)
    | none =>
      some (zones_process_update_answer O query ret rcode tsig_rcode tsig_key_zone
        tsig_prev_time_signed rsize tr)

/-! ## The response to a forwarded UPDATE and SOA responses
(zones.c 2760-2875, 3668-3687) -/

/-- Modelled from the spec: `knot_wire_set_id` (libknot wire format, not in
src/) sets the transaction ID of a DNS message in wire format, which is its
first two octets in network byte order. -/
def knot_wire_set_id (packet : List Nat) (id : Nat) : List Nat :=
  [id / 256 % 256, id % 256] ++ packet.drop 2

/-- Modelled from the spec: `knot_wire_get_id` reads the transaction ID, the
first two octets of the message in network byte order. -/
def knot_wire_get_id (packet : List Nat) : Nat :=
  packet.headD 0 * 256 + (packet.drop 1).headD 0

/-- Process the response to a forwarded UPDATE: put the message id of the
original query into the response and send it to the original client.  The
result carries the response and `*rsize` as the call leaves them.  `send` is
the callback `data->send`; its `int` result is compared with the `size_t`
`*rsize`, that is, after conversion to 64 bits unsigned.  `none`: the
response is shorter than the two octets of the id. -/
def zones_process_update_response (O : Oracle) (data : knot_ns_xfr_t) (rwire : List Nat)
    (rsize : Nat) (tr : Trace) : Option (knot_error × List Nat × Nat × Trace) :=
  if rwire.length < 2 then none
  else
    let rwire := knot_wire_set_id rwire (data.packet_nr % 2 ^ 16).toNat
    let c := Call.send data.fwd_src_fd data.fwd_addr rwire rsize
    let ret : Int := O.count tr c
    let tr := call_void tr c
    let ret := if (ret % 2 ^ 64).toNat ≠ rsize then KNOT_ECONN else KNOT_EOK
    some (ret, rwire, 0, tr)

/-- A zone database: the zones it holds. -/
structure knot_zonedb_t where
  zones : List knot_zone_t
  deriving DecidableEq, Repr

/-- The name server: the current zone database (`NULL`: none). -/
structure knot_nameserver_t where
  zone_db : Option knot_zonedb_t
  deriving DecidableEq, Repr

/-- Modelled from the spec: `knot_zonedb_find_zone` (zone database, not in
src/) looks a zone up by its owner name; `NULL` without a database or
without such a zone. -/
def knot_zonedb_find_zone (db : Option knot_zonedb_t) (name : List Nat) :
    Option knot_zone_t :=
  match db with
  | none => none
  | some db => db.zones.find? (fun z => decide (z.name = name))

/-- Modelled from the spec: `REFRESH_DEFAULT` (zones.h, not in src/) asks
`zones_schedule_refresh` for the refresh time of the zone; it is a negative
time. -/
def REFRESH_DEFAULT : Int := -1

/-- Type of the question of a packet. -/
def knot_packet_qtype (packet : knot_packet_t) : Nat := packet.qtype

/-- RCODE of a packet. -/
def knot_packet_rcode (packet : knot_packet_t) : Nat := packet.rcode

/-- Name of the question of a packet. -/
def knot_packet_qname (packet : knot_packet_t) : List Nat := packet.qname

/-- Message id of a packet, 16 bits. -/
def knot_packet_id (packet : knot_packet_t) : Nat := packet.id % 2 ^ 16

/-- External function of the transfer client (xfr-in, not in src/), as a
parameter: `xfrin_transfer_needed` compares the serial of the SOA in the
response with the serial of the zone; negative for an error, 0 for no
transfer needed, positive for a transfer needed. -/
structure response_api where
  xfrin_transfer_needed : knot_zone_contents_t → knot_packet_t → Int

/-- Decide between AXFR-in and IXFR-in for a zone. -/
def zones_transfer_to_use (data : Option zonedata_t) : knot_ns_xfr_type_t :=
  match data with
  | none => XFR_TYPE_AIN
  | some data => if data.ixfr_db.isNone then XFR_TYPE_AIN else XFR_TYPE_IIN

/-- The transfer task that `zones_process_response` prepares (zones.c
2843-2853): a task of the given type over TCP to the master, with the TSIG
key of the zone if it has one. -/
def zones_process_response_request (zd : zonedata_t) (rqtype : knot_ns_xfr_type_t) :
    knot_ns_xfr_t :=
  let rq : knot_ns_xfr_t :=
    { type := rqtype, flags := XFR_FLAG_TCP, addr := none, saddr := none, tsig_key := none }
  let rq := xfr_task_setaddr rq zd.xfr_in.master zd.xfr_in.via
  if zd.xfr_in.tsig_key.name.isSome then { rq with tsig_key := some zd.xfr_in.tsig_key }
  else rq

/-- Process the response to a query of the server; for a SOA response, start
a transfer if the master has a newer serial.  The arguments that are
pointers are `Option`s.  The result carries `*rsize` and the zone of the
response as the call leaves them (`none`: no zone was looked up).
`xfr_task_create` returning `NULL` is a result other than `KNOT_EOK` of the
recorded call. -/
def zones_process_response (R : response_api) (T : timers_api) (O : Oracle)
    (nameserver : Option knot_nameserver_t) (exp_msgid : Int) (sfrom : Option sockaddr_t)
    (packet : Option knot_packet_t) (response_wire : Option (List Nat))
    (rsize : Option Nat) (tr : Trace) :
    knot_error × Option Nat × Option knot_zone_t × Trace :=
  match packet, rsize, nameserver, sfrom, response_wire with
  | some packet, some _, some nameserver, some _, some _ =>
    let rsize : Option Nat := some 0
    if knot_packet_qtype packet = KNOT_RRTYPE_SOA then
      if knot_packet_rcode packet ≠ KNOT_RCODE_NOERROR then (KNOT_ERROR, rsize, none, tr)
      else
        let zone := knot_zonedb_find_zone nameserver.zone_db (knot_packet_qname packet)
        match zone, knot_zone_data zone, knot_zone_contents zone with
        | some z, some zd, some contents =>
          let pkt_id := knot_packet_id packet
          if (pkt_id : Int) ≠ exp_msgid then (KNOT_ERROR, rsize, zone, tr)
          else
            let ret := R.xfrin_transfer_needed contents packet
            if ret < 0 then (KNOT_ERROR, rsize, zone, tr)
            else if ret = 0 then
              let (_, zone, tr) := zones_schedule_refresh T zone REFRESH_DEFAULT tr
              (KNOT_EUPTODATE, rsize, zone, tr)
            else if zd.xfr_in.state = XFR_PENDING then (KNOT_EOK, rsize, zone, tr)
            else
              let zd := zonedata_set_state zd XFR_PENDING
              let rqtype := zones_transfer_to_use (some zd)
              let (created, tr) := call O tr (Call.xfr_task_create rqtype XFR_FLAG_TCP)
              if created ≠ KNOT_EOK then
                (KNOT_ENOMEM, rsize, some { z with data := some zd }, tr)
              else
                let rq := zones_process_response_request zd rqtype
                let (ret, tr) := call O tr (Call.xfr_enqueue rq)
                if ret ≠ KNOT_EOK then
                  let tr := call_void tr (Call.xfr_task_free rq)
                  let zd := zonedata_set_state zd XFR_SCHED
                  (KNOT_EOK, rsize, some { z with data := some zd }, tr)
                else (KNOT_EOK, rsize, some { z with data := some zd }, tr)
        | _, _, _ => (KNOT_EINVAL, rsize, zone, tr)
    else (KNOT_EOK, rsize, none, tr)
  | _, _, _, _, _ => (KNOT_EINVAL, rsize, none, tr)

/-! ## Serial arithmetic and lookup tables (libknot/internal/utils.h) -/

/-- Modelled from the spec: `KNOT_CHANGESET_TYPE_IXFR` (libknot changesets,
not in src/), `1 << 0`. -/
def KNOT_CHANGESET_TYPE_IXFR : Nat := 1

/-- Modelled from the spec: `knot_changesets_create` (libknot changesets,
not in src/) returns an empty set with the given flags; a failed allocation
is not modelled. -/
def knot_changesets_create (flags : Nat) : knot_changesets_t :=
  { sets := [], flags := flags }

/-- Modelled from the spec: `serial_compare` (libknot/internal/utils.h, not
in src/) compares two 32-bit serials modulo 2^32 per RFC 1982: equal serials
compare 0; `s1` is greater than `s2` when `s1 < s2` and `s2 - s1 > 2^31`, or
`s1 > s2` and `s1 - s2 < 2^31`, and the result is 1; in every other case,
the distance of exactly 2^31 included (tests/utils.c 101-105), the result is
-1. -/
def serial_compare (s1 s2 : Nat) : Int :=
  if s1 = s2 then 0
  else if (s1 < s2 ∧ s2 - s1 > 2 ^ 31) ∨ (s1 > s2 ∧ s1 - s2 < 2 ^ 31) then 1
  else -1

/-- Modelled from the spec: `ns_serial_compare` (libknot name server, not in
src/) is `serial_compare`. -/
def ns_serial_compare (s1 s2 : Nat) : Int := serial_compare s1 s2

/-- Load the changesets of an outgoing IXFR (zones.c 3291-3322).
`xfr_zone` is `xfr->zone`; the result carries `xfr->data`, which the call
finds as `data`.  Nothing is loaded when `serial_to` is not larger than
`serial_from`.  `none`: see `zones_load_changesets`. -/
def zones_xfr_load_changesets (C : rrset_codec) (J : journal_api) (O : Oracle) (fuel : Nat)
    (xfr : Option knot_ns_xfr_t) (xfr_zone : Option knot_zone_t)
    (data : Option knot_changesets_t) (serial_from serial_to : Nat) (tr : Trace) :
    Option (knot_error × Option knot_changesets_t × Trace) :=
  if xfr.isNone ∨ xfr_zone.isNone ∨ (knot_zone_contents xfr_zone).isNone then
    some (KNOT_EINVAL, data, tr)
  else
    let chgsets := knot_changesets_create KNOT_CHANGESET_TYPE_IXFR
    let ret := ns_serial_compare serial_to serial_from
    if ret ≤ 0 then some (KNOT_EOK, some chgsets, tr)
    else
      match zones_load_changesets C J O fuel xfr_zone (some chgsets) serial_from serial_to tr with
      | none => none
      | some (ret, chgsets, tr) =>
        if ret ≠ KNOT_EOK then some (ret, data, tr)
        else some (KNOT_EOK, chgsets, tr)

/-- An entry of a lookup table: an id and a name (`NULL`: the terminator). -/
structure lookup_table_t where
  id : Int
  name : Option String
  deriving DecidableEq, Repr

/-- The search of `lookup_by_id` from an entry of the array on.  `none`: the
array has no terminator and the search runs past its end. -/
def lookup_by_id_from : List lookup_table_t → Int → Option (Option lookup_table_t)
  | [], _ => none
  | e :: rest, id =>
    if e.name.isNone then some none
    else if e.id = id then some (some e)
    else lookup_by_id_from rest id

/-- Modelled from the spec: `lookup_by_id` (libknot/internal/utils.h, not in
src/) returns the first entry before the terminator whose id is the given
one, `NULL` without such an entry or for a `NULL` table. -/
def lookup_by_id (table : Option (List lookup_table_t)) (id : Int) :
    Option (Option lookup_table_t) :=
  match table with
  | none => some none
  | some table => lookup_by_id_from table id

/-- The search of `lookup_by_name` from an entry of the array on. -/
def lookup_by_name_from : List lookup_table_t → String → Option (Option lookup_table_t)
  | [], _ => none
  | e :: rest, name =>
    match e.name with
    | none => some none
    | some n => if n = name then some (some e) else lookup_by_name_from rest name

/-- Modelled from the spec: `lookup_by_name` (libknot/internal/utils.h, not
in src/) returns the first entry before the terminator whose name equals the
given string, `NULL` without such an entry or when the table or the name is
`NULL`. -/
def lookup_by_name (table : Option (List lookup_table_t)) (name : Option String) :
    Option (Option lookup_table_t) :=
  match table, name with
  | some table, some name => lookup_by_name_from table name
  | _, _ => some none

/-- The table of tests/utils.c. -/
def test_table : List lookup_table_t :=
  [{ id := 0, name := some "test item 0" },
   { id := 10, name := some "" },
   { id := 2, name := some "test item 2" },
   { id := -1, name := some "test item -1" },
   { id := 0, name := none }]

/-- The table of descriptions of record types of exec.c (33-49); the values
of `KNOT_RRTYPE_*` are the type numbers of the DNS. -/
def rtypes : List lookup_table_t :=
  [{ id := 1, name := some "has IPv4 address" },
   { id := 2, name := some "nameserver is" },
   { id := 5, name := some "is an alias for" },
   { id := 6, name := some "start of authority is" },
   { id := 12, name := some "points to" },
   { id := 15, name := some "mail is handled by" },
   { id := 16, name := some "description is" },
   { id := 28, name := some "has IPv6 address" },
   { id := 29, name := some "location is" },
   { id := 43, name := some "delegation signature is" },
   { id := 44, name := some "SSH fingerprint is" },
   { id := 46, name := some "RR set signature is" },
   { id := 48, name := some "DNSSEC key is" },
   { id := 52, name := some "has TLS certificate" },
   { id := 0, name := none }]

/-! ## Printing the options of an OPT record (utils/common/exec.c 179-221) -/

/-- Modelled from the spec: `knot_wire_read_u16` (not in src/) reads two
octets in network order; `none`: an octet outside the buffer. -/
def knot_wire_read_u16 (data : List Nat) (pos : Nat) : Option Nat :=
  match data.get? pos, data.get? (pos + 1) with
  | some hi, some lo => some ((hi % 256) * 256 + lo % 256)
  | _, _ => none

/-- `KNOT_EDNS_OPTION_NSID` (RFC 5001). -/
def KNOT_EDNS_OPTION_NSID : Nat := 3

/-- What the option loop of `print_section_opt` prints: the texts, and for
`short_hex_print(opt_data, opt_len)` and `txt_print(opt_data, opt_len)` the
offset of `opt_data` in the RDATA and the length that is read from there. -/
inductive print_call_t where
  | printf_nsid
  | printf_nsid_text
  | printf_option (opt_code : Nat)
  | short_hex_print (offset : Nat) (len : Nat)
  | txt_print (offset : Nat) (len : Nat)
  | printf_newline
  deriving DecidableEq, Repr

/-- The loop `while (pos < data_len - 4)` of `print_section_opt` (exec.c
203-220) over the RDATA `data` of length `data_len`, from position `pos`
(an `int`, as is `data_len - 4` after promotion).  `none`: the iteration
bound is used up, or an option header is read outside the RDATA. -/
def print_section_opt_loop : Nat → List Nat → Int → List print_call_t →
    Option (List print_call_t)
  | 0, _, _, _ => none
  | fuel + 1, data, pos, out =>
    let data_len : Int := (data.length % 2 ^ 16 : Nat)
    if pos < data_len - 4 then
      match knot_wire_read_u16 data pos.toNat, knot_wire_read_u16 data (pos.toNat + 2) with
      | some opt_code, some opt_len =>
        let opt_data := pos.toNat + 4
        let out :=
          if opt_code = KNOT_EDNS_OPTION_NSID then
            out ++ [print_call_t.printf_nsid, print_call_t.short_hex_print opt_data opt_len,
                    print_call_t.printf_nsid_text, print_call_t.txt_print opt_data opt_len]
          else
            out ++ [print_call_t.printf_option opt_code,
                    print_call_t.short_hex_print opt_data opt_len]
        print_section_opt_loop fuel data (pos + 4 + opt_len) (out ++ [print_call_t.printf_newline])
      | _, _ => none
    else some out

/-- The option loop of `print_section_opt` on the RDATA of the record, from
`pos = 0`. -/
def print_section_opt (fuel : Nat) (data : List Nat) : Option (List print_call_t) :=
  print_section_opt_loop fuel data 0 []

/-! ## Resizing a unit of threads (server/dthreads.c 338-472) -/

/-- Modelled from the spec: the bits of `dt_state_t` (dthreads.h, not in
src/): `ThreadJoined = 1 << 0`, `ThreadJoinable = 1 << 1`,
`ThreadCancelled = 1 << 2`, `ThreadDead = 1 << 3`, `ThreadIdle = 1 << 4`,
`ThreadActive = 1 << 5`. -/
def ThreadJoined : Nat := 1

/-- Modelled from the spec: `ThreadJoinable = 1 << 1`. -/
def ThreadJoinable : Nat := 2

/-- Modelled from the spec: `ThreadCancelled = 1 << 2`. -/
def ThreadCancelled : Nat := 4

/-- Modelled from the spec: `ThreadDead = 1 << 3`. -/
def ThreadDead : Nat := 8

/-- Modelled from the spec: `ThreadIdle = 1 << 4`. -/
def ThreadIdle : Nat := 16

/-- Modelled from the spec: `ThreadActive = 1 << 5`. -/
def ThreadActive : Nat := 32

/-- `SIGALRM`. -/
def SIGALRM : Nat := 14

/-- A thread of a unit: `id` stands for the address of the `dthread_t`. -/
structure dthread_t where
  id : Nat
  state : Nat
  deriving DecidableEq, Repr

/-- A unit of threads: `threads` is the vector of `size` pointers, `none` a
null pointer. -/
structure dt_unit_t where
  size : Int
  threads : List (Option dthread_t)
  deriving DecidableEq, Repr

/-- One pass of the inner loop of the shrinking branch of `dt_resize`
(dthreads.c 390-444) over the entries of the old vector that are still to be
visited.  Arguments after the old vector: the new vector `threads`,
`remaining`, `inspected` and the trace.  The result has the old vector after
the pass first.  A thread that is stopped has its state set to
`ThreadDead | ThreadCancelled`, is signalled, joined and deleted; locks are
not modelled. -/
def dt_resize_inspect (size : Int) (threshold : Nat) :
    List (Option dthread_t) → List (Option dthread_t) → Int → Int → Trace →
    List (Option dthread_t) × List (Option dthread_t) × Int × Int × Trace
  | [], threads, remaining, inspected, tr => ([], threads, remaining, inspected, tr)
  | none :: rest, threads, remaining, inspected, tr =>
    let r := dt_resize_inspect size threshold rest threads remaining inspected tr
    (none :: r.1, r.2)
  | some thread :: rest, threads, remaining, inspected, tr =>
    let inspected := inspected + 1
    if remaining > 0 then
      if threshold = 0 ∨ thread.state &&& threshold ≠ 0 then
        let threads := threads.set (size - remaining).toNat (some thread)
        let r := dt_resize_inspect size threshold rest threads (remaining - 1) inspected tr
        (none :: r.1, r.2)
      else
        let r := dt_resize_inspect size threshold rest threads remaining inspected tr
        (some thread :: r.1, r.2)
    else
      let tr := call_void tr (Call.dt_signalize thread.id SIGALRM)
      let tr := call_void tr Call.pthread_cond_broadcast
      let tr := call_void tr (Call.pthread_join thread.id)
      let tr := call_void tr (Call.dt_delete_thread thread.id)
      let r := dt_resize_inspect size threshold rest threads remaining inspected tr
      (none :: r.1, r.2)

/-- The `switch (threshold)` that lowers the threshold (dthreads.c 450-460). -/
def dt_resize_lower (threshold : Nat) : Nat :=
  if threshold = ThreadActive then ThreadIdle
  else if threshold = ThreadIdle then ThreadDead
  else ThreadJoined

/-- The loop `for(;;)` of the shrinking branch of `dt_resize` (dthreads.c
387-461): passes over the old vector until one inspects no thread.  `none`:
the bound on the number of passes is used up. -/
def dt_resize_loop : Nat → Int → Nat → List (Option dthread_t) → List (Option dthread_t) →
    Int → Trace → Option (List (Option dthread_t) × List (Option dthread_t) × Int × Trace)
  | 0, _, _, _, _, _, _ => none
  | fuel + 1, size, threshold, old, threads, remaining, tr =>
    let r := dt_resize_inspect size threshold old threads remaining 0 tr
    if r.2.2.2.1 = 0 then some (r.1, r.2.1, r.2.2.1, r.2.2.2.2)
    else dt_resize_loop fuel size (dt_resize_lower threshold) r.1 r.2.1 r.2.2.1 r.2.2.2.2

/-- `dt_resize(unit, size)` (dthreads.c 338-472).  `create i` is the thread
that `dt_create_thread` returns for slot `i`.  Results: the return value,
the unit and the trace.  `none`: the vector does not have `unit->size`
entries, the requested size is not positive, or the bound on the number of
passes is used up; failures of `realloc` and `malloc` are not modelled. -/
def dt_resize (create : Nat → Option dthread_t) (fuel : Nat) (unit : dt_unit_t) (size : Int)
    (tr : Trace) : Option (Int × dt_unit_t × Trace) :=
  if unit.size ≠ unit.threads.length ∨ size ≤ 0 then none
  else
    let delta := unit.size - size
    if delta = 0 then some (0, unit, tr)
    else if delta < 0 then
      let threads := unit.threads
        ++ (List.range' unit.size.toNat (size - unit.size).toNat).map create
      some (0, { unit with threads := threads, size := size }, tr)
    else
      let remaining := size
      let threads : List (Option dthread_t) := List.replicate size.toNat none
      let threshold := ThreadActive
      match dt_resize_loop fuel size threshold unit.threads threads remaining tr with
      | none => none
      | some (_, threads, _, tr) => some (0, { unit with size := size, threads := threads }, tr)

/-! ## Reloading the zones of the configuration (zones.c 121-186, 545-654,
948-1039, 1149-1760, 2118-2193, 3326-3361, 3630-3665) -/

/-- Modelled from the spec: `sockaddr_init(addr, -1)` (common/sockaddr.c,
not in src/) leaves an address of no family. -/
def sockaddr_init : sockaddr_t := { family := 0, addr := [], port := 0 }

/-- The configuration: the list of configured zones. -/
structure conf_t where
  zones : List conf_zone_t
  deriving DecidableEq, Repr

/-- External functions used by a reload that have no effect recorded in the
trace (zone loader, file system, journal, DNSSEC and libknot; not in src/),
as parameters.  `stat` gives the modification time of a file (`none`: it
fails); `knot_zload_open source origin checks` is the result of opening the
loader and `knot_zload_load source` the zone that the opened loader builds;
`bootstrap_retry` is `XFRIN_BOOTSTRAP_DELAY * tls_rand()`;
`sockaddr_set address port` is the result of `sockaddr_set` and the address
it leaves; `knot_zone_contents_create_diff` and `knot_dnssec_zone_sign`
return the changeset as they leave it, the latter also `expires_at`; `time`
is `time(NULL)`.  The file system does not change during the reload. -/
structure reload_api where
  stat : List Nat → Option Int
  knot_zload_open : List Nat → List Nat → Bool → knot_error
  knot_zload_load : List Nat → Option knot_zone_t
  knot_zone_new_empty : List Nat → Option knot_zone_t
  journal_open : List Nat → Nat → Option journal_t
  bootstrap_retry : Nat
  sockaddr_set : sockaddr_t → Nat → Int × sockaddr_t
  knot_zone_contents_create_diff : knot_zone_contents_t → knot_zone_contents_t →
    knot_changeset_t → knot_error × knot_changeset_t
  knot_dnssec_zone_sign : knot_zone_t → knot_changeset_t →
    knot_error × knot_changeset_t × Nat
  time : Nat

/-- Zone data constructor function (zones.c 121-186).  The result carries
the zone with its new zone data; a failed allocation is not modelled. -/
def zonedata_init (R : reload_api) (J : journal_api) (cfg : conf_zone_t) (zone : knot_zone_t) :
    knot_error × knot_zone_t :=
  let zd : zonedata_t :=
    { conf := cfg,
      xfr_in := { acl := none, master := sockaddr_init, via := { family := 0, addr := [], port := 0 },
                  tsig_key := { name := none, algorithm := 0, secret := [] },
                  timer := none, expire := none, state := XFR_IDLE, has_master := false,
                  bootstrap_retry := R.bootstrap_retry },
      xfr_out := none, notify_in := none, notify_out := none, update_in := none,
      ixfr_db := R.journal_open cfg.ixfr_db cfg.ixfr_fslimit,
      ixfr_dbsync := none, zonefile_serial := 0, dnssec_timer := none }
  match knot_zone_contents (some zone) with
  | some contents =>
    let serial := J.knot_rdata_soa_serial contents.apex_soa
    let zd := { zd with zonefile_serial := (serial % 2 ^ 32).toNat }
    if serial < 0 then (KNOT_EINVAL, { zone with data := some zd })
    else (KNOT_EOK, { zone with data := some zd })
  | none => (KNOT_EOK, { zone with data := some zd })

/-- Update ACL list from configuration (zones.c 545-579): the old ACL is
deleted and a new one holds a rule for each remote whose address
`sockaddr_set` accepts.  `acl_insert` (acl.c, not in src/) is taken to
append the rule; prefixes are not modelled. -/
def zones_set_acl (R : reload_api) (acl_list : List conf_iface_t) : knot_error × Option acl_t :=
  (KNOT_EOK, some { rules := acl_list.filterMap (fun cfg_if =>
    let r := R.sockaddr_set cfg_if.address 0
    if r.1 > 0 then some { addr := r.2, val := some cfg_if } else none) })

/-- Load a zone from its zone file (zones.c 593-654).  The result carries
`*dst`.  `knot_zone_deep_free` (libknot, not in src/) is taken to leave
`NULL` in `*dst`. -/
def zones_load_zone (R : reload_api) (dst : Option knot_zone_t)
    (zone_name source : Option (List Nat)) (enable_checks : Bool) :
    knot_error × Option knot_zone_t :=
  match zone_name, source with
  | some zone_name, some source =>
    if R.knot_zload_open source zone_name enable_checks = KNOT_EOK then
      match R.knot_zload_load source with
      | none => (KNOT_ERROR, none)
      | some zone =>
        if zone.name ≠ zone_name then (KNOT_EZONEINVAL, none)
        else
          match R.stat source with
          | none => (KNOT_EZONEINVAL, none)
          | some mtime => (KNOT_EOK, some { zone with version := mtime })
    else (KNOT_EZONEINVAL, none)
  | _, _ => (KNOT_EINVAL, dst)

/-- Apply the changesets of the journal to a zone just loaded (zones.c
948-1039).  The result carries the zone as the call leaves it.  `none`: see
`zones_load_changesets`. -/
def zones_journal_apply (C : rrset_codec) (J : journal_api) (O : Oracle) (fuel : Nat)
    (zone : Option knot_zone_t) (tr : Trace) :
    Option (knot_error × Option knot_zone_t × Trace) :=
  match zone with
  | none => some (KNOT_EINVAL, none, tr)
  | some zone =>
    match zone.contents, zone.data with
    | some contents, some _ =>
      let serial_ret := J.knot_rdata_soa_serial contents.apex_soa
      if serial_ret < 0 then some (KNOT_EINVAL, some zone, tr)
      else
        let serial : Nat := (serial_ret % 2 ^ 32).toNat
        let chsets := knot_changesets_create KNOT_CHANGESET_TYPE_IXFR
        match zones_load_changesets C J O fuel (some zone) (some chsets) serial
            ((serial + 2 ^ 32 - 1) % 2 ^ 32) tr with
        | none => none
        | some (ret, chsets, tr) =>
          if ret = KNOT_EOK ∨ ret = KNOT_ERANGE then
            match chsets with
            | none => none
            | some chsets =>
              if chsets.sets ≠ [] then
                let (apply_ret, contents, tr) := xfrin_apply_changesets O chsets none tr
                if apply_ret ≠ KNOT_EOK then some (KNOT_ERROR, some zone, tr)
                else
                  let (apply_ret, zone, tr) := xfrin_switch_zone O zone contents XFR_TYPE_IIN tr
                  if apply_ret = KNOT_EOK then
                    some (ret, some zone, call_void tr Call.xfrin_cleanup_successful_update)
                  else some (KNOT_ERROR, some zone, call_void tr Call.xfrin_rollback_update)
              else some (ret, some zone, tr)
          else some (ret, some zone, tr)
    | _, _ => some (KNOT_ENOENT, some zone, tr)

/-- The time in milliseconds until `exp` (zones.c 1149-1158).  `none`: the
assertion `t < exp` fails. -/
def expiration_to_relative (R : reload_api) (exp : Nat) : Option Int :=
  if R.time < exp then some (((exp : Int) - R.time) * 1000) else none

/-- Schedule the next signing of the zone (zones.c 3630-3665).  The delay is
handed to the scheduler as a 32-bit unsigned value; `zd->server->sched` is
not modelled.  The result carries the zone as the call leaves it. -/
def zones_schedule_dnssec (zone : Option knot_zone_t) (time : Int) (force : Bool) (tr : Trace) :
    knot_error × Option knot_zone_t × Trace :=
  match zone with
  | none => (KNOT_EINVAL, none, tr)
  | some zone =>
    match zone.data with
    | none => (KNOT_EINVAL, some zone, tr)
    | some zd =>
      let tr :=
        match zd.dnssec_timer with
        | some tmr =>
          call_void (call_void tr (Call.evsched_cancel tmr)) (Call.evsched_event_free tmr)
        | none => tr
      let cb :=
        if force then event_cb_t.zones_dnssec_forced_ev else event_cb_t.zones_dnssec_regular_ev
      let tr := call_void tr (Call.evsched_schedule_cb cb ((time % 2 ^ 32).toNat))
      (KNOT_EOK, some { zone with data := some { zd with dnssec_timer := some { cb := cb } } }, tr)

/-- Create the changeset between the contents of two zones (zones.c
3326-3361).  The result carries the changeset as the call leaves it. -/
def zones_create_changeset (R : reload_api) (old_zone new_zone : Option knot_zone_t)
    (changeset : Option knot_changeset_t) : knot_error × Option knot_changeset_t :=
  match old_zone, new_zone, changeset with
  | some old_zone, some new_zone, some changeset =>
    match old_zone.contents, new_zone.contents with
    | some old_contents, some new_contents =>
      let (ret, changeset) :=
        R.knot_zone_contents_create_diff old_contents new_contents changeset
      if ret ≠ KNOT_EOK then
        if ret = KNOT_ERANGE then (KNOT_ERANGE, some changeset)
        else if ret = KNOT_ENODIFF then (KNOT_ENODIFF, some changeset)
        else (KNOT_ERROR, some changeset)
      else (KNOT_EOK, some changeset)
    | _, _ => (KNOT_EINVAL, some changeset)
  | _, _, _ => (KNOT_EINVAL, changeset)

/-- The step "Calculate differences" of `zones_do_diff_and_sign` (zones.c
1168-1211).  The first component is the result with which the function
returns from inside the step, if it does; the second is `diff_chs`. -/
def zones_do_diff_and_sign_diff (R : reload_api) (z : conf_zone_t) (zone : knot_zone_t)
    (ns : knot_nameserver_t) (origin : List Nat) (zone_changed : Bool) :
    Option knot_error × Option knot_changesets_t :=
  let z_old := knot_zonedb_find_zone ns.zone_db origin
  let zc := knot_zone_contents (some zone)
  let zc_old := knot_zone_contents z_old
  if z.build_diffs ∧ zc.isSome ∧ zc_old.isSome ∧ zone_changed then
    let diff_chs := knot_changesets_create KNOT_CHANGESET_TYPE_IXFR
    let (diff_ch, diff_chs) := knot_changesets_create_changeset diff_chs
    let (ret, diff_ch) := zones_create_changeset R z_old (some zone) (some diff_ch)
    let diff_chs := { diff_chs with sets := diff_chs.sets.dropLast ++ diff_ch.toList }
    if ret ≠ KNOT_EOK ∧ ret ≠ KNOT_ENODIFF then (some ret, none)
    else (none, some diff_chs)
  else (none, none)

/-- The step "Run DNSSEC signing if enabled" of `zones_do_diff_and_sign`
(zones.c 1213-1261).  The first component is the result with which the
function returns from inside the step, if it does; then come `sec_chs`, the
zone and the trace.  `none`: the assertion of `expiration_to_relative`
fails. -/
def zones_do_diff_and_sign_sign (R : reload_api) (z : conf_zone_t) (zone : knot_zone_t)
    (tr : Trace) :
    Option (Option knot_error × Option knot_changesets_t × knot_zone_t × Trace) :=
  if z.dnssec_enable then
    let sec_chs := knot_changesets_create KNOT_CHANGESET_TYPE_IXFR
    let (sec_ch, sec_chs) := knot_changesets_create_changeset sec_chs
    let (ret, sec_ch, expires_at) := R.knot_dnssec_zone_sign zone sec_ch
    let sec_chs := { sec_chs with sets := sec_chs.sets.dropLast ++ [sec_ch] }
    if ret ≠ KNOT_EOK then some (some ret, none, zone, tr)
    else
      match expiration_to_relative R expires_at with
      | none => none
      | some time =>
        match zones_schedule_dnssec (some zone) time false tr with
        | (ret, some zone, tr) =>
          if ret ≠ KNOT_EOK then some (some ret, none, zone, tr)
          else some (none, some sec_chs, zone, tr)
        | (_, none, _) => none
  else some (none, none, zone, tr)

/-- The signing changeset `sec_ch` as `zones_merge_and_store_changesets`
leaves it: it is handed to `knot_changeset_merge` when neither set is
empty. -/
def zones_merged_sec_ch (A : changesets_api) (diff_chs sec_chs : Option knot_changesets_t) :
    Option knot_changeset_t :=
  match sec_chs with
  | none => none
  | some s =>
    if ¬ zones_changesets_empty A diff_chs ∧ ¬ zones_changesets_empty A sec_chs then
      match diff_chs.bind knot_changesets_get_last, knot_changesets_get_last s with
      | some diff_ch, some sec_ch => some (A.knot_changeset_merge diff_ch sec_ch).2.2
      | _, _ => knot_changesets_get_last s
    else knot_changesets_get_last s

/-- The steps of `zones_do_diff_and_sign` from "Merge changesets created by
diff and sign" on (zones.c 1263-1333).  `knot_changeset_is_empty(NULL)`
(libknot, not in src/) is taken to be true.  `none`: an assertion fails. -/
def zones_do_diff_and_sign_store (A : changesets_api) (C : rrset_codec) (O : Oracle)
    (zone : knot_zone_t) (diff_chs sec_chs : Option knot_changesets_t) (tr : Trace) :
    Option (knot_error × knot_zone_t × Trace) :=
  match zones_merge_and_store_changesets A C O zone diff_chs sec_chs none tr with
  | none => none
  | some (ret, transaction, tr) =>
    if ret ≠ KNOT_EOK then some (ret, zone, tr)
    else
      match zones_merged_sec_ch A diff_chs sec_chs, sec_chs with
      | some sec_ch, some sec_chs =>
        if ¬ A.knot_changeset_is_empty sec_ch then
          let (ret, new_contents, tr) := xfrin_apply_changesets O sec_chs none tr
          if ret ≠ KNOT_EOK then
            let (_, tr) := zones_store_changesets_rollback O transaction tr
            some (ret, zone, tr)
          else
            match new_contents with
            | none => none
            | some new_contents =>
              let (ret, tr) :=
                if transaction.isSome then zones_store_changesets_commit O transaction tr
                else (ret, tr)
              if ret ≠ KNOT_EOK then some (ret, zone, tr)
              else
                let (ret, zone, tr) :=
                  xfrin_switch_zone O zone (some new_contents) XFR_TYPE_DNSSEC tr
                if ret ≠ KNOT_EOK then some (ret, zone, call_void tr Call.xfrin_rollback_update)
                else some (ret, zone, call_void tr Call.xfrin_cleanup_successful_update)
        else
          let (ret, tr) :=
            if transaction.isSome then zones_store_changesets_commit O transaction tr
            else (ret, tr)
          some (ret, zone, tr)
      | _, _ =>
        let (ret, tr) :=
          if transaction.isSome then zones_store_changesets_commit O transaction tr
          else (ret, tr)
        some (ret, zone, tr)

/-- Create the diff and DNSSEC changesets and store them in the journal
(zones.c 1161-1333).  The result carries the zone as the call leaves it. -/
def zones_do_diff_and_sign (R : reload_api) (A : changesets_api) (C : rrset_codec)
    (O : Oracle) (z : conf_zone_t) (zone : knot_zone_t) (ns : knot_nameserver_t)
    (origin : List Nat) (zone_changed : Bool) (tr : Trace) :
    Option (knot_error × knot_zone_t × Trace) :=
  match zones_do_diff_and_sign_diff R z zone ns origin zone_changed with
  | (some ret, _) => some (ret, zone, tr)
  | (none, diff_chs) =>
    match zones_do_diff_and_sign_sign R z zone tr with
    | none => none
    | some (some ret, _, zone, tr) => some (ret, zone, tr)
    | some (none, sec_chs, zone, tr) =>
      zones_do_diff_and_sign_store A C O zone diff_chs sec_chs tr

/-- The steps of `zones_insert_zone` up to "Evaluate" (zones.c 1367-1436):
look the zone up, compare the version with the modification time of the
zone file and load the zone or create a stub.  Results: `ret`, the local
`zone`, `zone_changed`, and whether `*dst` was set to point to `zone`. -/
def zones_insert_zone_load (R : reload_api) (J : journal_api) (z : conf_zone_t)
    (ns : knot_nameserver_t) : knot_error × Option knot_zone_t × Bool × Bool :=
  let dname := z.name
  let zone := knot_zonedb_find_zone ns.zone_db dname
  let stat_ret := R.stat z.file
  let zone_changed : Bool :=
    match zone, stat_ret with
    | some zone, some mtime => decide (zone.version < mtime)
    | some _, none => false
    | none, _ => true
  if zone_changed then
    let (ret, zone) :=
      if stat_ret.isNone ∧ z.acl.xfr_in ≠ [] then
        match R.knot_zone_new_empty dname with
        | some zone => (KNOT_EOK, some zone)
        | none => (KNOT_ERROR, none)
      else zones_load_zone R zone (some z.name) (some z.file) z.enable_checks
    match zone with
    | some zone =>
      if ret = KNOT_EOK then
        let zone := (zonedata_init R J z zone).2
        (ret, some zone, zone_changed, true)
      else (ret, some zone, zone_changed, false)
    | none => (ret, none, zone_changed, false)
  else (KNOT_EOK, zone, zone_changed, true)

/-- The step "Update zone data" of `zones_insert_zone` up to the ANY policy
(zones.c 1438-1547).  Results: the configuration entry, which `zd->conf`
points to, the zone and the trace.  The scheduler and `zd->server` are not
modelled.  `none`: the assertion `zd != NULL` fails, or see
`zones_journal_apply`. -/
def zones_insert_zone_update (R : reload_api) (C : rrset_codec) (J : journal_api) (O : Oracle)
    (fuel : Nat) (z : conf_zone_t) (zone : knot_zone_t) (tr : Trace) :
    Option (conf_zone_t × knot_zone_t × Trace) :=
  match knot_zone_data (some zone) with
  | none => none
  | some zd =>
    let z :=
      if z.dnssec_enable ∧ (z.acl.notify_in ≠ [] ∨ z.acl.xfr_in ≠ []) then
        { z with acl := { z.acl with notify_in := [], xfr_in := [] } }
      else z
    let zd := { zd with conf := z }
    let zd := { zd with xfr_in := { zd.xfr_in with acl := (zones_set_acl R z.acl.xfr_in).2 } }
    let zd := { zd with xfr_out := (zones_set_acl R z.acl.xfr_out).2 }
    let zd := { zd with notify_in := (zones_set_acl R z.acl.notify_in).2 }
    let zd := { zd with notify_out := (zones_set_acl R z.acl.notify_out).2 }
    let zd := { zd with update_in := (zones_set_acl R z.acl.update_in).2 }
    let xfr_in := { zd.xfr_in with
      has_master := false, tsig_key := { name := none, algorithm := 0, secret := [] },
      master := sockaddr_init, via := sockaddr_init }
    let xfr_in :=
      match z.acl.xfr_in.head? with
      | some cfg_if =>
        { xfr_in with
          master := (R.sockaddr_set cfg_if.address cfg_if.address.port).2,
          via := cfg_if.via.getD xfr_in.via,
          has_master := true,
          tsig_key := cfg_if.key.getD xfr_in.tsig_key }
      | none => xfr_in
    let zd := { zd with xfr_in := xfr_in }
    match zones_journal_apply C J O fuel (some { zone with data := some zd }) tr with
    | some (_, some zone, tr) =>
      match knot_zone_data (some zone) with
      | none => none
      | some zd =>
        let sync_tmr := (z.dbsync_timeout * 1000) % 2 ^ 32
        let (zd, tr) :=
          match zd.ixfr_dbsync with
          | some tmr =>
            ({ zd with ixfr_dbsync := none },
              call_void (call_void tr (Call.evsched_cancel tmr)) (Call.evsched_event_free tmr))
          | none => (zd, tr)
        let (zd, tr) :=
          if zd.ixfr_db.isSome then
            ({ zd with ixfr_dbsync := some { cb := event_cb_t.zones_zonefile_sync_ev } },
              call_void tr (Call.evsched_schedule_cb event_cb_t.zones_zonefile_sync_ev sync_tmr))
          else (zd, tr)
        let tr :=
          if zd.conf.disable_any then
            match knot_zone_contents (some zone) with
            | some contents => call_void tr (Call.knot_zone_contents_disable_any contents)
            | none => tr
          else tr
        some (z, { zone with data := some zd }, tr)
    | _ => none

/-- Insert a zone of the configuration into the new database (zones.c
1351-1556).  `dst` is the value found in `*dst`; the result carries `*dst`,
which points to the zone that the later steps update.  `none`: see
`zones_insert_zone_update` and `zones_do_diff_and_sign`. -/
def zones_insert_zone (R : reload_api) (A : changesets_api) (C : rrset_codec)
    (J : journal_api) (O : Oracle) (fuel : Nat) (z : Option conf_zone_t)
    (dst : Option knot_zone_t) (ns : Option knot_nameserver_t) (tr : Trace) :
    Option (knot_error × Option knot_zone_t × Trace) :=
  match z, ns with
  | some z, some ns =>
    match zones_insert_zone_load R J z ns with
    | (ret, none, _, dst_set) => some (ret, if dst_set then none else dst, tr)
    | (_, some zone, zone_changed, dst_set) =>
      match zones_insert_zone_update R C J O fuel z zone tr with
      | none => none
      | some (z, zone, tr) =>
        match zones_do_diff_and_sign R A C O z zone ns z.name zone_changed tr with
        | none => none
        | some (ret, zone, tr) => some (ret, if dst_set then some zone else dst, tr)
  | _, _ => some (KNOT_EINVAL, dst, tr)

/-- The loop of `zonewalker` that fetches the configuration entries from the
queue and inserts them (zones.c 1584-1605); the threads of the unit are
modelled by one thread that serves the whole queue.  `zones` holds the zones
inserted so far.  `none`: a slot of `zones` is counted that was not
written, or see `zones_insert_zone`. -/
def zonewalker_insert (R : reload_api) (A : changesets_api) (C : rrset_codec)
    (J : journal_api) (O : Oracle) (fuel : Nat) (ns : knot_nameserver_t) :
    List conf_zone_t → List knot_zone_t → Trace → Option (List knot_zone_t × Trace)
  | [], zones, tr => some (zones, tr)
  | z :: q, zones, tr =>
    match zones_insert_zone R A C J O fuel (some z) none (some ns) tr with
    | none => none
    | some (ret, dst, tr) =>
      if ret = KNOT_EOK then
        match dst with
        | none => none
        | some zone => zonewalker_insert R A C J O fuel ns q (zones ++ [zone]) tr
      else zonewalker_insert R A C J O fuel ns q zones tr

/-- The step "Collect results" of `zonewalker` (zones.c 1607-1624).
Modelled from the spec: `knot_zonedb_add_zone` (zone database, not in src/)
adds the zone to the database when it succeeds. -/
def zonewalker_collect (O : Oracle) : List knot_zone_t → knot_zonedb_t → Trace →
    knot_zonedb_t × Trace
  | [], db_new, tr => (db_new, tr)
  | zone :: rest, db_new, tr =>
    let (ret, tr) := call O tr (Call.knot_zonedb_add_zone zone.name)
    if ret ≠ KNOT_EOK then zonewalker_collect O rest db_new tr
    else zonewalker_collect O rest { db_new with zones := db_new.zones ++ [zone] } tr

/-- Thread entrypoint for loading zones (zones.c 1571-1629) on the queue
`q`.  Results: the number of zones inserted, the new database and the
trace. -/
def zonewalker (R : reload_api) (A : changesets_api) (C : rrset_codec) (J : journal_api)
    (O : Oracle) (fuel : Nat) (ns : knot_nameserver_t) (q : List conf_zone_t)
    (db_new : knot_zonedb_t) (tr : Trace) : Option (Int × knot_zonedb_t × Trace) :=
  match zonewalker_insert R A C J O fuel ns q [] tr with
  | none => none
  | some (zones, tr) =>
    let (db_new, tr) := zonewalker_collect O zones db_new tr
    some ((zones.length : Int), db_new, tr)

/-- Fill the new database with zones (zones.c 1649-1702).  Failures to
create the walker or the unit of threads are not modelled. -/
def zones_insert_zones (R : reload_api) (A : changesets_api) (C : rrset_codec)
    (J : journal_api) (O : Oracle) (fuel : Nat) (ns : knot_nameserver_t)
    (zone_conf : List conf_zone_t) (db_new : knot_zonedb_t) (tr : Trace) :
    Option (Int × knot_zonedb_t × Trace) :=
  if zone_conf.length = 0 then some (0, db_new, tr)
  else zonewalker R A C J O fuel ns zone_conf db_new tr

/-- Remove the zones of the new database from the old one when the pointers
match (zones.c 1718-1760); the lists of remotes of such a zone are freed.
Modelled from the spec: `knot_zonedb_remove_zone` (zone database, not in
src/) removes the entry with the given name.  Results: the new and the old
database. -/
def zones_remove_zones : List knot_zone_t → knot_zonedb_t → knot_zonedb_t →
    knot_error × knot_zonedb_t × knot_zonedb_t
  | [], db_new, db_old => (KNOT_EOK, db_new, db_old)
  | new_zone :: rest, db_new, db_old =>
    match knot_zonedb_find_zone (some db_old) new_zone.name with
    | some old_zone =>
      if old_zone.addr = new_zone.addr then
        let freed : knot_zone_t :=
          { new_zone with data := new_zone.data.map (fun zd =>
              { zd with conf := { zd.conf with acl := {} } }) }
        zones_remove_zones rest
          { db_new with zones := db_new.zones.map (fun x =>
              if x.addr = new_zone.addr then freed else x) }
          { db_old with zones := db_old.zones.filter (fun x => decide (x.name ≠ old_zone.name)) }
      else zones_remove_zones rest db_new db_old
    | none => zones_remove_zones rest db_new db_old

/-- Update the zone database from the configuration (zones.c 2118-2193).
Results: the return value, the name server, `*db_old` and the trace; a
failure of `knot_zonedb_new` is not modelled. -/
def zones_update_db_from_config (R : reload_api) (A : changesets_api) (C : rrset_codec)
    (J : journal_api) (O : Oracle) (fuel : Nat) (conf : Option conf_t)
    (ns : Option knot_nameserver_t) (db_old : Option knot_zonedb_t) (tr : Trace) :
    Option (knot_error × Option knot_nameserver_t × Option knot_zonedb_t × Trace) :=
  match conf, ns with
  | some conf, some ns =>
    match ns.zone_db with
    | none => some (KNOT_ERROR, some ns, db_old, tr)
    | some old =>
      let db_new : knot_zonedb_t := { zones := [] }
      match zones_insert_zones R A C J O fuel ns conf.zones db_new tr with
      | none => none
      | some (_, db_new, tr) =>
        let (_, db_new, old) := zones_remove_zones db_new.zones db_new old
        some (KNOT_EOK, some { ns with zone_db := some db_new }, some old, tr)
  | _, _ => some (KNOT_EINVAL, ns, db_old, tr)

/-! ## Hypotheses of the round trip -/

/-- The RRset serializer and deserializer round-trip as a stream codec: an
RRset that serializes to `b` writes at least one byte, and deserializing a
stream that starts with `b` gives back the RRset and consumes exactly `b`. -/
def rrset_codec_round_trips (C : rrset_codec) : Prop :=
  ∀ (r : knot_rrset_t) (b rest : List Nat), C.rrset_serialize (some r) = some b →
    b ≠ [] ∧ C.rrset_deserialize (b ++ rest) (b.length + rest.length) = some (r, rest.length)

/-- A valid changeset: `flags` is a `uint32_t`, `soa_from` and `soa_to` are
SOA RRsets whose serials are `serial_from` and `serial_to`, and no RRset of
the removed or added list is a SOA. -/
def changeset_valid (C : rrset_codec) (c : knot_changeset_t) : Prop :=
  c.flags < 2 ^ 32
  ∧ (∃ sf, c.soa_from = some sf ∧ knot_rrset_type sf = KNOT_RRTYPE_SOA
      ∧ C.knot_rdata_soa_serial sf = c.serial_from)
  ∧ (∃ st, c.soa_to = some st ∧ knot_rrset_type st = KNOT_RRTYPE_SOA
      ∧ C.knot_rdata_soa_serial st = c.serial_to)
  ∧ (∀ r ∈ c.remove, knot_rrset_type r ≠ KNOT_RRTYPE_SOA)
  ∧ (∀ r ∈ c.add, knot_rrset_type r ≠ KNOT_RRTYPE_SOA)

/-- A changeset as `zones_load_changesets` hands it to the parser: created
empty, with the serials of the journal key and the journal payload. -/
def changeset_of_journal_entry (serial_from serial_to : Nat) (payload : List Nat) :
    knot_changeset_t :=
  { soa_from := none, remove := [], soa_to := none, add := [],
    data := payload, size := payload.length,
    serial_from := serial_from, serial_to := serial_to, flags := 0 }

/-! ## Predicates on traces -/

/-- The journal key under which a changeset is stored. -/
def changeset_key (chs : knot_changeset_t) : Nat :=
  ixfrdb_key_make chs.serial_from chs.serial_to

/-- The call reserves (`journal_map`) or finalizes (`journal_unmap`) the
journal entry of one of the changesets of `l`, under the key made of the
serials of that changeset. -/
def is_store_call (l : List knot_changeset_t) (c : Call) : Prop :=
  match c with
  | Call.journal_map key _ => ∃ chs ∈ l, key = changeset_key chs
  | Call.journal_unmap key _ _ => ∃ chs ∈ l, key = changeset_key chs
  | _ => False

/-- The call reserves a journal entry under a key whose two serials are
equal. -/
def reserves_equal_serials (c : Call) : Prop :=
  match c with
  | Call.journal_map key _ => ixfrdb_key_from key = ixfrdb_key_to key
  | _ => False

/-- The call begins or rolls back the journal transaction, or cancels or
re-arms a timer. -/
def is_begin_rollback_or_timer (c : Call) : Prop :=
  match c with
  | Call.journal_trans_begin => True
  | Call.journal_trans_rollback => True
  | Call.evsched_cancel _ => True
  | Call.evsched_schedule _ _ => True
  | _ => False

/-! ## Concrete instances on which the theorems are instantiated -/

/-- A two-byte codec for RRsets with empty owner, class 0 and no RDATA: the
type byte followed by the TTL byte; the TTL stands for the SOA serial. -/
def sample_codec : rrset_codec :=
  { rrset_binary_size := fun r => match r with
      | none => 0
      | some _ => 2,
    rrset_serialize := fun r => match r with
      | none => none
      | some r =>
        if r.owner = [] ∧ r.rclass = 0 ∧ r.rdata = [] then some [r.type, r.ttl] else none,
    rrset_deserialize := fun stream remaining => match stream with
      | t :: l :: _ =>
        some ({ owner := [], type := t, rclass := 0, ttl := l, rdata := [] }, remaining - 2)
      | _ => none,
    knot_rdata_soa_serial := fun r => r.ttl }

/-- An RRset of the sample codec. -/
def sample_rr (type ttl : Nat) : knot_rrset_t :=
  { owner := [], type := type, rclass := 0, ttl := ttl, rdata := [] }

/-- The changeset 100 -> 101 removing one A RRset and adding another. -/
def sample_changeset : knot_changeset_t :=
  { soa_from := some (sample_rr 6 100), remove := [sample_rr 1 60],
    soa_to := some (sample_rr 6 101), add := [sample_rr 1 61],
    data := [], size := 0, serial_from := 100, serial_to := 101, flags := 1 }

/-- An instance of the changeset library: a changeset is empty when it has no
closing SOA and no RRsets; merging appends the lists of the second changeset
to the first and takes over its closing SOA and serial. -/
def sample_api : changesets_api :=
  { knot_changeset_is_empty := fun c => c.soa_to.isNone && c.add.isEmpty && c.remove.isEmpty,
    knot_changeset_merge := fun a b =>
      (KNOT_EOK,
       { a with add := a.add ++ b.add, remove := a.remove ++ b.remove,
                soa_to := b.soa_to, serial_to := b.serial_to },
       b) }

/-- Zone contents at serial 100. -/
def sample_contents : knot_zone_contents_t :=
  { apex_soa := sample_rr 6 100, rrsets := [sample_rr 1 60] }

/-- Zone contents at serial 101. -/
def sample_contents_new : knot_zone_contents_t :=
  { apex_soa := sample_rr 6 101, rrsets := [sample_rr 1 61] }

/-- A socket address. -/
def sample_addr (a : Nat) : sockaddr_t :=
  { family := 2, addr := [10, 0, 0, a], port := 53 }

/-- Zone data of a slave zone with a journal, no timers and no ACLs. -/
def sample_zonedata : zonedata_t :=
  { conf := { name := [], dbsync_timeout := 3600, dnssec_enable := false },
    xfr_in := { acl := none, master := sample_addr 1, via := sample_addr 0,
                tsig_key := { name := none, algorithm := 0, secret := [] },
                timer := none, expire := none, state := XFR_SCHED, has_master := true },
    xfr_out := none, notify_in := none, notify_out := none, update_in := none,
    ixfr_db := some { path := [] }, ixfr_dbsync := none, zonefile_serial := 100 }

/-- A zone with contents at serial 100. -/
def sample_zone : knot_zone_t :=
  { name := [], contents := some sample_contents, flags := 0, data := some sample_zonedata }

/-- Every external call succeeds; applying changesets builds the contents at
serial 101. -/
def oracle_ok : Oracle :=
  { ret := fun _ _ => KNOT_EOK,
    contents := fun _ _ => some sample_contents_new }

/-- Every external call succeeds except the switch of the zone contents. -/
def oracle_switch_fails : Oracle :=
  { ret := fun _ c => match c with
      | Call.xfrin_switch_zone _ _ => KNOT_ERROR
      | _ => KNOT_EOK,
    contents := fun _ _ => some sample_contents_new }

/-- A changeset 7 -> 7: the serial is kept, only the SOA RRset is replaced. -/
def sample_changeset_same_serial : knot_changeset_t :=
  { soa_from := some (sample_rr 6 7), remove := [],
    soa_to := some (sample_rr 6 7), add := [],
    data := [], size := 0, serial_from := 7, serial_to := 7, flags := 0 }

/-- A signing changeset 101 -> 102 adding one RRSIG RRset. -/
def sample_changeset_sec : knot_changeset_t :=
  { soa_from := some (sample_rr 6 101), remove := [],
    soa_to := some (sample_rr 6 102), add := [sample_rr 46 61],
    data := [], size := 0, serial_from := 101, serial_to := 102, flags := 0 }

/-- SOA timers of one hour, ten minutes and one day; no jitter. -/
def sample_timers : timers_api :=
  { knot_rdata_soa_refresh := fun _ => 3600,
    knot_rdata_soa_retry := fun _ => 600,
    knot_rdata_soa_expire := fun _ => 86400,
    zones_jitter := fun x => x }

/-- The sample zone (with contents) while an inbound transfer is pending. -/
def sample_zone_pending : knot_zone_t :=
  { sample_zone with data := some (zonedata_set_state sample_zonedata XFR_PENDING) }

/-- The sample zone after the REFRESH event fired while a transfer was
pending: the EXPIRE timer is armed, the state is still PENDING. -/
def sample_zone_pending_expire : knot_zone_t :=
  { sample_zone with
    data := some (
      { sample_zonedata with
        xfr_in :=
          { sample_zonedata.xfr_in with
            state := XFR_PENDING,
            expire := some { cb := event_cb_t.zones_expire_ev } } }) }

/-- The SOA query over UDP that the REFRESH event sends for the sample zone. -/
def sample_soa_query : knot_ns_xfr_t :=
  { type := XFR_TYPE_SOA, flags := XFR_FLAG_UDP, addr := some (sample_addr 1),
    saddr := some (sample_addr 0), tsig_key := none }

/-- An instance of the TSIG library: HMAC-MD5 (157, 16-byte digest) is the
only supported algorithm, names compare by equality, every MAC is 16 bytes
long and signed at time 1000, `knot_tsig_server_check` returns `check`, and
an ACL matches an address that equals the address of one of its entries. -/
def sample_tsig (check : knot_error) : tsig_api :=
  { tsig_rdata_alg := fun _ => 157,
    knot_tsig_digest_length := fun a => if a = 157 then 16 else 0,
    knot_dname_cmp := fun a b => if a = b then 0 else 1,
    tsig_rdata_mac_length := fun _ => 16,
    tsig_rdata_time_signed := fun _ => 1000,
    knot_tsig_server_check := fun _ _ _ _ => check,
    acl_find := fun acl addr => match acl with
      | none => none
      | some a => a.rules.find? (fun m => decide (m.addr = addr)) }

/-- The TSIG key named `key.`. -/
def sample_key : knot_tsig_key_t :=
  { name := some [3, 107, 101, 121, 0], algorithm := 157, secret := [1, 2, 3] }

/-- A query signed with the key named `key.`. -/
def sample_query_signed : knot_packet_t :=
  { opcode := 0, id := 1,
    tsig_rr := some { owner := [3, 107, 101, 121, 0], type := 250, rclass := 255, ttl := 0,
                      rdata := [] },
    wireformat := [], size := 0 }

/-- A query without a TSIG record. -/
def sample_query_unsigned : knot_packet_t :=
  { opcode := 0, id := 1, tsig_rr := none, wireformat := [], size := 0 }

/-- The sample zone with an `xfr_out` ACL of one entry, 10.0.0.2, which
requires the key named `key.`. -/
def sample_zone_acl : knot_zone_t :=
  { sample_zone with
    data := some (
      { sample_zonedata with
        xfr_out := some { rules := [{ addr := sample_addr 2,
                                      val := some { address := sample_addr 2, masklen := 32,
                                                    key := some sample_key } }] } }) }

/-- The journal is full: reserving an entry answers `KNOT_EBUSY`. -/
def oracle_journal_full : Oracle :=
  { ret := fun _ c => match c with
      | Call.journal_map _ _ => KNOT_EBUSY
      | _ => KNOT_EOK,
    contents := fun _ _ => none }

/-- The journal-sync timer of a zone. -/
def sample_sync_timer : event_t := { cb := event_cb_t.zones_zonefile_sync_ev }

/-- A zone with contents at serial 100 and an armed journal-sync timer. -/
def sample_zone_sync_timer : knot_zone_t :=
  { sample_zone with
    data := some { sample_zonedata with ixfr_dbsync := some sample_sync_timer } }

/-- A slave zone without contents (not yet bootstrapped), a REFRESH timer
scheduled. -/
def sample_zone_stub : knot_zone_t :=
  { name := [], contents := none, flags := 0, data := some sample_zonedata }

/-- The calls that cancel and free a timer, if there is one. -/
def cancel_and_free_calls (tmr : Option event_t) : Trace :=
  match tmr with
  | some t => [(Call.evsched_cancel t, KNOT_EOK), (Call.evsched_event_free t, KNOT_EOK)]
  | none => []

/-- The call that frees a timer, if there is one. -/
def free_calls (tmr : Option event_t) : Trace :=
  match tmr with
  | some t => [(Call.evsched_event_free t, KNOT_EOK)]
  | none => []

/-- Number of events with callback `cb` that a history leaves registered:
every `evsched_schedule_cb` of `cb` creates one, every `evsched_event_free`
of such an event destroys one. -/
def registered_timers (cb : event_cb_t) : Trace → Int
  | [] => 0
  | (Call.evsched_schedule_cb cb1 _, _) :: rest =>
    (if cb1 = cb then 1 else 0) + registered_timers cb rest
  | (Call.evsched_event_free ev, _) :: rest =>
    (if ev.cb = cb then -1 else 0) + registered_timers cb rest
  | _ :: rest => registered_timers cb rest

/-- A master zone at serial 100 with a REFRESH and an EXPIRE timer armed. -/
def sample_zone_timers : knot_zone_t :=
  { sample_zone with
    data := some { sample_zonedata with
      xfr_in := { sample_zonedata.xfr_in with
        timer := some { cb := event_cb_t.zones_refresh_ev },
        expire := some { cb := event_cb_t.zones_expire_ev } } } }

/-- The history that armed the two timers of `sample_zone_timers`. -/
def sample_timers_history : Trace :=
  [(Call.evsched_schedule_cb event_cb_t.zones_refresh_ev 5000, KNOT_EOK),
   (Call.evsched_schedule_cb event_cb_t.zones_expire_ev 9000, KNOT_EOK)]

/-- A discarded zone with both timers armed. -/
def sample_zone_discarded : knot_zone_t :=
  { sample_zone_timers with flags := KNOT_ZONE_DISCARDED }

/-- The call belongs to a sync of the zone file: a file operation of the
dump or a `journal_update`. -/
def is_sync_call (c : Call) : Prop :=
  match c with
  | Call.mkstemp => True
  | Call.fdopen => True
  | Call.zone_dump_text _ => True
  | Call.fchmod => True
  | Call.fclose => True
  | Call.rename => True
  | Call.unlink => True
  | Call.journal_update _ _ => True
  | _ => False

/-- The complete sequence of file operations of a successful dump. -/
def dump_calls_ok (zone : knot_zone_contents_t) : Trace :=
  [(Call.mkstemp, KNOT_EOK), (Call.fdopen, KNOT_EOK), (Call.zone_dump_text zone, KNOT_EOK),
   (Call.fchmod, KNOT_EOK), (Call.fclose, KNOT_EOK), (Call.rename, KNOT_EOK)]

/-- An instance of the journal functions: `journal_fetch` finds the first
node whose key compares equal and answers `KNOT_ENOENT` without one,
`journal_walk` visits the nodes flagged `JOURNAL_VALID`, the SOA serial is the
TTL field as in `sample_codec`. -/
def sample_journal_api : journal_api :=
  { journal_fetch := fun j id cmp =>
      match j.nodes.findIdx? (fun n => decide (cmp n.id id = 0)) with
      | some i => (KNOT_EOK, some i)
      | none => (KNOT_ENOENT, none),
    journal_walk_visits := fun j i =>
      match j.nodes.get? i with
      | some n => decide (n.flags &&& JOURNAL_VALID ≠ 0)
      | none => false,
    knot_rdata_soa_serial := fun r => (r.ttl : Int) }

/-- A journal with the changeset 99 -> 100 synced to the zone file, the
changeset 100 -> 101 not yet synced, and an unused node. -/
def sample_journal : journal_t :=
  { path := [],
    nodes := [{ id := ixfrdb_key_make 99 100, flags := 1, payload := [] },
              { id := ixfrdb_key_make 100 101, flags := 3, payload := [] },
              { id := 0, flags := 2, payload := [] }] }

/-- The zone at serial 101 with the journal `sample_journal`; its zone file
is at serial 100. -/
def sample_zone_unsynced : knot_zone_t :=
  { name := [], contents := some sample_contents_new, flags := 0,
    data := some { sample_zonedata with ixfr_db := some sample_journal } }

/-- The zone at serial 100 with the journal `sample_journal`; its zone file
is at serial 100. -/
def sample_zone_synced : knot_zone_t :=
  { name := [], contents := some sample_contents, flags := 0,
    data := some { sample_zonedata with ixfr_db := some sample_journal } }

/-- Every external call succeeds except `rename`. -/
def oracle_rename_fails : Oracle :=
  { ret := fun _ c => match c with
      | Call.rename => KNOT_ERROR
      | _ => KNOT_EOK,
    contents := fun _ _ => none }

/-- The nodes that the loop of `zones_load_changesets` loads: the nodes
flagged `JOURNAL_VALID` and not `JOURNAL_TRANS`, up to the one whose key ends
at `sto`. -/
def loaded_nodes (sto : Nat) : List journal_node_t → Nat → List journal_node_t
  | [], _ => []
  | n :: rest, found_to =>
    if sto = found_to then []
    else if ¬ (n.flags &&& JOURNAL_VALID ≠ 0) ∨ n.flags &&& JOURNAL_TRANS ≠ 0 then
      loaded_nodes sto rest found_to
    else n :: loaded_nodes sto rest (ixfrdb_key_to n.id)

/-- The serial at which a list of loaded nodes ends: `serial_to` of the key
of the last one, the starting serial without one. -/
def chain_end (sfrom : Nat) (l : List journal_node_t) : Nat :=
  match l.getLast? with
  | some n => ixfrdb_key_to n.id
  | none => sfrom

/-- The serials of the changesets of a set. -/
def changeset_serials (chs : Option knot_changesets_t) : List (Nat × Nat) :=
  match chs with
  | some chs => chs.sets.map (fun c => (c.serial_from, c.serial_to))
  | none => []

/-- An empty changeset set. -/
def sample_empty_set : knot_changesets_t := { sets := [], flags := 0 }

/-- A journal holding the changeset 100 -> 101 and, in a transaction that is
not yet committed, the changeset 101 -> 102. -/
def sample_journal_trans : journal_t :=
  { path := [],
    nodes := [{ id := ixfrdb_key_make 100 101, flags := JOURNAL_VALID,
                payload := [1, 0, 0, 0, 6, 100, 1, 60, 6, 101, 1, 61] },
              { id := ixfrdb_key_make 101 102, flags := JOURNAL_VALID + JOURNAL_TRANS,
                payload := [1, 0, 0, 0, 6, 101, 6, 102] }] }

/-- A journal whose two valid nodes do not chain: 1 -> 2 is followed by
5 -> 3. -/
def sample_journal_gap : journal_t :=
  { path := [],
    nodes := [{ id := ixfrdb_key_make 1 2, flags := JOURNAL_VALID,
                payload := [0, 0, 0, 0, 6, 1, 6, 2] },
              { id := ixfrdb_key_make 5 3, flags := JOURNAL_VALID,
                payload := [0, 0, 0, 0, 6, 5, 6, 3] }] }

/-- The sample zone with a given journal. -/
def sample_zone_journal (j : journal_t) : knot_zone_t :=
  { sample_zone with data := some { sample_zonedata with ixfr_db := some j } }

/-- The call creates a task that forwards a query to the master. -/
def is_forward_call (c : Call) : Prop :=
  match c with
  | Call.xfr_task_create XFR_TYPE_FORWARD _ => True
  | _ => False

/-- The calls of an UPDATE forwarded with success: the task created and
enqueued. -/
def forward_calls (flags : xfr_flag_t) (rq : knot_ns_xfr_t) : Trace :=
  [(Call.xfr_task_create XFR_TYPE_FORWARD flags, KNOT_EOK), (Call.xfr_enqueue rq, KNOT_EOK)]

/-- The zone that passes the condition of the forwarding branch of
`zones_process_update`, if one does. -/
def update_passes (U : update_api) (T : tsig_api) (query : knot_packet_t) (addr : sockaddr_t)
    (rsize : Nat) (transport : knot_ns_transport_t) : Option knot_zone_t :=
  zones_process_update_pass (zones_process_update_checks U T query addr rsize transport).2
    (zones_process_update_checks U T query addr rsize transport).1.1
    (zones_process_update_checks U T query addr rsize transport).1.2.2.2.1

/-- The history `tr1` extends `tr` by calls none of which forwards a query. -/
def extends_without_forward (tr tr1 : Trace) : Prop :=
  ∃ new : Trace, tr1 = tr ++ new ∧ ∀ e ∈ new, ¬ is_forward_call e.1

/-- The name server finds the given zone for every query. -/
def sample_update_api (zone : Option knot_zone_t) : update_api :=
  { knot_ns_prep_update_response := fun _ _ => (KNOT_EOK, zone) }

/-- An UPDATE query without a TSIG record. -/
def sample_update_unsigned : knot_packet_t :=
  { opcode := KNOT_OPCODE_UPDATE, id := 4242, tsig_rr := none, wireformat := [1, 2, 3],
    size := 3 }

/-- An UPDATE query with a TSIG record. -/
def sample_update_signed : knot_packet_t :=
  { sample_update_unsigned with tsig_rr := sample_query_signed.tsig_rr }

/-- The task that forwards `sample_update_unsigned`, received over UDP on
socket 7 from the sample address 9, to the master of `sample_zonedata`. -/
def sample_forward_task : knot_ns_xfr_t :=
  { type := XFR_TYPE_FORWARD, flags := XFR_FLAG_UDP, addr := some (sample_addr 1),
    saddr := some (sample_addr 0), tsig_key := none, fwd_src_fd := 7,
    fwd_addr := some (sample_addr 9), packet_nr := 4242,
    query := some { opcode := 0, id := 0, tsig_rr := none, wireformat := [1, 2, 3],
                    size := 3 } }

/-- SOA timers of a zone that expires after eight weeks (4838400 s). -/
def sample_timers_eight_weeks : timers_api :=
  { knot_rdata_soa_refresh := fun _ => 86400,
    knot_rdata_soa_retry := fun _ => 7200,
    knot_rdata_soa_expire := fun _ => 4838400,
    zones_jitter := fun x => x }

/-- The serializer writes exactly as many bytes as `rrset_binary_size`
announces, for every RRset it serializes. -/
def codec_writes_binary_size (C : rrset_codec) : Prop :=
  ∀ (r : Option knot_rrset_t) (b : List Nat),
    C.rrset_serialize r = some b → b.length = C.rrset_binary_size r

/-- Sum of `rrset_binary_size` over a list of RRsets. -/
def rrsets_binary_size (C : rrset_codec) (l : List knot_rrset_t) : Nat :=
  (l.map (fun rrset => C.rrset_binary_size (some rrset))).sum

/-- The upstream response to a forwarded UPDATE: a message with the id
0x1234 of the forwarding server. -/
def sample_upstream_response : List Nat := [18, 52, 168, 0, 0, 1, 0, 0, 0, 0, 0, 0]

/-- Every external call succeeds and `send` sends the whole message. -/
def oracle_send_all : Oracle :=
  { ret := fun _ _ => KNOT_EOK,
    contents := fun _ _ => none,
    count := fun _ c => match c with
      | Call.send _ _ _ msglen => (msglen : Int)
      | _ => 0 }

/-- Every external call succeeds but `send` fails with -1. -/
def oracle_send_fails : Oracle :=
  { ret := fun _ _ => KNOT_EOK,
    contents := fun _ _ => none,
    count := fun _ _ => -1 }

/-- A transfer is needed for every SOA response. -/
def sample_response_api : response_api :=
  { xfrin_transfer_needed := fun _ _ => 1 }

/-- The name server holding the sample zone (serial 100, state `XFR_SCHED`). -/
def sample_nameserver : knot_nameserver_t :=
  { zone_db := some { zones := [sample_zone] } }

/-- A SOA response for the sample zone with message id 77. -/
def sample_soa_response : knot_packet_t :=
  { opcode := 0, id := 77, tsig_rr := none, wireformat := [], size := 0,
    rcode := KNOT_RCODE_NOERROR, qname := [], qtype := KNOT_RRTYPE_SOA }

/-- No transfer task can be created (`xfr_task_create` returns `NULL`). -/
def oracle_task_create_fails : Oracle :=
  { ret := fun _ c => match c with
      | Call.xfr_task_create _ _ => KNOT_ENOMEM
      | _ => KNOT_EOK,
    contents := fun _ _ => none }

/-- The entries of a lookup table before its terminator. -/
def lookup_table_entries (table : List lookup_table_t) : List lookup_table_t :=
  table.takeWhile (fun e => e.name.isSome)

/-- The array has a terminator: an entry whose name is `NULL`. -/
def lookup_table_terminated (table : List lookup_table_t) : Prop :=
  ∃ e ∈ table, e.name = none

/-- The octets that a print call reads lie inside an RDATA of `data_len`
octets. -/
def print_call_inside (data_len : Nat) : print_call_t → Prop
  | print_call_t.short_hex_print offset len => offset + len ≤ data_len
  | print_call_t.txt_print offset len => offset + len ≤ data_len
  | _ => True

instance (data_len : Nat) (c : print_call_t) : Decidable (print_call_inside data_len c) := by
  cases c <;> unfold print_call_inside <;> infer_instance

/-- An OPT RDATA of six octets: an NSID option that declares ten octets of
data of which two are present. -/
def sample_opt_rdata : List Nat := [0, 3, 0, 10, 1, 2]

/-- The calls that stop and delete a thread in `dt_resize`. -/
def dt_stop_calls (t : dthread_t) : Trace :=
  [(Call.dt_signalize t.id SIGALRM, KNOT_EOK), (Call.pthread_cond_broadcast, KNOT_EOK),
   (Call.pthread_join t.id, KNOT_EOK), (Call.dt_delete_thread t.id, KNOT_EOK)]

/-- The place of a thread in the order Active, Idle, Dead, Joined: the first
of these bits that its state has (4: none of them). -/
def dt_priority_rank (t : dthread_t) : Nat :=
  if t.state &&& ThreadActive ≠ 0 then 0
  else if t.state &&& ThreadIdle ≠ 0 then 1
  else if t.state &&& ThreadDead ≠ 0 then 2
  else if t.state &&& ThreadJoined ≠ 0 then 3
  else 4

/-- The threshold of the `k`-th pass of `dt_resize`. -/
def dt_threshold_at : Nat → Nat
  | 0 => ThreadActive
  | 1 => ThreadIdle
  | 2 => ThreadDead
  | _ => ThreadJoined

/-- Four threads: idle, active, dead and active. -/
def sample_threads : List dthread_t :=
  [{ id := 1, state := ThreadIdle }, { id := 2, state := ThreadActive },
   { id := 3, state := ThreadDead ||| ThreadCancelled }, { id := 4, state := ThreadActive }]

/-- A unit of the four sample threads. -/
def sample_unit : dt_unit_t := { size := 4, threads := sample_threads.map some }

/-- Configuration of the sample zone: zone file `[1]`, journal `[2]`, diffs
are built on a reload. -/
def sample_conf_zone (dnssec_enable : Bool) : conf_zone_t :=
  { name := [], dbsync_timeout := 3600, dnssec_enable := dnssec_enable, file := [1],
    build_diffs := true, ixfr_db := [2] }

/-- The published zone: `sample_zone` (serial 100), loaded from a zone file
last modified at time 1000. -/
def sample_zone_published : knot_zone_t := { sample_zone with version := 1000, addr := 1 }

/-- A name server whose database holds the published zone. -/
def sample_nameserver_published : knot_nameserver_t :=
  { zone_db := some { zones := [sample_zone_published] } }

/-- The zone that the loader builds from the changed zone file: another
RRset under the same serial 100. -/
def sample_zone_reloaded : knot_zone_t :=
  { name := [], contents := some { apex_soa := sample_rr 6 100, rrsets := [sample_rr 1 61] },
    flags := 0, data := none, addr := 2 }

/-- A zone with another origin than the configured one. -/
def sample_zone_other_origin : knot_zone_t := { sample_zone_reloaded with name := [9] }

/-- A signing changeset 100 -> 101 adding one RRSIG RRset. -/
def sample_changeset_sign : knot_changeset_t :=
  { soa_from := some (sample_rr 6 100), remove := [],
    soa_to := some (sample_rr 6 101), add := [sample_rr 46 61],
    data := [], size := 0, serial_from := 100, serial_to := 101, flags := 0 }

/-- A reload environment: every file was last modified at time 2000; the
loader opens and builds `loaded`; `knot_zone_contents_create_diff` returns
`diff` and leaves the changeset as it found it; signing fills the changeset
with `sample_changeset_sign` and answers an expiration at time 5000, the
time being 4000. -/
def sample_reload (loaded : Option knot_zone_t) (diff : knot_error) : reload_api :=
  { stat := fun _ => some 2000,
    knot_zload_open := fun _ _ _ => KNOT_EOK,
    knot_zload_load := fun _ => loaded,
    knot_zone_new_empty := fun name =>
      some { name := name, contents := none, flags := 0, data := none },
    journal_open := fun path _ => some { path := path },
    bootstrap_retry := 0,
    sockaddr_set := fun a port => (1, { a with port := port }),
    knot_zone_contents_create_diff := fun _ _ ch => (diff, ch),
    knot_dnssec_zone_sign := fun _ _ => (KNOT_EOK, sample_changeset_sign, 5000),
    time := 4000 }

/-- The calls of a trace, without their results. -/
def trace_calls (tr : Trace) : List Call := tr.map (fun c => c.1)

/-- The changeset that `zones_do_diff_and_sign` hands to
`zones_create_changeset`: the new, blank changeset of a new set. -/
def reload_blank_changeset : knot_changeset_t :=
  (knot_changesets_create_changeset (knot_changesets_create KNOT_CHANGESET_TYPE_IXFR)).1

/-- The set `diff_chs` after the diff of a reload: the one changeset, as
`knot_zone_contents_create_diff` left it. -/
def reload_diff_chs (R : reload_api) (zc_old zc : knot_zone_contents_t) : knot_changesets_t :=
  { sets := [(R.knot_zone_contents_create_diff zc_old zc reload_blank_changeset).2],
    flags := KNOT_CHANGESET_TYPE_IXFR }

/-! # Theorems -/

/-! ## Journal keys -/

theorem ixfrdb_key_make_eq_add (sfrom sto : Nat) (hf : sfrom < 2 ^ 32) (ht : sto < 2 ^ 32) :
    ixfrdb_key_make sfrom sto = 2 ^ 32 * sto + sfrom := by
  unfold ixfrdb_key_make
  rw [Nat.shiftLeft_eq, Nat.mod_eq_of_lt (by omega), Nat.mul_comm]
  exact (Nat.mul_add_lt_is_or hf sto).symm

/-! ## Changeset round trip -/

theorem u32_of_bytes_to_bytes (x : Nat) (rest : List Nat) (hx : x < 2 ^ 32) :
    u32_of_bytes (u32_to_bytes x ++ rest) = x := by
  simp [u32_of_bytes, u32_to_bytes]
  omega

theorem u32_to_bytes_length (x : Nat) : (u32_to_bytes x).length = 4 := rfl

theorem zones_rrset_write_to_mem_ok (C : rrset_codec) (rr : Option knot_rrset_t)
    (entry : List Nat) (m : Nat) (e1 : List Nat) (m1 : Nat)
    (h : zones_rrset_write_to_mem C rr entry m = some (KNOT_EOK, e1, m1)) :
    ∃ b, C.rrset_serialize rr = some b ∧ e1 = entry ++ b ∧ b.length ≤ m
      ∧ m1 = m - b.length := by
  unfold zones_rrset_write_to_mem at h
  cases hs : C.rrset_serialize rr with
  | none => simp [hs] at h
  | some b =>
    simp only [hs] at h
    by_cases hb : b.length ≤ m
    · simp only [hb, if_true, Option.some.injEq, Prod.mk.injEq, true_and] at h
      exact ⟨b, rfl, h.1.symm, hb, h.2.symm⟩
    · simp [hb] at h

theorem zones_serialize_rr_list_ok (C : rrset_codec) (l : List knot_rrset_t) :
    ∀ (entry : List Nat) (m : Nat) (e1 : List Nat) (m1 : Nat),
      zones_serialize_rr_list C l entry m = some (KNOT_EOK, e1, m1) →
      ∃ chunks : List (List Nat),
        List.Forall₂ (fun r b => C.rrset_serialize (some r) = some b) l chunks
        ∧ e1 = entry ++ chunks.flatten ∧ chunks.flatten.length ≤ m
        ∧ m1 = m - chunks.flatten.length := by
  induction l with
  | nil =>
    intro entry m e1 m1 h
    simp only [zones_serialize_rr_list, Option.some.injEq, Prod.mk.injEq, true_and] at h
    exact ⟨[], List.Forall₂.nil, by simp [h.1], by simp, by simp [h.2]⟩
  | cons r rest ih =>
    intro entry m e1 m1 h
    simp only [zones_serialize_rr_list] at h
    cases hw : zones_rrset_write_to_mem C (some r) entry m with
    | none => simp [hw] at h
    | some res =>
      obtain ⟨ret, e2, m2⟩ := res
      simp only [hw] at h
      by_cases hret : ret = KNOT_EOK
      · subst hret
        simp only [ne_eq, not_true_eq_false, if_false] at h
        obtain ⟨b, hb, he2, hle, hm2⟩ := zones_rrset_write_to_mem_ok C _ _ _ _ _ hw
        obtain ⟨chunks, hch, he1, hle1, hm1⟩ := ih e2 m2 e1 m1 h
        refine ⟨b :: chunks, List.Forall₂.cons hb hch, ?_, ?_, ?_⟩
        · simp [he1, he2]
        · simp only [List.flatten_cons, List.length_append]; omega
        · simp only [List.flatten_cons, List.length_append]; omega
      · simp [hret] at h

theorem zones_changesets_from_binary_loop_done (C : rrset_codec) (fuel : Nat)
    (in_rm : Bool) (chs : knot_changeset_t) :
    zones_changesets_from_binary_loop C fuel 0 in_rm chs = some (KNOT_EOK, chs) := by
  cases fuel <;> simp [zones_changesets_from_binary_loop]

theorem zones_changesets_from_binary_loop_step (C : rrset_codec)
    (hrt : rrset_codec_round_trips C) (r : knot_rrset_t) (b pre tail : List Nat)
    (chs : knot_changeset_t) (hb : C.rrset_serialize (some r) = some b)
    (hdata : chs.data = pre ++ (b ++ tail)) (hsize : chs.size = chs.data.length) :
    0 < b.length + tail.length ∧ ¬ chs.size < b.length + tail.length ∧
    C.rrset_deserialize (chs.data.drop (chs.size - (b.length + tail.length)))
      (b.length + tail.length) = some (r, tail.length) := by
  obtain ⟨hne, hd⟩ := hrt r b tail hb
  have hpos : 0 < b.length := List.length_pos.mpr hne
  refine ⟨by omega, by rw [hsize, hdata]; simp only [List.length_append]; omega, ?_⟩
  have hsz : chs.size - (b.length + tail.length) = pre.length := by
    rw [hsize, hdata]; simp only [List.length_append]; omega
  rw [hsz, hdata, List.drop_left]
  exact hd

theorem zones_changesets_from_binary_loop_rrsets (C : rrset_codec)
    (hrt : rrset_codec_round_trips C) (l : List knot_rrset_t) :
    ∀ (chunks : List (List Nat)) (pre tail : List Nat) (fuel : Nat) (in_rm : Bool)
      (chs : knot_changeset_t),
      List.Forall₂ (fun r b => C.rrset_serialize (some r) = some b) l chunks →
      (∀ r ∈ l, knot_rrset_type r ≠ KNOT_RRTYPE_SOA) →
      chs.data = pre ++ (chunks.flatten ++ tail) → chs.size = chs.data.length →
      zones_changesets_from_binary_loop C (l.length + fuel)
          (chunks.flatten.length + tail.length) in_rm chs
        = zones_changesets_from_binary_loop C fuel tail.length in_rm
            (if in_rm then { chs with remove := chs.remove ++ l }
             else { chs with add := chs.add ++ l }) := by
  induction l with
  | nil =>
    intro chunks pre tail fuel in_rm chs hch _ _ _
    cases hch
    cases in_rm <;> simp
  | cons r rest ih =>
    intro chunks pre tail fuel in_rm chs hch hty hdata hsize
    cases hch with
    | cons hb hrest =>
      rename_i b cs
      have hdata1 : chs.data = pre ++ (b ++ (cs.flatten ++ tail)) := by
        rw [hdata]; simp
      obtain ⟨hpos, hin, hd⟩ := zones_changesets_from_binary_loop_step C hrt r b pre
        (cs.flatten ++ tail) chs hb hdata1 hsize
      have hlen : (b :: cs).flatten.length + tail.length
          = b.length + (cs.flatten ++ tail).length := by
        simp only [List.flatten_cons, List.length_append]; omega
      have hfuel : (r :: rest).length + fuel = (rest.length + fuel) + 1 := by
        simp only [List.length_cons]; omega
      have hr : knot_rrset_type r ≠ KNOT_RRTYPE_SOA := hty r (List.mem_cons_self _ _)
      have hty1 : ∀ x ∈ rest, knot_rrset_type x ≠ KNOT_RRTYPE_SOA :=
        fun x hx => hty x (List.mem_cons_of_mem _ hx)
      rw [hlen, hfuel, zones_changesets_from_binary_loop]
      simp only [gt_iff_lt, hpos, if_true, hin, hd, hr, if_false]
      have hlen2 : (cs.flatten ++ tail).length = cs.flatten.length + tail.length := by
        simp
      cases in_rm with
      | true =>
        simp only [knot_changeset_add_rrset, if_true, ne_eq, not_true_eq_false, if_false]
        rw [hlen2, ih cs (pre ++ b) tail fuel true _ hrest hty1 (by simp [hdata])
          (by simpa using hsize)]
        simp
      | false =>
        simp only [knot_changeset_add_rrset, Bool.false_eq_true, if_false, ne_eq,
          not_true_eq_false]
        rw [hlen2, ih cs (pre ++ b) tail fuel false _ hrest hty1 (by simp [hdata])
          (by simpa using hsize)]
        simp

theorem zones_serialize_and_store_chgset_ok (C : rrset_codec) (c : knot_changeset_t)
    (m : Nat) (bytes : List Nat)
    (h : zones_serialize_and_store_chgset C c m = some (KNOT_EOK, bytes)) :
    ∃ (bf : List Nat) (rm : List (List Nat)) (bt : List Nat) (ad : List (List Nat)),
      C.rrset_serialize c.soa_from = some bf
      ∧ List.Forall₂ (fun r b => C.rrset_serialize (some r) = some b) c.remove rm
      ∧ C.rrset_serialize c.soa_to = some bt
      ∧ List.Forall₂ (fun r b => C.rrset_serialize (some r) = some b) c.add ad
      ∧ bytes = u32_to_bytes c.flags ++ (bf ++ (rm.flatten ++ (bt ++ ad.flatten)))
      ∧ bf.length + rm.flatten.length + bt.length + ad.flatten.length ≤ size_sub m 4 := by
  unfold zones_serialize_and_store_chgset at h
  simp only at h
  cases h1 : zones_rrset_write_to_mem C c.soa_from (u32_to_bytes c.flags) (size_sub m 4) with
  | none => simp [h1] at h
  | some res1 =>
    obtain ⟨ret1, e1, m1⟩ := res1
    simp only [h1] at h
    by_cases hr1 : ret1 = KNOT_EOK
    swap
    · simp [hr1] at h
    subst hr1
    simp only [ne_eq, not_true_eq_false, if_false] at h
    cases h2 : zones_serialize_rr_list C c.remove e1 m1 with
    | none => simp [h2] at h
    | some res2 =>
      obtain ⟨ret2, e2, m2⟩ := res2
      simp only [h2] at h
      by_cases hr2 : ret2 = KNOT_EOK
      swap
      · simp [hr2] at h
      subst hr2
      simp only [ne_eq, not_true_eq_false, if_false] at h
      cases h3 : zones_rrset_write_to_mem C c.soa_to e2 m2 with
      | none => simp [h3] at h
      | some res3 =>
        obtain ⟨ret3, e3, m3⟩ := res3
        simp only [h3] at h
        by_cases hr3 : ret3 = KNOT_EOK
        swap
        · simp [hr3] at h
        subst hr3
        simp only [ne_eq, not_true_eq_false, if_false] at h
        cases h4 : zones_serialize_rr_list C c.add e3 m3 with
        | none => simp [h4] at h
        | some res4 =>
          obtain ⟨ret4, e4, m4⟩ := res4
          simp only [h4] at h
          by_cases hr4 : ret4 = KNOT_EOK
          swap
          · simp [hr4] at h
          subst hr4
          simp only [ne_eq, not_true_eq_false, if_false, Option.some.injEq, Prod.mk.injEq,
            true_and] at h
          obtain ⟨bf, hbf, he1, hl1, hm1⟩ := zones_rrset_write_to_mem_ok C _ _ _ _ _ h1
          obtain ⟨rm, hrm, he2, hl2, hm2⟩ := zones_serialize_rr_list_ok C _ _ _ _ _ h2
          obtain ⟨bt, hbt, he3, hl3, hm3⟩ := zones_rrset_write_to_mem_ok C _ _ _ _ _ h3
          obtain ⟨ad, had, he4, hl4, hm4⟩ := zones_serialize_rr_list_ok C _ _ _ _ _ h4
          refine ⟨bf, rm, bt, ad, hbf, hrm, hbt, had, ?_, ?_⟩
          · rw [← h, he4, he3, he2, he1]; simp
          · omega

/-- C1. Changeset round trip: parsing with `zones_changesets_from_binary` the
bytes that `zones_serialize_and_store_chgset` wrote for a valid changeset `c`
returns `KNOT_EOK` and yields a changeset with the flags, the opening SOA, the
removed list (in order), the closing SOA, the added list (in order) and the
serials of `c`, provided the RRset serializer / deserializer pair round-trips
and the parse loop is given one iteration per RRset. -/
theorem changeset_round_trip (C : rrset_codec) (c : knot_changeset_t)
    (max_size fuel fl : Nat) (bytes : List Nat)
    (hrt : rrset_codec_round_trips C) (hvalid : changeset_valid C c)
    (hser : zones_serialize_and_store_chgset C c max_size = some (KNOT_EOK, bytes))
    (hfuel : c.remove.length + c.add.length + 1 ≤ fuel) :
    zones_changesets_from_binary C fuel
        { sets := [changeset_of_journal_entry c.serial_from c.serial_to bytes], flags := fl }
      = some (KNOT_EOK,
          { sets := [{ c with data := bytes, size := bytes.length }], flags := fl }) := by
  obtain ⟨hflags, ⟨sf, hsf, hsft, hsfs⟩, ⟨st, hst, hstt, hsts⟩, hrmty, hadty⟩ := hvalid
  obtain ⟨bf, rm, bt, ad, hbf, hrm, hbt, had, hbytes, hlen⟩ :=
    zones_serialize_and_store_chgset_ok C c max_size bytes hser
  rw [hsf] at hbf
  rw [hst] at hbt
  obtain ⟨k, rfl⟩ := Nat.exists_eq_add_of_le hfuel
  have hlt : size_sub max_size 4 < 2 ^ 64 := Nat.mod_lt _ (by norm_num)
  have hblen : bytes.length
      = 4 + (bf.length + (rm.flatten.length + (bt.length + ad.flatten.length))) := by
    rw [hbytes]; simp [u32_to_bytes_length]
  have hsub : size_sub bytes.length 4
      = bf.length + (rm.flatten ++ (bt ++ ad.flatten)).length := by
    unfold size_sub
    simp only [List.length_append]
    omega
  have hfl : u32_of_bytes bytes = c.flags := by
    rw [hbytes]; exact u32_of_bytes_to_bytes _ _ hflags
  -- the changeset after the flags were read
  have hone : zones_changesets_from_binary_one C (c.remove.length + c.add.length + 1 + k)
      (changeset_of_journal_entry c.serial_from c.serial_to bytes)
      = some (KNOT_EOK, { c with data := bytes, size := bytes.length }) := by
    unfold zones_changesets_from_binary_one
    have hsz : ¬ ((changeset_of_journal_entry c.serial_from c.serial_to bytes).size < 4 ∨
        (changeset_of_journal_entry c.serial_from c.serial_to bytes).data.length
          < (changeset_of_journal_entry c.serial_from c.serial_to bytes).size) := by
      simp only [changeset_of_journal_entry]; omega
    rw [if_neg hsz]
    simp only [changeset_of_journal_entry, hfl, hsub]
    obtain ⟨_, _, hd⟩ := zones_changesets_from_binary_loop_step C hrt sf bf
      (u32_to_bytes c.flags) (rm.flatten ++ (bt ++ ad.flatten))
      { soa_from := none, remove := [], soa_to := none, add := [], data := bytes,
        size := bytes.length, serial_from := c.serial_from, serial_to := c.serial_to,
        flags := c.flags } hbf (by simp [hbytes]) rfl
    simp only at hd
    rw [hd]
    simp only [hsft, ne_eq, not_true_eq_false, if_false, hsfs, knot_changeset_add_soa]
    -- the removed RRsets
    have hfuel1 : c.remove.length + c.add.length + 1 + k
        = c.remove.length + (c.add.length + k + 1) := by omega
    have hrem1 : (rm.flatten ++ (bt ++ ad.flatten)).length
        = rm.flatten.length + (bt ++ ad.flatten).length := by simp
    rw [hfuel1, hrem1, zones_changesets_from_binary_loop_rrsets C hrt c.remove rm
      (u32_to_bytes c.flags ++ bf) (bt ++ ad.flatten) _ true _ hrm hrmty
      (by simp [hbytes]) rfl]
    simp only [if_true, List.nil_append]
    -- the closing SOA
    obtain ⟨hpos, hin2, hd2⟩ := zones_changesets_from_binary_loop_step C hrt st bt
      (u32_to_bytes c.flags ++ (bf ++ rm.flatten)) ad.flatten
      { soa_from := some sf, remove := c.remove, soa_to := none, add := [], data := bytes,
        size := bytes.length, serial_from := c.serial_from, serial_to := c.serial_to,
        flags := c.flags } hbt (by simp [hbytes]) rfl
    simp only at hd2
    rw [List.length_append, zones_changesets_from_binary_loop]
    simp only [gt_iff_lt, hpos, if_true, hin2, if_false, hd2, hstt, knot_changeset_add_soa,
      hsts]
    -- the added RRsets
    have hrem2 : ad.flatten.length = ad.flatten.length + ([] : List Nat).length := by simp
    rw [hrem2, zones_changesets_from_binary_loop_rrsets C hrt c.add ad
      (u32_to_bytes c.flags ++ (bf ++ (rm.flatten ++ bt))) [] k false _ had hadty
      (by simp [hbytes]) rfl]
    simp only [Bool.false_eq_true, if_false, List.nil_append, List.length_nil]
    rw [zones_changesets_from_binary_loop_done]
    simp [hsf, hst]
  simp [zones_changesets_from_binary, zones_changesets_from_binary_walk, hone]

theorem sample_codec_round_trips : rrset_codec_round_trips sample_codec := by
  intro r b rest h
  obtain ⟨owner, type, rclass, ttl, rdata⟩ := r
  simp only [sample_codec] at h
  by_cases hc : owner = [] ∧ rclass = 0 ∧ rdata = []
  · obtain ⟨h1, h2, h3⟩ := hc
    subst h1 h2 h3
    simp only [and_self, if_true, Option.some.injEq] at h
    subst h
    simp [sample_codec]
  · rw [if_neg hc] at h
    exact absurd h (by simp)

theorem sample_changeset_valid : changeset_valid sample_codec sample_changeset := by
  refine ⟨by decide, ⟨sample_rr 6 100, rfl, rfl, rfl⟩, ⟨sample_rr 6 101, rfl, rfl, rfl⟩, ?_, ?_⟩
  · intro r hr
    simp only [sample_changeset, List.mem_singleton] at hr
    subst hr
    decide
  · intro r hr
    simp only [sample_changeset, List.mem_singleton] at hr
    subst hr
    decide

theorem changeset_round_trip_witness :
    zones_serialize_and_store_chgset sample_codec sample_changeset 12
        = some (KNOT_EOK, [1, 0, 0, 0, 6, 100, 1, 60, 6, 101, 1, 61])
    ∧ zones_changesets_from_binary sample_codec 3
        { sets := [changeset_of_journal_entry 100 101
            [1, 0, 0, 0, 6, 100, 1, 60, 6, 101, 1, 61]], flags := 0 }
      = some (KNOT_EOK,
          { sets := [{ sample_changeset with
              data := [1, 0, 0, 0, 6, 100, 1, 60, 6, 101, 1, 61], size := 12 }],
            flags := 0 }) :=
  ⟨by decide,
   changeset_round_trip sample_codec sample_changeset 12 3 0
     [1, 0, 0, 0, 6, 100, 1, 60, 6, 101, 1, 61]
     sample_codec_round_trips sample_changeset_valid (by decide) (by decide)⟩

/-! ## Journal keys and journal stores -/

theorem ixfrdb_key_from_make (sfrom sto : Nat) (hf : sfrom < 2 ^ 32) (ht : sto < 2 ^ 32) :
    ixfrdb_key_from (ixfrdb_key_make sfrom sto) = sfrom := by
  rw [ixfrdb_key_make_eq_add sfrom sto hf ht]
  unfold ixfrdb_key_from
  have h : (0x00000000ffffffff : Nat) = 2 ^ 32 - 1 := by norm_num
  rw [h, Nat.and_pow_two_sub_one_eq_mod]
  omega

theorem ixfrdb_key_to_make (sfrom sto : Nat) (hf : sfrom < 2 ^ 32) (ht : sto < 2 ^ 32) :
    ixfrdb_key_to (ixfrdb_key_make sfrom sto) = sto := by
  rw [ixfrdb_key_make_eq_add sfrom sto hf ht]
  unfold ixfrdb_key_to
  rw [Nat.shiftRight_eq_div_pow]
  omega

theorem zones_store_changeset_trace (C : rrset_codec) (O : Oracle) (chs : knot_changeset_t)
    (tr tr1 : Trace) (ret : knot_error)
    (h : zones_store_changeset C O chs tr = some (ret, tr1)) :
    (ret ≠ KNOT_EOK ∧ tr1 = tr ++
        [(Call.journal_map (changeset_key chs) (changeset_binary_size_sum C chs), ret)])
    ∨ (∃ entry v r2, tr1 = tr ++
        [(Call.journal_map (changeset_key chs) (changeset_binary_size_sum C chs), KNOT_EOK),
         (Call.journal_unmap (changeset_key chs) entry v, r2)]
        ∧ (ret = KNOT_EOK → v = true ∧ r2 = KNOT_EOK)) := by
  unfold zones_store_changeset at h
  simp only [call, zones_changeset_binary_size, ne_eq, not_true_eq_false, if_false,
    Option.getD_some] at h
  by_cases hm : O.ret tr (Call.journal_map (ixfrdb_key_make chs.serial_from chs.serial_to)
      (changeset_binary_size_sum C chs)) = KNOT_EOK
  · simp only [hm, ne_eq, not_true_eq_false, if_false] at h
    cases hs : zones_serialize_and_store_chgset C chs (changeset_binary_size_sum C chs) with
    | none => simp [hs] at h
    | some res =>
      obtain ⟨sret, entry⟩ := res
      simp only [hs, Option.some.injEq, Prod.mk.injEq] at h
      obtain ⟨h1, h2⟩ := h
      right
      generalize O.ret (tr ++ [(Call.journal_map (ixfrdb_key_make chs.serial_from
        chs.serial_to) (changeset_binary_size_sum C chs), KNOT_EOK)])
        (Call.journal_unmap (ixfrdb_key_make chs.serial_from chs.serial_to) entry
          (decide (sret = KNOT_EOK))) = r2 at h1 h2
      refine ⟨entry, decide (sret = KNOT_EOK), r2, ?_, ?_⟩
      · rw [← h2]; simp [changeset_key]
      · intro hret
        rw [hret] at h1
        by_cases hsr : sret = KNOT_EOK
        · by_cases hne : r2 = KNOT_EOK
          · exact ⟨by simp [hsr], hne⟩
          · simp only [hsr, true_and] at h1
            rw [if_pos hne] at h1
            exact absurd h1 hne
        · simp only [hsr, false_and, if_false] at h1
  · simp only [ne_eq, hm, not_false_eq_true, if_true, Option.some.injEq, Prod.mk.injEq] at h
    left
    obtain ⟨h1, h2⟩ := h
    refine ⟨by rw [← h1]; exact hm, ?_⟩
    rw [← h2, ← h1]; rfl

theorem zones_store_changesets_walk_trace (C : rrset_codec) (O : Oracle)
    (l : List knot_changeset_t) :
    ∀ (tr tr1 : Trace) (ret : knot_error),
      zones_store_changesets_walk C O l tr = some (ret, tr1) →
      ∃ new : Trace, tr1 = tr ++ new ∧ (∀ e ∈ new, is_store_call l e.1)
        ∧ (ret = KNOT_EOK → ∀ e ∈ new, e.2 = KNOT_EOK) ∧ (l ≠ [] → new ≠ []) := by
  induction l with
  | nil =>
    intro tr tr1 ret h
    simp only [zones_store_changesets_walk, Option.some.injEq, Prod.mk.injEq] at h
    exact ⟨[], by simp [h.2], by simp, by simp, by simp⟩
  | cons chs rest ih =>
    intro tr tr1 ret h
    simp only [zones_store_changesets_walk] at h
    cases hs : zones_store_changeset C O chs tr with
    | none => simp [hs] at h
    | some res =>
      obtain ⟨r1, t1⟩ := res
      simp only [hs] at h
      have hmem : chs ∈ chs :: rest := List.mem_cons_self _ _
      have hstore := zones_store_changeset_trace C O chs tr t1 r1 hs
      by_cases hr1 : r1 = KNOT_EOK
      · simp only [hr1, ne_eq, not_true_eq_false, if_false] at h
        obtain ⟨new, hnew, hcalls, hok, _⟩ := ih t1 tr1 ret h
        rcases hstore with ⟨hne, _⟩ | ⟨entry, v, r2, ht1, hv⟩
        · exact absurd hr1 hne
        · obtain ⟨_, hr2⟩ := hv hr1
          refine ⟨[(Call.journal_map (changeset_key chs) (changeset_binary_size_sum C chs),
              KNOT_EOK), (Call.journal_unmap (changeset_key chs) entry v, r2)] ++ new,
            by rw [hnew, ht1]; simp, ?_, ?_, by simp⟩
          · intro e he
            simp only [List.cons_append, List.nil_append, List.mem_cons] at he
            rcases he with he | he | he
            · rw [he]; exact ⟨chs, hmem, rfl⟩
            · rw [he]; exact ⟨chs, hmem, rfl⟩
            · have := hcalls e he
              revert this
              cases e.1 <;> simp only [is_store_call, imp_self, List.mem_cons]
              · rintro ⟨c, hc, rfl⟩; exact ⟨c, Or.inr hc, rfl⟩
              · rintro ⟨c, hc, rfl⟩; exact ⟨c, Or.inr hc, rfl⟩
          · intro hret e he
            simp only [List.cons_append, List.nil_append, List.mem_cons] at he
            rcases he with he | he | he
            · rw [he]
            · rw [he]; exact hr2
            · exact hok hret e he
      · simp only [ne_eq, hr1, not_false_eq_true, if_true, Option.some.injEq,
          Prod.mk.injEq] at h
        obtain ⟨h1, h2⟩ := h
        subst h1 h2
        rcases hstore with ⟨_, ht1⟩ | ⟨entry, v, r2, ht1, _⟩
        · refine ⟨_, ht1, ?_, fun hret => absurd hret hr1, by simp⟩
          intro e he
          simp only [List.mem_singleton] at he
          rw [he]; exact ⟨chs, hmem, rfl⟩
        · refine ⟨_, ht1, ?_, fun hret => absurd hret hr1, by simp⟩
          intro e he
          simp only [List.mem_cons, List.mem_singleton, List.not_mem_nil, or_false] at he
          rcases he with he | he
          · rw [he]; exact ⟨chs, hmem, rfl⟩
          · rw [he]; exact ⟨chs, hmem, rfl⟩

theorem zones_store_changesets_trace (C : rrset_codec) (O : Oracle) (zone : knot_zone_t)
    (src : knot_changesets_t) (tr tr1 : Trace) (ret : knot_error)
    (h : zones_store_changesets C O (some zone) (some src) tr = some (ret, tr1)) :
    ∃ new : Trace, tr1 = tr ++ new
      ∧ (∀ e ∈ new, is_store_call src.sets e.1 ∨ is_begin_rollback_or_timer e.1)
      ∧ (ret = KNOT_EOK → (∀ e ∈ new, is_store_call src.sets e.1 ∧ e.2 = KNOT_EOK)
          ∧ (src.sets ≠ [] → new ≠ [])) := by
  unfold zones_store_changesets at h
  simp only at h
  cases hzd : zone.data with
  | none => simp [hzd] at h
  | some zd =>
    simp only [hzd] at h
    cases hj : zd.ixfr_db with
    | none =>
      simp only [hj, Option.some.injEq, Prod.mk.injEq] at h
      refine ⟨[], by simp [h.2], by simp, fun hret => ?_⟩
      rw [← h.1] at hret
      exact absurd hret (by decide)
    | some j =>
      simp only [hj] at h
      cases hw : zones_store_changesets_walk C O src.sets tr with
      | none => simp [hw] at h
      | some res =>
        obtain ⟨r1, t1⟩ := res
        simp only [hw] at h
        obtain ⟨new, hnew, hcalls, hok, hnonempty⟩ :=
          zones_store_changesets_walk_trace C O _ _ _ _ hw
        cases htm : zd.ixfr_dbsync with
        | none =>
          simp only [htm, Option.some.injEq, Prod.mk.injEq] at h
          obtain ⟨h1, h2⟩ := h
          subst h1 h2
          exact ⟨new, hnew, fun e he => Or.inl (hcalls e he),
            fun hret => ⟨fun e he => ⟨hcalls e he, hok hret e he⟩, hnonempty⟩⟩
        | some tmr =>
          simp only [htm] at h
          by_cases hb : r1 = KNOT_EBUSY
          · simp only [hb, if_true, call_void, Option.some.injEq, Prod.mk.injEq] at h
            obtain ⟨h1, h2⟩ := h
            subst h1
            refine ⟨new ++ [(Call.evsched_cancel tmr, KNOT_EOK),
              (Call.evsched_schedule tmr 0, KNOT_EOK)], by rw [← h2, hnew]; simp, ?_, ?_⟩
            · intro e he
              simp only [List.mem_append, List.mem_cons, List.mem_singleton,
                List.not_mem_nil, or_false] at he
              rcases he with he | he | he
              · exact Or.inl (hcalls e he)
              · rw [he]; exact Or.inr trivial
              · rw [he]; exact Or.inr trivial
            · intro hret; exact absurd hret (by decide)
          · simp only [hb, if_false, Option.some.injEq, Prod.mk.injEq] at h
            obtain ⟨h1, h2⟩ := h
            subst h1 h2
            exact ⟨new, hnew, fun e he => Or.inl (hcalls e he),
              fun hret => ⟨fun e he => ⟨hcalls e he, hok hret e he⟩, hnonempty⟩⟩

theorem zones_store_changesets_begin_and_store_trace (A : changesets_api) (C : rrset_codec)
    (O : Oracle) (zone : knot_zone_t) (chgsets : knot_changesets_t)
    (transaction j : Option journal_t) (tr tr1 : Trace) (ret : knot_error)
    (h : zones_store_changesets_begin_and_store A C O zone chgsets transaction tr
      = some (ret, j, tr1)) :
    ∃ new : Trace, tr1 = tr ++ new
      ∧ (∀ e ∈ new, is_store_call chgsets.sets e.1 ∨ is_begin_rollback_or_timer e.1)
      ∧ (ret = KNOT_EOK → ∃ stores jh, j = some jh ∧ zone.data.bind (fun zd => zd.ixfr_db) = some jh
          ∧ new = (Call.journal_trans_begin, KNOT_EOK) :: stores ∧ stores ≠ []
          ∧ ∀ e ∈ stores, is_store_call chgsets.sets e.1 ∧ e.2 = KNOT_EOK)
      ∧ (zones_changesets_empty A (some chgsets) = true →
          ret = KNOT_EINVAL ∧ j = transaction ∧ new = []) := by
  unfold zones_store_changesets_begin_and_store at h
  by_cases hemp : zones_changesets_empty A (some chgsets) = true
  · simp only [hemp, if_true, Option.some.injEq, Prod.mk.injEq] at h
    obtain ⟨h1, h2, h3⟩ := h
    subst h1 h2 h3
    exact ⟨[], by simp, by simp, fun hret => absurd hret (by decide), fun _ => ⟨rfl, rfl, rfl⟩⟩
  · simp only [hemp, Bool.false_eq_true, if_false] at h
    unfold zones_store_changesets_begin at h
    simp only at h
    cases hzd : zone.data with
    | none => simp [hzd] at h
    | some zd =>
      simp only [hzd] at h
      cases hj : zd.ixfr_db with
      | none =>
        simp only [hj, Option.some.injEq, Prod.mk.injEq] at h
        obtain ⟨h1, h2, h3⟩ := h
        subst h1 h2 h3
        exact ⟨[], by simp, by simp, fun hret => absurd hret (by decide),
          fun he => absurd he hemp⟩
      | some jh =>
        simp only [hj, call] at h
        by_cases hb : O.ret tr Call.journal_trans_begin = KNOT_EOK
        · simp only [hb, ne_eq, not_true_eq_false, if_false] at h
          cases hs : zones_store_changesets C O (some zone) (some chgsets)
              (tr ++ [(Call.journal_trans_begin, KNOT_EOK)]) with
          | none => simp [hs] at h
          | some res =>
            obtain ⟨r1, t1⟩ := res
            simp only [hs] at h
            obtain ⟨new, hnew, hcalls, hok⟩ := zones_store_changesets_trace C O _ _ _ _ _ hs
            by_cases hr1 : r1 = KNOT_EOK
            · simp only [hr1, ne_eq, not_true_eq_false, if_false, Option.some.injEq,
                Prod.mk.injEq] at h
              obtain ⟨h1, h2, h3⟩ := h
              subst h1 h2 h3
              refine ⟨(Call.journal_trans_begin, KNOT_EOK) :: new, by rw [hnew]; simp, ?_, ?_,
                fun he => absurd he hemp⟩
              · intro e he
                simp only [List.mem_cons] at he
                rcases he with he | he
                · rw [he]; exact Or.inr trivial
                · exact hcalls e he
              · intro _
                have hsets : chgsets.sets ≠ [] := by
                  intro hnil
                  apply hemp
                  simp [zones_changesets_empty, hnil]
                exact ⟨new, jh, rfl, by simp [hzd, hj], rfl, (hok hr1).2 hsets, (hok hr1).1⟩
            · simp only [ne_eq, hr1, not_false_eq_true, if_true,
                zones_store_changesets_rollback, call, Option.some.injEq, Prod.mk.injEq] at h
              obtain ⟨h1, h2, h3⟩ := h
              subst h1 h2
              refine ⟨(Call.journal_trans_begin, KNOT_EOK) :: (new ++
                [(Call.journal_trans_rollback, O.ret t1 Call.journal_trans_rollback)]),
                by rw [← h3, hnew]; simp, ?_, fun hret => absurd hret hr1,
                fun he => absurd he hemp⟩
              intro e he
              simp only [List.mem_cons, List.mem_append, List.mem_singleton,
                List.not_mem_nil, or_false] at he
              rcases he with he | he | he
              · rw [he]; exact Or.inr trivial
              · exact hcalls e he
              · rw [he]; exact Or.inr trivial
        · simp only [ne_eq, hb, not_false_eq_true, if_true, Option.some.injEq,
            Prod.mk.injEq] at h
          obtain ⟨h1, h2, h3⟩ := h
          subst h1 h2
          refine ⟨[(Call.journal_trans_begin, O.ret tr Call.journal_trans_begin)],
            h3.symm, ?_, fun hret => absurd hret (by decide), fun he => absurd he hemp⟩
          intro e he
          simp only [List.mem_singleton] at he
          rw [he]; exact Or.inr trivial

/-- C4. Journal key packing: for 32-bit serials the key is `(to << 32) | from`
as a 64-bit value, `ixfrdb_key_from` and `ixfrdb_key_to` recover the two
serials, and `zones_store_changeset` reserves and finalizes the journal entry
of a changeset under the key made of its serials (for 100 -> 101 the key is
`(101 << 32) | 100`). -/
theorem journal_key_packing (C : rrset_codec) (O : Oracle) (sfrom sto : Nat)
    (hf : sfrom < 2 ^ 32) (ht : sto < 2 ^ 32) :
    ixfrdb_key_make sfrom sto = (sto <<< 32) ||| sfrom
    ∧ ixfrdb_key_make sfrom sto < 2 ^ 64
    ∧ ixfrdb_key_from (ixfrdb_key_make sfrom sto) = sfrom
    ∧ ixfrdb_key_to (ixfrdb_key_make sfrom sto) = sto
    ∧ (∀ (chs : knot_changeset_t) (tr tr1 : Trace) (ret : knot_error),
        chs.serial_from = sfrom → chs.serial_to = sto →
        zones_store_changeset C O chs tr = some (ret, tr1) →
        ∃ r rest, tr1 = tr ++ (Call.journal_map (ixfrdb_key_make sfrom sto)
              (changeset_binary_size_sum C chs), r) :: rest
          ∧ ∀ e ∈ rest, ∃ entry v,
              e.1 = Call.journal_unmap (ixfrdb_key_make sfrom sto) entry v)
    ∧ ixfrdb_key_make 100 101 = (101 <<< 32) ||| 100 := by
  refine ⟨?_, ?_, ixfrdb_key_from_make sfrom sto hf ht, ixfrdb_key_to_make sfrom sto hf ht,
    ?_, by decide⟩
  · unfold ixfrdb_key_make
    rw [Nat.shiftLeft_eq, Nat.mod_eq_of_lt (by omega)]
  · rw [ixfrdb_key_make_eq_add sfrom sto hf ht]; omega
  · intro chs tr tr1 ret h1 h2 h
    have hk : changeset_key chs = ixfrdb_key_make sfrom sto := by
      rw [changeset_key, h1, h2]
    rcases zones_store_changeset_trace C O chs tr tr1 ret h with ⟨_, ht1⟩ | ⟨entry, v, r2, ht1, _⟩
    · rw [hk] at ht1
      exact ⟨ret, [], ht1, by simp⟩
    · rw [hk] at ht1
      refine ⟨KNOT_EOK, [(Call.journal_unmap (ixfrdb_key_make sfrom sto) entry v, r2)], ht1, ?_⟩
      intro e he
      simp only [List.mem_singleton] at he
      exact ⟨entry, v, by rw [he]⟩

theorem journal_key_packing_witness :
    ixfrdb_key_from (ixfrdb_key_make 100 101) = 100
    ∧ ixfrdb_key_to (ixfrdb_key_make 100 101) = 101
    ∧ ixfrdb_key_make 100 101 = 433791696996
    ∧ zones_store_changeset sample_codec oracle_ok sample_changeset []
        = some (KNOT_EOK,
            [(Call.journal_map 433791696996 12, KNOT_EOK),
             (Call.journal_unmap 433791696996 [1, 0, 0, 0, 6, 100, 1, 60, 6, 101, 1, 61] true,
               KNOT_EOK)]) :=
  ⟨(journal_key_packing sample_codec oracle_ok 100 101 (by decide) (by decide)).2.2.1,
   (journal_key_packing sample_codec oracle_ok 100 101 (by decide) (by decide)).2.2.2.1,
   by decide, by decide⟩

/-! ## The update pipeline -/

/-- C7 (as amended). Order of publication and commit: on the success path of
`zones_store_and_apply_chgsets` the effects occur in the order journal append
(begin of the transaction, then the stores of the changesets), apply to new
contents, journal commit, switch of the zone's current contents; the contents
switch never happens before the journal commit. -/
theorem store_and_apply_success_order (A : changesets_api) (C : rrset_codec) (O : Oracle)
    (chs : knot_changesets_t) (zone z : knot_zone_t)
    (new_contents nc : Option knot_zone_contents_t) (type : knot_ns_xfr_type_t)
    (tr tr1 : Trace)
    (h : zones_store_and_apply_chgsets A C O chs zone new_contents type tr
      = some (KNOT_EOK, z, nc, tr1)) :
    ∃ stores : Trace, stores ≠ []
      ∧ (∀ e ∈ stores, is_store_call chs.sets e.1 ∧ e.2 = KNOT_EOK)
      ∧ tr1 = tr ++ ((Call.journal_trans_begin, KNOT_EOK) :: stores ++
          [(Call.xfrin_apply_changesets chs, KNOT_EOK),
           (Call.journal_trans_commit, KNOT_EOK),
           (Call.xfrin_switch_zone nc type, KNOT_EOK),
           (Call.xfrin_cleanup_successful_update, KNOT_EOK)])
      ∧ z = { zone with contents := nc } := by
  unfold zones_store_and_apply_chgsets at h
  cases hb : zones_store_changesets_begin_and_store A C O zone chs none tr with
  | none => simp [hb] at h
  | some res =>
    obtain ⟨r0, j, t0⟩ := res
    simp only [hb] at h
    by_cases hr0 : r0 = KNOT_EOK
    swap
    · simp [hr0] at h
    subst hr0
    simp only [ne_eq, not_true_eq_false, if_false] at h
    obtain ⟨new, hnew, _, hok, _⟩ :=
      zones_store_changesets_begin_and_store_trace A C O _ _ _ _ _ _ _ hb
    obtain ⟨stores, jh, hj, _, hnew2, hne, hst⟩ := hok rfl
    subst hj
    simp only [xfrin_apply_changesets, call] at h
    by_cases hra : O.ret t0 (Call.xfrin_apply_changesets chs) = KNOT_EOK
    swap
    · simp [hra] at h
    simp only [hra, ne_eq, not_true_eq_false, if_false, if_true,
      zones_store_changesets_commit, call] at h
    by_cases hrc : O.ret (t0 ++ [(Call.xfrin_apply_changesets chs, KNOT_EOK)])
      Call.journal_trans_commit = KNOT_EOK
    swap
    · simp [hrc] at h
    simp only [hrc, not_true_eq_false, if_false, xfrin_switch_zone, call,
      List.append_assoc, List.singleton_append] at h
    by_cases hrs : O.ret (t0 ++ [(Call.xfrin_apply_changesets chs, KNOT_EOK),
      (Call.journal_trans_commit, KNOT_EOK)])
      (Call.xfrin_switch_zone (O.contents t0 (Call.xfrin_apply_changesets chs)) type)
      = KNOT_EOK
    swap
    · simp [hrs] at h
    simp only [hrs, not_true_eq_false, if_false, if_true, call_void, Option.some.injEq,
      Prod.mk.injEq, true_and] at h
    obtain ⟨hz, hnc, htr⟩ := h
    subst hnc
    refine ⟨stores, hne, hst, ?_, hz.symm⟩
    rw [← htr, hnew, hnew2]
    simp

/-- C7, as stated, fails: on a successful run the journal commit is the fifth
call and the switch of the zone contents the sixth. -/
theorem store_and_apply_commits_before_switch :
    zones_store_and_apply_chgsets sample_api sample_codec oracle_ok
        { sets := [sample_changeset], flags := 0 } sample_zone none XFR_TYPE_IIN []
      = some (KNOT_EOK, { sample_zone with contents := some sample_contents_new },
          some sample_contents_new,
          [(Call.journal_trans_begin, KNOT_EOK),
           (Call.journal_map 433791696996 12, KNOT_EOK),
           (Call.journal_unmap 433791696996 [1, 0, 0, 0, 6, 100, 1, 60, 6, 101, 1, 61] true,
             KNOT_EOK),
           (Call.xfrin_apply_changesets { sets := [sample_changeset], flags := 0 }, KNOT_EOK),
           (Call.journal_trans_commit, KNOT_EOK),
           (Call.xfrin_switch_zone (some sample_contents_new) XFR_TYPE_IIN, KNOT_EOK),
           (Call.xfrin_cleanup_successful_update, KNOT_EOK)]) := by
  decide

theorem store_and_apply_success_order_witness :
    ∃ stores : Trace, stores ≠ []
      ∧ (∀ e ∈ stores, is_store_call [sample_changeset] e.1 ∧ e.2 = KNOT_EOK)
      ∧ [(Call.journal_trans_begin, KNOT_EOK),
           (Call.journal_map 433791696996 12, KNOT_EOK),
           (Call.journal_unmap 433791696996 [1, 0, 0, 0, 6, 100, 1, 60, 6, 101, 1, 61] true,
             KNOT_EOK),
           (Call.xfrin_apply_changesets { sets := [sample_changeset], flags := 0 }, KNOT_EOK),
           (Call.journal_trans_commit, KNOT_EOK),
           (Call.xfrin_switch_zone (some sample_contents_new) XFR_TYPE_IIN, KNOT_EOK),
           (Call.xfrin_cleanup_successful_update, KNOT_EOK)]
        = [] ++ ((Call.journal_trans_begin, KNOT_EOK) :: stores ++
          [(Call.xfrin_apply_changesets { sets := [sample_changeset], flags := 0 }, KNOT_EOK),
           (Call.journal_trans_commit, KNOT_EOK),
           (Call.xfrin_switch_zone (some sample_contents_new) XFR_TYPE_IIN, KNOT_EOK),
           (Call.xfrin_cleanup_successful_update, KNOT_EOK)])
      ∧ { sample_zone with contents := some sample_contents_new }
        = { sample_zone with contents := some sample_contents_new } :=
  store_and_apply_success_order sample_api sample_codec oracle_ok
    { sets := [sample_changeset], flags := 0 } sample_zone _ none _ XFR_TYPE_IIN [] _
    (by decide)

theorem is_store_call_ne_commit (l : List knot_changeset_t) (e : Call × knot_error)
    (h : is_store_call l e.1 ∨ is_begin_rollback_or_timer e.1) :
    e ≠ (Call.journal_trans_commit, KNOT_EOK) := by
  intro he
  rw [he] at h
  simp [is_store_call, is_begin_rollback_or_timer] at h

/-- C2, as stated, fails: when the switch of the contents fails the function
returns `KNOT_ERROR` although the journal transaction has been committed. -/
theorem store_and_apply_switch_failure_after_commit :
    zones_store_and_apply_chgsets sample_api sample_codec oracle_switch_fails
        { sets := [sample_changeset], flags := 0 } sample_zone none XFR_TYPE_IIN []
      = some (KNOT_ERROR, sample_zone, some sample_contents_new,
          [(Call.journal_trans_begin, KNOT_EOK),
           (Call.journal_map 433791696996 12, KNOT_EOK),
           (Call.journal_unmap 433791696996 [1, 0, 0, 0, 6, 100, 1, 60, 6, 101, 1, 61] true,
             KNOT_EOK),
           (Call.xfrin_apply_changesets { sets := [sample_changeset], flags := 0 }, KNOT_EOK),
           (Call.journal_trans_commit, KNOT_EOK),
           (Call.xfrin_switch_zone (some sample_contents_new) XFR_TYPE_IIN, KNOT_ERROR),
           (Call.xfrin_rollback_update, KNOT_EOK)]) := by
  decide

/-- C2 (as amended). Partial-failure guarantee: whenever
`zones_store_and_apply_chgsets` returns an error the zone, and so its current
contents, is as before the call; the journal transaction has not been
committed (no successful `journal_trans_commit`), except when the failing step
is the switch of the contents, which runs after the successful commit and
makes the function return `KNOT_ERROR`. -/
theorem store_and_apply_failure (A : changesets_api) (C : rrset_codec) (O : Oracle)
    (chs : knot_changesets_t) (zone z : knot_zone_t)
    (new_contents nc : Option knot_zone_contents_t) (type : knot_ns_xfr_type_t)
    (tr tr1 : Trace) (ret : knot_error)
    (h : zones_store_and_apply_chgsets A C O chs zone new_contents type tr
      = some (ret, z, nc, tr1))
    (hret : ret ≠ KNOT_EOK) :
    z = zone ∧ ∃ new : Trace, tr1 = tr ++ new
      ∧ ((∀ e ∈ new, e ≠ (Call.journal_trans_commit, KNOT_EOK))
        ∨ (ret = KNOT_ERROR ∧ ∃ pre r, r ≠ KNOT_EOK
            ∧ (∀ e ∈ pre, e ≠ (Call.journal_trans_commit, KNOT_EOK))
            ∧ new = pre ++ [(Call.journal_trans_commit, KNOT_EOK),
                (Call.xfrin_switch_zone nc type, r),
                (Call.xfrin_rollback_update, KNOT_EOK)])) := by
  unfold zones_store_and_apply_chgsets at h
  cases hb : zones_store_changesets_begin_and_store A C O zone chs none tr with
  | none => simp [hb] at h
  | some res =>
    obtain ⟨r0, j, t0⟩ := res
    simp only [hb] at h
    obtain ⟨new, hnew, hcalls, hok, _⟩ :=
      zones_store_changesets_begin_and_store_trace A C O _ _ _ _ _ _ _ hb
    have hnew_nc : ∀ e ∈ new, e ≠ (Call.journal_trans_commit, KNOT_EOK) :=
      fun e he => is_store_call_ne_commit chs.sets e (hcalls e he)
    subst hnew
    by_cases hr0 : r0 = KNOT_EOK
    swap
    · simp only [ne_eq, hr0, not_false_eq_true, if_true, Option.some.injEq,
        Prod.mk.injEq] at h
      obtain ⟨_, hz, _, htr⟩ := h
      exact ⟨hz.symm, new, htr.symm, Or.inl hnew_nc⟩
    subst hr0
    simp only [ne_eq, not_true_eq_false, if_false] at h
    obtain ⟨stores, jh, hj, _, _, _, _⟩ := hok rfl
    subst hj
    simp only [xfrin_apply_changesets, call] at h
    by_cases hra : O.ret (tr ++ new) (Call.xfrin_apply_changesets chs) = KNOT_EOK
    swap
    · simp only [hra, not_false_eq_true, if_true, if_false, zones_store_changesets_rollback,
        call, Option.some.injEq, Prod.mk.injEq, List.append_assoc,
        List.singleton_append] at h
      obtain ⟨_, hz, _, htr⟩ := h
      refine ⟨hz.symm, new ++ [(Call.xfrin_apply_changesets chs,
          O.ret (tr ++ new) (Call.xfrin_apply_changesets chs)),
        (Call.journal_trans_rollback, O.ret (tr ++ (new ++ [(Call.xfrin_apply_changesets chs,
          O.ret (tr ++ new) (Call.xfrin_apply_changesets chs))])) Call.journal_trans_rollback)],
        by rw [← htr], Or.inl ?_⟩
      intro e he
      simp only [List.mem_append, List.mem_cons, List.mem_singleton, List.not_mem_nil,
        or_false] at he
      rcases he with he | he | he
      · exact hnew_nc e he
      · rw [he]; simp
      · rw [he]; simp
    simp only [hra, ne_eq, not_true_eq_false, if_false, if_true,
      zones_store_changesets_commit, call, List.append_assoc] at h
    by_cases hrc : O.ret (tr ++ (new ++ [(Call.xfrin_apply_changesets chs, KNOT_EOK)]))
      Call.journal_trans_commit = KNOT_EOK
    swap
    · simp only [hrc, not_false_eq_true, if_true, call_void, Option.some.injEq,
        Prod.mk.injEq, List.append_assoc, List.singleton_append] at h
      obtain ⟨_, hz, _, htr⟩ := h
      refine ⟨hz.symm, new ++ [(Call.xfrin_apply_changesets chs, KNOT_EOK),
        (Call.journal_trans_commit, O.ret (tr ++ (new ++ [(Call.xfrin_apply_changesets chs,
          KNOT_EOK)])) Call.journal_trans_commit), (Call.xfrin_rollback_update, KNOT_EOK)],
        by rw [← htr]; simp, Or.inl ?_⟩
      intro e he
      simp only [List.mem_append, List.mem_cons, List.mem_singleton, List.not_mem_nil,
        or_false] at he
      rcases he with he | he | he | he
      · exact hnew_nc e he
      · rw [he]; simp
      · rw [he]; simp [hrc]
      · rw [he]; simp
    simp only [hrc, not_true_eq_false, if_false, xfrin_switch_zone, call,
      List.append_assoc, List.singleton_append] at h
    by_cases hrs : O.ret (tr ++ (new ++ [(Call.xfrin_apply_changesets chs, KNOT_EOK),
      (Call.journal_trans_commit, KNOT_EOK)]))
      (Call.xfrin_switch_zone (O.contents (tr ++ new) (Call.xfrin_apply_changesets chs)) type)
      = KNOT_EOK
    · simp only [hrs, not_true_eq_false, if_false, if_true, Option.some.injEq,
        Prod.mk.injEq] at h
      exact absurd h.1.symm hret
    · simp only [hrs, not_false_eq_true, if_false, if_true, call_void, Option.some.injEq,
        Prod.mk.injEq, List.append_assoc, List.cons_append, List.nil_append] at h
      obtain ⟨hr, hz, hnc, htr⟩ := h
      subst hnc
      refine ⟨hz.symm, new ++ [(Call.xfrin_apply_changesets chs, KNOT_EOK),
        (Call.journal_trans_commit, KNOT_EOK),
        (Call.xfrin_switch_zone (O.contents (tr ++ new) (Call.xfrin_apply_changesets chs)) type,
          O.ret (tr ++ (new ++ [(Call.xfrin_apply_changesets chs, KNOT_EOK),
            (Call.journal_trans_commit, KNOT_EOK)]))
            (Call.xfrin_switch_zone (O.contents (tr ++ new)
              (Call.xfrin_apply_changesets chs)) type)),
        (Call.xfrin_rollback_update, KNOT_EOK)], by rw [← htr],
        Or.inr ⟨hr.symm, new ++ [(Call.xfrin_apply_changesets chs, KNOT_EOK)], _, hrs, ?_,
          by simp⟩⟩
      intro e he
      simp only [List.mem_append, List.mem_singleton] at he
      rcases he with he | he
      · exact hnew_nc e he
      · rw [he]; simp

theorem store_and_apply_failure_witness :
    sample_zone = sample_zone ∧ ∃ new : Trace,
      [(Call.journal_trans_begin, KNOT_EBUSY)] = [] ++ new
      ∧ ((∀ e ∈ new, e ≠ (Call.journal_trans_commit, KNOT_EOK))
        ∨ (KNOT_ERROR = KNOT_ERROR ∧ ∃ pre r, r ≠ KNOT_EOK
            ∧ (∀ e ∈ pre, e ≠ (Call.journal_trans_commit, KNOT_EOK))
            ∧ new = pre ++ [(Call.journal_trans_commit, KNOT_EOK),
                (Call.xfrin_switch_zone none XFR_TYPE_IIN, r),
                (Call.xfrin_rollback_update, KNOT_EOK)])) :=
  store_and_apply_failure sample_api sample_codec
    { ret := fun _ _ => KNOT_EBUSY, contents := fun _ _ => none }
    { sets := [sample_changeset], flags := 0 } sample_zone _ none _ XFR_TYPE_IIN [] _
    KNOT_ERROR (by decide) (by decide)

/-! ## Which changesets are stored -/

theorem store_call_not_equal_serials (l : List knot_changeset_t)
    (hl : ∀ c ∈ l, c.serial_from < 2 ^ 32 ∧ c.serial_to < 2 ^ 32
      ∧ c.serial_from ≠ c.serial_to)
    (c : Call) (h : is_store_call l c ∨ is_begin_rollback_or_timer c) :
    ¬ reserves_equal_serials c := by
  cases c <;> simp only [reserves_equal_serials, not_false_eq_true]
  rename_i key size
  simp only [is_store_call, is_begin_rollback_or_timer, or_false] at h
  obtain ⟨chs, hmem, hkey⟩ := h
  obtain ⟨hf, ht, hne⟩ := hl chs hmem
  rw [hkey, changeset_key, ixfrdb_key_from_make _ _ hf ht, ixfrdb_key_to_make _ _ hf ht]
  exact hne

/-- C6, as stated, fails: a set holding one changeset 7 -> 7 is stored, and
its journal entry is reserved under the key `(7 << 32) | 7`, whose two serials
are equal. -/
theorem equal_serials_are_stored :
    zones_store_changesets_begin_and_store sample_api sample_codec oracle_ok sample_zone
        { sets := [sample_changeset_same_serial], flags := 0 } none []
      = some (KNOT_EOK, some { path := [] },
          [(Call.journal_trans_begin, KNOT_EOK),
           (Call.journal_map 30064771079 8, KNOT_EOK),
           (Call.journal_unmap 30064771079 [0, 0, 0, 0, 6, 7, 6, 7] true, KNOT_EOK)])
    ∧ reserves_equal_serials (Call.journal_map 30064771079 8)
    ∧ zones_store_changesets sample_codec oracle_ok (some sample_zone)
        (some { sets := [sample_changeset_same_serial], flags := 0 }) []
      = some (KNOT_EOK,
          [(Call.journal_map 30064771079 8, KNOT_EOK),
           (Call.journal_unmap 30064771079 [0, 0, 0, 0, 6, 7, 6, 7] true, KNOT_EOK)]) := by
  refine ⟨by decide, ?_, by decide⟩
  simp only [reserves_equal_serials]
  decide

/-- C6 (as amended). The serials of a changeset are not compared before it is
stored: `zones_store_changesets_begin_and_store` stores nothing (no call at
all, `KNOT_EINVAL`) when the set is empty or its first changeset is empty, and
every journal entry reserved by it or by `zones_store_changesets` is reserved
under the key made of the serials of one of the changesets handed in.  So no
entry is reserved under a key whose serial_from equals its serial_to provided
no changeset of the sequence has equal (32-bit) serials. -/
theorem no_equal_serials_reserved (A : changesets_api) (C : rrset_codec) (O : Oracle)
    (zone : knot_zone_t) (chgsets : knot_changesets_t)
    (hl : ∀ c ∈ chgsets.sets, c.serial_from < 2 ^ 32 ∧ c.serial_to < 2 ^ 32
      ∧ c.serial_from ≠ c.serial_to) :
    (∀ (transaction j : Option journal_t) (tr tr1 : Trace) (ret : knot_error),
      zones_store_changesets_begin_and_store A C O zone chgsets transaction tr
        = some (ret, j, tr1) →
      ∃ new : Trace, tr1 = tr ++ new
        ∧ (∀ e ∈ new, is_store_call chgsets.sets e.1 ∨ is_begin_rollback_or_timer e.1)
        ∧ (∀ e ∈ new, ¬ reserves_equal_serials e.1)
        ∧ (zones_changesets_empty A (some chgsets) = true →
            ret = KNOT_EINVAL ∧ j = transaction ∧ new = []))
    ∧ (∀ (tr tr1 : Trace) (ret : knot_error),
      zones_store_changesets C O (some zone) (some chgsets) tr = some (ret, tr1) →
      ∃ new : Trace, tr1 = tr ++ new
        ∧ (∀ e ∈ new, is_store_call chgsets.sets e.1 ∨ is_begin_rollback_or_timer e.1)
        ∧ (∀ e ∈ new, ¬ reserves_equal_serials e.1)) := by
  constructor
  · intro transaction j tr tr1 ret h
    obtain ⟨new, hnew, hcalls, _, hemp⟩ :=
      zones_store_changesets_begin_and_store_trace A C O _ _ _ _ _ _ _ h
    exact ⟨new, hnew, hcalls,
      fun e he => store_call_not_equal_serials _ hl e.1 (hcalls e he), hemp⟩
  · intro tr tr1 ret h
    obtain ⟨new, hnew, hcalls, _⟩ := zones_store_changesets_trace C O _ _ _ _ _ h
    exact ⟨new, hnew, hcalls,
      fun e he => store_call_not_equal_serials _ hl e.1 (hcalls e he)⟩

theorem no_equal_serials_reserved_witness :
    ∃ new : Trace,
      [(Call.journal_trans_begin, KNOT_EOK),
       (Call.journal_map 433791696996 12, KNOT_EOK),
       (Call.journal_unmap 433791696996 [1, 0, 0, 0, 6, 100, 1, 60, 6, 101, 1, 61] true,
         KNOT_EOK)] = [] ++ new
      ∧ (∀ e ∈ new, is_store_call [sample_changeset] e.1 ∨ is_begin_rollback_or_timer e.1)
      ∧ (∀ e ∈ new, ¬ reserves_equal_serials e.1)
      ∧ (zones_changesets_empty sample_api (some { sets := [sample_changeset], flags := 0 })
            = true →
          KNOT_EOK = KNOT_EINVAL ∧ some ({ path := [] } : journal_t) = none ∧ new = []) :=
  (no_equal_serials_reserved sample_api sample_codec oracle_ok sample_zone
    { sets := [sample_changeset], flags := 0 }
    (by
      intro c hc
      simp only [List.mem_singleton] at hc
      subst hc
      decide)).1 none _ [] _ _ (by decide)

/-- C5. Choice of the effective changeset set in
`zones_merge_and_store_changesets`: with both sets empty it returns
`KNOT_EOK`, makes no call and leaves the transaction handle untouched; with
exactly one set non-empty that set is stored by
`zones_store_changesets_begin_and_store`, which begins a new transaction; with
both non-empty the last secondary changeset is merged into the last primary
changeset and the primary set, carrying the merged changeset, is the one
stored. -/
theorem merge_and_store_choice (A : changesets_api) (C : rrset_codec) (O : Oracle)
    (zone : knot_zone_t) (diff_chs sec_chs : Option knot_changesets_t)
    (transaction : Option journal_t) (tr : Trace) :
    (zones_changesets_empty A diff_chs = true → zones_changesets_empty A sec_chs = true →
      zones_merge_and_store_changesets A C O zone diff_chs sec_chs transaction tr
        = some (KNOT_EOK, transaction, tr))
    ∧ (zones_changesets_empty A diff_chs = false → zones_changesets_empty A sec_chs = true →
      ∃ d, diff_chs = some d
        ∧ zones_merge_and_store_changesets A C O zone diff_chs sec_chs transaction tr
          = zones_store_changesets_begin_and_store A C O zone d transaction tr)
    ∧ (zones_changesets_empty A diff_chs = true → zones_changesets_empty A sec_chs = false →
      ∃ s, sec_chs = some s
        ∧ zones_merge_and_store_changesets A C O zone diff_chs sec_chs transaction tr
          = zones_store_changesets_begin_and_store A C O zone s transaction tr)
    ∧ (zones_changesets_empty A diff_chs = false → zones_changesets_empty A sec_chs = false →
      ∃ d s diff_ch sec_ch, diff_chs = some d ∧ sec_chs = some s
        ∧ knot_changesets_get_last d = some diff_ch
        ∧ knot_changesets_get_last s = some sec_ch
        ∧ ∀ merged sec_after, diff_ch.serial_to = sec_ch.serial_from →
            A.knot_changeset_merge diff_ch sec_ch = (KNOT_EOK, merged, sec_after) →
            merged.serial_to = sec_after.serial_to → merged.soa_to = sec_after.soa_to →
            zones_merge_and_store_changesets A C O zone diff_chs sec_chs transaction tr
              = zones_store_changesets_begin_and_store A C O zone
                  { d with sets := d.sets.dropLast ++ [merged] } transaction tr)
    ∧ (∀ (set : knot_changesets_t) (j : Option journal_t) (tr1 : Trace),
        zones_store_changesets_begin_and_store A C O zone set transaction tr
          = some (KNOT_EOK, j, tr1) →
        ∃ stores jh, j = some jh ∧ stores ≠ []
          ∧ tr1 = tr ++ (Call.journal_trans_begin, KNOT_EOK) :: stores
          ∧ ∀ e ∈ stores, is_store_call set.sets e.1 ∧ e.2 = KNOT_EOK) := by
  refine ⟨?_, ?_, ?_, ?_, ?_⟩
  · intro h1 h2
    simp [zones_merge_and_store_changesets, h1, h2]
  · intro h1 h2
    cases diff_chs with
    | none => simp [zones_changesets_empty] at h1
    | some d =>
      exact ⟨d, rfl, by simp [zones_merge_and_store_changesets, h1, h2]⟩
  · intro h1 h2
    cases sec_chs with
    | none => simp [zones_changesets_empty] at h2
    | some s =>
      exact ⟨s, rfl, by simp [zones_merge_and_store_changesets, h1, h2]⟩
  · intro h1 h2
    cases diff_chs with
    | none => simp [zones_changesets_empty] at h1
    | some d =>
      cases sec_chs with
      | none => simp [zones_changesets_empty] at h2
      | some s =>
        have hd : d.sets ≠ [] := by
          intro hnil
          simp [zones_changesets_empty, hnil] at h1
        have hs : s.sets ≠ [] := by
          intro hnil
          simp [zones_changesets_empty, hnil] at h2
        refine ⟨d, s, d.sets.getLast hd, s.sets.getLast hs, rfl, rfl,
          List.getLast?_eq_getLast _ hd, List.getLast?_eq_getLast _ hs, ?_⟩
        intro merged sec_after hser hmerge hto hsoa
        simp [zones_merge_and_store_changesets, h1, h2, knot_changesets_get_last,
          List.getLast?_eq_getLast _ hd, List.getLast?_eq_getLast _ hs, hser, hmerge, hto,
          hsoa]
  · intro set j tr1 h
    obtain ⟨new, hnew, _, hok, _⟩ :=
      zones_store_changesets_begin_and_store_trace A C O _ _ _ _ _ _ _ h
    obtain ⟨stores, jh, hj, _, hnew2, hne, hst⟩ := hok rfl
    exact ⟨stores, jh, hj, hne, by rw [hnew, hnew2], hst⟩

theorem merge_and_store_choice_witness :
    zones_merge_and_store_changesets sample_api sample_codec oracle_ok sample_zone
        (some { sets := [sample_changeset], flags := 0 })
        (some { sets := [sample_changeset_sec], flags := 0 }) none []
      = zones_store_changesets_begin_and_store sample_api sample_codec oracle_ok sample_zone
          { sets := [{ sample_changeset with
              add := [sample_rr 1 61, sample_rr 46 61], soa_to := some (sample_rr 6 102),
              serial_to := 102 }], flags := 0 } none []
    ∧ zones_merge_and_store_changesets sample_api sample_codec oracle_ok sample_zone
        (some { sets := [sample_changeset], flags := 0 })
        (some { sets := [sample_changeset_sec], flags := 0 }) none []
      = some (KNOT_EOK, some { path := [] },
          [(Call.journal_trans_begin, KNOT_EOK),
           (Call.journal_map 438086664292 14, KNOT_EOK),
           (Call.journal_unmap 438086664292
              [1, 0, 0, 0, 6, 100, 1, 60, 6, 102, 1, 61, 46, 61] true, KNOT_EOK)]) := by
  constructor
  · obtain ⟨d, s, dc, sc, hd, hs, hdl, hsl, hm⟩ :=
      (merge_and_store_choice sample_api sample_codec oracle_ok sample_zone
        (some { sets := [sample_changeset], flags := 0 })
        (some { sets := [sample_changeset_sec], flags := 0 }) none []).2.2.2.1
        (by decide) (by decide)
    cases hd
    cases hs
    simp only [knot_changesets_get_last, List.getLast?_singleton, Option.some.injEq] at hdl hsl
    subst hdl hsl
    exact hm _ _ rfl rfl rfl rfl
  · decide

/-! ## The REFRESH event -/

/-- C3, as stated, fails: for a zone with contents whose transfer state is
PENDING the REFRESH event still enqueues a task (the SOA query over UDP). -/
theorem refresh_ev_pending_enqueues_soa_query :
    zones_refresh_ev sample_timers oracle_ok { cb := event_cb_t.zones_refresh_ev }
        (some sample_zone_pending) []
      = (KNOT_EOK, some sample_zone_pending_expire,
         [(Call.xfr_task_create XFR_TYPE_SOA XFR_FLAG_UDP, KNOT_EOK),
          (Call.evsched_schedule_cb event_cb_t.zones_expire_ev 86400000, KNOT_EOK),
          (Call.evsched_schedule { cb := event_cb_t.zones_refresh_ev } 600000, KNOT_EOK),
          (Call.evsched_event_finished, KNOT_EOK),
          (Call.xfr_enqueue sample_soa_query, KNOT_EOK)]) := by
  decide

theorem zones_refresh_ev_request_type (zd : zonedata_t) :
    (zones_refresh_ev_request zd).type = XFR_TYPE_SOA
    ∧ (zones_refresh_ev_request zd).flags = XFR_FLAG_UDP := by
  unfold zones_refresh_ev_request
  simp only [xfr_task_setaddr]
  split <;> exact ⟨rfl, rfl⟩

theorem zones_refresh_ev_expire_frame (T : timers_api) (zone : knot_zone_t) (zd : zonedata_t)
    (tr : Trace) :
    (zones_refresh_ev_expire T zone zd tr).1.xfr_in.state = zd.xfr_in.state
    ∧ ∃ pre : Trace, (zones_refresh_ev_expire T zone zd tr).2 = tr ++ pre
        ∧ ∀ c ∈ pre, ¬ is_xfr_enqueue c.1 := by
  unfold zones_refresh_ev_expire
  split
  · refine ⟨rfl, _, rfl, ?_⟩
    intro c hc
    simp only [List.mem_singleton] at hc
    rw [hc]; simp [is_xfr_enqueue]
  · exact ⟨rfl, [], by simp, by simp⟩

/-- C3 (as amended). For every non-discarded zone whose `xfr_in.state` is
PENDING when the REFRESH/RETRY event fires, `zones_refresh_ev` leaves
`xfr_in.state` equal to PENDING; when the zone is a stub (no contents) it
enqueues no task on the transfer executor; when the zone has contents and the
task is created it enqueues the SOA query over UDP whatever the state. -/
theorem refresh_ev_pending (T : timers_api) (O : Oracle) (e : event_t) (zone : knot_zone_t)
    (zd : zonedata_t) (tr : Trace) (hzd : zone.data = some zd)
    (hst : zd.xfr_in.state = XFR_PENDING)
    (hnd : knot_zone_flags zone &&& KNOT_ZONE_DISCARDED = 0) :
    zone_xfr_state (zones_refresh_ev T O e (some zone) tr).2.1 = some XFR_PENDING
    ∧ ∃ new : Trace, (zones_refresh_ev T O e (some zone) tr).2.2 = tr ++ new
      ∧ (zone.contents = none → ∀ c ∈ new, ¬ is_xfr_enqueue c.1)
      ∧ (zone.contents ≠ none →
          O.ret tr (Call.xfr_task_create XFR_TYPE_SOA XFR_FLAG_UDP) = KNOT_EOK →
          ∃ rq r, rq.type = XFR_TYPE_SOA ∧ rq.flags = XFR_FLAG_UDP
            ∧ (Call.xfr_enqueue rq, r) ∈ new) := by
  have hstate : zone_xfr_state (some zone) = some XFR_PENDING := by
    simp [zone_xfr_state, knot_zone_data, hzd, hst]
  unfold zones_refresh_ev
  simp only [hzd, hnd, ne_eq, not_true_eq_false, if_false, call]
  by_cases hc : O.ret tr (Call.xfr_task_create XFR_TYPE_SOA XFR_FLAG_UDP) = KNOT_EOK
  swap
  · rw [if_pos hc]
    refine ⟨hstate, _, rfl, ?_, fun _ h => absurd h hc⟩
    intro _ c hcm
    simp only [List.mem_singleton] at hcm
    rw [hcm]; simp [is_xfr_enqueue]
  rw [if_neg (not_not.mpr hc)]
  simp only [hc, knot_zone_contents]
  cases hcont : zone.contents with
  | none =>
    simp only [hst, if_true, call_void]
    refine ⟨hstate, _, by rw [List.append_assoc, List.append_assoc], ?_,
      fun h => absurd trivial h⟩
    intro _ c hcm
    simp only [List.mem_append, List.mem_cons, List.mem_singleton, List.not_mem_nil,
      or_false] at hcm
    rcases hcm with hcm | hcm | hcm <;> rw [hcm] <;> simp [is_xfr_enqueue]
  | some zc =>
    obtain ⟨hfr, pre, hpre, hpre_nq⟩ := zones_refresh_ev_expire_frame T zone zd
      (tr ++ [(Call.xfr_task_create XFR_TYPE_SOA XFR_FLAG_UDP, KNOT_EOK)])
    obtain ⟨hty, hfl⟩ := zones_refresh_ev_request_type zd
    simp only [call_void, hpre]
    split
    · refine ⟨by simp [zone_xfr_state, knot_zone_data, hfr, hst], _,
        by simp only [List.append_assoc]; rfl, fun h => absurd h (by simp), ?_⟩
      intro _ _
      exact ⟨zones_refresh_ev_request zd, _, hty, hfl,
        List.mem_append_right _ (List.mem_append_right _ (List.mem_append_right _
          (List.mem_append_right _ (List.mem_append_left _ (List.mem_singleton.mpr rfl)))))⟩
    · refine ⟨by simp [zone_xfr_state, knot_zone_data, hfr, hst], _,
        by simp only [List.append_assoc]; rfl, fun h => absurd h (by simp), ?_⟩
      intro _ _
      exact ⟨zones_refresh_ev_request zd, _, hty, hfl,
        List.mem_append_right _ (List.mem_append_right _ (List.mem_append_right _
          (List.mem_append_right _ (List.mem_singleton.mpr rfl))))⟩

theorem refresh_ev_pending_witness :
    zone_xfr_state (zones_refresh_ev sample_timers oracle_ok
        { cb := event_cb_t.zones_refresh_ev }
        (some { sample_zone_pending with contents := none }) []).2.1 = some XFR_PENDING
    ∧ ∃ new : Trace, (zones_refresh_ev sample_timers oracle_ok
        { cb := event_cb_t.zones_refresh_ev }
        (some { sample_zone_pending with contents := none }) []).2.2 = [] ++ new
      ∧ (({ sample_zone_pending with contents := none } : knot_zone_t).contents = none →
          ∀ c ∈ new, ¬ is_xfr_enqueue c.1)
      ∧ (({ sample_zone_pending with contents := none } : knot_zone_t).contents ≠ none →
          oracle_ok.ret [] (Call.xfr_task_create XFR_TYPE_SOA XFR_FLAG_UDP) = KNOT_EOK →
          ∃ rq r, rq.type = XFR_TYPE_SOA ∧ rq.flags = XFR_FLAG_UDP
            ∧ (Call.xfr_enqueue rq, r) ∈ new) :=
  refresh_ev_pending sample_timers oracle_ok { cb := event_cb_t.zones_refresh_ev }
    { sample_zone_pending with contents := none }
    (zonedata_set_state sample_zonedata XFR_PENDING) [] rfl rfl (by decide)

/-! ## The TSIG and ACL gate -/

/-- C8. TSIG outcome mapping: for every signed query that passes the
pre-checks of `zones_verify_tsig_query`, entered with `*tsig_rcode = 0` as
both callers enter it (zones.c 2420, 2621), the result `r` of
`knot_tsig_server_check` is returned, and BADKEY gives (NOTAUTH, BADKEY),
BADSIG gives (NOTAUTH, BADSIG), BADTIME gives (NOTAUTH, BADTIME) with the
query's time_signed stored in `*tsig_prev_time_signed`, MALF gives FORMERR
with no TSIG error (the TSIG-RCODE stays 0) and EOK gives (NOERROR, 0); in
all cases but BADTIME `*tsig_prev_time_signed` is left as it was.  The
checks of `zones_process_update` enter `zones_check_tsig_query` with the
pair (NOERROR, 0). -/
theorem tsig_outcome_mapping (T : tsig_api) (query : knot_packet_t) (key : knot_tsig_key_t)
    (tsig_rr : knot_rrset_t) (rcode prev : Nat)
    (htsig : knot_packet_tsig query = some tsig_rr)
    (halg : T.knot_tsig_digest_length (T.tsig_rdata_alg tsig_rr) ≠ 0)
    (hname : T.knot_dname_cmp key.name (knot_rrset_owner tsig_rr) = 0)
    (hkalg : key.algorithm = T.tsig_rdata_alg tsig_rr)
    (hmac : T.tsig_rdata_mac_length tsig_rr ≤ T.knot_tsig_digest_length key.algorithm) :
    (zones_verify_tsig_query T query key rcode 0 prev).1
        = T.knot_tsig_server_check tsig_rr query.wireformat query.size key
    ∧ (T.knot_tsig_server_check tsig_rr query.wireformat query.size key = KNOT_TSIG_EBADKEY →
        (zones_verify_tsig_query T query key rcode 0 prev).2
          = (KNOT_RCODE_NOTAUTH, KNOT_RCODE_BADKEY, prev))
    ∧ (T.knot_tsig_server_check tsig_rr query.wireformat query.size key = KNOT_TSIG_EBADSIG →
        (zones_verify_tsig_query T query key rcode 0 prev).2
          = (KNOT_RCODE_NOTAUTH, KNOT_RCODE_BADSIG, prev))
    ∧ (T.knot_tsig_server_check tsig_rr query.wireformat query.size key = KNOT_TSIG_EBADTIME →
        (zones_verify_tsig_query T query key rcode 0 prev).2
          = (KNOT_RCODE_NOTAUTH, KNOT_RCODE_BADTIME, T.tsig_rdata_time_signed tsig_rr))
    ∧ (T.knot_tsig_server_check tsig_rr query.wireformat query.size key = KNOT_EMALF →
        (zones_verify_tsig_query T query key rcode 0 prev).2
          = (KNOT_RCODE_FORMERR, 0, prev))
    ∧ (T.knot_tsig_server_check tsig_rr query.wireformat query.size key = KNOT_EOK →
        (zones_verify_tsig_query T query key rcode 0 prev).2
          = (KNOT_RCODE_NOERROR, 0, prev))
    ∧ (∀ (U : update_api) (addr : sockaddr_t) (rsize : Nat) (transport : knot_ns_transport_t)
        (z : knot_zone_t) (c : knot_zone_contents_t),
        U.knot_ns_prep_update_response query
          (if transport = NS_TRANSPORT_TCP then rsize else 0) = (KNOT_EOK, some z) →
        knot_zone_flags z &&& KNOT_ZONE_DISCARDED = 0 → z.contents = some c →
        zones_process_update_checks U T query addr rsize transport
          = (zones_check_tsig_query T z query (some addr) KNOT_RCODE_NOERROR 0 none 0,
              some z)) := by
  have hpre : ¬ ¬ ((knot_rrset_owner tsig_rr).isSome = true
      ∧ T.knot_dname_cmp key.name (knot_rrset_owner tsig_rr) = 0
      ∧ key.algorithm = T.tsig_rdata_alg tsig_rr) :=
    not_not.mpr ⟨rfl, hname, hkalg⟩
  have hmac1 : ¬ T.tsig_rdata_mac_length tsig_rr > T.knot_tsig_digest_length key.algorithm :=
    Nat.not_lt.mpr hmac
  refine ⟨?_, ?_, ?_, ?_, ?_, ?_, ?_⟩
  rotate_right
  · intro U addr rsize transport z c hp hd hc
    unfold zones_process_update_checks
    simp [hp, hd, hc, knot_zone_contents]
  all_goals
    unfold zones_verify_tsig_query
    simp only [htsig, if_neg halg, if_neg hpre, if_neg hmac1]
  · split <;> rfl
  all_goals
    intro h
    rw [h]

theorem tsig_outcome_mapping_witness :
    (zones_verify_tsig_query (sample_tsig KNOT_EOK) sample_query_signed sample_key
        0 0 0).1 = KNOT_EOK
    ∧ (zones_verify_tsig_query (sample_tsig KNOT_EOK) sample_query_signed sample_key
        0 0 0).2 = (KNOT_RCODE_NOERROR, 0, 0) :=
  ⟨(tsig_outcome_mapping (sample_tsig KNOT_EOK) sample_query_signed sample_key
      { owner := [3, 107, 101, 121, 0], type := 250, rclass := 255, ttl := 0, rdata := [] }
      0 0 rfl (by decide) (by decide) (by decide) (by decide)).1,
   (tsig_outcome_mapping (sample_tsig KNOT_EOK) sample_query_signed sample_key
      { owner := [3, 107, 101, 121, 0], type := 250, rclass := 255, ttl := 0, rdata := [] }
      0 0 rfl (by decide) (by decide) (by decide) (by decide)).2.2.2.2.2.1 rfl⟩

/-- C9, as stated, fails: for a query without TSIG the verification yields
RCODE REFUSED (not NOTAUTH) and leaves the TSIG-RCODE at its entry value 0
(not BADKEY), both on its own and through `zones_check_tsig_query` for an
address whose ACL entry requires a key. -/
theorem missing_tsig_is_refused :
    zones_verify_tsig_query (sample_tsig KNOT_EOK) sample_query_unsigned sample_key 0 0 0
      = (KNOT_TSIG_EBADKEY, KNOT_RCODE_REFUSED, 0, 0)
    ∧ zones_check_tsig_query (sample_tsig KNOT_EOK) sample_zone_acl sample_query_unsigned
        (some (sample_addr 2)) 0 0 none 0
      = (KNOT_TSIG_EBADKEY, KNOT_RCODE_REFUSED, 0, some sample_key, 0)
    ∧ KNOT_RCODE_REFUSED ≠ KNOT_RCODE_NOTAUTH ∧ 0 ≠ KNOT_RCODE_BADKEY := by
  decide

/-- C9 (as amended). Missing TSIG when a key is required: for every query that
carries no TSIG record, `zones_verify_tsig_query` returns `KNOT_TSIG_EBADKEY`
with RCODE REFUSED and leaves the TSIG-RCODE and the previous signing time as
they were at entry; so does `zones_check_tsig_query` when the matched ACL
entry specifies a TSIG key. -/
theorem missing_tsig_refused (T : tsig_api) (query : knot_packet_t)
    (htsig : knot_packet_tsig query = none) :
    (∀ (key : knot_tsig_key_t) (rcode tsig_rcode prev : Nat),
      zones_verify_tsig_query T query key rcode tsig_rcode prev
        = (KNOT_TSIG_EBADKEY, KNOT_RCODE_REFUSED, tsig_rcode, prev))
    ∧ (∀ (zone : knot_zone_t) (zd : zonedata_t) (addr : sockaddr_t) (m : acl_match_t)
        (iface : conf_iface_t) (key : knot_tsig_key_t) (rcode tsig_rcode prev : Nat)
        (k0 : Option knot_tsig_key_t),
      zone.data = some zd →
      T.acl_find (if knot_packet_opcode query = KNOT_OPCODE_UPDATE then zd.update_in
        else zd.xfr_out) addr = some m →
      m.val = some iface → iface.key = some key →
      zones_check_tsig_query T zone query (some addr) rcode tsig_rcode k0 prev
        = (KNOT_TSIG_EBADKEY, KNOT_RCODE_REFUSED, tsig_rcode, some key, prev)) := by
  have hv : ∀ (key : knot_tsig_key_t) (rcode tsig_rcode prev : Nat),
      zones_verify_tsig_query T query key rcode tsig_rcode prev
        = (KNOT_TSIG_EBADKEY, KNOT_RCODE_REFUSED, tsig_rcode, prev) := by
    intro key rcode tsig_rcode prev
    unfold zones_verify_tsig_query
    simp only [htsig]
  refine ⟨hv, ?_⟩
  intro zone zd addr m iface key rcode tsig_rcode prev k0 hzd hacl hval hkey
  unfold zones_check_tsig_query zones_query_check_zone
  simp only [knot_zone_data, hzd, hacl, hval, hkey, Option.getD_some, true_or, if_true, hv]

theorem missing_tsig_refused_witness :
    zones_check_tsig_query (sample_tsig KNOT_EOK) sample_zone_acl sample_query_unsigned
        (some (sample_addr 2)) 0 0 none 0
      = (KNOT_TSIG_EBADKEY, KNOT_RCODE_REFUSED, 0, some sample_key, 0) :=
  (missing_tsig_refused (sample_tsig KNOT_EOK) sample_query_unsigned rfl).2
    sample_zone_acl _ (sample_addr 2) _ _ sample_key 0 0 0 none rfl rfl rfl rfl

/-- C10, as stated, fails: for a peer that matches no ACL entry and a query
that carries a TSIG record, `zones_check_tsig_query` yields RCODE NOTAUTH with
TSIG-RCODE BADKEY and result `KNOT_TSIG_EBADKEY`, not REFUSED / EACCES. -/
theorem acl_denial_with_tsig_is_notauth :
    zones_check_tsig_query (sample_tsig KNOT_EOK) sample_zone_acl sample_query_signed
        (some (sample_addr 9)) 0 0 none 0
      = (KNOT_TSIG_EBADKEY, KNOT_RCODE_NOTAUTH, KNOT_RCODE_BADKEY, none, 0) := by
  decide

/-- C10 (as amended). ACL denial: for every query whose peer address matches
no entry of the ACL selected for the operation (`update_in` when the opcode is
UPDATE, `xfr_out` otherwise), `zones_query_check_zone` yields RCODE REFUSED
and result EACCES, and so does `zones_check_tsig_query` (entered with no zone
key selected) when the query carries no TSIG record; when the query carries a
TSIG record `zones_check_tsig_query` yields RCODE NOTAUTH with TSIG-RCODE
BADKEY and result `KNOT_TSIG_EBADKEY`. -/
theorem acl_denial (T : tsig_api) (zone : knot_zone_t) (zd : zonedata_t)
    (query : knot_packet_t) (addr : sockaddr_t) (hzd : zone.data = some zd)
    (hacl : T.acl_find (if knot_packet_opcode query = KNOT_OPCODE_UPDATE then zd.update_in
      else zd.xfr_out) addr = none) :
    (∀ (k : Option knot_tsig_key_t) (rcode : Nat),
      zones_query_check_zone T (some zone) (knot_packet_opcode query) (some addr) (some k)
          (some rcode)
        = (KNOT_EACCES, some k, some KNOT_RCODE_REFUSED))
    ∧ (∀ (rcode tsig_rcode prev : Nat), knot_packet_tsig query = none →
      zones_check_tsig_query T zone query (some addr) rcode tsig_rcode none prev
        = (KNOT_EACCES, KNOT_RCODE_REFUSED, tsig_rcode, none, prev))
    ∧ (∀ (rcode tsig_rcode prev : Nat), knot_packet_tsig query ≠ none →
      zones_check_tsig_query T zone query (some addr) rcode tsig_rcode none prev
        = (KNOT_TSIG_EBADKEY, KNOT_RCODE_NOTAUTH, KNOT_RCODE_BADKEY, none, prev)) := by
  have hz : ∀ (k : Option knot_tsig_key_t) (rcode : Nat),
      zones_query_check_zone T (some zone) (knot_packet_opcode query) (some addr) (some k)
          (some rcode)
        = (KNOT_EACCES, some k, some KNOT_RCODE_REFUSED) := by
    intro k rcode
    unfold zones_query_check_zone
    simp only [knot_zone_data, hzd, hacl]
  refine ⟨hz, ?_, ?_⟩
  · intro rcode tsig_rcode prev htsig
    unfold zones_check_tsig_query
    simp [hz, htsig]
  · intro rcode tsig_rcode prev htsig
    unfold zones_check_tsig_query
    have hs : (knot_packet_tsig query).isSome = true :=
      Option.isSome_iff_ne_none.mpr htsig
    simp [hz, hs]

theorem acl_denial_witness :
    zones_query_check_zone (sample_tsig KNOT_EOK) (some sample_zone_acl)
        (knot_packet_opcode sample_query_unsigned) (some (sample_addr 9)) (some none) (some 0)
      = (KNOT_EACCES, some none, some KNOT_RCODE_REFUSED)
    ∧ zones_check_tsig_query (sample_tsig KNOT_EOK) sample_zone_acl sample_query_unsigned
        (some (sample_addr 9)) 0 0 none 0
      = (KNOT_EACCES, KNOT_RCODE_REFUSED, 0, none, 0) :=
  ⟨(acl_denial (sample_tsig KNOT_EOK) sample_zone_acl _ sample_query_unsigned (sample_addr 9)
      rfl (by decide)).1 none 0,
   (acl_denial (sample_tsig KNOT_EOK) sample_zone_acl _ sample_query_unsigned (sample_addr 9)
      rfl (by decide)).2.1 0 0 0 rfl⟩

/-! ## A full journal triggers a flush -/

theorem zones_store_changesets_walk_stops (C : rrset_codec) (O : Oracle)
    (l : List knot_changeset_t) :
    ∀ (tr t0 : Trace) (ret : knot_error),
      zones_store_changesets_walk C O l tr = some (ret, t0) →
      ∃ stored remaining : List knot_changeset_t,
        l = stored ++ remaining
        ∧ zones_store_changesets_walk C O stored tr = some (ret, t0)
        ∧ (ret = KNOT_EOK → remaining = [])
        ∧ (ret ≠ KNOT_EOK → ∃ (init : List knot_changeset_t) (last : knot_changeset_t)
            (t : Trace), stored = init ++ [last]
              ∧ zones_store_changesets_walk C O init tr = some (KNOT_EOK, t)
              ∧ zones_store_changeset C O last t = some (ret, t0)) := by
  induction l with
  | nil =>
    intro tr t0 ret h
    refine ⟨[], [], rfl, h, fun _ => rfl, fun hne => ?_⟩
    simp only [zones_store_changesets_walk, Option.some.injEq, Prod.mk.injEq] at h
    exact absurd h.1.symm hne
  | cons chs rest ih =>
    intro tr t0 ret h
    simp only [zones_store_changesets_walk] at h
    cases hs : zones_store_changeset C O chs tr with
    | none => simp [hs] at h
    | some p =>
      obtain ⟨r1, t1⟩ := p
      simp only [hs] at h
      by_cases hr : r1 = KNOT_EOK
      · subst hr
        simp only [ne_eq, not_true_eq_false, if_false] at h
        obtain ⟨stored, remaining, hl, hw, hok, hfail⟩ := ih t1 t0 ret h
        refine ⟨chs :: stored, remaining, by rw [hl]; rfl, ?_, hok, fun hne => ?_⟩
        · simp only [zones_store_changesets_walk, hs, ne_eq, not_true_eq_false, if_false]
          exact hw
        · obtain ⟨init, last, t, hst, hwi, hsl⟩ := hfail hne
          refine ⟨chs :: init, last, t, by rw [hst]; rfl, ?_, hsl⟩
          simp only [zones_store_changesets_walk, hs, ne_eq, not_true_eq_false, if_false]
          exact hwi
      · simp only [ne_eq, hr, not_false_eq_true, if_true, Option.some.injEq,
          Prod.mk.injEq] at h
        obtain ⟨h1, h2⟩ := h
        subst h1
        subst h2
        refine ⟨[chs], rest, rfl, ?_, fun he => absurd he hr, fun _ => ?_⟩
        · simp only [zones_store_changesets_walk, hs, ne_eq, hr, not_false_eq_true, if_true]
        · exact ⟨[], chs, tr, rfl, rfl, hs⟩

/-- C15: `zones_store_changesets` stores the changesets in order and stops at
the first one whose store fails (`stored` ends with it, `remaining` is not
attempted), returning that result; the journal-sync timer is cancelled and
re-scheduled with delay 0 exactly when the result is `KNOT_EBUSY` and the
zone has such a timer, and otherwise nothing follows the stores. -/
theorem store_changesets_busy_flush (C : rrset_codec) (O : Oracle) (zone : knot_zone_t)
    (zd : zonedata_t) (j : journal_t) (src : knot_changesets_t) (tr tr1 : Trace)
    (ret : knot_error) (hzd : zone.data = some zd) (hj : zd.ixfr_db = some j)
    (h : zones_store_changesets C O (some zone) (some src) tr = some (ret, tr1)) :
    ∃ (stored remaining : List knot_changeset_t) (t0 : Trace),
      src.sets = stored ++ remaining
      ∧ zones_store_changesets_walk C O stored tr = some (ret, t0)
      ∧ (ret = KNOT_EOK → remaining = [])
      ∧ (ret ≠ KNOT_EOK → ∃ (init : List knot_changeset_t) (last : knot_changeset_t)
          (t : Trace), stored = init ++ [last]
            ∧ zones_store_changesets_walk C O init tr = some (KNOT_EOK, t)
            ∧ zones_store_changeset C O last t = some (ret, t0))
      ∧ (∃ stores : Trace, t0 = tr ++ stores ∧ ∀ e ∈ stores, is_store_call stored e.1)
      ∧ (∀ tmr : event_t, ret = KNOT_EBUSY → zd.ixfr_dbsync = some tmr →
          tr1 = t0 ++ [(Call.evsched_cancel tmr, KNOT_EOK),
                       (Call.evsched_schedule tmr 0, KNOT_EOK)])
      ∧ (¬ (ret = KNOT_EBUSY ∧ ∃ tmr : event_t, zd.ixfr_dbsync = some tmr) → tr1 = t0) := by
  unfold zones_store_changesets at h
  simp only [hzd, hj] at h
  cases hw : zones_store_changesets_walk C O src.sets tr with
  | none => simp [hw] at h
  | some p =>
    obtain ⟨r, t0⟩ := p
    simp only [hw] at h
    have hret : ret = r := by
      cases ht : zd.ixfr_dbsync with
      | none =>
        simp only [ht, Option.some.injEq, Prod.mk.injEq] at h
        exact h.1.symm
      | some tmr =>
        simp only [ht] at h
        by_cases hb : r = KNOT_EBUSY
        · simp only [hb, if_true, Option.some.injEq, Prod.mk.injEq] at h
          rw [hb]
          exact h.1.symm
        · simp only [hb, if_false, Option.some.injEq, Prod.mk.injEq] at h
          exact h.1.symm
    subst hret
    obtain ⟨stored, remaining, hl, hws, hok, hfail⟩ :=
      zones_store_changesets_walk_stops C O src.sets tr t0 ret hw
    obtain ⟨stores, hst, hcalls, _, _⟩ :=
      zones_store_changesets_walk_trace C O stored tr t0 ret hws
    refine ⟨stored, remaining, t0, hl, hws, hok, hfail, ⟨stores, hst, hcalls⟩, ?_, ?_⟩
    · intro tmr hb ht
      simp only [ht, hb, if_true, call_void, Option.some.injEq, Prod.mk.injEq,
        List.append_assoc, List.singleton_append] at h
      exact h.2.symm
    · intro hn
      cases ht : zd.ixfr_dbsync with
      | none =>
        simp only [ht, Option.some.injEq, Prod.mk.injEq] at h
        exact h.2.symm
      | some tmr =>
        have hb : ¬ ret = KNOT_EBUSY := fun hb => hn ⟨hb, tmr, ht⟩
        simp only [ht, hb, if_false, Option.some.injEq, Prod.mk.injEq] at h
        exact h.2.symm

theorem store_changesets_busy_flush_witness :
    zones_store_changesets sample_codec oracle_journal_full (some sample_zone_sync_timer)
        (some { sets := [sample_changeset, sample_changeset_sec], flags := 0 }) []
      = some (KNOT_EBUSY,
          [(Call.journal_map 433791696996 12, KNOT_EBUSY),
           (Call.evsched_cancel sample_sync_timer, KNOT_EOK),
           (Call.evsched_schedule sample_sync_timer 0, KNOT_EOK)])
    ∧ ∃ (stored remaining : List knot_changeset_t) (t0 : Trace),
      [sample_changeset, sample_changeset_sec] = stored ++ remaining
      ∧ zones_store_changesets_walk sample_codec oracle_journal_full stored []
          = some (KNOT_EBUSY, t0)
      ∧ (KNOT_EBUSY = KNOT_EOK → remaining = [])
      ∧ (KNOT_EBUSY ≠ KNOT_EOK → ∃ (init : List knot_changeset_t) (last : knot_changeset_t)
          (t : Trace), stored = init ++ [last]
            ∧ zones_store_changesets_walk sample_codec oracle_journal_full init []
                = some (KNOT_EOK, t)
            ∧ zones_store_changeset sample_codec oracle_journal_full last t
                = some (KNOT_EBUSY, t0))
      ∧ (∃ stores : Trace, t0 = [] ++ stores ∧ ∀ e ∈ stores, is_store_call stored e.1)
      ∧ (∀ tmr : event_t, KNOT_EBUSY = KNOT_EBUSY →
          (some sample_sync_timer : Option event_t) = some tmr →
          [(Call.journal_map 433791696996 12, KNOT_EBUSY),
           (Call.evsched_cancel sample_sync_timer, KNOT_EOK),
           (Call.evsched_schedule sample_sync_timer 0, KNOT_EOK)]
            = t0 ++ [(Call.evsched_cancel tmr, KNOT_EOK),
                     (Call.evsched_schedule tmr 0, KNOT_EOK)])
      ∧ (¬ (KNOT_EBUSY = KNOT_EBUSY
            ∧ ∃ tmr : event_t, (some sample_sync_timer : Option event_t) = some tmr) →
          [(Call.journal_map 433791696996 12, KNOT_EBUSY),
           (Call.evsched_cancel sample_sync_timer, KNOT_EOK),
           (Call.evsched_schedule sample_sync_timer 0, KNOT_EOK)] = t0) :=
  ⟨by decide,
   store_changesets_busy_flush sample_codec oracle_journal_full sample_zone_sync_timer
     { sample_zonedata with ixfr_dbsync := some sample_sync_timer } { path := [] }
     { sets := [sample_changeset, sample_changeset_sec], flags := 0 } [] _ KNOT_EBUSY
     rfl rfl (by decide)⟩

/-! ## Bootstrap of a zone without contents -/

theorem zones_cancel_refresh_timer_eq (zd : zonedata_t) (tr : Trace) :
    zones_cancel_refresh_timer zd tr
      = ({ zd with xfr_in := { zd.xfr_in with timer := none } },
          tr ++ cancel_and_free_calls zd.xfr_in.timer) := by
  obtain ⟨conf, xfr_in, xo, ni, no, ui, db, ds, zs, dt⟩ := zd
  obtain ⟨acl, master, via, key, timer, expire, state, hm, br⟩ := xfr_in
  cases timer with
  | none => simp [zones_cancel_refresh_timer, cancel_and_free_calls]
  | some t => simp [zones_cancel_refresh_timer, cancel_and_free_calls, call_void]

theorem zones_cancel_expire_timer_eq (zd : zonedata_t) (tr : Trace) :
    zones_cancel_expire_timer zd tr
      = ({ zd with xfr_in := { zd.xfr_in with expire := none } },
          tr ++ cancel_and_free_calls zd.xfr_in.expire) := by
  obtain ⟨conf, xfr_in, xo, ni, no, ui, db, ds, zs, dt⟩ := zd
  obtain ⟨acl, master, via, key, timer, expire, state, hm, br⟩ := xfr_in
  cases expire with
  | none => simp [zones_cancel_expire_timer, cancel_and_free_calls]
  | some t => simp [zones_cancel_expire_timer, cancel_and_free_calls, call_void]

theorem zones_free_expire_timer_eq (zd : zonedata_t) (tr : Trace) :
    zones_free_expire_timer zd tr
      = ({ zd with xfr_in := { zd.xfr_in with expire := none } },
          tr ++ free_calls zd.xfr_in.expire) := by
  obtain ⟨conf, xfr_in, xo, ni, no, ui, db, ds, zs, dt⟩ := zd
  obtain ⟨acl, master, via, key, timer, expire, state, hm, br⟩ := xfr_in
  cases expire with
  | none => simp [zones_free_expire_timer, free_calls]
  | some t => simp [zones_free_expire_timer, free_calls, call_void]

theorem registered_timers_append (cb : event_cb_t) (a b : Trace) :
    registered_timers cb (a ++ b) = registered_timers cb a + registered_timers cb b := by
  induction a with
  | nil => simp [registered_timers]
  | cons hd tl ih =>
    obtain ⟨c, r⟩ := hd
    cases c <;> simp [registered_timers, ih, add_assoc]

theorem registered_timers_cancel_and_free (cb cb0 : event_cb_t) (tmr : Option event_t)
    (h : ∀ t, tmr = some t → t.cb = cb0) :
    registered_timers cb (cancel_and_free_calls tmr)
      = if tmr.isSome ∧ cb0 = cb then -1 else 0 := by
  cases tmr with
  | none => simp [cancel_and_free_calls, registered_timers]
  | some t =>
    have ht := h t rfl
    simp [cancel_and_free_calls, registered_timers, ht]

/-- C16: for a zone with zone data, `zones_schedule_refresh` first cancels
and frees the REFRESH timer and the EXPIRE timer that exist, and only then
arms a new REFRESH timer, which it does exactly when `has_master` is set;
on return `xfr_in.expire` is null, `xfr_in.timer` is the new timer or null,
`xfr_in.state` is `XFR_SCHED` with a timer and `XFR_IDLE` without, and, when
the zone's timer fields accounted for its registered events before, exactly
one REFRESH event (none without master) and no EXPIRE event is registered
afterwards. -/
theorem schedule_refresh_timers (T : timers_api) (zone : knot_zone_t) (zd : zonedata_t)
    (time : Int) (tr : Trace) (hzd : zone.data = some zd)
    (hcb : ∀ t, zd.xfr_in.timer = some t → t.cb = event_cb_t.zones_refresh_ev)
    (hcbe : ∀ t, zd.xfr_in.expire = some t → t.cb = event_cb_t.zones_expire_ev)
    (hreg : registered_timers event_cb_t.zones_refresh_ev tr
              = if zd.xfr_in.timer.isSome then 1 else 0)
    (hrege : registered_timers event_cb_t.zones_expire_ev tr
              = if zd.xfr_in.expire.isSome then 1 else 0) :
    ∃ (zd1 : zonedata_t) (dt : Nat) (tr1 : Trace),
      zones_schedule_refresh T (some zone) time tr
        = (KNOT_EOK, some { zone with data := some zd1 }, tr1)
      ∧ tr1 = tr ++ (cancel_and_free_calls zd.xfr_in.timer
                ++ (cancel_and_free_calls zd.xfr_in.expire
                ++ (if zd.xfr_in.has_master then
                      [(Call.evsched_schedule_cb event_cb_t.zones_refresh_ev dt, KNOT_EOK)]
                    else [])))
      ∧ (0 ≤ time → dt = time.toNat % 2 ^ 32)
      ∧ zd1.xfr_in.expire = none
      ∧ zd1.xfr_in.timer
          = (if zd.xfr_in.has_master then some { cb := event_cb_t.zones_refresh_ev } else none)
      ∧ zd1.xfr_in.state = (if zd.xfr_in.has_master then XFR_SCHED else XFR_IDLE)
      ∧ (zd1.xfr_in.state = XFR_SCHED ↔ zd1.xfr_in.timer.isSome)
      ∧ registered_timers event_cb_t.zones_refresh_ev tr1
          = (if zd.xfr_in.has_master then 1 else 0)
      ∧ registered_timers event_cb_t.zones_expire_ev tr1 = 0 := by
  have hr1 := registered_timers_cancel_and_free event_cb_t.zones_refresh_ev _ _ hcb
  have hr2 := registered_timers_cancel_and_free event_cb_t.zones_refresh_ev _ _ hcbe
  have he1 := registered_timers_cancel_and_free event_cb_t.zones_expire_ev _ _ hcb
  have he2 := registered_timers_cancel_and_free event_cb_t.zones_expire_ev _ _ hcbe
  unfold zones_schedule_refresh
  simp only [hzd, zones_cancel_refresh_timer_eq, zones_cancel_expire_timer_eq,
    zonedata_set_state, call_void, List.append_assoc]
  cases hm : zd.xfr_in.has_master with
  | false =>
    refine ⟨_, time.toNat % 2 ^ 32, _, by simp only [Bool.false_eq_true, if_false]; rfl,
      by simp, fun _ => rfl, rfl, by simp, by simp, by simp, ?_, ?_⟩
    · simp only [Bool.false_eq_true, if_false, List.append_nil, registered_timers_append,
        hr1, hr2, hreg]
      cases zd.xfr_in.timer <;> simp
    · simp only [Bool.false_eq_true, if_false, List.append_nil, registered_timers_append,
        he1, he2, hrege]
      cases zd.xfr_in.expire <;> simp
  | true =>
    refine ⟨_, (if time < 0 then
          if (knot_zone_contents (some zone)).isSome = true then
            (T.zones_jitter (zones_soa_refresh T (some zone)) : Int)
          else (zd.xfr_in.bootstrap_retry : Int)
        else time).toNat % 2 ^ 32, _, by simp only [if_true]; rfl, by simp only [if_true],
      ?_, rfl, by simp, by simp, by simp, ?_, ?_⟩
    · intro h0
      have : ¬ time < 0 := not_lt.mpr h0
      simp only [this, if_false]
    · simp only [if_true, registered_timers_append, hr1, hr2, hreg, registered_timers]
      cases zd.xfr_in.timer <;> simp
    · simp only [if_true, registered_timers_append, he1, he2, hrege, registered_timers]
      cases zd.xfr_in.expire <;> simp

theorem schedule_refresh_timers_witness :
    zones_schedule_refresh sample_timers (some sample_zone_timers) (-1) sample_timers_history
      = (KNOT_EOK,
          some { sample_zone_timers with
            data := some { sample_zonedata with
              xfr_in := { sample_zonedata.xfr_in with
                timer := some { cb := event_cb_t.zones_refresh_ev },
                expire := none, state := XFR_SCHED } } },
          sample_timers_history ++
            [(Call.evsched_cancel { cb := event_cb_t.zones_refresh_ev }, KNOT_EOK),
             (Call.evsched_event_free { cb := event_cb_t.zones_refresh_ev }, KNOT_EOK),
             (Call.evsched_cancel { cb := event_cb_t.zones_expire_ev }, KNOT_EOK),
             (Call.evsched_event_free { cb := event_cb_t.zones_expire_ev }, KNOT_EOK),
             (Call.evsched_schedule_cb event_cb_t.zones_refresh_ev
               (sample_timers.zones_jitter (zones_soa_refresh sample_timers
                 (some sample_zone_timers))), KNOT_EOK)])
    ∧ ∃ (zd1 : zonedata_t) (dt : Nat) (tr1 : Trace),
      zones_schedule_refresh sample_timers (some sample_zone_timers) 7000
          sample_timers_history
        = (KNOT_EOK, some { sample_zone_timers with data := some zd1 }, tr1)
      ∧ tr1 = sample_timers_history
          ++ (cancel_and_free_calls (some { cb := event_cb_t.zones_refresh_ev })
          ++ (cancel_and_free_calls (some { cb := event_cb_t.zones_expire_ev })
          ++ (if sample_zonedata.xfr_in.has_master then
                [(Call.evsched_schedule_cb event_cb_t.zones_refresh_ev dt, KNOT_EOK)]
              else [])))
      ∧ ((0 : Int) ≤ 7000 → dt = (7000 : Int).toNat % 2 ^ 32)
      ∧ zd1.xfr_in.expire = none
      ∧ zd1.xfr_in.timer
          = (if sample_zonedata.xfr_in.has_master then
              some { cb := event_cb_t.zones_refresh_ev } else none)
      ∧ zd1.xfr_in.state = (if sample_zonedata.xfr_in.has_master then XFR_SCHED else XFR_IDLE)
      ∧ (zd1.xfr_in.state = XFR_SCHED ↔ zd1.xfr_in.timer.isSome)
      ∧ registered_timers event_cb_t.zones_refresh_ev tr1
          = (if sample_zonedata.xfr_in.has_master then 1 else 0)
      ∧ registered_timers event_cb_t.zones_expire_ev tr1 = 0 :=
  ⟨by decide,
   schedule_refresh_timers sample_timers sample_zone_timers
     { sample_zonedata with
        xfr_in := { sample_zonedata.xfr_in with
          timer := some { cb := event_cb_t.zones_refresh_ev },
          expire := some { cb := event_cb_t.zones_expire_ev } } }
     7000 sample_timers_history rfl
     (fun t ht => by cases ht; rfl) (fun t ht => by cases ht; rfl)
     (by decide) (by decide)⟩

/-- C17: for a zone that is not flagged `KNOT_ZONE_DISCARDED` (and has zone
data), `zones_expire_ev` calls `knot_zonedb_expire_zone` for the zone's name,
which detaches the contents, marks the event finished, cancels and frees the
REFRESH timer, frees the EXPIRE timer, leaves `xfr_in.timer` and
`xfr_in.expire` null and nothing else of the zone data changed, and returns
`KNOT_EOK`; for a zone flagged `KNOT_ZONE_DISCARDED` it returns `KNOT_EOK`,
makes no call and leaves the zone as it was. -/
theorem expire_ev_complete (e : event_t) (zone : knot_zone_t) (tr : Trace) :
    (∀ zd : zonedata_t, zone.data = some zd →
      knot_zone_flags zone &&& KNOT_ZONE_DISCARDED = 0 →
      ∃ zone1 zd1,
        zones_expire_ev e (some zone) tr
          = some (KNOT_EOK, some zone1,
              tr ++ ([(Call.knot_zonedb_expire_zone zone.name, KNOT_EOK),
                      (Call.evsched_event_finished, KNOT_EOK)]
                ++ (cancel_and_free_calls zd.xfr_in.timer ++ free_calls zd.xfr_in.expire)))
        ∧ zone1 = { zone with contents := none, data := some zd1 }
        ∧ zd1 = { zd with xfr_in := { zd.xfr_in with timer := none, expire := none } }
        ∧ knot_zone_contents (some zone1) = none
        ∧ zd1.xfr_in.timer = none ∧ zd1.xfr_in.expire = none)
    ∧ (knot_zone_flags zone &&& KNOT_ZONE_DISCARDED ≠ 0 →
        zones_expire_ev e (some zone) tr = some (KNOT_EOK, some zone, tr)) := by
  constructor
  · intro zd hzd hnd
    refine ⟨_, _, ?_, rfl, rfl, rfl, rfl, rfl⟩
    unfold zones_expire_ev
    simp only [hnd, ne_eq, not_true_eq_false, if_false, hzd, knot_zonedb_expire_zone,
      call_void, zones_cancel_refresh_timer_eq, zones_free_expire_timer_eq,
      List.append_assoc, List.singleton_append, List.cons_append, List.nil_append]
  · intro hd
    unfold zones_expire_ev
    simp only [hd, ne_eq, not_false_eq_true, if_true]

theorem expire_ev_complete_witness :
    zones_expire_ev { cb := event_cb_t.zones_expire_ev } (some sample_zone_timers) []
      = some (KNOT_EOK,
          some { sample_zone with contents := none },
          [(Call.knot_zonedb_expire_zone [], KNOT_EOK),
           (Call.evsched_event_finished, KNOT_EOK),
           (Call.evsched_cancel { cb := event_cb_t.zones_refresh_ev }, KNOT_EOK),
           (Call.evsched_event_free { cb := event_cb_t.zones_refresh_ev }, KNOT_EOK),
           (Call.evsched_event_free { cb := event_cb_t.zones_expire_ev }, KNOT_EOK)])
    ∧ (∃ zone1 zd1,
        zones_expire_ev { cb := event_cb_t.zones_expire_ev } (some sample_zone_timers) []
          = some (KNOT_EOK, some zone1,
              [] ++ ([(Call.knot_zonedb_expire_zone sample_zone_timers.name, KNOT_EOK),
                      (Call.evsched_event_finished, KNOT_EOK)]
                ++ (cancel_and_free_calls (some { cb := event_cb_t.zones_refresh_ev })
                    ++ free_calls (some { cb := event_cb_t.zones_expire_ev }))))
        ∧ zone1 = { sample_zone_timers with contents := none, data := some zd1 }
        ∧ zd1 = sample_zonedata
        ∧ knot_zone_contents (some zone1) = none
        ∧ zd1.xfr_in.timer = none ∧ zd1.xfr_in.expire = none)
    ∧ zones_expire_ev { cb := event_cb_t.zones_expire_ev } (some sample_zone_discarded)
          sample_timers_history
        = some (KNOT_EOK, some sample_zone_discarded, sample_timers_history) :=
  ⟨by decide,
   (expire_ev_complete { cb := event_cb_t.zones_expire_ev } sample_zone_timers []).1
     { sample_zonedata with
        xfr_in := { sample_zonedata.xfr_in with
          timer := some { cb := event_cb_t.zones_refresh_ev },
          expire := some { cb := event_cb_t.zones_expire_ev } } }
     rfl (by decide),
   (expire_ev_complete { cb := event_cb_t.zones_expire_ev } sample_zone_discarded
     sample_timers_history).2 (by decide)⟩

/-! ## Synchronizing the zone file -/

theorem zones_dump_zone_text_trace (O : Oracle) (zone : knot_zone_contents_t) (tr : Trace) :
    ∃ files : Trace, zones_dump_zone_text O zone tr
        = ((zones_dump_zone_text O zone tr).1, tr ++ files)
      ∧ (∀ e ∈ files, is_sync_call e.1)
      ∧ ((zones_dump_zone_text O zone tr).1 = KNOT_EOK ↔ files = dump_calls_ok zone)
      ∧ ((zones_dump_zone_text O zone tr).1 ≠ KNOT_EOK →
          (zones_dump_zone_text O zone tr).1 = KNOT_EWRITABLE
          ∨ (zones_dump_zone_text O zone tr).1 = KNOT_ERROR) := by
  unfold zones_dump_zone_text zones_open_free_filename
  simp only [call, call_void, List.append_assoc, List.singleton_append, List.cons_append,
    List.nil_append]
  by_cases h1 : O.ret tr Call.mkstemp = KNOT_EOK
  · by_cases h2 : O.ret (tr ++ [(Call.mkstemp, KNOT_EOK)]) Call.fdopen = KNOT_EOK
    · by_cases h3 : O.ret (tr ++ [(Call.mkstemp, KNOT_EOK), (Call.fdopen, KNOT_EOK)])
          (Call.zone_dump_text zone) = KNOT_EOK
      · by_cases h4 : O.ret (tr ++ [(Call.mkstemp, KNOT_EOK), (Call.fdopen, KNOT_EOK),
            (Call.zone_dump_text zone, KNOT_EOK), (Call.fchmod, KNOT_EOK),
            (Call.fclose, KNOT_EOK)]) Call.rename = KNOT_EOK
        · simp only [h1, h2, h3, h4, ne_eq, not_true_eq_false, if_false]
          exact ⟨_, rfl, by simp [is_sync_call], by simp [dump_calls_ok], by simp⟩
        · simp only [h1, h2, h3, h4, ne_eq, not_true_eq_false, if_false, not_false_eq_true,
            if_true]
          exact ⟨_, rfl, by simp [is_sync_call], by simp [dump_calls_ok], by simp⟩
      · simp only [h1, h2, h3, ne_eq, not_true_eq_false, if_false, not_false_eq_true,
          if_true]
        exact ⟨_, rfl, by simp [is_sync_call], by simp [dump_calls_ok, h3], by simp⟩
    · simp only [h1, h2, ne_eq, not_true_eq_false, if_false, not_false_eq_true, if_true]
      exact ⟨_, rfl, by simp [is_sync_call], by simp [dump_calls_ok, h2], by simp⟩
  · simp only [h1, ne_eq, not_false_eq_true, if_true]
    exact ⟨_, rfl, by simp [is_sync_call], by simp [dump_calls_ok], by simp⟩

theorem flags_clear_dirty_bits (f : Nat) (hf : f < 2 ^ 16) (k : Nat) :
    (if f &&& JOURNAL_DIRTY ≠ 0 then f &&& (0xffff ^^^ JOURNAL_DIRTY) else f).testBit k
      = (f.testBit k && decide (k ≠ 1)) := by
  have hm : (0xffff ^^^ JOURNAL_DIRTY) = 65533 := by decide
  by_cases hd : f &&& JOURNAL_DIRTY = 0
  · simp only [hd, ne_eq, not_true_eq_false, if_false]
    by_cases hk : k = 1
    · subst hk
      have h1 : (f &&& JOURNAL_DIRTY).testBit 1 = false := by rw [hd]; simp
      rw [Nat.testBit_and] at h1
      have h2 : JOURNAL_DIRTY.testBit 1 = true := by decide
      rw [h2, Bool.and_true] at h1
      simp [h1]
    · simp [hk]
  · simp only [hd, ne_eq, not_false_eq_true, if_true, hm, Nat.testBit_and]
    by_cases hk : k < 16
    · have : (65533 : Nat).testBit k = decide (k ≠ 1) := by
        interval_cases k <;> decide
      rw [this]
    · have hfk : f.testBit k = false := by
        apply Nat.testBit_eq_false_of_lt
        exact lt_of_lt_of_le hf (Nat.pow_le_pow_right (by decide) (not_lt.mp hk))
      simp [hfk]

theorem journal_walk_nodes_sync (J : journal_api) (j : journal_t) (l : List journal_node_t) :
    ∀ (i : Nat) (tr : Trace),
      ∃ updates : Trace,
        (journal_walk_nodes J j zones_ixfrdb_sync_apply i l tr).2 = tr ++ updates
        ∧ (∀ e ∈ updates, ∃ id fl, e.1 = Call.journal_update id fl)
        ∧ (journal_walk_nodes J j zones_ixfrdb_sync_apply i l tr).1.length = l.length
        ∧ ∀ (k : Nat) (n : journal_node_t), l[k]? = some n →
            ∃ n1, (journal_walk_nodes J j zones_ixfrdb_sync_apply i l tr).1[k]? = some n1
              ∧ n1.id = n.id ∧ n1.payload = n.payload
              ∧ n1.flags = (if J.journal_walk_visits j (i + k) = true then
                  (if n.flags &&& JOURNAL_DIRTY ≠ 0 then
                    n.flags &&& (0xffff ^^^ JOURNAL_DIRTY) else n.flags)
                else n.flags) := by
  induction l with
  | nil =>
    intro i tr
    exact ⟨[], by simp [journal_walk_nodes], by simp, rfl, by simp⟩
  | cons hd rest ih =>
    intro i tr
    by_cases hv : J.journal_walk_visits j i = true
    · by_cases hdirty : hd.flags &&& JOURNAL_DIRTY = 0
      · obtain ⟨ups, htr, hups, hlen, hnodes⟩ := ih (i + 1) tr
        refine ⟨ups, ?_, hups, ?_, ?_⟩
        · simp only [journal_walk_nodes, hv, if_true, zones_ixfrdb_sync_apply, hdirty, ne_eq,
            not_true_eq_false, if_false]
          exact htr
        · simp only [journal_walk_nodes, hv, if_true, zones_ixfrdb_sync_apply, hdirty, ne_eq,
            not_true_eq_false, if_false, List.length_cons, hlen]
        · intro k n hk
          cases k with
          | zero =>
            simp only [List.getElem?_cons_zero, Option.some.injEq] at hk
            subst hk
            refine ⟨hd, ?_, rfl, rfl, ?_⟩
            · simp only [journal_walk_nodes, hv, if_true, zones_ixfrdb_sync_apply, hdirty,
                ne_eq, not_true_eq_false, if_false, List.getElem?_cons_zero]
            · simp only [Nat.add_zero, hv, if_true, hdirty, ne_eq, not_true_eq_false, if_false]
          | succ k =>
            simp only [List.getElem?_cons_succ] at hk
            obtain ⟨n1, h1, h2, h3, h4⟩ := hnodes k n hk
            refine ⟨n1, ?_, h2, h3, ?_⟩
            · simp only [journal_walk_nodes, hv, if_true, zones_ixfrdb_sync_apply, hdirty,
                ne_eq, not_true_eq_false, if_false, List.getElem?_cons_succ]
              exact h1
            · rw [h4]
              have : i + 1 + k = i + (k + 1) := by omega
              rw [this]
      · obtain ⟨ups, htr, hups, hlen, hnodes⟩ := ih (i + 1)
          (tr ++ [(Call.journal_update hd.id (hd.flags &&& (0xffff ^^^ JOURNAL_DIRTY)),
            KNOT_EOK)])
        refine ⟨(Call.journal_update hd.id (hd.flags &&& (0xffff ^^^ JOURNAL_DIRTY)),
            KNOT_EOK) :: ups, ?_, ?_, ?_, ?_⟩
        · simp only [journal_walk_nodes, hv, if_true, zones_ixfrdb_sync_apply, hdirty, ne_eq,
            not_false_eq_true, call_void]
          rw [htr]
          simp
        · intro e he
          rcases List.mem_cons.mp he with h | h
          · exact ⟨_, _, by rw [h]⟩
          · exact hups e h
        · simp only [journal_walk_nodes, hv, if_true, zones_ixfrdb_sync_apply, hdirty, ne_eq,
            not_false_eq_true, call_void, List.length_cons, hlen]
        · intro k n hk
          cases k with
          | zero =>
            simp only [List.getElem?_cons_zero, Option.some.injEq] at hk
            subst hk
            refine ⟨{ hd with flags := hd.flags &&& (0xffff ^^^ JOURNAL_DIRTY) }, ?_, rfl, rfl,
              ?_⟩
            · simp only [journal_walk_nodes, hv, if_true, zones_ixfrdb_sync_apply, hdirty,
                ne_eq, not_false_eq_true, call_void, List.getElem?_cons_zero]
            · simp only [Nat.add_zero, hv, if_true, hdirty, ne_eq, not_false_eq_true]
          | succ k =>
            simp only [List.getElem?_cons_succ] at hk
            obtain ⟨n1, h1, h2, h3, h4⟩ := hnodes k n hk
            refine ⟨n1, ?_, h2, h3, ?_⟩
            · simp only [journal_walk_nodes, hv, if_true, zones_ixfrdb_sync_apply, hdirty,
                ne_eq, not_false_eq_true, call_void, List.getElem?_cons_succ]
              exact h1
            · rw [h4]
              have : i + 1 + k = i + (k + 1) := by omega
              rw [this]
    · obtain ⟨ups, htr, hups, hlen, hnodes⟩ := ih (i + 1) tr
      refine ⟨ups, ?_, hups, ?_, ?_⟩
      · simp only [journal_walk_nodes, hv, if_false, Bool.false_eq_true]
        exact htr
      · simp only [journal_walk_nodes, hv, if_false, Bool.false_eq_true, List.length_cons,
          hlen]
      · intro k n hk
        cases k with
        | zero =>
          simp only [List.getElem?_cons_zero, Option.some.injEq] at hk
          subst hk
          refine ⟨hd, ?_, rfl, rfl, ?_⟩
          · simp only [journal_walk_nodes, hv, if_false, Bool.false_eq_true,
              List.getElem?_cons_zero]
          · simp only [Nat.add_zero, hv, if_false, Bool.false_eq_true]
        | succ k =>
          simp only [List.getElem?_cons_succ] at hk
          obtain ⟨n1, h1, h2, h3, h4⟩ := hnodes k n hk
          refine ⟨n1, ?_, h2, h3, ?_⟩
          · simp only [journal_walk_nodes, hv, if_false, Bool.false_eq_true,
              List.getElem?_cons_succ]
            exact h1
          · rw [h4]
            have : i + 1 + k = i + (k + 1) := by omega
            rw [this]

/-- C12: for a zone with zone data and contents whose apex SOA serial equals
`zonefile_serial`, `zones_zonefile_sync` returns `KNOT_ERANGE` and makes no
call at all (no file operation, no `journal_update`), and the zone, with its
`zonefile_serial`, and the journal, with every node, are as before. -/
theorem zonefile_sync_in_sync (J : journal_api) (O : Oracle) (zone : knot_zone_t)
    (zd : zonedata_t) (j : journal_t) (contents : knot_zone_contents_t) (tr : Trace)
    (hzd : zone.data = some zd) (hc : zone.contents = some contents)
    (hs0 : 0 ≤ J.knot_rdata_soa_serial contents.apex_soa)
    (hs : (J.knot_rdata_soa_serial contents.apex_soa % 2 ^ 32).toNat = zd.zonefile_serial) :
    zones_zonefile_sync J O (some zone) (some j) tr = (KNOT_ERANGE, some zone, some j, tr) := by
  unfold zones_zonefile_sync
  simp only [hzd, hc, not_lt.mpr hs0, if_false, hs, ne_eq, not_true_eq_false]

theorem zonefile_sync_in_sync_witness :
    zones_zonefile_sync sample_journal_api oracle_ok (some sample_zone_synced)
        (some sample_journal) []
      = (KNOT_ERANGE, some sample_zone_synced, some sample_journal, []) :=
  zonefile_sync_in_sync sample_journal_api oracle_ok sample_zone_synced
    { sample_zonedata with ixfr_db := some sample_journal } sample_journal sample_contents []
    rfl rfl (by decide) (by decide)

/-- C13: for a zone whose current serial differs from `zonefile_serial`,
`zones_zonefile_sync` returns what dumping the zone file returns.  The dump
succeeds exactly when every file operation up to and including the rename
succeeded; then `KNOT_EOK` is returned, `zonefile_serial` is the current
serial, every node that `journal_walk` visits keeps its key and payload and
has the `JOURNAL_DIRTY` bit (bit 1) cleared and every other flag bit
unchanged, the other nodes are unchanged, and the only further calls are
`journal_update`s.  When the dump fails (`KNOT_EWRITABLE` or `KNOT_ERROR`)
that error is returned, the zone and the journal are as before and nothing
follows the file operations. -/
theorem zonefile_sync_all_or_nothing (J : journal_api) (O : Oracle) (zone : knot_zone_t)
    (zd : zonedata_t) (j : journal_t) (contents : knot_zone_contents_t) (tr : Trace)
    (hzd : zone.data = some zd) (hc : zone.contents = some contents)
    (hs0 : 0 ≤ J.knot_rdata_soa_serial contents.apex_soa)
    (hne : zd.zonefile_serial ≠ (J.knot_rdata_soa_serial contents.apex_soa % 2 ^ 32).toNat)
    (hfl : ∀ n ∈ j.nodes, n.flags < 2 ^ 16) :
    ∃ (ret : knot_error) (zone1 : knot_zone_t) (j1 : journal_t) (files updates : Trace),
      zones_zonefile_sync J O (some zone) (some j) tr
        = (ret, some zone1, some j1, tr ++ (files ++ updates))
      ∧ zones_dump_zone_text O contents tr = (ret, tr ++ files)
      ∧ (ret = KNOT_EOK ↔ files = dump_calls_ok contents)
      ∧ (ret = KNOT_EOK →
          zone1 = { zone with data := some { zd with zonefile_serial :=
                      (J.knot_rdata_soa_serial contents.apex_soa % 2 ^ 32).toNat } }
          ∧ j1.path = j.path ∧ j1.nodes.length = j.nodes.length
          ∧ (∀ (i : Nat) (n : journal_node_t), j.nodes[i]? = some n →
              ∃ n1, j1.nodes[i]? = some n1 ∧ n1.id = n.id ∧ n1.payload = n.payload
                ∧ (J.journal_walk_visits j i = true →
                    ∀ k, n1.flags.testBit k = (n.flags.testBit k && decide (k ≠ 1)))
                ∧ (J.journal_walk_visits j i = false → n1 = n))
          ∧ ∀ e ∈ updates, ∃ id fl, e.1 = Call.journal_update id fl)
      ∧ (ret ≠ KNOT_EOK →
          zone1 = zone ∧ j1 = j ∧ updates = []
          ∧ (ret = KNOT_EWRITABLE ∨ ret = KNOT_ERROR)) := by
  obtain ⟨files, hdump, _, hiff, herr⟩ := zones_dump_zone_text_trace O contents tr
  by_cases hok : (zones_dump_zone_text O contents tr).1 = KNOT_EOK
  · obtain ⟨ups, htr, hups, hlen, hnodes⟩ :=
      journal_walk_nodes_sync J j j.nodes 0 (tr ++ files)
    rw [hok] at hdump
    refine ⟨KNOT_EOK, _, { j with nodes :=
        (journal_walk_nodes J j zones_ixfrdb_sync_apply 0 j.nodes (tr ++ files)).1 },
      files, ups, ?_, hdump, ?_, fun _ => ⟨rfl, rfl, hlen, ?_, hups⟩,
      fun h => absurd rfl h⟩
    · unfold zones_zonefile_sync
      simp only [hzd, hc, not_lt.mpr hs0, if_false, hne, ne_eq, not_false_eq_true, if_true,
        hdump, not_true_eq_false, journal_walk, htr, List.append_assoc]
    · exact ⟨fun _ => hiff.mp hok, fun _ => rfl⟩
    · intro i n hi
      obtain ⟨n1, h1, h2, h3, h4⟩ := hnodes i n hi
      refine ⟨n1, h1, h2, h3, fun hv k => ?_, fun hv => ?_⟩
      · rw [h4, Nat.zero_add]
        simp only [hv, if_true]
        exact flags_clear_dirty_bits n.flags (hfl n (List.getElem?_mem hi)) k
      · rw [Nat.zero_add] at h4
        simp only [hv, Bool.false_eq_true, if_false] at h4
        obtain ⟨id1, f1, p1⟩ := n1
        obtain ⟨id0, f0, p0⟩ := n
        simp only at h2 h3 h4
        rw [h2, h3, h4]
  · refine ⟨(zones_dump_zone_text O contents tr).1, zone, j, files, [], ?_, hdump, hiff,
      fun h => absurd h hok, fun _ => ⟨rfl, rfl, rfl, herr hok⟩⟩
    unfold zones_zonefile_sync
    simp only [hzd, hc, not_lt.mpr hs0, if_false, hne, ne_eq, not_false_eq_true, if_true,
      hok, List.append_nil]
    rw [hdump]

theorem zonefile_sync_all_or_nothing_witness :
    zones_zonefile_sync sample_journal_api oracle_ok (some sample_zone_unsynced)
        (some sample_journal) []
      = (KNOT_EOK,
          some { sample_zone_unsynced with
            data := some { sample_zonedata with
              ixfr_db := some sample_journal, zonefile_serial := 101 } },
          some { path := [],
                 nodes := [{ id := ixfrdb_key_make 99 100, flags := 1, payload := [] },
                           { id := ixfrdb_key_make 100 101, flags := 1, payload := [] },
                           { id := 0, flags := 2, payload := [] }] },
          dump_calls_ok sample_contents_new
            ++ [(Call.journal_update (ixfrdb_key_make 100 101) 1, KNOT_EOK)])
    ∧ zones_zonefile_sync sample_journal_api oracle_rename_fails (some sample_zone_unsynced)
        (some sample_journal) []
      = (KNOT_ERROR, some sample_zone_unsynced, some sample_journal,
          [(Call.mkstemp, KNOT_EOK), (Call.fdopen, KNOT_EOK),
           (Call.zone_dump_text sample_contents_new, KNOT_EOK), (Call.fchmod, KNOT_EOK),
           (Call.fclose, KNOT_EOK), (Call.rename, KNOT_ERROR), (Call.unlink, KNOT_EOK)])
    ∧ ∃ (ret : knot_error) (zone1 : knot_zone_t) (j1 : journal_t) (files updates : Trace),
      zones_zonefile_sync sample_journal_api oracle_ok (some sample_zone_unsynced)
          (some sample_journal) []
        = (ret, some zone1, some j1, [] ++ (files ++ updates))
      ∧ zones_dump_zone_text oracle_ok sample_contents_new [] = (ret, [] ++ files)
      ∧ (ret = KNOT_EOK ↔ files = dump_calls_ok sample_contents_new)
      ∧ (ret = KNOT_EOK →
          zone1 = { sample_zone_unsynced with
                    data := some { ({ sample_zonedata with ixfr_db := some sample_journal }
                        : zonedata_t) with zonefile_serial :=
                      (sample_journal_api.knot_rdata_soa_serial sample_contents_new.apex_soa
                        % 2 ^ 32).toNat } }
          ∧ j1.path = sample_journal.path ∧ j1.nodes.length = sample_journal.nodes.length
          ∧ (∀ (i : Nat) (n : journal_node_t), sample_journal.nodes[i]? = some n →
              ∃ n1, j1.nodes[i]? = some n1 ∧ n1.id = n.id ∧ n1.payload = n.payload
                ∧ (sample_journal_api.journal_walk_visits sample_journal i = true →
                    ∀ k, n1.flags.testBit k = (n.flags.testBit k && decide (k ≠ 1)))
                ∧ (sample_journal_api.journal_walk_visits sample_journal i = false → n1 = n))
          ∧ ∀ e ∈ updates, ∃ id fl, e.1 = Call.journal_update id fl)
      ∧ (ret ≠ KNOT_EOK →
          zone1 = sample_zone_unsynced ∧ j1 = sample_journal ∧ updates = []
          ∧ (ret = KNOT_EWRITABLE ∨ ret = KNOT_ERROR)) :=
  ⟨by decide, by decide,
   zonefile_sync_all_or_nothing sample_journal_api oracle_ok sample_zone_unsynced
     { sample_zonedata with ixfr_db := some sample_journal } sample_journal
     sample_contents_new [] rfl rfl (by decide) (by decide) (by decide)⟩

theorem zones_zonefile_sync_trace (J : journal_api) (O : Oracle) (zone : Option knot_zone_t)
    (journal : Option journal_t) (tr : Trace) :
    ∃ new : Trace, (zones_zonefile_sync J O zone journal tr).2.2.2 = tr ++ new
      ∧ ∀ e ∈ new, is_sync_call e.1 := by
  have hnil : ∃ new : Trace, tr = tr ++ new ∧ ∀ e ∈ new, is_sync_call e.1 :=
    ⟨[], by simp, by simp⟩
  unfold zones_zonefile_sync
  cases zone with
  | none => exact hnil
  | some z =>
    cases hzd : z.data with
    | none => simp only [hzd]; exact hnil
    | some zd =>
      cases journal with
      | none => simp only [hzd]; exact hnil
      | some j =>
        cases hc : z.contents with
        | none => simp only [hzd, hc]; exact hnil
        | some contents =>
          simp only [hzd, hc]
          by_cases hs : J.knot_rdata_soa_serial contents.apex_soa < 0
          · simp only [hs, if_true]; exact hnil
          · simp only [hs, if_false]
            by_cases hne : zd.zonefile_serial
                = (J.knot_rdata_soa_serial contents.apex_soa % 2 ^ 32).toNat
            · simp only [hne, ne_eq, not_true_eq_false, if_false]; exact hnil
            · simp only [hne, ne_eq, not_false_eq_true, if_true]
              obtain ⟨files, hdump, hfiles, _, _⟩ := zones_dump_zone_text_trace O contents tr
              by_cases hok : (zones_dump_zone_text O contents tr).1 = KNOT_EOK
              · obtain ⟨ups, htr, hups, _, _⟩ :=
                  journal_walk_nodes_sync J j j.nodes 0 (tr ++ files)
                rw [hdump]
                simp only [hok, not_true_eq_false, if_false, journal_walk, htr]
                refine ⟨files ++ ups, by simp, fun e he => ?_⟩
                rcases List.mem_append.mp he with h | h
                · exact hfiles e h
                · obtain ⟨id, fl, hx⟩ := hups e h
                  rw [hx]
                  trivial
              · rw [hdump]
                simp only [hok, not_false_eq_true, if_true]
                exact ⟨files, rfl, hfiles⟩

/-- C14 (counterexample): an invocation of `zones_zonefile_sync_ev` whose
event carries no zone, or a zone without zone data, returns `KNOT_EINVAL`
without re-scheduling the event. -/
theorem zonefile_sync_ev_missing_zone_not_rearmed :
    zones_zonefile_sync_ev sample_journal_api oracle_ok sample_sync_timer none []
      = (KNOT_EINVAL, none, [])
    ∧ zones_zonefile_sync_ev sample_journal_api oracle_ok sample_sync_timer
        (some { sample_zone with data := none }) []
      = (KNOT_EINVAL, some { sample_zone with data := none }, []) := by
  decide

/-- C14 (amended): every invocation of `zones_zonefile_sync_ev` for a zone
with zone data re-schedules the event as its last call, with the delay
`dbsync_timeout * 1000` ms (as a 32-bit value), whatever the result: the
result of `zones_zonefile_sync` for a zone with contents, `KNOT_EOK` for a
zone without; the calls before it are those of the sync only.  An invocation
whose event carries no zone, or a zone without zone data, returns
`KNOT_EINVAL` and makes no call. -/
theorem zonefile_sync_ev_rearms (J : journal_api) (O : Oracle) (e : event_t)
    (zone : knot_zone_t) (tr : Trace) :
    (∀ zd : zonedata_t, zone.data = some zd →
      ∃ (ret : knot_error) (zone1 : Option knot_zone_t) (new : Trace),
        zones_zonefile_sync_ev J O e (some zone) tr
          = (ret, zone1,
              tr ++ (new ++ [(Call.evsched_schedule e
                ((zd.conf.dbsync_timeout * 1000) % 2 ^ 32), KNOT_EOK)]))
        ∧ (∀ x ∈ new, is_sync_call x.1)
        ∧ ret = (if (knot_zone_contents (some zone)).isSome then
                  (zones_zonefile_sync J O (some zone) zd.ixfr_db tr).1 else KNOT_EOK)
        ∧ (zd.conf.dbsync_timeout * 1000 < 2 ^ 31 →
            (zd.conf.dbsync_timeout * 1000) % 2 ^ 32 = zd.conf.dbsync_timeout * 1000))
    ∧ (zone.data = none →
        zones_zonefile_sync_ev J O e (some zone) tr = (KNOT_EINVAL, some zone, tr))
    ∧ zones_zonefile_sync_ev J O e none tr = (KNOT_EINVAL, none, tr) := by
  refine ⟨fun zd hzd => ?_, fun hzd => ?_, rfl⟩
  · cases hc : (knot_zone_contents (some zone)).isSome with
    | true =>
      obtain ⟨new, htr, hnew⟩ := zones_zonefile_sync_trace J O (some zone) zd.ixfr_db tr
      refine ⟨(zones_zonefile_sync J O (some zone) zd.ixfr_db tr).1,
        zone_set_journal (zones_zonefile_sync J O (some zone) zd.ixfr_db tr).2.1
          (zones_zonefile_sync J O (some zone) zd.ixfr_db tr).2.2.1, new, ?_, hnew,
        by simp only [if_true], fun h => ?_⟩
      · unfold zones_zonefile_sync_ev
        simp only [hzd, hc, if_true, journal_retain, call_void, htr, List.append_assoc]
      · exact Nat.mod_eq_of_lt (lt_trans h (by decide))
    | false =>
      refine ⟨KNOT_EOK, some zone, [], ?_, by simp,
        by simp only [Bool.false_eq_true, if_false], fun h => ?_⟩
      · unfold zones_zonefile_sync_ev
        simp only [hzd, hc, Bool.false_eq_true, if_false, call_void, List.nil_append]
      · exact Nat.mod_eq_of_lt (lt_trans h (by decide))
  · unfold zones_zonefile_sync_ev
    simp only [hzd]

theorem zonefile_sync_ev_rearms_witness :
    zones_zonefile_sync_ev sample_journal_api oracle_ok sample_sync_timer
        (some sample_zone_synced) []
      = (KNOT_ERANGE, some sample_zone_synced,
          [(Call.evsched_schedule sample_sync_timer 3600000, KNOT_EOK)])
    ∧ (∃ (ret : knot_error) (zone1 : Option knot_zone_t) (new : Trace),
        zones_zonefile_sync_ev sample_journal_api oracle_rename_fails sample_sync_timer
            (some sample_zone_unsynced) []
          = (ret, zone1,
              [] ++ (new ++ [(Call.evsched_schedule sample_sync_timer
                ((sample_zonedata.conf.dbsync_timeout * 1000) % 2 ^ 32), KNOT_EOK)]))
        ∧ (∀ x ∈ new, is_sync_call x.1)
        ∧ ret = (if (knot_zone_contents (some sample_zone_unsynced)).isSome then
                  (zones_zonefile_sync sample_journal_api oracle_rename_fails
                    (some sample_zone_unsynced) (some sample_journal) []).1 else KNOT_EOK)
        ∧ (sample_zonedata.conf.dbsync_timeout * 1000 < 2 ^ 31 →
            (sample_zonedata.conf.dbsync_timeout * 1000) % 2 ^ 32
              = sample_zonedata.conf.dbsync_timeout * 1000)) :=
  ⟨by decide,
   (zonefile_sync_ev_rearms sample_journal_api oracle_rename_fails sample_sync_timer
     sample_zone_unsynced []).1
     { sample_zonedata with ixfr_db := some sample_journal } rfl⟩

/-! ## Loading changesets from the journal -/

/-- C19 (failing input): a journal node that lacks `JOURNAL_VALID` or carries
`JOURNAL_TRANS` still contributes a changeset to the output of the loop of
`zones_load_changesets`: the blank one that is created before the flags are
looked at stays in the set when the node is skipped, and parsing that blank
changeset (no data, size 0) is outside the defined behaviour of
`zones_changesets_from_binary`, which reads four bytes of it. -/
theorem load_changesets_skipped_node_leaves_blank (C : rrset_codec) (O : Oracle) (fuel : Nat)
    (sto : Nat) (n : journal_node_t) (rest : List journal_node_t) (dst : knot_changesets_t)
    (found_to : Nat) (tr : Trace) (hto : sto ≠ found_to)
    (hskip : n.flags &&& JOURNAL_VALID = 0 ∨ n.flags &&& JOURNAL_TRANS ≠ 0) :
    zones_load_changesets_loop O sto (n :: rest) dst found_to tr
      = zones_load_changesets_loop O sto rest
          { dst with sets := dst.sets ++ [(knot_changesets_create_changeset dst).1] }
          found_to tr
    ∧ (knot_changesets_create_changeset dst).1.data = []
    ∧ (knot_changesets_create_changeset dst).1.size = 0
    ∧ zones_changesets_from_binary_one C fuel (knot_changesets_create_changeset dst).1
        = none := by
  refine ⟨?_, rfl, rfl, ?_⟩
  · have hs : ¬ (n.flags &&& JOURNAL_VALID ≠ 0) ∨ n.flags &&& JOURNAL_TRANS ≠ 0 := by
      rcases hskip with h | h
      · exact Or.inl (fun hne => hne h)
      · exact Or.inr h
    simp only [zones_load_changesets_loop, hto, if_false, hs, if_true,
      knot_changesets_create_changeset]
  · simp [zones_changesets_from_binary_one, knot_changesets_create_changeset]

theorem load_changesets_skipped_node_leaves_blank_witness :
    (zones_load_changesets_loop oracle_ok 102 sample_journal_trans.nodes sample_empty_set
        100 []).2.1.sets
      = [{ soa_from := none, remove := [], soa_to := none, add := [],
           data := [1, 0, 0, 0, 6, 100, 1, 60, 6, 101, 1, 61], size := 12,
           serial_from := 100, serial_to := 101, flags := 0 },
         { soa_from := none, remove := [], soa_to := none, add := [], data := [], size := 0,
           serial_from := 0, serial_to := 0, flags := 0 }]
    ∧ zones_load_changesets sample_codec sample_journal_api oracle_ok 10
        (some (sample_zone_journal sample_journal_trans)) (some sample_empty_set) 100 102 []
      = none
    ∧ zones_load_changesets sample_codec sample_journal_api oracle_ok 10
        (some (sample_zone_journal sample_journal_trans)) (some sample_empty_set) 100 101 []
      = some (KNOT_EOK,
          some { sets := [{ sample_changeset with
                            data := [1, 0, 0, 0, 6, 100, 1, 60, 6, 101, 1, 61], size := 12 }],
                 flags := 0 },
          [(Call.stat, KNOT_EOK), (Call.journal_read_node (ixfrdb_key_make 100 101), KNOT_EOK)])
    ∧ (zones_load_changesets_loop oracle_ok 102
          ({ id := ixfrdb_key_make 101 102, flags := JOURNAL_VALID + JOURNAL_TRANS,
             payload := [1, 0, 0, 0, 6, 101, 6, 102] } :: []) sample_empty_set 101 []
        = zones_load_changesets_loop oracle_ok 102 []
            { sample_empty_set with
              sets := sample_empty_set.sets
                ++ [(knot_changesets_create_changeset sample_empty_set).1] } 101 []
      ∧ (knot_changesets_create_changeset sample_empty_set).1.data = []
      ∧ (knot_changesets_create_changeset sample_empty_set).1.size = 0
      ∧ zones_changesets_from_binary_one sample_codec 10
          (knot_changesets_create_changeset sample_empty_set).1 = none) :=
  ⟨by decide, by decide, by decide,
   load_changesets_skipped_node_leaves_blank sample_codec oracle_ok 10 102
     { id := ixfrdb_key_make 101 102, flags := JOURNAL_VALID + JOURNAL_TRANS,
       payload := [1, 0, 0, 0, 6, 101, 6, 102] } [] sample_empty_set 101 []
     (by decide) (Or.inr (by decide))⟩

theorem chain_end_cons (sfrom : Nat) (n : journal_node_t) (l : List journal_node_t) :
    chain_end sfrom (n :: l) = chain_end (ixfrdb_key_to n.id) l := by
  cases l with
  | nil => rfl
  | cons m l =>
    simp only [chain_end, List.getLast?_cons_cons]
    cases h : (m :: l).getLast? with
    | none => simp at h
    | some x => rfl

theorem zones_load_changesets_loop_found_to (O : Oracle) (sto : Nat)
    (nodes : List journal_node_t) :
    ∀ (dst : knot_changesets_t) (found_to : Nat) (tr : Trace),
      (zones_load_changesets_loop O sto nodes dst found_to tr).1 = none →
      (zones_load_changesets_loop O sto nodes dst found_to tr).2.2.1
        = chain_end found_to (loaded_nodes sto nodes found_to) := by
  induction nodes with
  | nil =>
    intro dst found_to tr _
    rfl
  | cons n rest ih =>
    intro dst found_to tr h
    by_cases hend : sto = found_to
    · simp only [zones_load_changesets_loop, loaded_nodes, hend, if_true]
      rfl
    · by_cases hskip : ¬ (n.flags &&& JOURNAL_VALID ≠ 0) ∨ n.flags &&& JOURNAL_TRANS ≠ 0
      · simp only [zones_load_changesets_loop, hend, if_false, hskip, if_true] at h
        simp only [zones_load_changesets_loop, loaded_nodes, hend, if_false, hskip, if_true]
        exact ih _ _ _ h
      · by_cases hr : O.ret tr (Call.journal_read_node n.id) = KNOT_EOK
        · simp only [zones_load_changesets_loop, hend, if_false, hskip, call, hr, ne_eq,
            not_true_eq_false] at h
          simp only [zones_load_changesets_loop, loaded_nodes, hend, if_false, hskip, call, hr,
            ne_eq, not_true_eq_false, chain_end_cons]
          exact ih _ _ _ h
        · simp only [zones_load_changesets_loop, hend, if_false, hskip, call, hr, ne_eq,
            not_false_eq_true, if_true] at h
          exact absurd h (by simp)

theorem zones_load_changesets_loop_early (O : Oracle) (sto : Nat)
    (nodes : List journal_node_t) :
    ∀ (dst : knot_changesets_t) (found_to : Nat) (tr : Trace) (err : knot_error),
      (zones_load_changesets_loop O sto nodes dst found_to tr).1 = some err →
      err = KNOT_ERROR := by
  induction nodes with
  | nil =>
    intro dst found_to tr err h
    simp [zones_load_changesets_loop] at h
  | cons n rest ih =>
    intro dst found_to tr err h
    by_cases hend : sto = found_to
    · simp [zones_load_changesets_loop, hend] at h
    · by_cases hskip : ¬ (n.flags &&& JOURNAL_VALID ≠ 0) ∨ n.flags &&& JOURNAL_TRANS ≠ 0
      · simp only [zones_load_changesets_loop, hend, if_false, hskip, if_true] at h
        exact ih _ _ _ _ h
      · by_cases hr : O.ret tr (Call.journal_read_node n.id) = KNOT_EOK
        · simp only [zones_load_changesets_loop, hend, if_false, hskip, call, hr, ne_eq,
            not_true_eq_false] at h
          exact ih _ _ _ _ h
        · simp only [zones_load_changesets_loop, hend, if_false, hskip, call, hr, ne_eq,
            not_false_eq_true, if_true, Option.some.injEq] at h
          exact h.symm

theorem ixfrdb_key_from_cmp_zero (k sfrom : Nat) (hf : sfrom < 2 ^ 32)
    (h : ixfrdb_key_from_cmp k sfrom = 0) : ixfrdb_key_from k = sfrom := by
  have hk : ixfrdb_key_from k < 2 ^ 32 := by
    unfold ixfrdb_key_from
    exact Nat.mod_lt _ (by decide)
  unfold ixfrdb_key_from_cmp size_sub at h
  simp only at h
  split at h
  · have h0 : (ixfrdb_key_from k + 2 ^ 64 - sfrom % 2 ^ 64) % 2 ^ 64 % 2 ^ 32 = 0 := by
      exact_mod_cast h
    omega
  · omega

/-- C20 (counterexample): with a journal whose valid nodes are 1 -> 2 followed
by 5 -> 3, `zones_load_changesets(1, 3)` returns `KNOT_EOK` although the two
changesets it loaded do not chain (the second starts at 5, not at 2). -/
theorem load_changesets_accepts_gap :
    (zones_load_changesets sample_codec sample_journal_api oracle_ok 10
        (some (sample_zone_journal sample_journal_gap)) (some sample_empty_set) 1 3 []).map
      (fun r => (r.1, changeset_serials r.2.1))
      = some (KNOT_EOK, [(1, 2), (5, 3)]) := by
  decide

/-- C20 (amended): `zones_load_changesets(sfrom, sto)` returns `KNOT_ERANGE`
when `stat` of the journal file fails, and returns a failure of
`journal_fetch` as `journal_fetch` reports it.  Otherwise it reads the nodes
from the one that `journal_fetch` answered on, in the order of the node
table; it returns `KNOT_EOK` only if the key of the last node it loaded ends
at `sto` (or `sfrom = sto` and it loaded none), and when no read fails and
the loaded changesets parse it returns `KNOT_ERANGE` if the nodes end
elsewhere.  That a node starts where the previous one ended is not checked.
A key that `ixfrdb_key_from_cmp` compares equal to `sfrom` has `serial_from =
sfrom`. -/
theorem load_changesets_history (C : rrset_codec) (J : journal_api) (O : Oracle) (fuel : Nat)
    (zone : knot_zone_t) (zd : zonedata_t) (j : journal_t) (dst : knot_changesets_t)
    (sfrom sto : Nat) (tr tr1 : Trace) (ret : knot_error) (dst1 : Option knot_changesets_t)
    (hzd : zone.data = some zd) (hj : zd.ixfr_db = some j)
    (h : zones_load_changesets C J O fuel (some zone) (some dst) sfrom sto tr
          = some (ret, dst1, tr1)) :
    (O.ret tr Call.stat ≠ KNOT_EOK → ret = KNOT_ERANGE)
    ∧ (O.ret tr Call.stat = KNOT_EOK →
        (J.journal_fetch j sfrom ixfrdb_key_from_cmp).1 ≠ KNOT_EOK →
        ret = (J.journal_fetch j sfrom ixfrdb_key_from_cmp).1)
    ∧ (O.ret tr Call.stat = KNOT_EOK →
        (J.journal_fetch j sfrom ixfrdb_key_from_cmp).1 = KNOT_EOK →
        ∃ nodes : List journal_node_t,
          journal_nodes_from j (J.journal_fetch j sfrom ixfrdb_key_from_cmp).2 = some nodes
          ∧ (ret = KNOT_EOK → chain_end sfrom (loaded_nodes sto nodes sfrom) = sto)
          ∧ ((zones_load_changesets_loop O sto nodes dst sfrom
                (tr ++ [(Call.stat, KNOT_EOK)])).1 = none →
              (∃ dst2, zones_changesets_from_binary C fuel
                  (zones_load_changesets_loop O sto nodes dst sfrom
                    (tr ++ [(Call.stat, KNOT_EOK)])).2.1 = some (KNOT_EOK, dst2)) →
              chain_end sfrom (loaded_nodes sto nodes sfrom) ≠ sto → ret = KNOT_ERANGE))
    ∧ (sfrom < 2 ^ 32 → ∀ k, ixfrdb_key_from_cmp k sfrom = 0 → ixfrdb_key_from k = sfrom) := by
  unfold zones_load_changesets at h
  simp only [hzd, hj, call, journal_retain] at h
  refine ⟨fun hst => ?_, fun hst hf => ?_, fun hst hf => ?_,
    fun hlt k hk => ixfrdb_key_from_cmp_zero k sfrom hlt hk⟩
  · simp only [hst, ne_eq, not_false_eq_true, if_true, Option.some.injEq, Prod.mk.injEq] at h
    exact h.1.symm
  · simp only [hst, ne_eq, not_true_eq_false, if_false, hf, not_false_eq_true, if_true,
      Option.some.injEq, Prod.mk.injEq] at h
    exact h.1.symm
  · simp only [hst, ne_eq, not_true_eq_false, if_false, hf] at h
    cases hn : journal_nodes_from j (J.journal_fetch j sfrom ixfrdb_key_from_cmp).2 with
    | none => simp [hn] at h
    | some nodes =>
      simp only [hn] at h
      refine ⟨nodes, rfl, ?_, ?_⟩
      · intro hret
        cases he : (zones_load_changesets_loop O sto nodes dst sfrom
            (tr ++ [(Call.stat, KNOT_EOK)])).1 with
        | some err =>
          have herr := zones_load_changesets_loop_early O sto nodes dst sfrom
            (tr ++ [(Call.stat, KNOT_EOK)]) err he
          simp only [he, Option.some.injEq, Prod.mk.injEq] at h
          rw [← h.1, herr] at hret
          exact absurd hret (by decide)
        | none =>
          have hfound := zones_load_changesets_loop_found_to O sto nodes dst sfrom
            (tr ++ [(Call.stat, KNOT_EOK)]) he
          simp only [he] at h
          cases hb : zones_changesets_from_binary C fuel
              (zones_load_changesets_loop O sto nodes dst sfrom
                (tr ++ [(Call.stat, KNOT_EOK)])).2.1 with
          | none => simp [hb] at h
          | some p =>
            obtain ⟨u, d⟩ := p
            simp only [hb] at h
            by_cases hu : u = KNOT_EOK
            · by_cases hto : sto = (zones_load_changesets_loop O sto nodes dst sfrom
                  (tr ++ [(Call.stat, KNOT_EOK)])).2.2.1
              · rw [← hfound]
                exact hto.symm
              · simp only [hu, not_true_eq_false, if_false, hto, not_false_eq_true, if_true,
                  Option.some.injEq, Prod.mk.injEq] at h
                rw [← h.1] at hret
                exact absurd hret (by decide)
            · simp only [hu, not_false_eq_true, if_true, Option.some.injEq,
                Prod.mk.injEq] at h
              rw [← h.1] at hret
              exact absurd hret hu
      · intro he hparse hne
        obtain ⟨dst2, hb⟩ := hparse
        have hfound := zones_load_changesets_loop_found_to O sto nodes dst sfrom
          (tr ++ [(Call.stat, KNOT_EOK)]) he
        have hto : ¬ sto = (zones_load_changesets_loop O sto nodes dst sfrom
            (tr ++ [(Call.stat, KNOT_EOK)])).2.2.1 := by
          rw [hfound]
          exact fun hx => hne hx.symm
        simp only [he, hb, not_true_eq_false, if_false, hto, not_false_eq_true, if_true,
          Option.some.injEq, Prod.mk.injEq] at h
        exact h.1.symm

theorem load_changesets_history_witness :
    (zones_load_changesets sample_codec sample_journal_api oracle_ok 10
        (some (sample_zone_journal sample_journal_gap)) (some sample_empty_set) 1 7 []).map
      (fun r => (r.1, changeset_serials r.2.1))
      = some (KNOT_ERANGE, [(1, 2), (5, 3)])
    ∧ (oracle_ok.ret [] Call.stat ≠ KNOT_EOK → KNOT_ERANGE = KNOT_ERANGE)
    ∧ (oracle_ok.ret [] Call.stat = KNOT_EOK →
        (sample_journal_api.journal_fetch sample_journal_gap 1 ixfrdb_key_from_cmp).1
          ≠ KNOT_EOK →
        KNOT_ERANGE
          = (sample_journal_api.journal_fetch sample_journal_gap 1 ixfrdb_key_from_cmp).1)
    ∧ (oracle_ok.ret [] Call.stat = KNOT_EOK →
        (sample_journal_api.journal_fetch sample_journal_gap 1 ixfrdb_key_from_cmp).1
          = KNOT_EOK →
        ∃ nodes : List journal_node_t,
          journal_nodes_from sample_journal_gap
            (sample_journal_api.journal_fetch sample_journal_gap 1 ixfrdb_key_from_cmp).2
              = some nodes
          ∧ (KNOT_ERANGE = KNOT_EOK → chain_end 1 (loaded_nodes 7 nodes 1) = 7)
          ∧ ((zones_load_changesets_loop oracle_ok 7 nodes sample_empty_set 1
                ([] ++ [(Call.stat, KNOT_EOK)])).1 = none →
              (∃ dst2, zones_changesets_from_binary sample_codec 10
                  (zones_load_changesets_loop oracle_ok 7 nodes sample_empty_set 1
                    ([] ++ [(Call.stat, KNOT_EOK)])).2.1 = some (KNOT_EOK, dst2)) →
              chain_end 1 (loaded_nodes 7 nodes 1) ≠ 7 → KNOT_ERANGE = KNOT_ERANGE))
    ∧ (1 < 2 ^ 32 → ∀ k, ixfrdb_key_from_cmp k 1 = 0 → ixfrdb_key_from k = 1) :=
  ⟨by decide,
   load_changesets_history sample_codec sample_journal_api oracle_ok 10
     (sample_zone_journal sample_journal_gap)
     { sample_zonedata with ixfr_db := some sample_journal_gap } sample_journal_gap
     sample_empty_set 1 7 []
     [(Call.stat, KNOT_EOK), (Call.journal_read_node (ixfrdb_key_make 1 2), KNOT_EOK),
      (Call.journal_read_node (ixfrdb_key_make 5 3), KNOT_EOK)]
     KNOT_ERANGE
     (some { sets := [{ soa_from := some (sample_rr 6 1), remove := [],
                        soa_to := some (sample_rr 6 2), add := [],
                        data := [0, 0, 0, 0, 6, 1, 6, 2], size := 8,
                        serial_from := 1, serial_to := 2, flags := 0 },
                      { soa_from := some (sample_rr 6 5), remove := [],
                        soa_to := some (sample_rr 6 3), add := [],
                        data := [0, 0, 0, 0, 6, 5, 6, 3], size := 8,
                        serial_from := 5, serial_to := 3, flags := 0 }],
             flags := 0 })
     rfl rfl (by decide)⟩

/-! ## Forwarding an UPDATE -/

theorem extends_without_forward_refl (tr : Trace) : extends_without_forward tr tr :=
  ⟨[], by simp, by simp⟩

theorem extends_without_forward_trans (a b c : Trace) (h1 : extends_without_forward a b)
    (h2 : extends_without_forward b c) : extends_without_forward a c := by
  obtain ⟨n1, e1, p1⟩ := h1
  obtain ⟨n2, e2, p2⟩ := h2
  refine ⟨n1 ++ n2, by rw [e2, e1, List.append_assoc], fun e he => ?_⟩
  rcases List.mem_append.mp he with h | h
  · exact p1 e h
  · exact p2 e h

theorem extends_without_forward_call (tr : Trace) (c : Call) (r : knot_error)
    (hc : ¬ is_forward_call c) : extends_without_forward tr (tr ++ [(c, r)]) := by
  refine ⟨[(c, r)], rfl, fun e he => ?_⟩
  rw [List.mem_singleton.mp he]
  exact hc

theorem call_if_ok_trace (O : Oracle) (ret : knot_error) (c : Call) (rcode rsize : Nat)
    (tr : Trace) (hc : ¬ is_forward_call c) :
    extends_without_forward tr (call_if_ok O ret c rcode rsize tr).2.2.2 := by
  unfold call_if_ok call_out
  split
  · exact extends_without_forward_call tr c _ hc
  · exact extends_without_forward_refl tr

theorem zones_process_update_error_trace (O : Oracle) (ret : knot_error) (rcode rsize : Nat)
    (tr : Trace) :
    extends_without_forward tr (zones_process_update_error O ret rcode rsize tr).2.2 := by
  unfold zones_process_update_error call_out
  split
  · exact extends_without_forward_call tr _ _ (by simp [is_forward_call])
  · exact extends_without_forward_refl tr

theorem zones_process_update_tsig_trace (O : Oracle) (query : knot_packet_t)
    (ret : knot_error) (rcode tsig_rcode : Nat) (key : Option knot_tsig_key_t)
    (prev rsize : Nat) (tr : Trace) :
    extends_without_forward tr
      (zones_process_update_tsig O query ret rcode tsig_rcode key prev rsize tr).2.2 := by
  unfold zones_process_update_tsig call_out
  simp only
  split
  · exact extends_without_forward_refl tr
  · split
    · exact extends_without_forward_call tr _ _ (by simp [is_forward_call])
    · cases key with
      | none => exact extends_without_forward_refl tr
      | some k => exact extends_without_forward_call tr _ _ (by simp [is_forward_call])

theorem zones_process_update_answer_trace (O : Oracle) (query : knot_packet_t)
    (ret : knot_error) (rcode tsig_rcode : Nat) (key : Option knot_tsig_key_t)
    (prev rsize : Nat) (tr : Trace) :
    extends_without_forward tr
      (zones_process_update_answer O query ret rcode tsig_rcode key prev rsize tr).2.2 := by
  unfold zones_process_update_answer
  have h1 := call_if_ok_trace O ret Call.knot_ddns_check_zone rcode rsize tr
    (by simp [is_forward_call])
  generalize call_if_ok O ret Call.knot_ddns_check_zone rcode rsize tr = p1 at h1 ⊢
  obtain ⟨r1, c1, s1, t1⟩ := p1
  simp only at h1 ⊢
  have h2 := call_if_ok_trace O r1 Call.knot_ddns_process_prereqs c1 rsize t1
    (by simp [is_forward_call])
  generalize call_if_ok O r1 Call.knot_ddns_process_prereqs c1 rsize t1 = p2 at h2 ⊢
  obtain ⟨r2, c2, s2, t2⟩ := p2
  simp only at h2 ⊢
  have h3 := call_if_ok_trace O r2 Call.knot_ddns_check_prereqs c2 rsize t2
    (by simp [is_forward_call])
  generalize call_if_ok O r2 Call.knot_ddns_check_prereqs c2 rsize t2 = p3 at h3 ⊢
  obtain ⟨r3, c3, s3, t3⟩ := p3
  simp only at h3 ⊢
  have h4 := call_if_ok_trace O r3 Call.zones_process_update_auth c3 rsize t3
    (by simp [is_forward_call])
  generalize call_if_ok O r3 Call.zones_process_update_auth c3 rsize t3 = p4 at h4 ⊢
  obtain ⟨r4, c4, s4, t4⟩ := p4
  simp only at h4 ⊢
  have h5 := zones_process_update_error_trace O r4 c4 s4 t4
  generalize zones_process_update_error O r4 c4 s4 t4 = p5 at h5 ⊢
  obtain ⟨r5, s5, t5⟩ := p5
  simp only at h5 ⊢
  have h6 := zones_process_update_tsig_trace O query r5 c4 tsig_rcode key prev s5 t5
  exact extends_without_forward_trans _ _ _ h1
    (extends_without_forward_trans _ _ _ h2
      (extends_without_forward_trans _ _ _ h3
        (extends_without_forward_trans _ _ _ h4
          (extends_without_forward_trans _ _ _ h5 h6))))

theorem zones_update_forward_trace (O : Oracle) (fd : Int) (ttype : knot_ns_transport_t)
    (zone : knot_zone_t) (zd : zonedata_t) (sfrom : sockaddr_t) (query : knot_packet_t)
    (qsize : Nat) (tr : Trace) (hzd : zone.data = some zd) :
    ∃ (ret r : knot_error) (rest : Trace),
      zones_update_forward O fd ttype zone sfrom query qsize tr
        = some (ret, tr ++ ((Call.xfr_task_create XFR_TYPE_FORWARD
            (if ttype = NS_TRANSPORT_TCP then XFR_FLAG_TCP else XFR_FLAG_UDP), r) :: rest))
      ∧ (r ≠ KNOT_EOK → ret = KNOT_ENOMEM ∧ rest = [])
      ∧ (r = KNOT_EOK → ret = KNOT_EOK ∧ ∃ (rq : knot_ns_xfr_t) (r2 : knot_error) (tail : Trace),
          rest = (Call.xfr_enqueue rq, r2) :: tail
          ∧ rq.type = XFR_TYPE_FORWARD ∧ rq.addr = some zd.xfr_in.master
          ∧ rq.fwd_src_fd = fd ∧ rq.fwd_addr = some sfrom
          ∧ rq.packet_nr = (query.id : Int)) := by
  unfold zones_update_forward
  simp only [knot_zone_data, hzd, call, call_void]
  generalize (if ttype = NS_TRANSPORT_TCP then XFR_FLAG_TCP else XFR_FLAG_UDP) = fl
  by_cases hc : O.ret tr (Call.xfr_task_create XFR_TYPE_FORWARD fl) = KNOT_EOK
  · simp only [hc, ne_eq, not_true_eq_false, if_false]
    by_cases hq : O.ret (tr ++ [(Call.xfr_task_create XFR_TYPE_FORWARD fl, KNOT_EOK)])
        (Call.xfr_enqueue (zones_update_forward_request fd fl zd sfrom query)) = KNOT_EOK
    · simp only [hq, not_true_eq_false, if_false]
      exact ⟨KNOT_EOK, KNOT_EOK,
        [(Call.xfr_enqueue (zones_update_forward_request fd fl zd sfrom query), KNOT_EOK)],
        by simp only [List.append_assoc, List.singleton_append],
        fun h => absurd rfl h,
        fun _ => ⟨rfl, zones_update_forward_request fd fl zd sfrom query, KNOT_EOK, [],
          rfl, rfl, rfl, rfl, rfl, rfl⟩⟩
    · simp only [hq, not_false_eq_true, if_true]
      exact ⟨KNOT_EOK, KNOT_EOK,
        [(Call.xfr_enqueue (zones_update_forward_request fd fl zd sfrom query),
            O.ret (tr ++ [(Call.xfr_task_create XFR_TYPE_FORWARD fl, KNOT_EOK)])
              (Call.xfr_enqueue (zones_update_forward_request fd fl zd sfrom query))),
         (Call.xfr_task_free (zones_update_forward_request fd fl zd sfrom query), KNOT_EOK)],
        by simp only [List.append_assoc, List.singleton_append, List.cons_append,
          List.nil_append],
        fun h => absurd rfl h,
        fun _ => ⟨rfl, zones_update_forward_request fd fl zd sfrom query, _, _,
          rfl, rfl, rfl, rfl, rfl, rfl⟩⟩
  · simp only [hc, ne_eq, not_false_eq_true, if_true]
    exact ⟨KNOT_ENOMEM, _, [], rfl, fun _ => ⟨rfl, rfl⟩, fun h => absurd h hc⟩

theorem zones_check_tsig_query_acl_miss (T : tsig_api) (zone : knot_zone_t) (zd : zonedata_t)
    (query : knot_packet_t) (addr : sockaddr_t) (rcode tsig_rcode prev : Nat)
    (hzd : zone.data = some zd)
    (hacl : T.acl_find (if knot_packet_opcode query = KNOT_OPCODE_UPDATE then zd.update_in
      else zd.xfr_out) addr = none) :
    zones_check_tsig_query T zone query (some addr) rcode tsig_rcode none prev
      = if (knot_packet_tsig query).isSome then
          (KNOT_TSIG_EBADKEY, KNOT_RCODE_NOTAUTH, KNOT_RCODE_BADKEY, none, prev)
        else (KNOT_EACCES, KNOT_RCODE_REFUSED, tsig_rcode, none, prev) := by
  have hz : zones_query_check_zone T (some zone) (knot_packet_opcode query) (some addr)
      (some none) (some rcode) = (KNOT_EACCES, some none, some KNOT_RCODE_REFUSED) := by
    unfold zones_query_check_zone
    simp only [knot_zone_data, hzd, hacl]
  unfold zones_check_tsig_query
  simp [hz]

theorem zones_process_update_checks_no_zone (U : update_api) (T : tsig_api)
    (query : knot_packet_t) (addr : sockaddr_t) (rsize : Nat)
    (transport : knot_ns_transport_t) (pret : knot_error)
    (hp : U.knot_ns_prep_update_response query
      (if transport = NS_TRANSPORT_TCP then rsize else 0) = (pret, none)) :
    zones_process_update_checks U T query addr rsize transport
      = ((KNOT_TSIG_EBADKEY, KNOT_RCODE_NOTAUTH, KNOT_RCODE_BADKEY, none, 0), none) := by
  unfold zones_process_update_checks
  simp [hp]

theorem zones_process_update_checks_discarded (U : update_api) (T : tsig_api)
    (query : knot_packet_t) (addr : sockaddr_t) (rsize : Nat)
    (transport : knot_ns_transport_t) (pret : knot_error) (z : knot_zone_t)
    (hp : U.knot_ns_prep_update_response query
      (if transport = NS_TRANSPORT_TCP then rsize else 0) = (pret, some z))
    (hd : knot_zone_flags z &&& KNOT_ZONE_DISCARDED ≠ 0) :
    zones_process_update_checks U T query addr rsize transport
      = ((KNOT_ENOZONE, KNOT_RCODE_SERVFAIL, KNOT_RCODE_BADKEY, none, 0), some z) := by
  unfold zones_process_update_checks
  simp [hp, hd]

theorem zones_process_update_checks_stub (U : update_api) (T : tsig_api)
    (query : knot_packet_t) (addr : sockaddr_t) (rsize : Nat)
    (transport : knot_ns_transport_t) (pret : knot_error) (z : knot_zone_t)
    (hp : U.knot_ns_prep_update_response query
      (if transport = NS_TRANSPORT_TCP then rsize else 0) = (pret, some z))
    (hd : knot_zone_flags z &&& KNOT_ZONE_DISCARDED = 0) (hc : z.contents = none) :
    zones_process_update_checks U T query addr rsize transport
      = ((KNOT_TSIG_EBADKEY, KNOT_RCODE_NOTAUTH, KNOT_RCODE_BADKEY, none, 0), some z) := by
  unfold zones_process_update_checks
  simp [hp, hd, hc, knot_zone_contents]

theorem zones_process_update_checks_valid (U : update_api) (T : tsig_api)
    (query : knot_packet_t) (addr : sockaddr_t) (rsize : Nat)
    (transport : knot_ns_transport_t) (z : knot_zone_t) (c : knot_zone_contents_t)
    (hp : U.knot_ns_prep_update_response query
      (if transport = NS_TRANSPORT_TCP then rsize else 0) = (KNOT_EOK, some z))
    (hd : knot_zone_flags z &&& KNOT_ZONE_DISCARDED = 0) (hc : z.contents = some c) :
    zones_process_update_checks U T query addr rsize transport
      = (zones_check_tsig_query T z query (some addr) KNOT_RCODE_NOERROR 0 none 0,
          some z) := by
  unfold zones_process_update_checks
  simp [hp, hd, hc, knot_zone_contents]


theorem zones_process_update_checks_prep_failed (U : update_api) (T : tsig_api)
    (query : knot_packet_t) (addr : sockaddr_t) (rsize : Nat)
    (transport : knot_ns_transport_t) (pret : knot_error) (z : knot_zone_t)
    (c : knot_zone_contents_t)
    (hp : U.knot_ns_prep_update_response query
      (if transport = NS_TRANSPORT_TCP then rsize else 0) = (pret, some z))
    (hd : knot_zone_flags z &&& KNOT_ZONE_DISCARDED = 0) (hc : z.contents = some c)
    (hpret : pret ≠ KNOT_EOK) :
    (zones_process_update_checks U T query addr rsize transport).1.1 = pret
    ∧ (zones_process_update_checks U T query addr rsize transport).1.2.2.2.1 = none
    ∧ (zones_process_update_checks U T query addr rsize transport).2 = some z := by
  unfold zones_process_update_checks
  simp [hp, hd, hc, knot_zone_contents, hpret]

/-- C11 (counterexample): `zones_process_update` forwards an UPDATE for a zone
without contents (a slave zone not yet bootstrapped) to the master, and it
forwards an UPDATE that carries a TSIG record from a peer that matches no
entry of the `update_in` ACL of a zone with contents; in both cases the task
is created and enqueued, and nothing is answered (`*rsize = 0`). -/
theorem update_forwarded_for_stub_zone_and_acl_miss :
    zones_process_update (sample_update_api (some sample_zone_stub)) (sample_tsig KNOT_EOK)
        oracle_ok sample_update_unsigned (sample_addr 9) 512 7 NS_TRANSPORT_UDP []
      = some (KNOT_EOK, 0, forward_calls XFR_FLAG_UDP sample_forward_task)
    ∧ knot_zone_contents (some sample_zone_stub) = none
    ∧ zones_process_update (sample_update_api (some sample_zone)) (sample_tsig KNOT_EOK)
        oracle_ok sample_update_signed (sample_addr 9) 512 7 NS_TRANSPORT_UDP []
      = some (KNOT_EOK, 0, forward_calls XFR_FLAG_UDP sample_forward_task)
    ∧ (sample_tsig KNOT_EOK).acl_find sample_zonedata.update_in (sample_addr 9) = none := by
  decide

/-- C11 (amended): `zones_process_update` forwards an UPDATE exactly when a
zone passes the condition of the forwarding branch and that zone has
`has_master` set; then the task of type `XFR_TYPE_FORWARD` is created (and,
once created, enqueued to the master with the message id of the query) and
`*rsize` is 0; otherwise the UPDATE is answered and no forwarding task is
created.  No zone passes when the name server finds none or when the zone is
flagged discarded; a zone without contents always passes; a zone with
contents whose peer matches no entry of the `update_in` ACL passes exactly
when the query carries a TSIG record; in general a zone with contents passes
exactly when the zone, ACL and TSIG check returns `KNOT_EOK`, or
`KNOT_TSIG_EBADKEY` with no zone key selected. -/
theorem update_forwarding (U : update_api) (T : tsig_api) (O : Oracle)
    (query : knot_packet_t) (addr : sockaddr_t) (rsize : Nat) (fd : Int)
    (transport : knot_ns_transport_t) (tr : Trace) :
    (update_passes U T query addr rsize transport = none →
      ∃ r, zones_process_update U T O query addr rsize fd transport tr = some r
        ∧ extends_without_forward tr r.2.2)
    ∧ (∀ z zd, update_passes U T query addr rsize transport = some z → z.data = some zd →
        zd.xfr_in.has_master = false →
        ∃ r, zones_process_update U T O query addr rsize fd transport tr = some r
          ∧ extends_without_forward tr r.2.2)
    ∧ (∀ z zd, update_passes U T query addr rsize transport = some z → z.data = some zd →
        zd.xfr_in.has_master = true →
        ∃ (ret r : knot_error) (rest : Trace),
          zones_process_update U T O query addr rsize fd transport tr
            = some (ret, 0, tr ++ ((Call.xfr_task_create XFR_TYPE_FORWARD
                (if transport = NS_TRANSPORT_TCP then XFR_FLAG_TCP else XFR_FLAG_UDP), r)
                  :: rest))
          ∧ (r ≠ KNOT_EOK → ret = KNOT_ENOMEM ∧ rest = [])
          ∧ (r = KNOT_EOK → ret = KNOT_EOK
              ∧ ∃ (rq : knot_ns_xfr_t) (r2 : knot_error) (tail : Trace),
                rest = (Call.xfr_enqueue rq, r2) :: tail
                ∧ rq.type = XFR_TYPE_FORWARD ∧ rq.addr = some zd.xfr_in.master
                ∧ rq.fwd_src_fd = fd ∧ rq.fwd_addr = some addr
                ∧ rq.packet_nr = (query.id : Int)))
    ∧ (∀ pret, U.knot_ns_prep_update_response query
          (if transport = NS_TRANSPORT_TCP then rsize else 0) = (pret, none) →
        update_passes U T query addr rsize transport = none)
    ∧ (∀ pret z, U.knot_ns_prep_update_response query
          (if transport = NS_TRANSPORT_TCP then rsize else 0) = (pret, some z) →
        knot_zone_flags z &&& KNOT_ZONE_DISCARDED ≠ 0 →
        update_passes U T query addr rsize transport = none)
    ∧ (∀ pret z, U.knot_ns_prep_update_response query
          (if transport = NS_TRANSPORT_TCP then rsize else 0) = (pret, some z) →
        knot_zone_flags z &&& KNOT_ZONE_DISCARDED = 0 → z.contents = none →
        update_passes U T query addr rsize transport = some z)
    ∧ (∀ z c zd, U.knot_ns_prep_update_response query
          (if transport = NS_TRANSPORT_TCP then rsize else 0) = (KNOT_EOK, some z) →
        knot_zone_flags z &&& KNOT_ZONE_DISCARDED = 0 → z.contents = some c →
        z.data = some zd →
        T.acl_find (if knot_packet_opcode query = KNOT_OPCODE_UPDATE then zd.update_in
          else zd.xfr_out) addr = none →
        update_passes U T query addr rsize transport
          = if (knot_packet_tsig query).isSome then some z else none)
    ∧ (∀ z c, U.knot_ns_prep_update_response query
          (if transport = NS_TRANSPORT_TCP then rsize else 0) = (KNOT_EOK, some z) →
        knot_zone_flags z &&& KNOT_ZONE_DISCARDED = 0 → z.contents = some c →
        (update_passes U T query addr rsize transport = some z ↔
          ((zones_check_tsig_query T z query (some addr) KNOT_RCODE_NOERROR 0 none 0).1
              = KNOT_EOK
            ∨ ((zones_check_tsig_query T z query (some addr) KNOT_RCODE_NOERROR 0 none 0).1
                = KNOT_TSIG_EBADKEY
              ∧ (zones_check_tsig_query T z query (some addr) KNOT_RCODE_NOERROR 0 none
                  0).2.2.2.1 = none))))
    ∧ (∀ pret z c, U.knot_ns_prep_update_response query
          (if transport = NS_TRANSPORT_TCP then rsize else 0) = (pret, some z) →
        knot_zone_flags z &&& KNOT_ZONE_DISCARDED = 0 → z.contents = some c →
        pret ≠ KNOT_EOK →
        update_passes U T query addr rsize transport
          = if pret = KNOT_TSIG_EBADKEY then some z else none) := by
  refine ⟨?_, ?_, ?_, ?_, ?_, ?_, ?_, ?_, ?_⟩
  · intro hpass
    unfold update_passes at hpass
    unfold zones_process_update
    simp only [hpass]
    exact ⟨_, rfl, zones_process_update_answer_trace O query _ _ _ _ _ _ _⟩
  · intro z zd hpass hzd hm
    unfold update_passes at hpass
    unfold zones_process_update
    simp only [hpass, knot_zone_data, hzd, hm, Bool.false_eq_true, if_false]
    exact ⟨_, rfl, zones_process_update_answer_trace O query _ _ _ _ _ _ _⟩
  · intro z zd hpass hzd hm
    unfold update_passes at hpass
    obtain ⟨ret, r, rest, hf, h1, h2⟩ :=
      zones_update_forward_trace O fd transport z zd addr query rsize tr hzd
    refine ⟨ret, r, rest, ?_, h1, h2⟩
    unfold zones_process_update
    simp only [hpass, knot_zone_data, hzd, hm, if_true, hf]
  · intro pret hp
    unfold update_passes
    rw [zones_process_update_checks_no_zone U T query addr rsize transport pret hp]
    rfl
  · intro pret z hp hd
    unfold update_passes
    rw [zones_process_update_checks_discarded U T query addr rsize transport pret z hp hd]
    simp [zones_process_update_pass]
  · intro pret z hp hd hc
    unfold update_passes
    rw [zones_process_update_checks_stub U T query addr rsize transport pret z hp hd hc]
    simp [zones_process_update_pass]
  · intro z c zd hp hd hc hzd hacl
    unfold update_passes
    rw [zones_process_update_checks_valid U T query addr rsize transport z c hp hd hc,
      zones_check_tsig_query_acl_miss T z zd query addr _ _ _ hzd hacl]
    cases knot_packet_tsig query <;> simp [zones_process_update_pass]
  · intro z c hp hd hc
    unfold update_passes
    rw [zones_process_update_checks_valid U T query addr rsize transport z c hp hd hc]
    simp only [zones_process_update_pass, Option.isNone_iff_eq_none]
    by_cases h1 : (zones_check_tsig_query T z query (some addr) KNOT_RCODE_NOERROR 0 none
        0).1 = KNOT_EOK
    · simp [h1]
    · by_cases h2 : (zones_check_tsig_query T z query (some addr) KNOT_RCODE_NOERROR 0 none
          0).1 = KNOT_TSIG_EBADKEY
          ∧ (zones_check_tsig_query T z query (some addr) KNOT_RCODE_NOERROR 0 none
            0).2.2.2.1 = none
      · simp [h2]
      · simp [h1, h2]
  · intro pret z c hp hd hc hpret
    obtain ⟨h1, h2, h3⟩ :=
      zones_process_update_checks_prep_failed U T query addr rsize transport pret z c hp hd hc
        hpret
    unfold update_passes
    rw [h1, h2, h3]
    simp [zones_process_update_pass, hpret]

theorem update_forwarding_witness :
    zones_process_update (sample_update_api (some sample_zone)) (sample_tsig KNOT_EOK)
        oracle_ok sample_update_unsigned (sample_addr 9) 512 7 NS_TRANSPORT_UDP []
      = some (KNOT_EOK, 512,
          [(Call.knot_ns_error_response_from_query KNOT_RCODE_REFUSED, KNOT_EOK)])
    ∧ (∃ r, zones_process_update (sample_update_api (some sample_zone)) (sample_tsig KNOT_EOK)
          oracle_ok sample_update_unsigned (sample_addr 9) 512 7 NS_TRANSPORT_UDP [] = some r
        ∧ extends_without_forward [] r.2.2)
    ∧ (∃ (ret r : knot_error) (rest : Trace),
        zones_process_update (sample_update_api (some sample_zone_stub)) (sample_tsig KNOT_EOK)
            oracle_ok sample_update_unsigned (sample_addr 9) 512 7 NS_TRANSPORT_UDP []
          = some (ret, 0, [] ++ ((Call.xfr_task_create XFR_TYPE_FORWARD
              (if NS_TRANSPORT_UDP = NS_TRANSPORT_TCP then XFR_FLAG_TCP else XFR_FLAG_UDP), r)
                :: rest))
        ∧ (r ≠ KNOT_EOK → ret = KNOT_ENOMEM ∧ rest = [])
        ∧ (r = KNOT_EOK → ret = KNOT_EOK
            ∧ ∃ (rq : knot_ns_xfr_t) (r2 : knot_error) (tail : Trace),
              rest = (Call.xfr_enqueue rq, r2) :: tail
              ∧ rq.type = XFR_TYPE_FORWARD ∧ rq.addr = some sample_zonedata.xfr_in.master
              ∧ rq.fwd_src_fd = 7 ∧ rq.fwd_addr = some (sample_addr 9)
              ∧ rq.packet_nr = (sample_update_unsigned.id : Int))) :=
  ⟨by decide,
   (update_forwarding (sample_update_api (some sample_zone)) (sample_tsig KNOT_EOK) oracle_ok
      sample_update_unsigned (sample_addr 9) 512 7 NS_TRANSPORT_UDP []).1 (by decide),
   (update_forwarding (sample_update_api (some sample_zone_stub)) (sample_tsig KNOT_EOK)
      oracle_ok sample_update_unsigned (sample_addr 9) 512 7 NS_TRANSPORT_UDP []).2.2.1
      sample_zone_stub sample_zonedata (by decide) rfl rfl⟩

/-! ## SOA timers in milliseconds -/

/-- C27 (failing input): for a zone with contents the SOA timer functions
return the SOA value `v` (seconds, 32 bits) times 1000 computed in
`uint32_t`, that is `(v * 1000) mod 2^32`; this is `v * 1000` exactly when
`v <= 4294967`, and a larger value (a timer of more than 49 days) wraps.  For
a zone without contents, and without a zone, they return 0. -/
theorem soa_timer_milliseconds_wrap (T : timers_api) (zone : knot_zone_t)
    (zc : knot_zone_contents_t) (hc : zone.contents = some zc) :
    (∀ (rr_func : knot_rrset_t → Nat) (v : Nat), rr_func zc.apex_soa = v → v < 2 ^ 32 →
      zones_soa_timer (some zone) rr_func = (v * 1000) % 2 ^ 32
      ∧ (zones_soa_timer (some zone) rr_func = v * 1000 ↔ v ≤ 4294967))
    ∧ zones_soa_refresh T (some zone)
        = (T.knot_rdata_soa_refresh zc.apex_soa % 2 ^ 32 * 1000) % 2 ^ 32
    ∧ zones_soa_retry T (some zone)
        = (T.knot_rdata_soa_retry zc.apex_soa % 2 ^ 32 * 1000) % 2 ^ 32
    ∧ zones_soa_expire T (some zone)
        = (T.knot_rdata_soa_expire zc.apex_soa % 2 ^ 32 * 1000) % 2 ^ 32
    ∧ (∀ z : knot_zone_t, z.contents = none →
        zones_soa_refresh T (some z) = 0 ∧ zones_soa_retry T (some z) = 0
        ∧ zones_soa_expire T (some z) = 0)
    ∧ zones_soa_refresh T none = 0 ∧ zones_soa_retry T none = 0
    ∧ zones_soa_expire T none = 0 := by
  refine ⟨fun rr_func v hv hlt => ?_, ?_, ?_, ?_, fun z hz => ?_, rfl, rfl, rfl⟩
  · have h1 : zones_soa_timer (some zone) rr_func = (v * 1000) % 2 ^ 32 := by
      simp only [zones_soa_timer, knot_zone_contents, hc, hv, Nat.mod_eq_of_lt hlt]
    refine ⟨h1, ?_⟩
    rw [h1]
    constructor
    · intro h
      have : v * 1000 < 2 ^ 32 := by
        rw [← h]
        exact Nat.mod_lt _ (by decide)
      omega
    · intro h
      exact Nat.mod_eq_of_lt (by omega)
  · simp only [zones_soa_refresh, zones_soa_timer, knot_zone_contents, hc]
  · simp only [zones_soa_retry, zones_soa_timer, knot_zone_contents, hc]
  · simp only [zones_soa_expire, zones_soa_timer, knot_zone_contents, hc]
  · simp only [zones_soa_refresh, zones_soa_retry, zones_soa_expire, zones_soa_timer,
      knot_zone_contents, hz, and_self]

theorem soa_timer_milliseconds_wrap_witness :
    zones_soa_expire sample_timers_eight_weeks (some sample_zone) = 543432704
    ∧ 4838400 * 1000 ≠ 543432704
    ∧ zones_soa_refresh sample_timers_eight_weeks (some sample_zone) = 86400 * 1000
    ∧ (zones_soa_timer (some sample_zone) sample_timers_eight_weeks.knot_rdata_soa_expire
          = (4838400 * 1000) % 2 ^ 32
        ∧ (zones_soa_timer (some sample_zone) sample_timers_eight_weeks.knot_rdata_soa_expire
            = 4838400 * 1000 ↔ 4838400 ≤ 4294967)) :=
  ⟨by decide, by decide, by decide,
   (soa_timer_milliseconds_wrap sample_timers_eight_weeks sample_zone sample_contents rfl).1
     sample_timers_eight_weeks.knot_rdata_soa_expire 4838400 rfl (by decide)⟩

/-! ## The serialized size is known in advance -/

theorem zones_rrset_write_to_mem_exact (C : rrset_codec) (hex : codec_writes_binary_size C)
    (rr : Option knot_rrset_t) (entry : List Nat) (m : Nat)
    (hm : C.rrset_binary_size rr ≤ m) :
    ∃ (ret : knot_error) (e1 : List Nat) (m1 : Nat),
      zones_rrset_write_to_mem C rr entry m = some (ret, e1, m1)
      ∧ (ret = KNOT_EOK ∨ ret = KNOT_ERROR)
      ∧ (ret = KNOT_EOK →
          e1.length = entry.length + C.rrset_binary_size rr
          ∧ m1 = m - C.rrset_binary_size rr)
      ∧ (ret ≠ KNOT_EOK → e1 = entry) := by
  unfold zones_rrset_write_to_mem
  cases hs : C.rrset_serialize rr with
  | none =>
    exact ⟨KNOT_ERROR, entry, m, rfl, Or.inr rfl, fun h => absurd h (by decide),
      fun _ => rfl⟩
  | some b =>
    have hb := hex rr b hs
    have hle : b.length ≤ m := by omega
    simp only [hle, if_true]
    exact ⟨KNOT_EOK, _, _, rfl, Or.inl rfl,
      fun _ => ⟨by rw [List.length_append, hb], by rw [hb]⟩, fun h => absurd rfl h⟩

theorem zones_serialize_rr_list_exact (C : rrset_codec) (hex : codec_writes_binary_size C)
    (l : List knot_rrset_t) :
    ∀ (entry : List Nat) (m : Nat), rrsets_binary_size C l ≤ m →
      ∃ (ret : knot_error) (e1 : List Nat) (m1 : Nat),
        zones_serialize_rr_list C l entry m = some (ret, e1, m1)
        ∧ (ret = KNOT_EOK ∨ ret = KNOT_ERROR)
        ∧ e1.length ≤ entry.length + rrsets_binary_size C l
        ∧ (ret = KNOT_EOK →
            e1.length = entry.length + rrsets_binary_size C l
            ∧ m1 = m - rrsets_binary_size C l) := by
  induction l with
  | nil =>
    intro entry m _
    exact ⟨KNOT_EOK, entry, m, rfl, Or.inl rfl, by simp [rrsets_binary_size],
      fun _ => ⟨by simp [rrsets_binary_size], by simp [rrsets_binary_size]⟩⟩
  | cons r rest ih =>
    intro entry m hm
    have hsum : rrsets_binary_size C (r :: rest)
        = C.rrset_binary_size (some r) + rrsets_binary_size C rest := by
      simp [rrsets_binary_size]
    rw [hsum] at hm ⊢
    obtain ⟨ret1, e1, m1, hw, hr1, hok1, hfail1⟩ :=
      zones_rrset_write_to_mem_exact C hex (some r) entry m (by omega)
    simp only [zones_serialize_rr_list, hw]
    by_cases h1 : ret1 = KNOT_EOK
    · obtain ⟨hl1, hm1⟩ := hok1 h1
      obtain ⟨ret2, e2, m2, hw2, hr2, hle2, hok2⟩ := ih e1 m1 (by omega)
      simp only [h1, ne_eq, not_true_eq_false, if_false, hw2]
      refine ⟨ret2, e2, m2, rfl, hr2, by omega, fun h2 => ?_⟩
      obtain ⟨hl2, hm2⟩ := hok2 h2
      exact ⟨by omega, by omega⟩
    · simp only [ne_eq, h1, not_false_eq_true, if_true]
      refine ⟨KNOT_ERROR, e1, m1, rfl, Or.inr rfl, ?_, fun h => absurd h (by decide)⟩
      rw [hfail1 h1]
      omega

/-- C23: `zones_changeset_binary_size` stores 4 plus the sum of
`rrset_binary_size` over `soa_from`, the removed RRsets, `soa_to` and the
added RRsets, and returns `KNOT_EINVAL` when the changeset or the output
pointer is null.  Provided the serializer writes exactly `rrset_binary_size`
bytes for each RRset (and the size fits a `size_t`),
`zones_serialize_and_store_chgset` into an entry of that size never fails
the assertion `written <= *remaining`, writes no more than the entry holds,
and writes exactly that many bytes when it returns `KNOT_EOK`;
`zones_store_changeset` reserves exactly that size and hands an entry no
longer than it to `journal_unmap`. -/
theorem changeset_size_known_in_advance (C : rrset_codec) (O : Oracle) (c : knot_changeset_t)
    (tr : Trace) (hex : codec_writes_binary_size C)
    (hfit : changeset_binary_size_sum C c < 2 ^ 64) :
    (∀ s0 : Nat, zones_changeset_binary_size C (some c) (some s0)
      = (KNOT_EOK, some (4 + (C.rrset_binary_size c.soa_from + rrsets_binary_size C c.remove
          + C.rrset_binary_size c.soa_to + rrsets_binary_size C c.add))))
    ∧ (∀ size : Option Nat, zones_changeset_binary_size C none size = (KNOT_EINVAL, size))
    ∧ (∀ chgset : Option knot_changeset_t,
        zones_changeset_binary_size C chgset none = (KNOT_EINVAL, none))
    ∧ (∃ (ret : knot_error) (bytes : List Nat),
        zones_serialize_and_store_chgset C c (changeset_binary_size_sum C c)
          = some (ret, bytes)
        ∧ (ret = KNOT_EOK ∨ ret = KNOT_ERROR)
        ∧ bytes.length ≤ changeset_binary_size_sum C c
        ∧ (ret = KNOT_EOK → bytes.length = changeset_binary_size_sum C c))
    ∧ (∃ (ret : knot_error) (tr1 : Trace), zones_store_changeset C O c tr = some (ret, tr1)
        ∧ (O.ret tr (Call.journal_map (ixfrdb_key_make c.serial_from c.serial_to)
              (changeset_binary_size_sum C c)) ≠ KNOT_EOK →
            tr1 = tr ++ [(Call.journal_map (ixfrdb_key_make c.serial_from c.serial_to)
              (changeset_binary_size_sum C c), ret)])
        ∧ (O.ret tr (Call.journal_map (ixfrdb_key_make c.serial_from c.serial_to)
              (changeset_binary_size_sum C c)) = KNOT_EOK →
            ∃ (bytes : List Nat) (valid : Bool) (r : knot_error),
              tr1 = tr ++ [(Call.journal_map (ixfrdb_key_make c.serial_from c.serial_to)
                  (changeset_binary_size_sum C c), KNOT_EOK),
                (Call.journal_unmap (ixfrdb_key_make c.serial_from c.serial_to) bytes valid,
                  r)]
              ∧ bytes.length ≤ changeset_binary_size_sum C c
              ∧ (valid = true → bytes.length = changeset_binary_size_sum C c))) := by
  have hS : changeset_binary_size_sum C c
      = 4 + (C.rrset_binary_size c.soa_from + rrsets_binary_size C c.remove
          + C.rrset_binary_size c.soa_to + rrsets_binary_size C c.add) := by
    simp only [changeset_binary_size_sum, rrsets_binary_size]
    omega
  have hsub : size_sub (changeset_binary_size_sum C c) 4
      = C.rrset_binary_size c.soa_from + rrsets_binary_size C c.remove
          + C.rrset_binary_size c.soa_to + rrsets_binary_size C c.add := by
    unfold size_sub
    omega
  have hser : ∃ (ret : knot_error) (bytes : List Nat),
      zones_serialize_and_store_chgset C c (changeset_binary_size_sum C c)
        = some (ret, bytes)
      ∧ (ret = KNOT_EOK ∨ ret = KNOT_ERROR)
      ∧ bytes.length ≤ changeset_binary_size_sum C c
      ∧ (ret = KNOT_EOK → bytes.length = changeset_binary_size_sum C c) := by
    unfold zones_serialize_and_store_chgset
    simp only [hsub]
    obtain ⟨r1, e1, m1, hw1, _, hok1, hfail1⟩ :=
      zones_rrset_write_to_mem_exact C hex c.soa_from (u32_to_bytes c.flags)
        (C.rrset_binary_size c.soa_from + rrsets_binary_size C c.remove
          + C.rrset_binary_size c.soa_to + rrsets_binary_size C c.add) (by omega)
    have hl0 : (u32_to_bytes c.flags).length = 4 := u32_to_bytes_length c.flags
    simp only [hw1]
    by_cases h1 : r1 = KNOT_EOK
    · obtain ⟨hl1, hm1⟩ := hok1 h1
      obtain ⟨r2, e2, m2, hw2, _, hle2, hok2⟩ :=
        zones_serialize_rr_list_exact C hex c.remove e1 m1 (by omega)
      simp only [h1, ne_eq, not_true_eq_false, if_false, hw2]
      by_cases h2 : r2 = KNOT_EOK
      · obtain ⟨hl2, hm2⟩ := hok2 h2
        obtain ⟨r3, e3, m3, hw3, _, hok3, hfail3⟩ :=
          zones_rrset_write_to_mem_exact C hex c.soa_to e2 m2 (by omega)
        simp only [h2, not_true_eq_false, if_false, hw3]
        by_cases h3 : r3 = KNOT_EOK
        · obtain ⟨hl3, hm3⟩ := hok3 h3
          obtain ⟨r4, e4, m4, hw4, _, hle4, hok4⟩ :=
            zones_serialize_rr_list_exact C hex c.add e3 m3 (by omega)
          simp only [h3, not_true_eq_false, if_false, hw4]
          by_cases h4 : r4 = KNOT_EOK
          · obtain ⟨hl4, _⟩ := hok4 h4
            simp only [h4, not_true_eq_false, if_false]
            exact ⟨KNOT_EOK, e4, rfl, Or.inl rfl, by omega, fun _ => by omega⟩
          · simp only [h4, not_false_eq_true, if_true]
            exact ⟨KNOT_ERROR, e4, rfl, Or.inr rfl, by omega, fun h => absurd h (by decide)⟩
        · simp only [h3, not_false_eq_true, if_true]
          refine ⟨KNOT_ERROR, e3, rfl, Or.inr rfl, ?_, fun h => absurd h (by decide)⟩
          rw [hfail3 h3]
          omega
      · simp only [h2, not_false_eq_true, if_true]
        exact ⟨KNOT_ERROR, e2, rfl, Or.inr rfl, by omega, fun h => absurd h (by decide)⟩
    · simp only [ne_eq, h1, not_false_eq_true, if_true]
      refine ⟨KNOT_ERROR, e1, rfl, Or.inr rfl, ?_, fun h => absurd h (by decide)⟩
      rw [hfail1 h1]
      omega
  refine ⟨fun s0 => ?_, fun size => ?_, fun chgset => ?_, hser, ?_⟩
  · simp only [zones_changeset_binary_size, hS]
  · cases size <;> rfl
  · cases chgset <;> rfl
  · obtain ⟨ret, bytes, hs, _, hle, hlen⟩ := hser
    unfold zones_store_changeset
    simp only [zones_changeset_binary_size, ne_eq, not_true_eq_false, if_false,
      Option.getD_some, call]
    by_cases hmap : O.ret tr (Call.journal_map (ixfrdb_key_make c.serial_from c.serial_to)
        (changeset_binary_size_sum C c)) = KNOT_EOK
    · simp only [hmap, not_true_eq_false, if_false, hs]
      refine ⟨_, _, rfl, fun h => h.elim, fun _ => ⟨bytes, decide (ret = KNOT_EOK),
        O.ret (tr ++ [(Call.journal_map (ixfrdb_key_make c.serial_from c.serial_to)
            (changeset_binary_size_sum C c), KNOT_EOK)])
          (Call.journal_unmap (ixfrdb_key_make c.serial_from c.serial_to) bytes
            (decide (ret = KNOT_EOK))), ?_, hle, fun hv => ?_⟩⟩
      · simp only [List.append_assoc, List.singleton_append]
      · exact hlen (of_decide_eq_true hv)
    · simp only [hmap, not_false_eq_true, if_true]
      exact ⟨_, _, rfl, fun _ => rfl, fun h => h.elim⟩

theorem sample_codec_writes_binary_size : codec_writes_binary_size sample_codec := by
  intro r b h
  cases r with
  | none => simp [sample_codec] at h
  | some r =>
    simp only [sample_codec] at h ⊢
    by_cases hc : r.owner = [] ∧ r.rclass = 0 ∧ r.rdata = []
    · rw [if_pos hc] at h
      cases h
      rfl
    · rw [if_neg hc] at h
      cases h

theorem changeset_size_known_in_advance_witness :
    codec_writes_binary_size sample_codec
    ∧ changeset_binary_size_sum sample_codec sample_changeset = 12
    ∧ zones_serialize_and_store_chgset sample_codec sample_changeset 12
        = some (KNOT_EOK, [1, 0, 0, 0, 6, 100, 1, 60, 6, 101, 1, 61])
    ∧ (∃ (ret : knot_error) (bytes : List Nat),
        zones_serialize_and_store_chgset sample_codec sample_changeset
            (changeset_binary_size_sum sample_codec sample_changeset)
          = some (ret, bytes)
        ∧ (ret = KNOT_EOK ∨ ret = KNOT_ERROR)
        ∧ bytes.length ≤ changeset_binary_size_sum sample_codec sample_changeset
        ∧ (ret = KNOT_EOK →
            bytes.length = changeset_binary_size_sum sample_codec sample_changeset)) :=
  ⟨sample_codec_writes_binary_size, by decide, by decide,
   (changeset_size_known_in_advance sample_codec oracle_ok sample_changeset []
      sample_codec_writes_binary_size (by decide)).2.2.2.1⟩

/-! ## The transaction ID of a forwarded UPDATE -/

theorem knot_wire_get_set_id (packet : List Nat) (id : Nat) (hid : id < 2 ^ 16) :
    knot_wire_get_id (knot_wire_set_id packet id) = id := by
  simp only [knot_wire_get_id, knot_wire_set_id, List.cons_append, List.nil_append,
    List.headD_cons, List.drop_succ_cons, List.drop_zero]
  omega

/-- C24: for an UPDATE with 16-bit message id `q`, the task that
`zones_update_forward` prepares and enqueues records `q` in `packet_nr`, and
`zones_process_update_response` for that task writes exactly `q` into the id
of the upstream response (leaving the rest of the message as it was) before
it sends the response to the socket and address of the original client, sets
`*rsize` to 0, and returns `KNOT_EOK` if the number of bytes sent equals the
response size and `KNOT_ECONN` otherwise. -/
theorem forwarded_update_keeps_id (O : Oracle) (fd : Int) (flags : xfr_flag_t)
    (zd : zonedata_t) (addr : sockaddr_t) (query : knot_packet_t) (rwire : List Nat)
    (rsize : Nat) (tr : Trace) (hq : query.id < 2 ^ 16) (hw : 2 ≤ rwire.length)
    (hs : rsize < 2 ^ 63)
    (hint : ∀ c, -(2 ^ 31) ≤ O.count tr c ∧ O.count tr c < 2 ^ 31) :
    (zones_update_forward_request fd flags zd addr query).packet_nr = (query.id : Int)
    ∧ ∃ (ret : knot_error) (wire1 : List Nat),
      zones_process_update_response O (zones_update_forward_request fd flags zd addr query)
          rwire rsize tr
        = some (ret, wire1, 0, tr ++ [(Call.send fd (some addr) wire1 rsize, KNOT_EOK)])
      ∧ knot_wire_get_id wire1 = query.id
      ∧ wire1.drop 2 = rwire.drop 2
      ∧ wire1.length = rwire.length
      ∧ (ret = KNOT_EOK ↔ O.count tr (Call.send fd (some addr) wire1 rsize) = (rsize : Int))
      ∧ (ret = KNOT_EOK ∨ ret = KNOT_ECONN) := by
  have hnr : (zones_update_forward_request fd flags zd addr query).packet_nr
      = (query.id : Int) := rfl
  have hfd : (zones_update_forward_request fd flags zd addr query).fwd_src_fd = fd := rfl
  have had : (zones_update_forward_request fd flags zd addr query).fwd_addr = some addr := rfl
  have hid : ((query.id : Int) % 2 ^ 16).toNat = query.id := by omega
  refine ⟨hnr, ?_⟩
  unfold zones_process_update_response
  have hlt : ¬ rwire.length < 2 := by omega
  simp only [hlt, if_false, hnr, hfd, had, hid, call_void]
  have hr := hint (Call.send fd (some addr) (knot_wire_set_id rwire query.id) rsize)
  by_cases hn : O.count tr (Call.send fd (some addr) (knot_wire_set_id rwire query.id) rsize)
      = (rsize : Int)
  · have h1 : ((O.count tr (Call.send fd (some addr) (knot_wire_set_id rwire query.id) rsize))
        % 2 ^ 64).toNat = rsize := by omega
    simp only [h1, ne_eq, not_true_eq_false, if_false]
    refine ⟨KNOT_EOK, _, rfl, knot_wire_get_set_id rwire query.id hq, ?_, ?_,
      ⟨fun _ => hn, fun _ => rfl⟩, Or.inl rfl⟩
    · simp [knot_wire_set_id]
    · simp only [knot_wire_set_id, List.length_append, List.length_cons, List.length_nil,
        List.length_drop]
      omega
  · have h1 : ¬ ((O.count tr (Call.send fd (some addr) (knot_wire_set_id rwire query.id)
        rsize)) % 2 ^ 64).toNat = rsize := by omega
    simp only [h1, ne_eq, not_false_eq_true, if_true]
    refine ⟨KNOT_ECONN, _, rfl, knot_wire_get_set_id rwire query.id hq, ?_, ?_,
      ⟨fun h => absurd h (by decide), fun h => absurd h hn⟩, Or.inr rfl⟩
    · simp [knot_wire_set_id]
    · simp only [knot_wire_set_id, List.length_append, List.length_cons, List.length_nil,
        List.length_drop]
      omega

theorem forwarded_update_keeps_id_witness :
    zones_update_forward oracle_ok 7 NS_TRANSPORT_UDP sample_zone_stub (sample_addr 9)
        sample_update_unsigned 512 []
      = some (KNOT_EOK, forward_calls XFR_FLAG_UDP sample_forward_task)
    ∧ zones_update_forward_request 7 XFR_FLAG_UDP sample_zonedata (sample_addr 9)
        sample_update_unsigned = sample_forward_task
    ∧ zones_process_update_response oracle_send_all sample_forward_task
        sample_upstream_response 12 []
      = some (KNOT_EOK, [16, 146, 168, 0, 0, 1, 0, 0, 0, 0, 0, 0], 0,
          [(Call.send 7 (some (sample_addr 9)) [16, 146, 168, 0, 0, 1, 0, 0, 0, 0, 0, 0] 12,
            KNOT_EOK)])
    ∧ knot_wire_get_id [16, 146, 168, 0, 0, 1, 0, 0, 0, 0, 0, 0] = 4242
    ∧ (zones_update_forward_request 7 XFR_FLAG_UDP sample_zonedata (sample_addr 9)
          sample_update_unsigned).packet_nr = (sample_update_unsigned.id : Int)
    ∧ ∃ (ret : knot_error) (wire1 : List Nat),
      zones_process_update_response oracle_send_fails
          (zones_update_forward_request 7 XFR_FLAG_UDP sample_zonedata (sample_addr 9)
            sample_update_unsigned) sample_upstream_response 12 []
        = some (ret, wire1, 0,
            [] ++ [(Call.send 7 (some (sample_addr 9)) wire1 12, KNOT_EOK)])
      ∧ knot_wire_get_id wire1 = sample_update_unsigned.id
      ∧ wire1.drop 2 = sample_upstream_response.drop 2
      ∧ wire1.length = sample_upstream_response.length
      ∧ (ret = KNOT_EOK
          ↔ oracle_send_fails.count [] (Call.send 7 (some (sample_addr 9)) wire1 12)
              = ((12 : Nat) : Int))
      ∧ (ret = KNOT_EOK ∨ ret = KNOT_ECONN) :=
  ⟨by decide, by decide, by decide, by decide,
   forwarded_update_keeps_id oracle_send_fails 7 XFR_FLAG_UDP sample_zonedata (sample_addr 9)
     sample_update_unsigned sample_upstream_response 12 [] (by decide) (by decide)
     (by decide)
     (fun _ => ⟨(by decide : (-(2 ^ 31) : Int) ≤ -1), (by decide : (-1 : Int) < 2 ^ 31)⟩)⟩

/-! ## PENDING after a SOA response -/

/-- C28 (failing input): when `zones_process_response` handles a SOA response
that shows a newer serial for a zone whose `xfr_in.state` is not
`XFR_PENDING`, it sets the state to `XFR_PENDING` before it creates the
task.  If the task cannot be created it returns `KNOT_ENOMEM` with the state
still `XFR_PENDING` and nothing enqueued.  If the task is created and
enqueued the state is `XFR_PENDING`; if enqueueing fails the task is freed
and the state is `XFR_SCHED`. -/
theorem process_response_pending_without_task (R : response_api) (T : timers_api) (O : Oracle)
    (ns : knot_nameserver_t) (exp_msgid : Int) (sfrom : sockaddr_t) (packet : knot_packet_t)
    (wire : List Nat) (rsize : Nat) (tr : Trace) (z : knot_zone_t) (zd : zonedata_t)
    (contents : knot_zone_contents_t)
    (hqt : knot_packet_qtype packet = KNOT_RRTYPE_SOA)
    (hrc : knot_packet_rcode packet = KNOT_RCODE_NOERROR)
    (hz : knot_zonedb_find_zone ns.zone_db (knot_packet_qname packet) = some z)
    (hzd : z.data = some zd) (hc : z.contents = some contents)
    (hid : (knot_packet_id packet : Int) = exp_msgid)
    (hneed : 0 < R.xfrin_transfer_needed contents packet)
    (hst : zd.xfr_in.state ≠ XFR_PENDING) :
    (O.ret tr (Call.xfr_task_create (zones_transfer_to_use (some zd)) XFR_FLAG_TCP)
        ≠ KNOT_EOK →
      ∃ (z1 : knot_zone_t) (r : knot_error),
        zones_process_response R T O (some ns) exp_msgid (some sfrom) (some packet)
            (some wire) (some rsize) tr
          = (KNOT_ENOMEM, some 0, some z1,
              tr ++ [(Call.xfr_task_create (zones_transfer_to_use (some zd)) XFR_FLAG_TCP, r)])
        ∧ r ≠ KNOT_EOK
        ∧ zone_xfr_state (some z1) = some XFR_PENDING)
    ∧ (O.ret tr (Call.xfr_task_create (zones_transfer_to_use (some zd)) XFR_FLAG_TCP)
        = KNOT_EOK →
      ∃ (z1 : knot_zone_t) (rq : knot_ns_xfr_t) (r : knot_error) (tail : Trace),
        zones_process_response R T O (some ns) exp_msgid (some sfrom) (some packet)
            (some wire) (some rsize) tr
          = (KNOT_EOK, some 0, some z1,
              tr ++ ([(Call.xfr_task_create (zones_transfer_to_use (some zd)) XFR_FLAG_TCP,
                        KNOT_EOK), (Call.xfr_enqueue rq, r)] ++ tail))
        ∧ rq.type = zones_transfer_to_use (some zd) ∧ rq.flags = XFR_FLAG_TCP
        ∧ (r = KNOT_EOK → tail = [] ∧ zone_xfr_state (some z1) = some XFR_PENDING)
        ∧ (r ≠ KNOT_EOK → tail = [(Call.xfr_task_free rq, KNOT_EOK)]
            ∧ zone_xfr_state (some z1) = some XFR_SCHED)) := by
  have hneg : ¬ R.xfrin_transfer_needed contents packet < 0 := by omega
  have hzero : ¬ R.xfrin_transfer_needed contents packet = 0 := by omega
  have htu : zones_transfer_to_use (some (zonedata_set_state zd XFR_PENDING))
      = zones_transfer_to_use (some zd) := rfl
  have hty : ∀ t, (zones_process_response_request (zonedata_set_state zd XFR_PENDING) t).type
      = t ∧ (zones_process_response_request (zonedata_set_state zd XFR_PENDING) t).flags
      = XFR_FLAG_TCP := by
    intro t
    unfold zones_process_response_request xfr_task_setaddr
    simp only
    split <;> exact ⟨rfl, rfl⟩
  constructor
  · intro hcr
    refine ⟨{ z with data := some (zonedata_set_state zd XFR_PENDING) }, _, ?_, hcr, rfl⟩
    unfold zones_process_response
    simp only [hqt, if_true, hrc, ne_eq, not_true_eq_false, if_false, hz, knot_zone_data, hzd,
      knot_zone_contents, hc, hid, hneg, hzero, hst, call, htu, hcr, not_false_eq_true]
  · intro hcr
    by_cases hq : O.ret (tr ++ [(Call.xfr_task_create (zones_transfer_to_use (some zd))
        XFR_FLAG_TCP, KNOT_EOK)])
        (Call.xfr_enqueue (zones_process_response_request (zonedata_set_state zd XFR_PENDING)
          (zones_transfer_to_use (some zd)))) = KNOT_EOK
    · refine ⟨{ z with data := some (zonedata_set_state zd XFR_PENDING) },
        zones_process_response_request (zonedata_set_state zd XFR_PENDING)
          (zones_transfer_to_use (some zd)), KNOT_EOK, [], ?_, (hty _).1, (hty _).2,
        fun _ => ⟨rfl, rfl⟩, fun h => absurd rfl h⟩
      unfold zones_process_response
      simp only [hqt, if_true, hrc, ne_eq, not_true_eq_false, if_false, hz, knot_zone_data,
        hzd, knot_zone_contents, hc, hid, hneg, hzero, hst, call, htu, hcr, hq,
        List.append_assoc, List.singleton_append, List.append_nil]
    · refine ⟨{ z with data := some (zonedata_set_state
            (zonedata_set_state zd XFR_PENDING) XFR_SCHED) },
        zones_process_response_request (zonedata_set_state zd XFR_PENDING)
          (zones_transfer_to_use (some zd)), _,
        [(Call.xfr_task_free (zones_process_response_request
            (zonedata_set_state zd XFR_PENDING) (zones_transfer_to_use (some zd))),
          KNOT_EOK)], ?_, (hty _).1, (hty _).2, fun h => absurd h hq, fun _ => ⟨rfl, rfl⟩⟩
      unfold zones_process_response
      simp only [hqt, if_true, hrc, ne_eq, not_true_eq_false, if_false, hz, knot_zone_data,
        hzd, knot_zone_contents, hc, hid, hneg, hzero, hst, call, call_void, htu, hcr, hq,
        not_false_eq_true, List.append_assoc, List.singleton_append, List.cons_append,
        List.nil_append]

theorem process_response_pending_without_task_witness :
    zones_process_response sample_response_api sample_timers oracle_task_create_fails
        (some sample_nameserver) 77 (some (sample_addr 1)) (some sample_soa_response)
        (some []) (some 512) []
      = (KNOT_ENOMEM, some 0,
          some { sample_zone with data := some (zonedata_set_state sample_zonedata XFR_PENDING) },
          [(Call.xfr_task_create XFR_TYPE_IIN XFR_FLAG_TCP, KNOT_ENOMEM)])
    ∧ zone_xfr_state (some sample_zone) = some XFR_SCHED
    ∧ ∃ (z1 : knot_zone_t) (r : knot_error),
        zones_process_response sample_response_api sample_timers oracle_task_create_fails
            (some sample_nameserver) 77 (some (sample_addr 1)) (some sample_soa_response)
            (some []) (some 512) []
          = (KNOT_ENOMEM, some 0, some z1,
              [] ++ [(Call.xfr_task_create (zones_transfer_to_use (some sample_zonedata))
                XFR_FLAG_TCP, r)])
        ∧ r ≠ KNOT_EOK
        ∧ zone_xfr_state (some z1) = some XFR_PENDING :=
  ⟨by decide, by decide,
   (process_response_pending_without_task sample_response_api sample_timers
      oracle_task_create_fails sample_nameserver 77 (sample_addr 1) sample_soa_response []
      512 [] sample_zone sample_zonedata sample_contents (by decide) (by decide) (by decide)
      rfl rfl (by decide) (by decide) (by decide)).1 (by decide)⟩

/-! ## Serial comparison and lookup tables -/

theorem lookup_by_id_from_eq (table : List lookup_table_t) (ht : lookup_table_terminated table)
    (id : Int) :
    lookup_by_id_from table id
      = some ((lookup_table_entries table).find? (fun e => decide (e.id = id))) := by
  induction table with
  | nil => obtain ⟨e, he, _⟩ := ht; cases he
  | cons e rest ih =>
    cases hn : e.name with
    | none => simp [lookup_by_id_from, lookup_table_entries, hn]
    | some n =>
      have ht2 : lookup_table_terminated rest := by
        obtain ⟨x, hx, hxn⟩ := ht
        rcases List.mem_cons.mp hx with h | h
        · subst h; rw [hn] at hxn; cases hxn
        · exact ⟨x, h, hxn⟩
      by_cases hid : e.id = id
      · simp [lookup_by_id_from, lookup_table_entries, hn, hid, List.takeWhile_cons]
      · have := ih ht2
        simp only [lookup_table_entries] at this
        simp [lookup_by_id_from, lookup_table_entries, hn, hid, List.takeWhile_cons,
          List.find?_cons, this]

theorem lookup_by_name_from_eq (table : List lookup_table_t)
    (ht : lookup_table_terminated table) (name : String) :
    lookup_by_name_from table name
      = some ((lookup_table_entries table).find? (fun e => decide (e.name = some name))) := by
  induction table with
  | nil => obtain ⟨e, he, _⟩ := ht; cases he
  | cons e rest ih =>
    cases hn : e.name with
    | none => simp [lookup_by_name_from, lookup_table_entries, hn]
    | some n =>
      have ht2 : lookup_table_terminated rest := by
        obtain ⟨x, hx, hxn⟩ := ht
        rcases List.mem_cons.mp hx with h | h
        · subst h; rw [hn] at hxn; cases hxn
        · exact ⟨x, h, hxn⟩
      by_cases hid : n = name
      · simp [lookup_by_name_from, lookup_table_entries, hn, hid, List.takeWhile_cons]
      · have := ih ht2
        simp only [lookup_table_entries] at this
        simp [lookup_by_name_from, lookup_table_entries, hn, hid, List.takeWhile_cons,
          List.find?_cons, this]

/-- C25: for 32-bit serials `a` and `b`, `serial_compare a b` is 0 exactly
when `a = b`, positive exactly when `1 ≤ (a - b) mod 2^32 < 2^31`, and
negative otherwise; at a distance of exactly 2^31 it is negative in both
orders; it gives the sign that every assertion of the serial test of
tests/utils.c (101-141) expects; and `zones_xfr_load_changesets(xfr, b, a)`
returns `KNOT_EOK` with an empty set, without reading the journal, unless
`1 ≤ (a - b) mod 2^32 < 2^31`. -/
theorem serial_compare_rfc1982 (a b : Nat) (ha : a < 2 ^ 32) (hb : b < 2 ^ 32) :
    (serial_compare a b = 0 ↔ a = b) ∧
    (0 < serial_compare a b ↔
      1 ≤ ((a : Int) - b) % 2 ^ 32 ∧ ((a : Int) - b) % 2 ^ 32 < 2 ^ 31) ∧
    (serial_compare a b < 0 ↔
      a ≠ b ∧ ¬ (1 ≤ ((a : Int) - b) % 2 ^ 32 ∧ ((a : Int) - b) % 2 ^ 32 < 2 ^ 31)) ∧
    (((a : Int) - b) % 2 ^ 32 = 2 ^ 31 → serial_compare a b < 0 ∧ serial_compare b a < 0) ∧
    (serial_compare 0 0x80000000 < 0 ∧ serial_compare 0x80000000 0 < 0 ∧
     serial_compare 0 0xffffffff > 0 ∧ serial_compare 0xffffffff 0 < 0 ∧
     serial_compare 1 0x80000000 < 0 ∧ serial_compare 0x80000000 1 > 0 ∧
     serial_compare 0x7fffffff 0xffffffff < 0 ∧ serial_compare 0xffffffff 0x7fffffff < 0 ∧
     serial_compare 0x7fffffff 0xfffffffe < 0 ∧ serial_compare 0xfffffffe 0x7fffffff > 0 ∧
     serial_compare 0x80000000 0xffffffff < 0 ∧ serial_compare 0xffffffff 0x80000000 > 0 ∧
     serial_compare 0 0 = 0 ∧ serial_compare 0xffffffff 0xffffffff = 0 ∧
     serial_compare 0x7fffffff 0x7fffffff = 0 ∧
     serial_compare 0x80000000 0x80000000 = 0) ∧
    (∀ (C : rrset_codec) (J : journal_api) (O : Oracle) (fuel : Nat) (xfr : knot_ns_xfr_t)
      (zone : knot_zone_t) (data : Option knot_changesets_t) (tr : Trace),
      zone.contents.isSome →
      ¬ (1 ≤ ((a : Int) - b) % 2 ^ 32 ∧ ((a : Int) - b) % 2 ^ 32 < 2 ^ 31) →
      zones_xfr_load_changesets C J O fuel (some xfr) (some zone) data b a tr
        = some (KNOT_EOK, some (knot_changesets_create KNOT_CHANGESET_TYPE_IXFR), tr)) := by
  have hpow32 : (2 : Int) ^ 32 = 4294967296 := by norm_num
  have hpow31 : (2 : Int) ^ 31 = 2147483648 := by norm_num
  have hn32 : (2 : Nat) ^ 32 = 4294967296 := by norm_num
  have hn31 : (2 : Nat) ^ 31 = 2147483648 := by norm_num
  rw [hn32] at ha hb
  have hpos : 0 < serial_compare a b ↔
      1 ≤ ((a : Int) - b) % 2 ^ 32 ∧ ((a : Int) - b) % 2 ^ 32 < 2 ^ 31 := by
    unfold serial_compare; rw [hn31, hpow32, hpow31]; split_ifs <;> omega
  refine ⟨?_, hpos, ?_, ?_, by decide, ?_⟩
  rotate_right
  · intro C J O fuel xfr zone data tr hz hno
    have hle : ns_serial_compare a b ≤ 0 := by
      have : ¬ 0 < serial_compare a b := fun h => hno (hpos.mp h)
      unfold ns_serial_compare
      omega
    obtain ⟨c, hc⟩ := Option.isSome_iff_exists.mp hz
    simp [zones_xfr_load_changesets, knot_zone_contents, hc, hle]
  · unfold serial_compare; split_ifs with h1 h2 <;> simp [h1]
  · unfold serial_compare; rw [hn31, hpow32, hpow31]; split_ifs <;> omega
  · unfold serial_compare; rw [hn31, hpow32, hpow31]
    intro h
    constructor <;> split_ifs <;> omega

theorem serial_compare_rfc1982_witness :
    (serial_compare 0 0xffffffff = 0 ↔ 0 = 0xffffffff) ∧
    (0 < serial_compare 0 0xffffffff ↔
      1 ≤ (((0 : Nat) : Int) - (0xffffffff : Nat)) % 2 ^ 32 ∧
        (((0 : Nat) : Int) - (0xffffffff : Nat)) % 2 ^ 32 < 2 ^ 31) :=
  ⟨(serial_compare_rfc1982 0 0xffffffff (by decide) (by decide)).1,
   (serial_compare_rfc1982 0 0xffffffff (by decide) (by decide)).2.1⟩

/-- C26: on a table terminated by an entry whose name is `NULL`,
`lookup_by_id` returns the first entry before the terminator with the given
id (so an entry with that id whenever one exists, in whatever order the ids
are) and `NULL` when none has it; `lookup_by_name` returns the first entry
whose name is exactly the given string and `NULL` when none has it; both
return `NULL` for a `NULL` table, `lookup_by_name` also for a `NULL` name;
and both give what the assertions of tests/utils.c (62-84) expect on its
table, and the descriptions of exec.c on `rtypes`. -/
theorem lookup_table_search (table : List lookup_table_t)
    (ht : lookup_table_terminated table) (id : Int) (name : String) :
    (∃ r, lookup_by_id (some table) id = some r ∧
      r = (lookup_table_entries table).find? (fun e => decide (e.id = id)) ∧
      ((∃ e ∈ lookup_table_entries table, e.id = id) →
        ∃ e, r = some e ∧ e ∈ lookup_table_entries table ∧ e.id = id) ∧
      ((∀ e ∈ lookup_table_entries table, e.id ≠ id) → r = none)) ∧
    lookup_by_id none id = some none ∧
    (∃ r, lookup_by_name (some table) (some name) = some r ∧
      r = (lookup_table_entries table).find? (fun e => decide (e.name = some name)) ∧
      ((∃ e ∈ lookup_table_entries table, e.name = some name) →
        ∃ e, r = some e ∧ e ∈ lookup_table_entries table ∧ e.name = some name) ∧
      ((∀ e ∈ lookup_table_entries table, e.name ≠ some name) → r = none)) ∧
    lookup_by_name none (some name) = some none ∧
    lookup_by_name (some table) none = some none ∧
    lookup_by_name none none = some none ∧
    (lookup_by_id (some test_table) 3 = some none ∧
     lookup_by_id (some test_table) 2 = some (some { id := 2, name := some "test item 2" }) ∧
     lookup_by_id (some test_table) (-1)
       = some (some { id := -1, name := some "test item -1" }) ∧
     lookup_by_name (some test_table) (some "test item 2")
       = some (some { id := 2, name := some "test item 2" }) ∧
     lookup_by_name (some test_table) (some "") = some (some { id := 10, name := some "" }) ∧
     lookup_by_name (some test_table) (some "non existent name") = some none ∧
     lookup_by_id (some rtypes) 6
       = some (some { id := 6, name := some "start of authority is" }) ∧
     lookup_by_id (some rtypes) 28
       = some (some { id := 28, name := some "has IPv6 address" }) ∧
     lookup_by_id (some rtypes) 41 = some none) := by
  refine ⟨⟨_, lookup_by_id_from_eq table ht id, rfl, ?_, ?_⟩, rfl,
    ⟨_, lookup_by_name_from_eq table ht name, rfl, ?_, ?_⟩, rfl, rfl, rfl, by decide⟩
  · rintro ⟨e, he, hid⟩
    cases hf : (lookup_table_entries table).find? (fun e => decide (e.id = id)) with
    | none =>
      have := List.find?_eq_none.mp hf e he
      simp [hid] at this
    | some x =>
      have h1 := List.find?_some hf
      exact ⟨x, rfl, List.mem_of_find?_eq_some hf, by simpa using h1⟩
  · intro h
    apply List.find?_eq_none.mpr
    intro e he
    simpa using h e he
  · rintro ⟨e, he, hid⟩
    cases hf : (lookup_table_entries table).find? (fun e => decide (e.name = some name)) with
    | none =>
      have := List.find?_eq_none.mp hf e he
      simp [hid] at this
    | some x =>
      have h1 := List.find?_some hf
      exact ⟨x, rfl, List.mem_of_find?_eq_some hf, by simpa using h1⟩
  · intro h
    apply List.find?_eq_none.mpr
    intro e he
    simpa using h e he

theorem lookup_table_search_witness :
    lookup_table_terminated test_table ∧
    (∃ r, lookup_by_id (some test_table) 2 = some r ∧
      r = (lookup_table_entries test_table).find? (fun e => decide (e.id = 2)) ∧
      ((∃ e ∈ lookup_table_entries test_table, e.id = 2) →
        ∃ e, r = some e ∧ e ∈ lookup_table_entries test_table ∧ e.id = 2) ∧
      ((∀ e ∈ lookup_table_entries test_table, e.id ≠ 2) → r = none)) :=
  ⟨⟨{ id := 0, name := none }, by decide, rfl⟩,
   (lookup_table_search test_table ⟨{ id := 0, name := none }, by decide, rfl⟩ 2 "").1⟩

/-! ## The option loop of `print_section_opt` -/

theorem knot_wire_read_u16_inside (data : List Nat) (pos : Nat) (h : pos + 1 < data.length) :
    ∃ v, knot_wire_read_u16 data pos = some v ∧ v < 2 ^ 16 := by
  have h0 : pos < data.length := by omega
  refine ⟨(data.get ⟨pos, h0⟩ % 256) * 256 + data.get ⟨pos + 1, h⟩ % 256, ?_, ?_⟩
  · simp [knot_wire_read_u16, List.getElem?_eq_getElem h0, List.getElem?_eq_getElem h]
  · have h1 : data.get ⟨pos, h0⟩ % 256 < 256 := Nat.mod_lt _ (by norm_num)
    have h2 : data.get ⟨pos + 1, h⟩ % 256 < 256 := Nat.mod_lt _ (by norm_num)
    have : (2 : Nat) ^ 16 = 65536 := by norm_num
    omega

theorem print_section_opt_loop_total (data : List Nat) (hlen : data.length < 2 ^ 16) :
    ∀ (fuel : Nat) (pos : Int) (out : List print_call_t), 0 ≤ pos →
      (data.length : Int) - 4 - pos ≤ 4 * fuel →
      ∃ r, print_section_opt_loop (fuel + 1) data pos out = some r := by
  have hmod : data.length % 2 ^ 16 = data.length := Nat.mod_eq_of_lt hlen
  intro fuel
  induction fuel with
  | zero =>
    intro pos out _ h
    refine ⟨out, ?_⟩
    have : ¬ pos < ((data.length : Nat) : Int) - 4 := by omega
    rw [print_section_opt_loop]; simp only [hmod, this, if_false]
  | succ fuel ih =>
    intro pos out hpos h
    by_cases hc : pos < ((data.length : Nat) : Int) - 4
    · have hp : (pos.toNat : Int) = pos := Int.toNat_of_nonneg hpos
      obtain ⟨c, hc1, _⟩ := knot_wire_read_u16_inside data pos.toNat (by omega)
      obtain ⟨l, hl1, _⟩ := knot_wire_read_u16_inside data (pos.toNat + 2) (by omega)
      obtain ⟨r, hr⟩ := ih (pos + 4 + l)
        ((if c = KNOT_EDNS_OPTION_NSID then
            out ++ [print_call_t.printf_nsid, print_call_t.short_hex_print (pos.toNat + 4) l,
                    print_call_t.printf_nsid_text, print_call_t.txt_print (pos.toNat + 4) l]
          else
            out ++ [print_call_t.printf_option c,
                    print_call_t.short_hex_print (pos.toNat + 4) l])
          ++ [print_call_t.printf_newline]) (by omega) (by omega)
      refine ⟨r, ?_⟩
      rw [print_section_opt_loop]
      simp only [hmod, hc, if_true, hc1, hl1]
      exact hr
    · exact ⟨out, by rw [print_section_opt_loop]; simp only [hmod, hc, if_false]⟩

/-- C30: for an OPT RDATA of `data_len < 2^16` octets the option loop of
`print_section_opt` terminates within `data_len + 1` tests of its condition
and reads every option header inside the RDATA, but the data of an option
is not kept inside: on the six octets `00 03 00 0a 01 02` it passes offset
4 and length 10 to `short_hex_print` and `txt_print`, so that
`pos + 4 + opt_len = 14 > 6 = data_len`. -/
theorem print_section_opt_reads_past_rdata (data : List Nat) (hlen : data.length < 2 ^ 16) :
    (∃ out, print_section_opt (data.length + 1) data = some out) ∧
    print_section_opt 7 sample_opt_rdata
      = some [print_call_t.printf_nsid, print_call_t.short_hex_print 4 10,
              print_call_t.printf_nsid_text, print_call_t.txt_print 4 10,
              print_call_t.printf_newline] ∧
    ¬ (∀ out, print_section_opt 7 sample_opt_rdata = some out →
        ∀ c ∈ out, print_call_inside sample_opt_rdata.length c) := by
  refine ⟨print_section_opt_loop_total data hlen data.length 0 [] (le_refl 0) (by omega),
    by decide, ?_⟩
  intro h
  have := h _ (by decide : print_section_opt 7 sample_opt_rdata
      = some [print_call_t.printf_nsid, print_call_t.short_hex_print 4 10,
              print_call_t.printf_nsid_text, print_call_t.txt_print 4 10,
              print_call_t.printf_newline]) (print_call_t.short_hex_print 4 10) (by decide)
  revert this
  decide

theorem print_section_opt_reads_past_rdata_witness :
    sample_opt_rdata.length < 2 ^ 16 ∧
    (∃ out, print_section_opt (sample_opt_rdata.length + 1) sample_opt_rdata = some out) :=
  ⟨by decide, (print_section_opt_reads_past_rdata sample_opt_rdata (by decide)).1⟩

/-! ## Shrinking a unit of threads -/

theorem dt_threshold_at_ne_zero (k : Nat) : dt_threshold_at k ≠ 0 := by
  match k with
  | 0 => decide
  | 1 => decide
  | 2 => decide
  | _ + 3 => show ThreadJoined ≠ 0; decide

theorem dt_resize_lower_at (k : Nat) :
    dt_resize_lower (dt_threshold_at k) = dt_threshold_at (k + 1) := by
  match k with
  | 0 => decide
  | 1 => decide
  | 2 => decide
  | _ + 3 => show dt_resize_lower ThreadJoined = ThreadJoined; decide

theorem dt_priority_rank_le_of_match (t : dthread_t) (k : Nat) (hk : k ≤ 3)
    (h : t.state &&& dt_threshold_at k ≠ 0) : dt_priority_rank t ≤ k := by
  unfold dt_priority_rank
  match k, hk, h with
  | 0, _, h => simp only [dt_threshold_at] at h; simp [h]
  | 1, _, h => simp only [dt_threshold_at] at h; split_ifs <;> omega
  | 2, _, h => simp only [dt_threshold_at] at h; split_ifs <;> omega
  | 3, _, h => simp only [dt_threshold_at] at h; split_ifs <;> omega

theorem dt_priority_rank_succ_le (t : dthread_t) (k : Nat) (hk : k ≤ 3)
    (hge : k ≤ dt_priority_rank t) (h : t.state &&& dt_threshold_at k = 0) :
    k + 1 ≤ dt_priority_rank t := by
  unfold dt_priority_rank at hge ⊢
  match k, hk, h with
  | 0, _, h => simp only [dt_threshold_at] at h; split_ifs at hge ⊢ <;> simp_all
  | 1, _, h => simp only [dt_threshold_at] at h; split_ifs at hge ⊢ <;> simp_all
  | 2, _, h => simp only [dt_threshold_at] at h; split_ifs at hge ⊢ <;> simp_all
  | 3, _, h => simp only [dt_threshold_at] at h; split_ifs at hge ⊢ <;> simp_all

theorem dt_set_next (kept : List dthread_t) (t : dthread_t) (n : Nat) :
    (kept.map some ++ List.replicate (n + 1) none).set kept.length (some t)
      = (kept ++ [t]).map some ++ List.replicate n none := by
  induction kept with
  | nil => simp [List.replicate_succ]
  | cons a l ih => simpa using ih

theorem dt_resize_inspect_no_thread (size : Int) (th : Nat) (L : List (Option dthread_t))
    (hL : L.reduceOption = []) (T : List (Option dthread_t)) (r insp : Int) (tr : Trace) :
    dt_resize_inspect size th L T r insp tr = (L, T, r, insp, tr) := by
  induction L with
  | nil => rfl
  | cons a l ih =>
    cases a with
    | none =>
      rw [List.reduceOption_cons_of_none] at hL
      simp [dt_resize_inspect, ih hL]
    | some t => rw [List.reduceOption_cons_of_some] at hL; cases hL

theorem dt_resize_inspect_stop_all (size : Int) (th : Nat) (L : List (Option dthread_t))
    (T : List (Option dthread_t)) (r : Int) (hr : ¬ r > 0) :
    ∀ (insp : Int) (tr : Trace),
    dt_resize_inspect size th L T r insp tr
      = (L.map (fun _ => none), T, r, insp + L.reduceOption.length,
         tr ++ L.reduceOption.flatMap dt_stop_calls) := by
  induction L with
  | nil => intro insp tr; simp [dt_resize_inspect]
  | cons a l ih =>
    intro insp tr
    cases a with
    | none => simp [dt_resize_inspect, ih]
    | some t =>
      simp only [dt_resize_inspect, hr, if_false, ih, List.reduceOption_cons_of_some,
        List.map_cons, List.length_cons, List.flatMap_cons, call_void, dt_stop_calls]
      simp only [List.append_assoc, List.cons_append, List.nil_append, Nat.cast_add,
        Nat.cast_one, Prod.mk.injEq, true_and]
      constructor
      · omega
      · trivial

theorem dt_resize_inspect_spec (size : Int) (th : Nat) (hth : th ≠ 0) :
    ∀ (L : List (Option dthread_t)) (kept : List dthread_t) (r insp : Int) (tr : Trace),
    0 ≤ r → (kept.length : Int) + r = size →
    ∃ (taken killed : List dthread_t) (L1 : List (Option dthread_t)),
      dt_resize_inspect size th L (kept.map some ++ List.replicate r.toNat none) r insp tr
        = (L1, (kept ++ taken).map some ++ List.replicate (r - taken.length).toNat none,
           r - taken.length, insp + L.reduceOption.length,
           tr ++ killed.flatMap dt_stop_calls) ∧
      (taken.length : Int) ≤ r ∧
      List.Perm L.reduceOption (taken ++ killed ++ L1.reduceOption) ∧
      (∀ t ∈ taken, t.state &&& th ≠ 0) ∧
      (0 < r - taken.length → killed = [] ∧ ∀ t ∈ L1.reduceOption, t.state &&& th = 0) := by
  intro L
  induction L with
  | nil =>
    intro kept r insp tr hr hk
    exact ⟨[], [], [], by simp [dt_resize_inspect], by simpa using hr, by simp, by simp,
      by simp⟩
  | cons a l ih =>
    intro kept r insp tr hr hk
    cases a with
    | none =>
      obtain ⟨taken, killed, L1, h1, h2, h3, h4, h5⟩ := ih kept r insp tr hr hk
      refine ⟨taken, killed, none :: L1, ?_, h2, ?_, h4, ?_⟩
      · simp only [dt_resize_inspect, h1, List.reduceOption_cons_of_none]
      · simpa only [List.reduceOption_cons_of_none] using h3
      · simpa only [List.reduceOption_cons_of_none] using h5
    | some t =>
      by_cases hpos : r > 0
      · by_cases hm : t.state &&& th ≠ 0
        · have hidx : (size - r).toNat = kept.length := by omega
          have hrn : r.toNat = (r - 1).toNat + 1 := by omega
          obtain ⟨taken, killed, L1, h1, h2, h3, h4, h5⟩ :=
            ih (kept ++ [t]) (r - 1) (insp + 1) tr (by omega)
              (by simp only [List.length_append, List.length_singleton]; push_cast; omega)
          refine ⟨t :: taken, killed, none :: L1, ?_, ?_, ?_, ?_, ?_⟩
          · have hset : (kept.map some ++ List.replicate r.toNat none).set
                (size - r).toNat (some t)
                = (kept ++ [t]).map some ++ List.replicate (r - 1).toNat none := by
              rw [hidx, hrn]; exact dt_set_next kept t _
            simp only [dt_resize_inspect, hpos, if_true, hth, false_or, hm, not_false_eq_true,
              hset, h1, List.reduceOption_cons_of_some, List.length_cons, List.append_assoc,
              List.singleton_append]
            have e1 : r - 1 - (taken.length : Int) = r - ((taken.length + 1 : Nat) : Int) := by
              push_cast; omega
            have e2 : insp + 1 + (l.reduceOption.length : Int)
                = insp + ((l.reduceOption.length + 1 : Nat) : Int) := by push_cast; omega
            rw [if_pos hm, e1, e2]
          · simp only [List.length_cons]; push_cast; omega
          · simp only [List.reduceOption_cons_of_some, List.reduceOption_cons_of_none,
              List.cons_append]
            exact List.Perm.cons t h3
          · intro x hx
            rcases List.mem_cons.mp hx with h | h
            · subst h; exact hm
            · exact h4 x h
          · intro h
            have h6 := h5 (by simp only [List.length_cons] at h; push_cast at h; omega)
            simpa only [List.reduceOption_cons_of_none] using h6
        · have hm0 : t.state &&& th = 0 := by
            by_contra h; exact hm h
          obtain ⟨taken, killed, L1, h1, h2, h3, h4, h5⟩ := ih kept r (insp + 1) tr hr hk
          refine ⟨taken, killed, some t :: L1, ?_, h2, ?_, h4, ?_⟩
          · simp only [dt_resize_inspect, hpos, if_true, hth, false_or, hm, if_false, h1,
              List.reduceOption_cons_of_some, List.length_cons]
            have e2 : insp + 1 + (l.reduceOption.length : Int)
                = insp + ((l.reduceOption.length + 1 : Nat) : Int) := by push_cast; omega
            rw [e2]
          · simp only [List.reduceOption_cons_of_some]
            exact (List.Perm.cons t h3).trans List.perm_middle.symm
          · intro h
            obtain ⟨h6, h7⟩ := h5 h
            refine ⟨h6, ?_⟩
            intro x hx
            rw [List.reduceOption_cons_of_some] at hx
            rcases List.mem_cons.mp hx with h | h
            · subst h; exact hm0
            · exact h7 x h
      · have hr0 : r = 0 := by omega
        subst hr0
        refine ⟨[], t :: l.reduceOption,
          (some t :: l).map (fun _ => none), ?_, by simp, ?_, by simp, by simp⟩
        · rw [dt_resize_inspect_stop_all size th (some t :: l) _ 0 (by omega)]
          simp
        · simp only [List.nil_append, List.reduceOption_cons_of_some]
          have hnone : ∀ (l : List (Option dthread_t)),
              (l.map (fun _ => (none : Option dthread_t))).reduceOption = [] := by
            intro l
            induction l with
            | nil => rfl
            | cons a l ih => simpa [List.reduceOption_cons_of_none] using ih
          rw [hnone]
          simp

theorem dt_reduceOption_map_none (l : List (Option dthread_t)) :
    (l.map (fun _ => (none : Option dthread_t))).reduceOption = [] := by
  induction l with
  | nil => rfl
  | cons a l ih => simpa [List.reduceOption_cons_of_none] using ih

theorem dt_reduceOption_map_some (l : List dthread_t) :
    (l.map some).reduceOption = l := by
  induction l with
  | nil => rfl
  | cons a l ih => simp [List.reduceOption_cons_of_some, ih]

theorem dt_resize_loop_stop_all (size : Int) (th : Nat) (fuel : Nat)
    (L T : List (Option dthread_t)) (r : Int) (hr : ¬ r > 0) (tr : Trace) :
    dt_resize_loop (fuel + 2) size th L T r tr
      = some (L.map (fun _ => none), T, r, tr ++ L.reduceOption.flatMap dt_stop_calls) := by
  rw [dt_resize_loop]
  simp only [dt_resize_inspect_stop_all size th L T r hr]
  split_ifs with h
  · rfl
  · rw [dt_resize_loop]
    simp only [dt_resize_inspect_no_thread size _ _ (dt_reduceOption_map_none L)]
    simp

theorem dt_resize_loop_spec (size : Int) :
    ∀ (fuel k : Nat) (L : List (Option dthread_t)) (kept : List dthread_t) (r : Int)
      (tr : Trace),
    k ≤ 4 → 6 ≤ fuel + k → 0 < r → (kept.length : Int) + r = size →
    (∀ t ∈ L.reduceOption, k ≤ dt_priority_rank t ∧ dt_priority_rank t ≤ 3) →
    (∀ t ∈ kept, dt_priority_rank t < k) →
    size < (L.reduceOption.length : Int) + kept.length →
    ∃ (kept1 killed : List dthread_t) (L1 : List (Option dthread_t)),
      dt_resize_loop fuel size (dt_threshold_at k) L
          (kept.map some ++ List.replicate r.toNat none) r tr
        = some (L1, kept1.map some, 0, tr ++ killed.flatMap dt_stop_calls) ∧
      (kept1.length : Int) = size ∧
      List.Perm (L.reduceOption ++ kept) (kept1 ++ killed) ∧
      ∀ a ∈ kept1, ∀ d ∈ killed, dt_priority_rank a ≤ dt_priority_rank d := by
  intro fuel
  induction fuel with
  | zero => intro k L kept r tr hk4 hfuel; omega
  | succ f ih =>
    intro k L kept r tr hk4 hfuel hr hlen hL hkept hn
    have hne : L.reduceOption ≠ [] := by
      intro h
      rw [h] at hn
      simp only [List.length_nil, Nat.cast_zero, zero_add] at hn
      omega
    have hk3 : k ≤ 3 := by
      by_contra hc
      obtain ⟨t, ht⟩ := List.exists_mem_of_ne_nil _ hne
      have := hL t ht
      omega
    obtain ⟨taken, killed, L1, h1, h2, h3, h4, h5⟩ :=
      dt_resize_inspect_spec size (dt_threshold_at k) (dt_threshold_at_ne_zero k) L kept r 0 tr
        (le_of_lt hr) hlen
    have hinsp : ¬ ((0 : Int) + (L.reduceOption.length : Int) = 0) := by
      have := List.length_pos.mpr hne
      omega
    have hlen3 := h3.length_eq
    simp only [List.length_append] at hlen3
    have htaken : ∀ t ∈ taken, dt_priority_rank t ≤ k := by
      intro t ht
      exact dt_priority_rank_le_of_match t k hk3 (h4 t ht)
    have hsub : ∀ t, t ∈ taken ++ killed ++ L1.reduceOption → t ∈ L.reduceOption :=
      fun t ht => h3.mem_iff.mpr ht
    rw [dt_resize_loop]
    simp only [h1]
    rw [if_neg hinsp, dt_resize_lower_at]
    by_cases hr1 : 0 < r - taken.length
    · obtain ⟨hk0, hno⟩ := h5 hr1
      subst hk0
      obtain ⟨kept1, killed1, L2, g1, g2, g3, g4⟩ :=
        ih (k + 1) L1 (kept ++ taken) (r - taken.length) tr (by omega) (by omega) hr1
          (by simp only [List.length_append]; push_cast; omega)
          (by
            intro t ht
            have hin := hsub t (by simp [ht])
            exact ⟨dt_priority_rank_succ_le t k hk3 (hL t hin).1 (hno t ht), (hL t hin).2⟩)
          (by
            intro t ht
            rcases List.mem_append.mp ht with h | h
            · exact Nat.lt_succ_of_lt (hkept t h)
            · exact Nat.lt_succ_of_le (htaken t h))
          (by
            simp only [List.length_append, List.length_nil, add_zero] at hlen3 ⊢
            push_cast
            omega)
      refine ⟨kept1, killed1, L2, ?_, g2, ?_, g4⟩
      · simpa using g1
      · rw [List.perm_iff_count] at h3 g3 ⊢
        intro a
        have e1 := h3 a
        have e2 := g3 a
        simp only [List.count_append, List.count_nil] at e1 e2 ⊢
        omega
    · have hr0 : r - (taken.length : Int) = 0 := by omega
      obtain ⟨f2, hf2⟩ : ∃ f2, f = f2 + 2 := ⟨f - 2, by omega⟩
      subst hf2
      rw [hr0, dt_resize_loop_stop_all size _ f2 _ _ 0 (by omega)]
      refine ⟨kept ++ taken, killed ++ L1.reduceOption, L1.map (fun _ => none), ?_, ?_, ?_, ?_⟩
      · simp [List.flatMap_append]
      · simp only [List.length_append]; push_cast; omega
      · rw [List.perm_iff_count] at h3 ⊢
        intro a
        have e1 := h3 a
        simp only [List.count_append] at e1 ⊢
        omega
      · intro a ha d hd
        have hd2 : k ≤ dt_priority_rank d :=
          (hL d (hsub d (by
            rcases List.mem_append.mp hd with h | h
            · simp [h]
            · simp [h]))).1
        have ha2 : dt_priority_rank a ≤ k := by
          rcases List.mem_append.mp ha with h | h
          · exact Nat.le_of_lt (hkept a h)
          · exact htaken a h
        omega

/-- C29: for a unit whose vector holds `n` threads, each with one of the
bits Active, Idle, Dead, Joined in its state, and `0 < size < n`,
`dt_resize(unit, size)` terminates within six passes, returns 0 and leaves
`unit->size = size` with a vector of exactly `size` threads `kept`; the
other `n - size` threads `killed` are each signalled, joined and deleted, in
that order; `kept` and `killed` together are the original threads; and no
kept thread comes after a stopped one in the order Active, Idle, Dead,
Joined. -/
theorem dt_resize_shrinks (create : Nat → Option dthread_t) (fuel : Nat) (hfuel : 6 ≤ fuel)
    (unit : dt_unit_t) (orig : List dthread_t) (size : Int) (tr : Trace)
    (hvec : unit.threads = orig.map some) (hn : unit.size = orig.length)
    (hbits : ∀ t ∈ orig, t.state &&& ThreadActive ≠ 0 ∨ t.state &&& ThreadIdle ≠ 0 ∨
      t.state &&& ThreadDead ≠ 0 ∨ t.state &&& ThreadJoined ≠ 0)
    (h0 : 0 < size) (hlt : size < orig.length) :
    ∃ kept killed : List dthread_t,
      dt_resize create fuel unit size tr
        = some (0, { size := size, threads := kept.map some },
                tr ++ killed.flatMap dt_stop_calls) ∧
      (kept.length : Int) = size ∧
      (killed.length : Int) = orig.length - size ∧
      List.Perm orig (kept ++ killed) ∧
      ∀ k ∈ kept, ∀ d ∈ killed, dt_priority_rank k ≤ dt_priority_rank d := by
  obtain ⟨usize, uthreads⟩ := unit
  simp only at hvec hn
  subst hvec hn
  have hrank : ∀ t ∈ ((orig.map some).reduceOption),
      0 ≤ dt_priority_rank t ∧ dt_priority_rank t ≤ 3 := by
    intro t ht
    rw [dt_reduceOption_map_some] at ht
    refine ⟨Nat.zero_le _, ?_⟩
    have := hbits t ht
    unfold dt_priority_rank
    split_ifs <;> omega
  obtain ⟨kept, killed, L1, g1, g2, g3, g4⟩ :=
    dt_resize_loop_spec size fuel 0 (orig.map some) [] size tr (by omega) (by omega) h0
      (by simp) hrank (by simp)
      (by rw [dt_reduceOption_map_some]; simp only [List.length_nil, Nat.cast_zero, add_zero]
          exact hlt)
  rw [dt_reduceOption_map_some] at g3
  simp only [List.map_nil, List.nil_append, List.append_nil, dt_threshold_at] at g1 g3
  refine ⟨kept, killed, ?_, g2, ?_, g3, g4⟩
  · unfold dt_resize
    have c1 : ¬ (((orig.length : Nat) : Int) ≠ ((orig.map some).length : Nat) ∨ size ≤ 0) := by
      simp only [List.length_map, ne_eq, not_true_eq_false, false_or]
      omega
    have c2 : ¬ (((orig.length : Nat) : Int) - size = 0) := by omega
    have c3 : ¬ (((orig.length : Nat) : Int) - size < 0) := by omega
    simp only [c1, c2, c3, if_false, g1]
  · have := g3.length_eq
    simp only [List.length_append] at this
    omega

theorem dt_resize_shrinks_witness :
    ∃ kept killed : List dthread_t,
      dt_resize (fun _ => none) 6 sample_unit 2 []
        = some (0, { size := 2, threads := kept.map some },
                [] ++ killed.flatMap dt_stop_calls) ∧
      (kept.length : Int) = 2 ∧
      (killed.length : Int) = sample_threads.length - 2 ∧
      List.Perm sample_threads (kept ++ killed) ∧
      ∀ k ∈ kept, ∀ d ∈ killed, dt_priority_rank k ≤ dt_priority_rank d :=
  dt_resize_shrinks (fun _ => none) 6 (le_refl 6) sample_unit sample_threads 2 [] rfl rfl
    (by decide) (by decide) (by decide)

/-! ## A reload that fails -/

theorem zones_load_zone_failure (R : reload_api) (dst : Option knot_zone_t)
    (zone_name source : List Nat) (enable_checks : Bool)
    (h : (zones_load_zone R dst (some zone_name) (some source) enable_checks).1 ≠ KNOT_EOK) :
    (zones_load_zone R dst (some zone_name) (some source) enable_checks).2 = none ∧
    ((zones_load_zone R dst (some zone_name) (some source) enable_checks).1 = KNOT_EZONEINVAL ∨
     (zones_load_zone R dst (some zone_name) (some source) enable_checks).1 = KNOT_ERROR) := by
  unfold zones_load_zone at h ⊢
  simp only at h ⊢
  split_ifs with h1
  · cases h2 : R.knot_zload_load source with
    | none => simp
    | some zone =>
      simp only [h1, if_true, h2] at h ⊢
      split_ifs with h3
      · simp
      · cases h4 : R.stat source with
        | none => simp
        | some mtime => simp [h3, h4] at h
  · simp

/-- C21 (counterexample): the database holds the sample zone, loaded at time
1000; its zone file was modified at time 2000 and the loader builds no zone
from it (or a zone of another origin), so that `zones_load_zone` fails with
`KNOT_ERROR` (`KNOT_EZONEINVAL`).  The database that
`zones_update_db_from_config` installs is empty: the previously loaded zone
is only in the old database that is handed back through `db_old`. -/
theorem failed_reload_drops_zone :
    knot_zonedb_find_zone sample_nameserver_published.zone_db (sample_conf_zone false).name
      = some sample_zone_published ∧
    (sample_reload none KNOT_EOK).stat (sample_conf_zone false).file = some 2000 ∧
    sample_zone_published.version < 2000 ∧
    zones_load_zone (sample_reload none KNOT_EOK) (some sample_zone_published)
      (some (sample_conf_zone false).name) (some (sample_conf_zone false).file) false
      = (KNOT_ERROR, none) ∧
    zones_update_db_from_config (sample_reload none KNOT_EOK) sample_api sample_codec
      sample_journal_api oracle_ok 10 (some { zones := [sample_conf_zone false] })
      (some sample_nameserver_published) none []
      = some (KNOT_EOK, some { zone_db := some { zones := [] } },
              some { zones := [sample_zone_published] }, []) ∧
    zones_load_zone (sample_reload (some sample_zone_other_origin) KNOT_EOK)
      (some sample_zone_published)
      (some (sample_conf_zone false).name) (some (sample_conf_zone false).file) false
      = (KNOT_EZONEINVAL, none) ∧
    zones_update_db_from_config (sample_reload (some sample_zone_other_origin) KNOT_EOK)
      sample_api sample_codec sample_journal_api oracle_ok 10
      (some { zones := [sample_conf_zone false] }) (some sample_nameserver_published) none []
      = some (KNOT_EOK, some { zone_db := some { zones := [] } },
              some { zones := [sample_zone_published] }, []) := by
  refine ⟨by decide, by decide, by decide, by decide, by decide, by decide, by decide⟩

/-- C21 (amended): when the zone of a configuration entry is in the current
database, its zone file has a newer modification time and `zones_load_zone`
fails, the failure is `KNOT_EZONEINVAL` or `KNOT_ERROR` and leaves no zone;
`zones_insert_zone` returns it without writing `*dst` and without any call;
`zonewalker` skips the entry; and for a configuration of this one entry the
database that `zones_update_db_from_config` installs is empty, while the
previously loaded zone stays in the old database handed back through
`db_old`. -/
theorem failed_reload_zone_absent (R : reload_api) (A : changesets_api) (C : rrset_codec)
    (J : journal_api) (O : Oracle) (fuel : Nat) (z : conf_zone_t) (ns : knot_nameserver_t)
    (db : knot_zonedb_t) (old : knot_zone_t) (mtime : Int) (dst : Option knot_zone_t)
    (dbo : Option knot_zonedb_t) (q : List conf_zone_t) (zones : List knot_zone_t) (tr : Trace)
    (hdb : ns.zone_db = some db)
    (hold : knot_zonedb_find_zone ns.zone_db z.name = some old)
    (hstat : R.stat z.file = some mtime) (hnew : old.version < mtime)
    (hload : (zones_load_zone R (some old) (some z.name) (some z.file) z.enable_checks).1
      ≠ KNOT_EOK) :
    (zones_load_zone R (some old) (some z.name) (some z.file) z.enable_checks).2 = none ∧
    ((zones_load_zone R (some old) (some z.name) (some z.file) z.enable_checks).1
        = KNOT_EZONEINVAL ∨
      (zones_load_zone R (some old) (some z.name) (some z.file) z.enable_checks).1
        = KNOT_ERROR) ∧
    zones_insert_zone R A C J O fuel (some z) dst (some ns) tr
      = some ((zones_load_zone R (some old) (some z.name) (some z.file) z.enable_checks).1,
              dst, tr) ∧
    zonewalker_insert R A C J O fuel ns (z :: q) zones tr
      = zonewalker_insert R A C J O fuel ns q zones tr ∧
    zones_update_db_from_config R A C J O fuel (some { zones := [z] }) (some ns) dbo tr
      = some (KNOT_EOK, some { ns with zone_db := some { zones := [] } }, some db, tr) ∧
    knot_zonedb_find_zone (some { zones := [] }) z.name = none ∧
    knot_zonedb_find_zone (some db) z.name = some old := by
  obtain ⟨hnone, hcode⟩ := zones_load_zone_failure R (some old) z.name z.file z.enable_checks hload
  have hinsert : ∀ (dst : Option knot_zone_t) (tr : Trace),
      zones_insert_zone R A C J O fuel (some z) dst (some ns) tr
        = some ((zones_load_zone R (some old) (some z.name) (some z.file) z.enable_checks).1,
                dst, tr) := by
    intro dst tr
    have hl : zones_insert_zone_load R J z ns
        = ((zones_load_zone R (some old) (some z.name) (some z.file) z.enable_checks).1,
           none, true, false) := by
      unfold zones_insert_zone_load
      simp only [hold, hstat, hnew, decide_True, if_true, Option.isNone_some, Bool.false_eq_true,
        false_and, if_false]
      generalize zones_load_zone R (some old) (some z.name) (some z.file) z.enable_checks = p
        at hnone ⊢
      obtain ⟨r, zn⟩ := p
      simp only at hnone
      subst hnone
      rfl
    unfold zones_insert_zone
    simp only [hl]
    rfl
  have hwalk : ∀ (zones : List knot_zone_t) (tr : Trace),
      zonewalker_insert R A C J O fuel ns (z :: q) zones tr
        = zonewalker_insert R A C J O fuel ns q zones tr := by
    intro zones tr
    rw [zonewalker_insert]
    simp only [hinsert none tr, if_neg hload]
  refine ⟨hnone, hcode, hinsert dst tr, hwalk zones tr, ?_, rfl, ?_⟩
  · have hw : zonewalker_insert R A C J O fuel ns [z] [] tr = some ([], tr) := by
      rw [zonewalker_insert]
      simp only [hinsert none tr, if_neg hload]
      rfl
    simp [zones_update_db_from_config, hdb, zones_insert_zones, zonewalker, hw,
      zonewalker_collect, zones_remove_zones]
  · rw [← hdb]; exact hold

theorem failed_reload_zone_absent_witness :
    zones_insert_zone (sample_reload none KNOT_EOK) sample_api sample_codec sample_journal_api
        oracle_ok 10 (some (sample_conf_zone false)) none (some sample_nameserver_published) []
      = some ((zones_load_zone (sample_reload none KNOT_EOK) (some sample_zone_published)
                (some (sample_conf_zone false).name) (some (sample_conf_zone false).file)
                (sample_conf_zone false).enable_checks).1, none, []) ∧
    zones_update_db_from_config (sample_reload none KNOT_EOK) sample_api sample_codec
        sample_journal_api oracle_ok 10 (some { zones := [sample_conf_zone false] })
        (some sample_nameserver_published) none []
      = some (KNOT_EOK,
          some { sample_nameserver_published with zone_db := some { zones := [] } },
          some { zones := [sample_zone_published] }, []) :=
  ⟨(failed_reload_zone_absent (sample_reload none KNOT_EOK) sample_api sample_codec
      sample_journal_api oracle_ok 10 (sample_conf_zone false) sample_nameserver_published
      { zones := [sample_zone_published] } sample_zone_published 2000 none none [] [] []
      rfl (by decide) rfl (by decide) (by decide)).2.2.1,
   (failed_reload_zone_absent (sample_reload none KNOT_EOK) sample_api sample_codec
      sample_journal_api oracle_ok 10 (sample_conf_zone false) sample_nameserver_published
      { zones := [sample_zone_published] } sample_zone_published 2000 none none [] [] []
      rfl (by decide) rfl (by decide) (by decide)).2.2.2.2.1⟩

/-! ## A reload under an unchanged serial -/

/-- C22 (counterexample): the zone file of the published sample zone (serial
100) was modified and the zone built from it has another RRset under the
same serial, so that `zones_create_changeset` returns `KNOT_ENODIFF`; DNSSEC
is enabled.  The reload goes on: the signing changeset is stored in the
journal, applied and committed, the contents are switched, and the database
that `zones_update_db_from_config` installs holds the reloaded zone (address
2), not the published one (address 1), which is left in the old database. -/
theorem reload_same_serial_replaces_zone :
    zones_create_changeset (sample_reload (some sample_zone_reloaded) KNOT_ENODIFF)
      (some sample_zone_published) (some sample_zone_reloaded) (some reload_blank_changeset)
      = (KNOT_ENODIFF, some reload_blank_changeset) ∧
    (zones_update_db_from_config (sample_reload (some sample_zone_reloaded) KNOT_ENODIFF)
      sample_api sample_codec sample_journal_api oracle_ok 10
      (some { zones := [sample_conf_zone true] }) (some sample_nameserver_published) none []).map
      (fun r => (r.1, r.2.1.map (fun n => n.zone_db.map (fun d => d.zones.map (fun z => z.addr))),
        r.2.2.1.map (fun d => d.zones.map (fun z => z.addr)), trace_calls r.2.2.2))
      = some (KNOT_EOK, some (some [2]), some [1],
          [Call.stat,
           Call.evsched_schedule_cb event_cb_t.zones_zonefile_sync_ev 3600000,
           Call.evsched_schedule_cb event_cb_t.zones_dnssec_regular_ev 1000000,
           Call.journal_trans_begin,
           Call.journal_map (ixfrdb_key_make 100 101) 10,
           Call.journal_unmap (ixfrdb_key_make 100 101) [0, 0, 0, 0, 6, 100, 6, 101, 46, 61] true,
           Call.xfrin_apply_changesets
             { sets := [sample_changeset_sign], flags := KNOT_CHANGESET_TYPE_IXFR },
           Call.journal_trans_commit,
           Call.xfrin_switch_zone (some sample_contents_new) XFR_TYPE_DNSSEC,
           Call.xfrin_cleanup_successful_update,
           Call.knot_zonedb_add_zone []]) := by
  refine ⟨by decide, by decide⟩

/-- C22 (amended): when the reloaded zone and the published zone both have
contents, diffs are built and `knot_zone_contents_create_diff` answers
`KNOT_ENODIFF`, `zones_create_changeset` returns `KNOT_ENODIFF` and
`zones_do_diff_and_sign` does not return there: it goes on to the signing
and storing steps with the changeset as the diff left it, and its result is
theirs.  With DNSSEC disabled and that changeset empty, nothing is stored
or applied and the result is `KNOT_EOK`; `zones_insert_zone` then returns
`KNOT_EOK` with the reloaded zone in `*dst`, and `zonewalker` takes that
zone for the new database. -/
theorem reload_same_serial_continues (R : reload_api) (A : changesets_api) (C : rrset_codec)
    (O : Oracle) (z : conf_zone_t) (zone z_old : knot_zone_t)
    (zc zc_old : knot_zone_contents_t) (ns : knot_nameserver_t) (origin : List Nat) (tr : Trace)
    (hb : z.build_diffs = true) (hzc : zone.contents = some zc)
    (hold : knot_zonedb_find_zone ns.zone_db origin = some z_old)
    (hzco : z_old.contents = some zc_old)
    (hdiff : (R.knot_zone_contents_create_diff zc_old zc reload_blank_changeset).1
      = KNOT_ENODIFF) :
    zones_create_changeset R (some z_old) (some zone) (some reload_blank_changeset)
      = (KNOT_ENODIFF,
         some (R.knot_zone_contents_create_diff zc_old zc reload_blank_changeset).2) ∧
    zones_do_diff_and_sign_diff R z zone ns origin true
      = (none, some (reload_diff_chs R zc_old zc)) ∧
    zones_do_diff_and_sign R A C O z zone ns origin true tr
      = (match zones_do_diff_and_sign_sign R z zone tr with
         | none => none
         | some (some ret, _, zone, tr) => some (ret, zone, tr)
         | some (none, sec_chs, zone, tr) =>
           zones_do_diff_and_sign_store A C O zone (some (reload_diff_chs R zc_old zc))
             sec_chs tr) ∧
    (z.dnssec_enable = false →
      A.knot_changeset_is_empty
        (R.knot_zone_contents_create_diff zc_old zc reload_blank_changeset).2 = true →
      zones_do_diff_and_sign R A C O z zone ns origin true tr = some (KNOT_EOK, zone, tr) ∧
      ∀ (J : journal_api) (fuel : Nat) (z0 : conf_zone_t) (zone0 : knot_zone_t)
        (dst : Option knot_zone_t) (tr0 : Trace) (q : List conf_zone_t)
        (zones : List knot_zone_t),
        zones_insert_zone_load R J z0 ns = (KNOT_EOK, some zone0, true, true) →
        zones_insert_zone_update R C J O fuel z0 zone0 tr0 = some (z, zone, tr) →
        origin = z.name →
        zones_insert_zone R A C J O fuel (some z0) dst (some ns) tr0
          = some (KNOT_EOK, some zone, tr) ∧
        zonewalker_insert R A C J O fuel ns (z0 :: q) zones tr0
          = zonewalker_insert R A C J O fuel ns q (zones ++ [zone]) tr) := by
  have h1 : zones_create_changeset R (some z_old) (some zone) (some reload_blank_changeset)
      = (KNOT_ENODIFF,
         some (R.knot_zone_contents_create_diff zc_old zc reload_blank_changeset).2) := by
    unfold zones_create_changeset
    simp only [hzco, hzc]
    simp [hdiff]
  have h2 : zones_do_diff_and_sign_diff R z zone ns origin true
      = (none, some (reload_diff_chs R zc_old zc)) := by
    unfold zones_do_diff_and_sign_diff
    have hblank : knot_changesets_create_changeset
        (knot_changesets_create KNOT_CHANGESET_TYPE_IXFR)
        = (reload_blank_changeset,
           { sets := [reload_blank_changeset], flags := KNOT_CHANGESET_TYPE_IXFR }) := rfl
    simp only [hold, knot_zone_contents, hzc, hzco, hb, Option.isSome_some, and_self, if_true,
      hblank, h1]
    simp [reload_diff_chs]
  have h3 : zones_do_diff_and_sign R A C O z zone ns origin true tr
      = (match zones_do_diff_and_sign_sign R z zone tr with
         | none => none
         | some (some ret, _, zone, tr) => some (ret, zone, tr)
         | some (none, sec_chs, zone, tr) =>
           zones_do_diff_and_sign_store A C O zone (some (reload_diff_chs R zc_old zc))
             sec_chs tr) := by
    unfold zones_do_diff_and_sign
    simp only [h2]
  refine ⟨h1, h2, h3, ?_⟩
  intro hd hempty
  have h4 : zones_do_diff_and_sign R A C O z zone ns origin true tr
      = some (KNOT_EOK, zone, tr) := by
    rw [h3]
    have hs : zones_do_diff_and_sign_sign R z zone tr = some (none, none, zone, tr) := by
      simp [zones_do_diff_and_sign_sign, hd]
    have he : zones_changesets_empty A (some (reload_diff_chs R zc_old zc)) = true := by
      simp [zones_changesets_empty, reload_diff_chs, hempty]
    have hn : zones_changesets_empty A none = true := rfl
    simp only [hs]
    simp [zones_do_diff_and_sign_store, zones_merge_and_store_changesets, he, hn,
      zones_merged_sec_ch]
  refine ⟨h4, ?_⟩
  intro J fuel z0 zone0 dst tr0 q zones hl hu ho
  have hi : ∀ dst : Option knot_zone_t,
      zones_insert_zone R A C J O fuel (some z0) dst (some ns) tr0
        = some (KNOT_EOK, some zone, tr) := by
    intro dst
    unfold zones_insert_zone
    simp only [hl, hu]
    rw [← ho, h4]
    rfl
  refine ⟨hi dst, ?_⟩
  rw [zonewalker_insert]
  simp only [hi none, if_true]

theorem reload_same_serial_continues_witness :
    zones_do_diff_and_sign_diff (sample_reload (some sample_zone_reloaded) KNOT_ENODIFF)
        (sample_conf_zone false) sample_zone_reloaded sample_nameserver_published [] true
      = (none, some (reload_diff_chs (sample_reload (some sample_zone_reloaded) KNOT_ENODIFF)
          sample_contents { apex_soa := sample_rr 6 100, rrsets := [sample_rr 1 61] })) ∧
    zones_do_diff_and_sign (sample_reload (some sample_zone_reloaded) KNOT_ENODIFF) sample_api
        sample_codec oracle_ok (sample_conf_zone false) sample_zone_reloaded
        sample_nameserver_published [] true []
      = some (KNOT_EOK, sample_zone_reloaded, []) :=
  ⟨(reload_same_serial_continues (sample_reload (some sample_zone_reloaded) KNOT_ENODIFF)
      sample_api sample_codec oracle_ok (sample_conf_zone false) sample_zone_reloaded
      sample_zone_published { apex_soa := sample_rr 6 100, rrsets := [sample_rr 1 61] }
      sample_contents sample_nameserver_published [] [] rfl rfl (by decide) rfl rfl).2.1,
   ((reload_same_serial_continues (sample_reload (some sample_zone_reloaded) KNOT_ENODIFF)
      sample_api sample_codec oracle_ok (sample_conf_zone false) sample_zone_reloaded
      sample_zone_published { apex_soa := sample_rr 6 100, rrsets := [sample_rr 1 61] }
      sample_contents sample_nameserver_published [] [] rfl rfl (by decide) rfl rfl).2.2.2
      rfl rfl).1⟩

end Knot
